import Mathlib

/-!
A shallow embedding of the 6502 emulator.

The development follows the C++ sources:

* `include/flags.h`      : the packed status byte (`Flags`);
* `include/rom_space.h`  : the machine profiles (`RomSpace`);
* `src/memory.cpp`       : the bus dispatcher (`Memory`);
* `src/main_and_6502.cpp`: the CPU interpreter (`CPU6502`).

Machine integers are natural numbers; every conversion to `uint8_t`, `uint16_t`
or `uint32_t` that the C++ performs is written as an explicit `% 256`,
`% 65536` or `% 4294967296`.  State that the C++ mutates in place is passed
explicitly.  The preprocessor switches of `memory.cpp` are the fields of
`Build`; the register files of the peripheral chips are an abstract state `D`
with the operations of `Chips D`, so that every statement about the bus holds
whatever the chips do.
-/

/-! ## flags.h -/

namespace Flags

/-- Carry, `1 << 0`. -/
def C : Nat := 1 <<< 0
/-- Zero, `1 << 1`. -/
def Z : Nat := 1 <<< 1
/-- Interrupt disable, `1 << 2`. -/
def I : Nat := 1 <<< 2
/-- Decimal mode, `1 << 3`. -/
def D : Nat := 1 <<< 3
/-- Break, `1 << 4`. -/
def B : Nat := 1 <<< 4
/-- Unused, `1 << 5`. -/
def U : Nat := 1 <<< 5
/-- Overflow, `1 << 6`. -/
def V : Nat := 1 <<< 6
/-- Negative, `1 << 7`. -/
def N : Nat := 1 <<< 7

/-- Embeds `Flags::Set`: `if (value) reg |= flag; else reg &= ~flag;` on the `uint8_t`
register.  The complement of the promoted flag, cut back to eight bits, is
`0xFF ^ flag`. -/
def Set (reg flag : Nat) (value : Bool) : Nat :=
  if value then (reg ||| flag) % 256 else (reg &&& (0xFF ^^^ flag)) % 256

/-- Embeds `Flags::Get`: `(reg & flag) != 0`. -/
def Get (reg flag : Nat) : Bool := (reg &&& flag) != 0

/-- Embeds `Flags::SetZN`: `Set(Z, value == 0); Set(N, value & 0x80);`. -/
def SetZN (reg value : Nat) : Nat :=
  Set (Set reg Z (value == 0)) N ((value &&& 0x80) != 0)

end Flags

/-! ## rom_space.h -/

/-- The machine profiles of `enum class RomSpace`, in declaration order. -/
inductive RomSpace where
  | NONE
  | C64 | C128 | VIC20 | PET | PLUS4
  | APPLE_II | APPLE_II_C | APPLE_II_GS
  | ATARI_2600 | ATARI_5200 | ATARI_7800 | ATARI_8BIT | ATARI_LYNX
  | NES | FAMICOM_DISK
  | BBC_MICRO | ACORN_ELECTRON | BBC_MASTER
  | ARCADE_CENTIPEDE | ARCADE_DONKEYKONG | ARCADE_ASTEROIDS
  | ORIC | DRAGON | TRS80_COCO | KIM1 | SYM1 | AIM65
  | COLECOVISION | VECTREX
  | COMMODORE_DISK_DRIVE_1541 | COMMODORE_DISK_DRIVE_1571 | ATARI_1050_DRIVE
  deriving DecidableEq, Repr

/-! ## memory.h / memory.cpp -/

/-- The preprocessor switches tested by `memory.cpp`; a field is `true` when the
macro of that name is defined. -/
structure Build where
  USE_TIA : Bool
  USE_RIOT : Bool
  USE_VIA : Bool
  USE_MICRO : Bool
  USE_VIC : Bool
  USE_PIA : Bool
  USE_ACIA : Bool
  USE_6529 : Bool
  USE_ROM_PROTECT : Bool
  deriving DecidableEq, Repr

/-- The build of `main`: no macro defined. -/
def Build.plain : Build :=
  ⟨false, false, false, false, false, false, false, false, false⟩

/-- The peripheral member objects of `class Memory`. -/
inductive ChipId where
  | tia | riot | via | via2 | disk | vic | pia | acia
  deriving DecidableEq, Repr

/-- The operations the bus invokes on its peripheral objects, over an abstract
joint chip state `D`.  `read` returns the byte and the chip state after the
access (peripheral reads clear latches); `io_read` is the `const` read of the
6529 port; `io_write_data` is the call `io.write(data)` of `Memory::Write`,
whose argument names the RAM array and not the byte being written. -/
structure Chips (D : Type) where
  read : ChipId → D → Nat → Nat × D
  write : ChipId → D → Nat → Nat → D
  tick : ChipId → D → D
  reset : ChipId → D → D
  io_read : D → Nat
  io_write_data : D → D

/-- Chips that hold no state, for builds without peripherals. -/
def Chips.none : Chips Unit where
  read := fun _ d _ => (0, d)
  write := fun _ d _ _ => d
  tick := fun _ d => d
  reset := fun _ d => d
  io_read := fun _ => 0
  io_write_data := fun d => d

/-- The data members of `class Memory`: the peripheral objects, the 6507 switch,
the selected profile and the 64 KiB array. -/
structure Memory (D : Type) where
  chips : D
  use6507addresspace : Bool
  romSpace : RomSpace
  data : Nat → Nat

namespace Memory

variable {D : Type}

/-- The assignment `data[addr] = value`. -/
def store (data : Nat → Nat) (addr value : Nat) : Nat → Nat :=
  fun i => if i = addr then value else data i

/-- The address the bus decodes: the `uint16_t` argument, cut to 13 bits when
`use6507addresspace` is set (`addr &= 0x1FFF`). -/
def busAddr (m : Memory D) (addr : Nat) : Nat :=
  if m.use6507addresspace then (addr % 65536) &&& 0x1FFF else addr % 65536

/-- A peripheral read that returns from `Memory::Read`. -/
def chipRead (c : Chips D) (m : Memory D) (id : ChipId) (reg : Nat) : Nat × Memory D :=
  ((c.read id m.chips reg).1 % 256, { m with chips := (c.read id m.chips reg).2 })

/-- A peripheral write that returns from `Memory::Write`. -/
def chipWrite (c : Chips D) (m : Memory D) (id : ChipId) (reg value : Nat) : Memory D :=
  { m with chips := c.write id m.chips reg value }

/-- Embeds `Memory::Read` (memory.cpp, lines 71-127). -/
def Read (b : Build) (c : Chips D) (m : Memory D) (addr : Nat) : Nat × Memory D :=
  let addr := busAddr m addr
  if b.USE_TIA && ((addr &&& 0x1080) == 0x0000) then
    chipRead c m .tia (addr &&& 0x3F)
  else if b.USE_RIOT && (0x0080 ≤ addr && addr ≤ 0x00FF) then
    chipRead c m .riot (addr &&& 0x7F)
  else if b.USE_RIOT && (0x0280 ≤ addr && addr ≤ 0x0297) then
    chipRead c m .riot (addr &&& 0x1F)
  else if b.USE_VIA && b.USE_MICRO && (0xFE40 ≤ addr && addr ≤ 0xFE4F) then
    chipRead c m .via (addr &&& 0x0F)
  else if b.USE_VIA && b.USE_MICRO && (0xFE50 ≤ addr && addr ≤ 0xFE5F) then
    chipRead c m .via (addr &&& 0x0F)
  else if b.USE_VIA && b.USE_MICRO && (0xFE60 ≤ addr && addr ≤ 0xFE6F) then
    chipRead c m .via2 (addr &&& 0x0F)
  else if b.USE_VIA && b.USE_MICRO && (0x1C00 ≤ addr && addr ≤ 0xFE83) then
    chipRead c m .disk (addr - 0x1C00)
  else if b.USE_VIA && !b.USE_MICRO && (0xFE40 ≤ addr && addr ≤ 0xFE5F) then
    chipRead c m .via (addr &&& 0x0F)
  else if b.USE_VIC && ((addr &&& 0xFFF0) == 0x9000) then
    chipRead c m .vic (addr &&& 0x0F)
  else if b.USE_PIA && (0xE840 ≤ addr && addr ≤ 0xE843) then
    chipRead c m .pia (addr &&& 0x03)
  else if b.USE_ACIA && (0xD000 ≤ addr && addr ≤ 0xD001) then
    chipRead c m .acia (addr &&& 0x01)
  else if b.USE_6529 && (addr == 0x1C00) then
    (c.io_read m.chips % 256, m)
  else
    (m.data addr % 256, m)

/-- The `switch (romSpace)` of `Memory::Write` (memory.cpp, lines 136-297):
`some m'` when a case executes `return` leaving the memory `m'`, `none` when the
switch is left through `break`. -/
def romSwitch (c : Chips D) (m : Memory D) (addr value : Nat) : Option (Memory D) :=
  match m.romSpace with
  | .C64 =>
    if (0xA000 ≤ addr && addr ≤ 0xBFFF) || (0xE000 ≤ addr && addr ≤ 0xFFFF) then some m else none
  | .C128 =>
    if (0x4000 ≤ addr && addr ≤ 0x7FFF) || (0xE000 ≤ addr && addr ≤ 0xFFFF) then some m else none
  | .VIC20 =>
    if (0x1000 ≤ addr && addr ≤ 0x1FFF) || (0x8000 ≤ addr && addr ≤ 0x8FFF) ||
        (0xE000 ≤ addr && addr ≤ 0xFFFF) then some m else none
  | .PET =>
    if 0xC000 ≤ addr && addr ≤ 0xFFFF then some m else none
  | .PLUS4 =>
    if (0x8000 ≤ addr && addr ≤ 0xBFFF) || (0xFC00 ≤ addr && addr ≤ 0xFFFF) then some m else none
  | .BBC_MICRO =>
    if (0x8000 ≤ addr && addr ≤ 0xBFFF) || (0xC000 ≤ addr && addr ≤ 0xFFFF) then some m
    else if 0x1C00 ≤ addr && addr ≤ 0xFE83 then some (chipWrite c m .disk (addr - 0x1C00) value)
    else none
  | .BBC_MASTER =>
    if (0x8000 ≤ addr && addr ≤ 0xBFFF) || (0xC000 ≤ addr && addr ≤ 0xFFFF) then some m else none
  | .APPLE_II =>
    if 0xD000 ≤ addr && addr ≤ 0xFFFF then some m else none
  | .APPLE_II_C =>
    if 0xC000 ≤ addr && addr ≤ 0xFFFF then some m else none
  | .APPLE_II_GS =>
    if 0xE000 ≤ addr && addr ≤ 0xFFFF then some m else none
  | .ATARI_2600 =>
    if 0xF000 ≤ addr && addr ≤ 0xFFFF then some m else none
  | .ATARI_5200 =>
    if 0xD800 ≤ addr && addr ≤ 0xFFFF then some m else none
  | .ATARI_7800 =>
    if 0xF000 ≤ addr && addr ≤ 0xFFFF then some m else none
  | .ATARI_8BIT =>
    if 0xC000 ≤ addr && addr ≤ 0xFFFF then some m else none
  | .ATARI_LYNX =>
    if 0xFE00 ≤ addr && addr ≤ 0xFFFF then some m else none
  | .NES =>
    if 0x8000 ≤ addr && addr ≤ 0xFFFF then some m else none
  | .FAMICOM_DISK =>
    if 0xE000 ≤ addr && addr ≤ 0xFFFF then some m else none
  | .ORIC =>
    if 0xC000 ≤ addr && addr ≤ 0xFFFF then some m else none
  | .KIM1 =>
    if addr ≤ 0x03FF then some m else none
  | .SYM1 =>
    if addr ≤ 0x0FFF then some m else none
  | .AIM65 =>
    if 0xE000 ≤ addr && addr ≤ 0xFFFF then some m else none
  | .COMMODORE_DISK_DRIVE_1541 =>
    if 0xC000 ≤ addr && addr ≤ 0xFFFF then some m else none
  | .COMMODORE_DISK_DRIVE_1571 =>
    if 0x8000 ≤ addr && addr ≤ 0xFFFF then some m else none
  | .ATARI_1050_DRIVE =>
    if 0xC000 ≤ addr && addr ≤ 0xFFFF then some m else none
  | _ => none

/-- Embeds `Memory::Write` after the ROM switch (memory.cpp, lines 300-385): the
peripheral windows in source order, then the RAM array.  In the `USE_6529`
block the `return` is not governed by the `if`, so the block returns for every
address. -/
def writeDispatch (b : Build) (c : Chips D) (m : Memory D) (addr value : Nat) : Memory D :=
  if b.USE_TIA && ((addr &&& 0x1080) == 0x0000) then
    chipWrite c m .tia (addr &&& 0x3F) value
  else if b.USE_6529 then
    (if addr == 0x1C00 then { m with chips := c.io_write_data m.chips } else m)
  else if b.USE_RIOT && (0x0080 ≤ addr && addr ≤ 0x00FF) then
    chipWrite c m .riot (addr &&& 0x7F) value
  else if b.USE_RIOT && (0x0280 ≤ addr && addr ≤ 0x0297) then
    chipWrite c m .riot (addr &&& 0x1F) value
  else if b.USE_VIA && b.USE_MICRO && (0xFE40 ≤ addr && addr ≤ 0xFE4F) then
    chipWrite c m .via (addr &&& 0x0F) value
  else if b.USE_VIA && b.USE_MICRO && (0xFE50 ≤ addr && addr ≤ 0xFE5F) then
    chipWrite c m .via (addr &&& 0x0F) value
  else if b.USE_VIA && b.USE_MICRO && (0xFE60 ≤ addr && addr ≤ 0xFE6F) then
    chipWrite c m .via2 (addr &&& 0x0F) value
  else if b.USE_VIA && b.USE_MICRO && (0x1C00 ≤ addr && addr ≤ 0xFE83) then
    chipWrite c m .disk (addr - 0x1C00) value
  else if b.USE_VIA && !b.USE_MICRO && (0xFE40 ≤ addr && addr ≤ 0xFE5F) then
    chipWrite c m .via (addr &&& 0x0F) value
  else if b.USE_VIC && ((addr &&& 0xFFF0) == 0x9000) then
    chipWrite c m .vic (addr &&& 0x0F) value
  else if b.USE_PIA && (0xE840 ≤ addr && addr ≤ 0xE843) then
    chipWrite c m .pia (addr &&& 0x03) value
  else if b.USE_ACIA && (0xD000 ≤ addr && addr ≤ 0xD001) then
    chipWrite c m .acia (addr &&& 0x01) value
  else
    { m with data := store m.data addr value }

/-- Embeds `Memory::Write` (memory.cpp, lines 129-386). -/
def Write (b : Build) (c : Chips D) (m : Memory D) (addr value : Nat) : Memory D :=
  let addr := busAddr m addr
  let value := value % 256
  match (if b.USE_ROM_PROTECT then romSwitch c m addr value else none) with
  | some m' => m'
  | none => writeDispatch b c m addr value

/-- Embeds `Memory::Reset`: `memset(data, 0, sizeof(data))`, then the reset of every
peripheral object compiled in, in source order. -/
def Reset (b : Build) (c : Chips D) (m : Memory D) : Memory D :=
  let d := m.chips
  let d := if b.USE_TIA then c.reset .tia d else d
  let d := if b.USE_RIOT then c.reset .riot d else d
  let d := if b.USE_VIC then c.reset .vic d else d
  let d := if b.USE_PIA then c.reset .pia d else d
  let d := if b.USE_ACIA then c.reset .acia d else d
  let d := if b.USE_VIA then c.reset .via d else d
  let d := if b.USE_VIA && b.USE_MICRO then c.reset .disk (c.reset .via2 d) else d
  { m with chips := d, data := fun _ => 0 }

/-- Embeds `Memory::Memory(RomSpace)`: `romSpace` is stored and `Reset()` runs; the
member initialiser leaves `use6507addresspace` false. -/
def init (b : Build) (c : Chips D) (d : D) (romSpaceType : RomSpace) : Memory D :=
  Reset b c { chips := d, use6507addresspace := false, romSpace := romSpaceType,
              data := fun _ => 0 }

/-- Embeds `Memory::Clock`: one tick of every peripheral object compiled in, in source
order. -/
def Clock (b : Build) (c : Chips D) (m : Memory D) : Memory D :=
  let d := m.chips
  let d := if b.USE_TIA then c.tick .tia d else d
  let d := if b.USE_RIOT then c.tick .riot d else d
  let d := if b.USE_VIC then c.tick .vic d else d
  let d := if b.USE_VIA then c.tick .via d else d
  let d := if b.USE_VIA && b.USE_MICRO then c.tick .disk (c.tick .via2 d) else d
  let d := if b.USE_PIA then c.tick .pia d else d
  let d := if b.USE_ACIA then c.tick .acia d else d
  { m with chips := d }

/-- One `if (chip.read(reg) & 0x80) irq_line = true;` of
`Memory::CheckIRQLines`. -/
def irqProbe (c : Chips D) (id : ChipId) (reg : Nat) (r : Bool × D) : Bool × D :=
  (r.1 || (((c.read id r.2 reg).1 % 256) &&& 0x80) != 0, (c.read id r.2 reg).2)

/-- Embeds `Memory::CheckIRQLines`: the OR of bit 7 of the VIA IFR (0x0D), PIA CRA and
CRB (0x01, 0x03), ACIA status (0x01) and RIOT register 0x7F, each read through
the chip. -/
def CheckIRQLines (b : Build) (c : Chips D) (m : Memory D) : Bool × Memory D :=
  let r : Bool × D := (false, m.chips)
  let r := if b.USE_VIA then irqProbe c .via 0x0D r else r
  let r := if b.USE_VIA && b.USE_MICRO then irqProbe c .via2 0x0D r else r
  let r := if b.USE_PIA then irqProbe c .pia 0x03 (irqProbe c .pia 0x01 r) else r
  let r := if b.USE_ACIA then irqProbe c .acia 0x01 r else r
  let r := if b.USE_RIOT then irqProbe c .riot 0x7F r else r
  (r.1, { m with chips := r.2 })

/-- An address that no ROM range of the profile and no peripheral window of the
build claims, on a build whose write path reaches the RAM array: the ROM switch
breaks, every window test of `Memory::Read` and `Memory::Write` fails, and the
`USE_6529` block (whose `return` is unconditional) is not compiled in. -/
def plainRAM (b : Build) (c : Chips D) (m : Memory D) (addr : Nat) : Bool :=
  let a := busAddr m addr
  !b.USE_6529 &&
  (!b.USE_ROM_PROTECT || (romSwitch c m a 0).isNone) &&
  !(b.USE_TIA && ((a &&& 0x1080) == 0x0000)) &&
  !(b.USE_RIOT && (0x0080 ≤ a && a ≤ 0x00FF)) &&
  !(b.USE_RIOT && (0x0280 ≤ a && a ≤ 0x0297)) &&
  !(b.USE_VIA && b.USE_MICRO && (0xFE40 ≤ a && a ≤ 0xFE4F)) &&
  !(b.USE_VIA && b.USE_MICRO && (0xFE50 ≤ a && a ≤ 0xFE5F)) &&
  !(b.USE_VIA && b.USE_MICRO && (0xFE60 ≤ a && a ≤ 0xFE6F)) &&
  !(b.USE_VIA && b.USE_MICRO && (0x1C00 ≤ a && a ≤ 0xFE83)) &&
  !(b.USE_VIA && !b.USE_MICRO && (0xFE40 ≤ a && a ≤ 0xFE5F)) &&
  !(b.USE_VIC && ((a &&& 0xFFF0) == 0x9000)) &&
  !(b.USE_PIA && (0xE840 ≤ a && a ≤ 0xE843)) &&
  !(b.USE_ACIA && (0xD000 ≤ a && a ≤ 0xD001))

end Memory

/-! ## main_and_6502.cpp -/

/-- Embeds `cycle_table`: base cycle counts of the 256 opcodes. -/
def cycle_table : List Nat := [
  7, 6, 2, 2, 3, 3, 5, 5, 3, 2, 2, 2, 4, 4, 6, 6,
  2, 5, 2, 2, 4, 4, 6, 6, 2, 4, 2, 2, 4, 4, 7, 7,
  6, 6, 2, 2, 3, 3, 5, 5, 4, 2, 2, 2, 4, 4, 6, 6,
  2, 5, 2, 2, 4, 4, 6, 6, 2, 4, 2, 2, 4, 4, 7, 7,
  6, 6, 2, 2, 3, 3, 5, 5, 3, 2, 2, 2, 3, 4, 6, 6,
  2, 5, 2, 2, 4, 4, 6, 6, 2, 4, 2, 2, 4, 4, 7, 7,
  6, 6, 2, 2, 3, 3, 5, 5, 4, 2, 2, 2, 5, 4, 6, 6,
  2, 5, 2, 2, 4, 4, 6, 6, 2, 4, 2, 2, 4, 4, 7, 7,
  2, 6, 2, 2, 3, 3, 5, 5, 2, 2, 2, 2, 4, 4, 6, 6,
  2, 5, 2, 2, 4, 4, 6, 6, 2, 4, 2, 2, 4, 4, 7, 7,
  2, 6, 2, 2, 3, 3, 5, 5, 2, 2, 2, 2, 4, 4, 6, 6,
  2, 5, 2, 2, 4, 4, 6, 6, 2, 4, 2, 2, 4, 4, 7, 7,
  2, 6, 2, 2, 3, 3, 5, 5, 2, 2, 2, 2, 4, 4, 6, 6,
  2, 5, 2, 2, 4, 4, 6, 6, 2, 4, 2, 2, 4, 4, 7, 7,
  2, 6, 2, 2, 3, 3, 5, 5, 2, 2, 2, 2, 4, 4, 6, 6,
  2, 5, 2, 2, 4, 4, 6, 6, 2, 4, 2, 2, 4, 4, 7, 7]

/-- The data members of `struct CPU6502`; `P` is `Flags::reg`, `mem` the
memory the CPU points to. -/
structure CPU6502 (D : Type) where
  A : Nat
  X : Nat
  Y : Nat
  SP : Nat
  PC : Nat
  P : Nat
  mem : Memory D
  isNMOS6507 : Bool
  running : Bool
  page_crossed : Bool
  branch_taken : Bool
  halted : Bool
  cycles : Nat
  throttle_counter : Nat

namespace CPU6502

variable {D : Type} (b : Build) (c : Chips D)

/-- The value of `cond ? 1 : 0`. -/
def bit (cond : Bool) : Nat := if cond then 1 else 0

/-- The eight-bit complement: `~x` of a promoted byte is only used under a mask
below `0x100`, where it agrees with `0xFF ^ x`. -/
def not8 (x : Nat) : Nat := 0xFF ^^^ x

/-- Embeds `mem->Read(addr)`. -/
def read (s : CPU6502 D) (addr : Nat) : Nat × CPU6502 D :=
  ((Memory.Read b c s.mem addr).1, { s with mem := (Memory.Read b c s.mem addr).2 })

/-- Embeds `mem->Write(addr, value)`. -/
def write (s : CPU6502 D) (addr value : Nat) : CPU6502 D :=
  { s with mem := Memory.Write b c s.mem addr value }

/-- Embeds `P.Set(flag, value)`. -/
def setFlag (s : CPU6502 D) (flag : Nat) (value : Bool) : CPU6502 D :=
  { s with P := Flags.Set s.P flag value }

/-- Embeds `P.SetZN(value)`. -/
def setZN (s : CPU6502 D) (value : Nat) : CPU6502 D :=
  { s with P := Flags.SetZN s.P value }

/-- A call `op(addressing())`: the addressing helper runs first, the operation
then runs on the state it left, with the address it returned. -/
def applyAt (op : CPU6502 D → Nat → CPU6502 D) (r : Nat × CPU6502 D) : CPU6502 D :=
  op r.2 r.1

/-- Embeds `CPU6502::Reset`; `rA`, `rX`, `rY` are the three bytes drawn from the random
generator. -/
def Reset (s : CPU6502 D) (memory : Memory D) (is6507 : Bool) (rA rX rY : Nat) :
    CPU6502 D :=
  let s := { s with mem := { memory with use6507addresspace := is6507 },
                    isNMOS6507 := is6507 }
  let s := { s with A := rA % 256, X := rX % 256, Y := rY % 256, halted := false }
  let s := { s with SP := 0xFD }
  let s := { s with P := Flags.I ||| Flags.U }
  let s := (read b c s (0x0100 ||| s.SP)).2
  let s := { s with SP := (s.SP + 255) % 256 }
  let s := (read b c s (0x0100 ||| s.SP)).2
  let s := { s with SP := (s.SP + 255) % 256 }
  let s := (read b c s (0x0100 ||| s.SP)).2
  let s := { s with SP := (s.SP + 255) % 256 }
  let lo := read b c s 0xFFFC
  let hi := read b c lo.2 0xFFFD
  let s := { hi.2 with PC := (lo.1 ||| (hi.1 <<< 8)) % 65536 }
  { s with cycles := (s.cycles + 7) % 4294967296 }

/-- Embeds `Fetch8`: `mem->Read(PC++)`. -/
def Fetch8 (s : CPU6502 D) : Nat × CPU6502 D :=
  let r := read b c s s.PC
  (r.1, { r.2 with PC := (s.PC + 1) % 65536 })

/-- Embeds `Fetch16`: low byte, then high byte. -/
def Fetch16 (s : CPU6502 D) : Nat × CPU6502 D :=
  let lo := Fetch8 b c s
  let hi := Fetch8 b c lo.2
  ((lo.1 ||| (hi.1 <<< 8)) % 65536, hi.2)

/-- Embeds `Addr_Immediate`: `return PC++`. -/
def Addr_Immediate (s : CPU6502 D) : Nat × CPU6502 D :=
  (s.PC, { s with PC := (s.PC + 1) % 65536 })

/-- Embeds `Addr_ZeroPage`: `return Fetch8()`. -/
def Addr_ZeroPage (s : CPU6502 D) : Nat × CPU6502 D := Fetch8 b c s

/-- Embeds `Addr_ZeroPageX`: `return (uint8_t)(Fetch8() + X)`. -/
def Addr_ZeroPageX (s : CPU6502 D) : Nat × CPU6502 D :=
  let r := Fetch8 b c s
  ((r.1 + r.2.X) % 256, r.2)

/-- Embeds `Addr_ZeroPageY`: `return (uint8_t)(Fetch8() + Y)`. -/
def Addr_ZeroPageY (s : CPU6502 D) : Nat × CPU6502 D :=
  let r := Fetch8 b c s
  ((r.1 + r.2.Y) % 256, r.2)

/-- Embeds `Addr_Absolute`: `return Fetch16()`. -/
def Addr_Absolute (s : CPU6502 D) : Nat × CPU6502 D := Fetch16 b c s

/-- Embeds `Addr_AbsoluteX`. -/
def Addr_AbsoluteX (s : CPU6502 D) : Nat × CPU6502 D :=
  let r := Fetch16 b c s
  let base := r.1
  let addr := (base + r.2.X) % 65536
  (addr, { r.2 with page_crossed := (base &&& 0xFF00) != (addr &&& 0xFF00) })

/-- Embeds `Addr_AbsoluteY`. -/
def Addr_AbsoluteY (s : CPU6502 D) : Nat × CPU6502 D :=
  let r := Fetch16 b c s
  let base := r.1
  let addr := (base + r.2.Y) % 65536
  (addr, { r.2 with page_crossed := (base &&& 0xFF00) != (addr &&& 0xFF00) })

/-- Embeds `Addr_IndirectX`. -/
def Addr_IndirectX (s : CPU6502 D) : Nat × CPU6502 D :=
  let r := Fetch8 b c s
  let zpAddr := (r.1 + r.2.X) % 256
  let lo := read b c r.2 zpAddr
  let hi := read b c lo.2 ((zpAddr + 1) % 256)
  ((lo.1 ||| (hi.1 <<< 8)) % 65536, hi.2)

/-- Embeds `Addr_IndirectY`; the two reads of `mem->Read(zp) | (mem->Read(zp + 1) << 8)`
are taken left to right. -/
def Addr_IndirectY (s : CPU6502 D) : Nat × CPU6502 D :=
  let r := Fetch8 b c s
  let zp := r.1
  let lo := read b c r.2 zp
  let hi := read b c lo.2 ((zp + 1) % 256)
  let base := (lo.1 ||| (hi.1 <<< 8)) % 65536
  let addr := (base + hi.2.Y) % 65536
  (addr, { hi.2 with page_crossed := (base &&& 0xFF00) != (addr &&& 0xFF00) })

/-! ### Core operations -/

def LDA (s : CPU6502 D) (addr : Nat) : CPU6502 D :=
  let r := read b c s addr
  setZN { r.2 with A := r.1 } r.1

def LDX (s : CPU6502 D) (addr : Nat) : CPU6502 D :=
  let r := read b c s addr
  setZN { r.2 with X := r.1 } r.1

def LDY (s : CPU6502 D) (addr : Nat) : CPU6502 D :=
  let r := read b c s addr
  setZN { r.2 with Y := r.1 } r.1

def STA (s : CPU6502 D) (addr : Nat) : CPU6502 D := write b c s addr s.A

def STX (s : CPU6502 D) (addr : Nat) : CPU6502 D := write b c s addr s.X

def STY (s : CPU6502 D) (addr : Nat) : CPU6502 D := write b c s addr s.Y

def TAX (s : CPU6502 D) : CPU6502 D := setZN { s with X := s.A } s.A

def TAY (s : CPU6502 D) : CPU6502 D := setZN { s with Y := s.A } s.A

def TXA (s : CPU6502 D) : CPU6502 D := setZN { s with A := s.X } s.X

def TYA (s : CPU6502 D) : CPU6502 D := setZN { s with A := s.Y } s.Y

def INX (s : CPU6502 D) : CPU6502 D :=
  setZN { s with X := (s.X + 1) % 256 } ((s.X + 1) % 256)

def INY (s : CPU6502 D) : CPU6502 D :=
  setZN { s with Y := (s.Y + 1) % 256 } ((s.Y + 1) % 256)

def DEX (s : CPU6502 D) : CPU6502 D :=
  setZN { s with X := (s.X + 255) % 256 } ((s.X + 255) % 256)

def DEY (s : CPU6502 D) : CPU6502 D :=
  setZN { s with Y := (s.Y + 255) % 256 } ((s.Y + 255) % 256)

/-- Embeds `Push`: `mem->Write(0x0100 + SP--, value)`. -/
def Push (s : CPU6502 D) (value : Nat) : CPU6502 D :=
  write b c { s with SP := (s.SP + 255) % 256 } (0x0100 + s.SP) value

/-- Embeds `Pop`: `return mem->Read(0x0100 + ++SP)`. -/
def Pop (s : CPU6502 D) : Nat × CPU6502 D :=
  read b c { s with SP := (s.SP + 1) % 256 } (0x0100 + (s.SP + 1) % 256)

/-- Embeds `BRK_full`. -/
def BRK_full (s : CPU6502 D) : CPU6502 D :=
  let s := { s with PC := (s.PC + 1) % 65536 }
  let s := Push b c s ((s.PC >>> 8) &&& 0xFF)
  let s := Push b c s (s.PC &&& 0xFF)
  let s := Push b c s (s.P ||| Flags.B ||| Flags.U)
  let s := setFlag s Flags.I true
  let lo := read b c s 0xFFFE
  let hi := read b c lo.2 0xFFFF
  { hi.2 with PC := (lo.1 ||| (hi.1 <<< 8)) % 65536 }

/-- Embeds `RTI`. -/
def RTI (s : CPU6502 D) : CPU6502 D :=
  let p := Pop b c s
  let s := { p.2 with P := ((p.1 &&& not8 Flags.B) ||| Flags.U) % 256 }
  let lo := Pop b c s
  let hi := Pop b c lo.2
  { hi.2 with PC := (lo.1 ||| (hi.1 <<< 8)) % 65536 }

def INC (s : CPU6502 D) (addr : Nat) : CPU6502 D :=
  let r := read b c s addr
  let val := (r.1 + 1) % 256
  setZN (write b c r.2 addr val) val

def DEC (s : CPU6502 D) (addr : Nat) : CPU6502 D :=
  let r := read b c s addr
  let val := (r.1 + 255) % 256
  setZN (write b c r.2 addr val) val

/-- Embeds `ADC`: decimal branch when `D` is set, binary branch otherwise. -/
def ADC (s : CPU6502 D) (addr : Nat) : CPU6502 D :=
  let r := read b c s addr
  let value := r.1
  let s := r.2
  if Flags.Get s.P Flags.D then
    let carry_in := bit (Flags.Get s.P Flags.C)
    let lo := ((s.A &&& 0x0F) + (value &&& 0x0F) + carry_in) % 256
    let hi := ((s.A >>> 4) + (value >>> 4)) % 256
    let adjLo : Bool := lo > 9
    let lo := if adjLo then (lo + 6) % 256 else lo
    let hi := if adjLo then (hi + 1) % 256 else hi
    let hi := if hi > 9 then (hi + 6) % 256 else hi
    let s := setFlag s Flags.C (hi > 15)
    let result := ((hi <<< 4) ||| (lo &&& 0x0F)) % 256
    let bin_sum := (s.A + value + carry_in) % 65536
    let s := setFlag s Flags.V
      ((not8 (s.A ^^^ value) &&& (s.A ^^^ (bin_sum % 256)) &&& 0x80) != 0)
    setZN { s with A := result } result
  else
    let sum := (s.A + value + bit (Flags.Get s.P Flags.C)) % 65536
    let s := setFlag s Flags.C (sum > 0xFF)
    let result := sum % 256
    let s := setFlag s Flags.V ((not8 (s.A ^^^ value) &&& (s.A ^^^ result) &&& 0x80) != 0)
    setZN { s with A := result } result

/-- Embeds `SBC`: decimal branch when `D` is set, binary branch otherwise.  In the
decimal branch `hi` is a `uint8_t`, so `hi >= 0` is `true`, and the later
`P.Get(Flags::C)` reads the carry just stored. -/
def SBC (s : CPU6502 D) (addr : Nat) : CPU6502 D :=
  let r := read b c s addr
  let value := r.1
  let s := r.2
  if Flags.Get s.P Flags.D then
    let carry_in := if Flags.Get s.P Flags.C then 0 else 1
    let lo := ((s.A &&& 0x0F) + 256 - (value &&& 0x0F) - carry_in) % 256
    let hi := ((s.A >>> 4) + 256 - (value >>> 4)) % 256
    let adjLo : Bool := lo ≥ 128
    let lo := if adjLo then (lo + 250) % 256 else lo
    let hi := if adjLo then (hi + 255) % 256 else hi
    let hi := if hi ≥ 128 then (hi + 250) % 256 else hi
    let s := setFlag s Flags.C (decide (hi ≥ 0))
    let result := ((hi <<< 4) ||| (lo &&& 0x0F)) % 256
    let m := (value ^^^ 0xFF) % 256
    let bin_sum := (s.A + m + bit (Flags.Get s.P Flags.C)) % 65536
    let s := setFlag s Flags.V
      ((not8 (s.A ^^^ m) &&& (s.A ^^^ (bin_sum % 256)) &&& 0x80) != 0)
    setZN { s with A := result } result
  else
    let m := (value ^^^ 0xFF) % 256
    let sum := (s.A + m + bit (Flags.Get s.P Flags.C)) % 65536
    let s := setFlag s Flags.C (sum > 0xFF)
    let result := sum % 256
    let s := setFlag s Flags.V ((not8 (s.A ^^^ m) &&& (s.A ^^^ result) &&& 0x80) != 0)
    setZN { s with A := result } result

def AND (s : CPU6502 D) (addr : Nat) : CPU6502 D :=
  let r := read b c s addr
  setZN { r.2 with A := r.2.A &&& r.1 } (r.2.A &&& r.1)

def ORA (s : CPU6502 D) (addr : Nat) : CPU6502 D :=
  let r := read b c s addr
  setZN { r.2 with A := (r.2.A ||| r.1) % 256 } ((r.2.A ||| r.1) % 256)

def EOR (s : CPU6502 D) (addr : Nat) : CPU6502 D :=
  let r := read b c s addr
  setZN { r.2 with A := (r.2.A ^^^ r.1) % 256 } ((r.2.A ^^^ r.1) % 256)

/-- Embeds `CMP`: `P.Set(C, A >= value); P.SetZN(A - value)`, the difference converted
to `uint8_t`. -/
def CMP (s : CPU6502 D) (addr : Nat) : CPU6502 D :=
  let r := read b c s addr
  setZN (setFlag r.2 Flags.C (r.2.A ≥ r.1)) ((r.2.A + 256 - r.1) % 256)

def CPX (s : CPU6502 D) (addr : Nat) : CPU6502 D :=
  let r := read b c s addr
  setZN (setFlag r.2 Flags.C (r.2.X ≥ r.1)) ((r.2.X + 256 - r.1) % 256)

def CPY (s : CPU6502 D) (addr : Nat) : CPU6502 D :=
  let r := read b c s addr
  setZN (setFlag r.2 Flags.C (r.2.Y ≥ r.1)) ((r.2.Y + 256 - r.1) % 256)

def ASL_A (s : CPU6502 D) : CPU6502 D :=
  let s := setFlag s Flags.C ((s.A &&& 0x80) != 0)
  setZN { s with A := (s.A <<< 1) % 256 } ((s.A <<< 1) % 256)

def LSR_A (s : CPU6502 D) : CPU6502 D :=
  let s := setFlag s Flags.C ((s.A &&& 0x01) != 0)
  setZN { s with A := s.A >>> 1 } (s.A >>> 1)

def ROL_A (s : CPU6502 D) : CPU6502 D :=
  let carry := Flags.Get s.P Flags.C
  let s := setFlag s Flags.C ((s.A &&& 0x80) != 0)
  let a := ((s.A <<< 1) ||| bit carry) % 256
  setZN { s with A := a } a

def ROR_A (s : CPU6502 D) : CPU6502 D :=
  let carry := Flags.Get s.P Flags.C
  let s := setFlag s Flags.C ((s.A &&& 0x01) != 0)
  let a := ((s.A >>> 1) ||| (if carry then 0x80 else 0)) % 256
  setZN { s with A := a } a

def CLC (s : CPU6502 D) : CPU6502 D := setFlag s Flags.C false
def SEC (s : CPU6502 D) : CPU6502 D := setFlag s Flags.C true
def CLI (s : CPU6502 D) : CPU6502 D := setFlag s Flags.I false
def SEI (s : CPU6502 D) : CPU6502 D := setFlag s Flags.I true
def CLV (s : CPU6502 D) : CPU6502 D := setFlag s Flags.V false
def CLD (s : CPU6502 D) : CPU6502 D := setFlag s Flags.D false
def SED (s : CPU6502 D) : CPU6502 D := setFlag s Flags.D true

def NOP (s : CPU6502 D) : CPU6502 D := s

/-- Embeds `BranchIf`; `offset` is the fetched byte read as `int8_t`, and `PC += offset`
wraps in sixteen bits. -/
def BranchIf (s : CPU6502 D) (condition : Bool) : CPU6502 D :=
  let r := Fetch8 b c s
  let offset := r.1
  let s := { r.2 with branch_taken := false, page_crossed := false }
  if condition then
    let s := { s with branch_taken := true }
    let oldPC := s.PC
    let s := { s with PC := (s.PC + (if offset ≥ 128 then offset + 65280 else offset)) % 65536 }
    if (oldPC &&& 0xFF00) != (s.PC &&& 0xFF00) then { s with page_crossed := true } else s
  else s

def BEQ (s : CPU6502 D) : CPU6502 D := BranchIf b c s (Flags.Get s.P Flags.Z)
def BNE (s : CPU6502 D) : CPU6502 D := BranchIf b c s (!Flags.Get s.P Flags.Z)
def BCS (s : CPU6502 D) : CPU6502 D := BranchIf b c s (Flags.Get s.P Flags.C)
def BCC (s : CPU6502 D) : CPU6502 D := BranchIf b c s (!Flags.Get s.P Flags.C)
def BMI (s : CPU6502 D) : CPU6502 D := BranchIf b c s (Flags.Get s.P Flags.N)
def BPL (s : CPU6502 D) : CPU6502 D := BranchIf b c s (!Flags.Get s.P Flags.N)
def BVS (s : CPU6502 D) : CPU6502 D := BranchIf b c s (Flags.Get s.P Flags.V)
def BVC (s : CPU6502 D) : CPU6502 D := BranchIf b c s (!Flags.Get s.P Flags.V)

def PHA (s : CPU6502 D) : CPU6502 D := Push b c s s.A

def PHP (s : CPU6502 D) : CPU6502 D := Push b c s (s.P ||| Flags.B ||| Flags.U)

def PLA (s : CPU6502 D) : CPU6502 D :=
  let r := Pop b c s
  setZN { r.2 with A := r.1 } r.1

def PLP (s : CPU6502 D) : CPU6502 D :=
  let r := Pop b c s
  { r.2 with P := ((r.1 &&& not8 Flags.B) ||| Flags.U) % 256 }

def TSX (s : CPU6502 D) : CPU6502 D := setZN { s with X := s.SP } s.SP

def TXS (s : CPU6502 D) : CPU6502 D := { s with SP := s.X }

/-! ### Unofficial opcodes -/

def LAX (s : CPU6502 D) (addr : Nat) : CPU6502 D :=
  let r := read b c s addr
  setZN { r.2 with A := r.1, X := r.1 } r.1

def SAX (s : CPU6502 D) (addr : Nat) : CPU6502 D := write b c s addr (s.A &&& s.X)

def DCP (s : CPU6502 D) (addr : Nat) : CPU6502 D :=
  let r := read b c s addr
  let val := (r.1 + 255) % 256
  let s := write b c r.2 addr val
  setZN (setFlag s Flags.C (s.A ≥ val)) ((s.A + 256 - val) % 256)

def ISC (s : CPU6502 D) (addr : Nat) : CPU6502 D :=
  let r := read b c s addr
  let val := (r.1 + 1) % 256
  let s := write b c r.2 addr val
  let val := (val ^^^ 0xFF) % 256
  let sum := (s.A + val + bit (Flags.Get s.P Flags.C)) % 65536
  let s := setFlag s Flags.C (sum > 0xFF)
  let result := sum % 256
  let s := setFlag s Flags.V ((not8 (s.A ^^^ val) &&& (s.A ^^^ result) &&& 0x80) != 0)
  setZN { s with A := result } result

def SLO (s : CPU6502 D) (addr : Nat) : CPU6502 D :=
  let r := read b c s addr
  let s := setFlag r.2 Flags.C ((r.1 &&& 0x80) != 0)
  let val := (r.1 <<< 1) % 256
  let s := write b c s addr val
  setZN { s with A := (s.A ||| val) % 256 } ((s.A ||| val) % 256)

def RLA (s : CPU6502 D) (addr : Nat) : CPU6502 D :=
  let r := read b c s addr
  let carry := Flags.Get r.2.P Flags.C
  let s := setFlag r.2 Flags.C ((r.1 &&& 0x80) != 0)
  let val := ((r.1 <<< 1) ||| bit carry) % 256
  let s := write b c s addr val
  setZN { s with A := s.A &&& val } (s.A &&& val)

def SRE (s : CPU6502 D) (addr : Nat) : CPU6502 D :=
  let r := read b c s addr
  let s := setFlag r.2 Flags.C ((r.1 &&& 0x01) != 0)
  let val := r.1 >>> 1
  let s := write b c s addr val
  setZN { s with A := (s.A ^^^ val) % 256 } ((s.A ^^^ val) % 256)

def RRA (s : CPU6502 D) (addr : Nat) : CPU6502 D :=
  let r := read b c s addr
  let carry := Flags.Get r.2.P Flags.C
  let s := setFlag r.2 Flags.C ((r.1 &&& 0x01) != 0)
  let val := ((r.1 >>> 1) ||| (if carry then 0x80 else 0)) % 256
  let s := write b c s addr val
  let sum := (s.A + val + bit (Flags.Get s.P Flags.C)) % 65536
  let s := setFlag s Flags.C (sum > 0xFF)
  let result := sum % 256
  let s := setFlag s Flags.V ((not8 (s.A ^^^ val) &&& (s.A ^^^ result) &&& 0x80) != 0)
  setZN { s with A := result } result

/-- The static helper `ANE`: `(A | 0xEE) & X & imm`. -/
def ANE (A X imm : Nat) : Nat := ((A ||| 0xEE) &&& X &&& imm) % 256

/-- The static helper `LAXimm`: `imm & 0xEE`. -/
def LAXimm (imm : Nat) : Nat := imm &&& 0xEE

def SHA (s : CPU6502 D) (addr : Nat) : CPU6502 D :=
  let high := ((addr >>> 8) + 1) % 256
  write b c s addr (s.A &&& s.X &&& high)

def SHX (s : CPU6502 D) (addr : Nat) : CPU6502 D :=
  let high := ((addr >>> 8) + 1) % 256
  write b c s addr (s.X &&& high)

def SHY (s : CPU6502 D) (addr : Nat) : CPU6502 D :=
  let high := ((addr >>> 8) + 1) % 256
  write b c s addr (s.Y &&& high)

def TAS (s : CPU6502 D) (addr : Nat) : CPU6502 D :=
  let s := { s with SP := s.A &&& s.X }
  let high := ((addr >>> 8) + 1) % 256
  write b c s addr (s.SP &&& high)

/-! ### Jumps and subroutines -/

def JSR (s : CPU6502 D) : CPU6502 D :=
  let r := Fetch16 b c s
  let addr := r.1
  let s := r.2
  let retAddr := (s.PC + 65535) % 65536
  let s := Push b c s ((retAddr >>> 8) &&& 0xFF)
  let s := Push b c s (retAddr &&& 0xFF)
  { s with PC := addr }

def RTS (s : CPU6502 D) : CPU6502 D :=
  let lo := Pop b c s
  let hi := Pop b c lo.2
  let s := { hi.2 with PC := ((hi.1 <<< 8) ||| lo.1) % 65536 }
  { s with PC := (s.PC + 1) % 65536 }

def JMP_Absolute (s : CPU6502 D) : CPU6502 D :=
  let r := Fetch16 b c s
  { r.2 with PC := r.1 }

/-- Embeds `JMP_Indirect`: the high byte comes from
`(ptr & 0xFF00) | ((ptr + 1) & 0x00FF)`. -/
def JMP_Indirect (s : CPU6502 D) : CPU6502 D :=
  let r := Fetch16 b c s
  let ptr := r.1
  let lo := read b c r.2 ptr
  let hi := read b c lo.2 ((ptr &&& 0xFF00) ||| ((ptr + 1) &&& 0x00FF))
  { hi.2 with PC := (lo.1 ||| (hi.1 <<< 8)) % 65536 }

/-! ### Memory shifts and rotates -/

def ASL_Mem (s : CPU6502 D) (addr : Nat) : CPU6502 D :=
  let r := read b c s addr
  let s := setFlag r.2 Flags.C ((r.1 &&& 0x80) != 0)
  let val := (r.1 <<< 1) % 256
  setZN (write b c s addr val) val

def LSR_Mem (s : CPU6502 D) (addr : Nat) : CPU6502 D :=
  let r := read b c s addr
  let s := setFlag r.2 Flags.C ((r.1 &&& 0x01) != 0)
  let val := r.1 >>> 1
  setZN (write b c s addr val) val

def ROL_Mem (s : CPU6502 D) (addr : Nat) : CPU6502 D :=
  let r := read b c s addr
  let carry := Flags.Get r.2.P Flags.C
  let s := setFlag r.2 Flags.C ((r.1 &&& 0x80) != 0)
  let val := ((r.1 <<< 1) ||| bit carry) % 256
  setZN (write b c s addr val) val

def ROR_Mem (s : CPU6502 D) (addr : Nat) : CPU6502 D :=
  let r := read b c s addr
  let carry := Flags.Get r.2.P Flags.C
  let s := setFlag r.2 Flags.C ((r.1 &&& 0x01) != 0)
  let val := ((r.1 >>> 1) ||| (if carry then 0x80 else 0)) % 256
  setZN (write b c s addr val) val

def ANC (s : CPU6502 D) (addr : Nat) : CPU6502 D :=
  let r := read b c s addr
  let s := setZN { r.2 with A := r.2.A &&& r.1 } (r.2.A &&& r.1)
  setFlag s Flags.C ((s.A &&& 0x80) != 0)

def ALR (s : CPU6502 D) (addr : Nat) : CPU6502 D :=
  let r := read b c s addr
  let s := { r.2 with A := r.2.A &&& r.1 }
  let s := setFlag s Flags.C ((s.A &&& 0x01) != 0)
  setZN { s with A := s.A >>> 1 } (s.A >>> 1)

def ARR (s : CPU6502 D) (addr : Nat) : CPU6502 D :=
  let r := read b c s addr
  let s := { r.2 with A := r.2.A &&& r.1 }
  let carry_in := Flags.Get s.P Flags.C
  let a := ((s.A >>> 1) ||| (if carry_in then 0x80 else 0)) % 256
  let s := setZN { s with A := a } a
  let s := setFlag s Flags.C ((s.A &&& 0x40) != 0)
  setFlag s Flags.V ((((s.A &&& 0x40) >>> 6) ^^^ ((s.A &&& 0x20) >>> 5)) != 0)

def LAS (s : CPU6502 D) (addr : Nat) : CPU6502 D :=
  let r := read b c s addr
  let val := r.1 &&& r.2.SP
  setZN { r.2 with A := val, X := val, SP := val } val

def ASL_MemAbsX (s : CPU6502 D) (addr : Nat) : CPU6502 D :=
  ASL_Mem b c s ((addr + s.X) % 65536)

def LSR_MemAbsX (s : CPU6502 D) (addr : Nat) : CPU6502 D :=
  LSR_Mem b c s ((addr + s.X) % 65536)

def ROL_MemAbsX (s : CPU6502 D) (addr : Nat) : CPU6502 D :=
  ROL_Mem b c s ((addr + s.X) % 65536)

def ROR_MemAbsX (s : CPU6502 D) (addr : Nat) : CPU6502 D :=
  ROR_Mem b c s ((addr + s.X) % 65536)

def BIT (s : CPU6502 D) (addr : Nat) : CPU6502 D :=
  let r := read b c s addr
  let value := r.1
  let s := setFlag r.2 Flags.Z ((r.2.A &&& value) == 0)
  let s := setFlag s Flags.N ((value &&& 0x80) != 0)
  setFlag s Flags.V ((value &&& 0x40) != 0)

/-- The arm `case 0x8B` of `Execute`:
`imm = Fetch8(); A = ANE(A, X, imm); P.SetZN(A);`. -/
def ANE_Immediate (s : CPU6502 D) : CPU6502 D :=
  let r := Fetch8 b c s
  setZN { r.2 with A := ANE r.2.A r.2.X r.1 } (ANE r.2.A r.2.X r.1)

/-- The arm `case 0xAB` of `Execute`:
`imm = Fetch8(); val = LAXimm(imm); A = X = val; P.SetZN(val);`. -/
def LAX_Immediate (s : CPU6502 D) : CPU6502 D :=
  let r := Fetch8 b c s
  setZN { r.2 with A := LAXimm r.1 % 256, X := LAXimm r.1 % 256 } (LAXimm r.1 % 256)

/-- The `case` arms of the `switch (opcode)` of `Execute`, in source order:
each entry pairs a case label with the statement it guards. -/
def arms : List (Nat × (CPU6502 D → CPU6502 D)) := [
  (0xA9, fun s => applyAt (LDA b c) (Addr_Immediate s)),
  (0xA5, fun s => applyAt (LDA b c) (Addr_ZeroPage b c s)),
  (0xB5, fun s => applyAt (LDA b c) (Addr_ZeroPageX b c s)),
  (0xAD, fun s => applyAt (LDA b c) (Addr_Absolute b c s)),
  (0xBD, fun s => applyAt (LDA b c) (Addr_AbsoluteX b c s)),
  (0xB9, fun s => applyAt (LDA b c) (Addr_AbsoluteY b c s)),
  (0xA2, fun s => applyAt (LDX b c) (Addr_Immediate s)),
  (0xA6, fun s => applyAt (LDX b c) (Addr_ZeroPage b c s)),
  (0xB6, fun s => applyAt (LDX b c) (Addr_ZeroPageY b c s)),
  (0xAE, fun s => applyAt (LDX b c) (Addr_Absolute b c s)),
  (0xBE, fun s => applyAt (LDX b c) (Addr_AbsoluteY b c s)),
  (0xA0, fun s => applyAt (LDY b c) (Addr_Immediate s)),
  (0xA4, fun s => applyAt (LDY b c) (Addr_ZeroPage b c s)),
  (0xB4, fun s => applyAt (LDY b c) (Addr_ZeroPageX b c s)),
  (0xAC, fun s => applyAt (LDY b c) (Addr_Absolute b c s)),
  (0xBC, fun s => applyAt (LDY b c) (Addr_AbsoluteX b c s)),
  (0x85, fun s => applyAt (STA b c) (Addr_ZeroPage b c s)),
  (0x95, fun s => applyAt (STA b c) (Addr_ZeroPageX b c s)),
  (0x8D, fun s => applyAt (STA b c) (Addr_Absolute b c s)),
  (0x9D, fun s => applyAt (STA b c) (Addr_AbsoluteX b c s)),
  (0x99, fun s => applyAt (STA b c) (Addr_AbsoluteY b c s)),
  (0x86, fun s => applyAt (STX b c) (Addr_ZeroPage b c s)),
  (0x96, fun s => applyAt (STX b c) (Addr_ZeroPageY b c s)),
  (0x8E, fun s => applyAt (STX b c) (Addr_Absolute b c s)),
  (0x84, fun s => applyAt (STY b c) (Addr_ZeroPage b c s)),
  (0x94, fun s => applyAt (STY b c) (Addr_ZeroPageX b c s)),
  (0x8C, fun s => applyAt (STY b c) (Addr_Absolute b c s)),
  (0xAA, fun s => TAX s),
  (0xA8, fun s => TAY s),
  (0x8A, fun s => TXA s),
  (0x98, fun s => TYA s),
  (0xE8, fun s => INX s),
  (0xC8, fun s => INY s),
  (0xCA, fun s => DEX s),
  (0x88, fun s => DEY s),
  (0x69, fun s => applyAt (ADC b c) (Addr_Immediate s)),
  (0x65, fun s => applyAt (ADC b c) (Addr_ZeroPage b c s)),
  (0x6D, fun s => applyAt (ADC b c) (Addr_Absolute b c s)),
  (0xE9, fun s => applyAt (SBC b c) (Addr_Immediate s)),
  (0xE5, fun s => applyAt (SBC b c) (Addr_ZeroPage b c s)),
  (0xED, fun s => applyAt (SBC b c) (Addr_Absolute b c s)),
  (0x29, fun s => applyAt (AND b c) (Addr_Immediate s)),
  (0x25, fun s => applyAt (AND b c) (Addr_ZeroPage b c s)),
  (0x2D, fun s => applyAt (AND b c) (Addr_Absolute b c s)),
  (0x09, fun s => applyAt (ORA b c) (Addr_Immediate s)),
  (0x05, fun s => applyAt (ORA b c) (Addr_ZeroPage b c s)),
  (0x0D, fun s => applyAt (ORA b c) (Addr_Absolute b c s)),
  (0x49, fun s => applyAt (EOR b c) (Addr_Immediate s)),
  (0x45, fun s => applyAt (EOR b c) (Addr_ZeroPage b c s)),
  (0x4D, fun s => applyAt (EOR b c) (Addr_Absolute b c s)),
  (0xC9, fun s => applyAt (CMP b c) (Addr_Immediate s)),
  (0xE0, fun s => applyAt (CPX b c) (Addr_Immediate s)),
  (0xC0, fun s => applyAt (CPY b c) (Addr_Immediate s)),
  (0x0A, fun s => ASL_A s),
  (0x4A, fun s => LSR_A s),
  (0x2A, fun s => ROL_A s),
  (0x6A, fun s => ROR_A s),
  (0x18, fun s => CLC s),
  (0x38, fun s => SEC s),
  (0x58, fun s => CLI s),
  (0x78, fun s => SEI s),
  (0xB8, fun s => CLV s),
  (0xD8, fun s => CLD s),
  (0xF8, fun s => SED s),
  (0xEA, fun s => NOP s),
  (0xF0, fun s => BEQ b c s),
  (0xD0, fun s => BNE b c s),
  (0xB0, fun s => BCS b c s),
  (0x90, fun s => BCC b c s),
  (0x30, fun s => BMI b c s),
  (0x10, fun s => BPL b c s),
  (0x70, fun s => BVS b c s),
  (0x50, fun s => BVC b c s),
  (0x48, fun s => PHA b c s),
  (0x08, fun s => PHP b c s),
  (0x68, fun s => PLA b c s),
  (0x28, fun s => PLP b c s),
  (0x20, fun s => JSR b c s),
  (0x60, fun s => RTS b c s),
  (0x4C, fun s => JMP_Absolute b c s),
  (0x6C, fun s => JMP_Indirect b c s),
  (0x06, fun s => applyAt (ASL_Mem b c) (Addr_ZeroPage b c s)),
  (0x46, fun s => applyAt (LSR_Mem b c) (Addr_ZeroPage b c s)),
  (0x26, fun s => applyAt (ROL_Mem b c) (Addr_ZeroPage b c s)),
  (0x66, fun s => applyAt (ROR_Mem b c) (Addr_ZeroPage b c s)),
  (0x0E, fun s => applyAt (ASL_Mem b c) (Addr_Absolute b c s)),
  (0x4E, fun s => applyAt (LSR_Mem b c) (Addr_Absolute b c s)),
  (0x2E, fun s => applyAt (ROL_Mem b c) (Addr_Absolute b c s)),
  (0x6E, fun s => applyAt (ROR_Mem b c) (Addr_Absolute b c s)),
  (0x16, fun s => applyAt (ASL_Mem b c) (Addr_ZeroPageX b c s)),
  (0x56, fun s => applyAt (LSR_Mem b c) (Addr_ZeroPageX b c s)),
  (0x36, fun s => applyAt (ROL_Mem b c) (Addr_ZeroPageX b c s)),
  (0x76, fun s => applyAt (ROR_Mem b c) (Addr_ZeroPageX b c s)),
  (0x1E, fun s => applyAt (ASL_MemAbsX b c) (Addr_Absolute b c s)),
  (0x5E, fun s => applyAt (LSR_MemAbsX b c) (Addr_Absolute b c s)),
  (0x3E, fun s => applyAt (ROL_MemAbsX b c) (Addr_Absolute b c s)),
  (0x7E, fun s => applyAt (ROR_MemAbsX b c) (Addr_Absolute b c s)),
  (0x35, fun s => applyAt (AND b c) (Addr_ZeroPageX b c s)),
  (0x3D, fun s => applyAt (AND b c) (Addr_AbsoluteX b c s)),
  (0x39, fun s => applyAt (AND b c) (Addr_AbsoluteY b c s)),
  (0x15, fun s => applyAt (ORA b c) (Addr_ZeroPageX b c s)),
  (0x1D, fun s => applyAt (ORA b c) (Addr_AbsoluteX b c s)),
  (0x19, fun s => applyAt (ORA b c) (Addr_AbsoluteY b c s)),
  (0x55, fun s => applyAt (EOR b c) (Addr_ZeroPageX b c s)),
  (0x5D, fun s => applyAt (EOR b c) (Addr_AbsoluteX b c s)),
  (0x59, fun s => applyAt (EOR b c) (Addr_AbsoluteY b c s)),
  (0xC5, fun s => applyAt (CMP b c) (Addr_ZeroPage b c s)),
  (0xD5, fun s => applyAt (CMP b c) (Addr_ZeroPageX b c s)),
  (0xCD, fun s => applyAt (CMP b c) (Addr_Absolute b c s)),
  (0xDD, fun s => applyAt (CMP b c) (Addr_AbsoluteX b c s)),
  (0xD9, fun s => applyAt (CMP b c) (Addr_AbsoluteY b c s)),
  (0xE4, fun s => applyAt (CPX b c) (Addr_ZeroPage b c s)),
  (0xEC, fun s => applyAt (CPX b c) (Addr_Absolute b c s)),
  (0xC4, fun s => applyAt (CPY b c) (Addr_ZeroPage b c s)),
  (0xCC, fun s => applyAt (CPY b c) (Addr_Absolute b c s)),
  (0xA1, fun s => applyAt (LDA b c) (Addr_IndirectX b c s)),
  (0xB1, fun s => applyAt (LDA b c) (Addr_IndirectY b c s)),
  (0x81, fun s => applyAt (STA b c) (Addr_IndirectX b c s)),
  (0x91, fun s => applyAt (STA b c) (Addr_IndirectY b c s)),
  (0x21, fun s => applyAt (AND b c) (Addr_IndirectX b c s)),
  (0x31, fun s => applyAt (AND b c) (Addr_IndirectY b c s)),
  (0x01, fun s => applyAt (ORA b c) (Addr_IndirectX b c s)),
  (0x11, fun s => applyAt (ORA b c) (Addr_IndirectY b c s)),
  (0x41, fun s => applyAt (EOR b c) (Addr_IndirectX b c s)),
  (0x51, fun s => applyAt (EOR b c) (Addr_IndirectY b c s)),
  (0xC1, fun s => applyAt (CMP b c) (Addr_IndirectX b c s)),
  (0xD1, fun s => applyAt (CMP b c) (Addr_IndirectY b c s)),
  (0x24, fun s => applyAt (BIT b c) (Addr_ZeroPage b c s)),
  (0x2C, fun s => applyAt (BIT b c) (Addr_Absolute b c s)),
  (0x00, fun s => BRK_full b c s),
  (0x40, fun s => RTI b c s),
  (0xE6, fun s => applyAt (INC b c) (Addr_ZeroPage b c s)),
  (0xF6, fun s => applyAt (INC b c) (Addr_ZeroPageX b c s)),
  (0xEE, fun s => applyAt (INC b c) (Addr_Absolute b c s)),
  (0xFE, fun s => applyAt (INC b c) (Addr_AbsoluteX b c s)),
  (0xC6, fun s => applyAt (DEC b c) (Addr_ZeroPage b c s)),
  (0xD6, fun s => applyAt (DEC b c) (Addr_ZeroPageX b c s)),
  (0xCE, fun s => applyAt (DEC b c) (Addr_Absolute b c s)),
  (0xDE, fun s => applyAt (DEC b c) (Addr_AbsoluteX b c s)),
  (0x75, fun s => applyAt (ADC b c) (Addr_ZeroPageX b c s)),
  (0x7D, fun s => applyAt (ADC b c) (Addr_AbsoluteX b c s)),
  (0x79, fun s => applyAt (ADC b c) (Addr_AbsoluteY b c s)),
  (0x61, fun s => applyAt (ADC b c) (Addr_IndirectX b c s)),
  (0x71, fun s => applyAt (ADC b c) (Addr_IndirectY b c s)),
  (0xF5, fun s => applyAt (SBC b c) (Addr_ZeroPageX b c s)),
  (0xFD, fun s => applyAt (SBC b c) (Addr_AbsoluteX b c s)),
  (0xF9, fun s => applyAt (SBC b c) (Addr_AbsoluteY b c s)),
  (0xE1, fun s => applyAt (SBC b c) (Addr_IndirectX b c s)),
  (0xF1, fun s => applyAt (SBC b c) (Addr_IndirectY b c s)),
  (0xBA, fun s => TSX s),
  (0x9A, fun s => TXS s),
  (0xA7, fun s => applyAt (LAX b c) (Addr_ZeroPage b c s)),
  (0xB7, fun s => applyAt (LAX b c) (Addr_ZeroPageY b c s)),
  (0xAF, fun s => applyAt (LAX b c) (Addr_Absolute b c s)),
  (0xBF, fun s => applyAt (LAX b c) (Addr_AbsoluteY b c s)),
  (0xA3, fun s => applyAt (LAX b c) (Addr_IndirectX b c s)),
  (0xB3, fun s => applyAt (LAX b c) (Addr_IndirectY b c s)),
  (0x87, fun s => applyAt (SAX b c) (Addr_ZeroPage b c s)),
  (0x97, fun s => applyAt (SAX b c) (Addr_ZeroPageY b c s)),
  (0x8F, fun s => applyAt (SAX b c) (Addr_Absolute b c s)),
  (0x83, fun s => applyAt (SAX b c) (Addr_IndirectX b c s)),
  (0xC7, fun s => applyAt (DCP b c) (Addr_ZeroPage b c s)),
  (0xD7, fun s => applyAt (DCP b c) (Addr_ZeroPageX b c s)),
  (0xCF, fun s => applyAt (DCP b c) (Addr_Absolute b c s)),
  (0xDF, fun s => applyAt (DCP b c) (Addr_AbsoluteX b c s)),
  (0xDB, fun s => applyAt (DCP b c) (Addr_AbsoluteY b c s)),
  (0xC3, fun s => applyAt (DCP b c) (Addr_IndirectX b c s)),
  (0xD3, fun s => applyAt (DCP b c) (Addr_IndirectY b c s)),
  (0xE7, fun s => applyAt (ISC b c) (Addr_ZeroPage b c s)),
  (0xF7, fun s => applyAt (ISC b c) (Addr_ZeroPageX b c s)),
  (0xEF, fun s => applyAt (ISC b c) (Addr_Absolute b c s)),
  (0xFF, fun s => applyAt (ISC b c) (Addr_AbsoluteX b c s)),
  (0xFB, fun s => applyAt (ISC b c) (Addr_AbsoluteY b c s)),
  (0xE3, fun s => applyAt (ISC b c) (Addr_IndirectX b c s)),
  (0xF3, fun s => applyAt (ISC b c) (Addr_IndirectY b c s)),
  (0x07, fun s => applyAt (SLO b c) (Addr_ZeroPage b c s)),
  (0x17, fun s => applyAt (SLO b c) (Addr_ZeroPageX b c s)),
  (0x0F, fun s => applyAt (SLO b c) (Addr_Absolute b c s)),
  (0x1F, fun s => applyAt (SLO b c) (Addr_AbsoluteX b c s)),
  (0x1B, fun s => applyAt (SLO b c) (Addr_AbsoluteY b c s)),
  (0x03, fun s => applyAt (SLO b c) (Addr_IndirectX b c s)),
  (0x13, fun s => applyAt (SLO b c) (Addr_IndirectY b c s)),
  (0x27, fun s => applyAt (RLA b c) (Addr_ZeroPage b c s)),
  (0x37, fun s => applyAt (RLA b c) (Addr_ZeroPageX b c s)),
  (0x2F, fun s => applyAt (RLA b c) (Addr_Absolute b c s)),
  (0x3F, fun s => applyAt (RLA b c) (Addr_AbsoluteX b c s)),
  (0x3B, fun s => applyAt (RLA b c) (Addr_AbsoluteY b c s)),
  (0x23, fun s => applyAt (RLA b c) (Addr_IndirectX b c s)),
  (0x33, fun s => applyAt (RLA b c) (Addr_IndirectY b c s)),
  (0x47, fun s => applyAt (SRE b c) (Addr_ZeroPage b c s)),
  (0x57, fun s => applyAt (SRE b c) (Addr_ZeroPageX b c s)),
  (0x4F, fun s => applyAt (SRE b c) (Addr_Absolute b c s)),
  (0x5F, fun s => applyAt (SRE b c) (Addr_AbsoluteX b c s)),
  (0x5B, fun s => applyAt (SRE b c) (Addr_AbsoluteY b c s)),
  (0x43, fun s => applyAt (SRE b c) (Addr_IndirectX b c s)),
  (0x53, fun s => applyAt (SRE b c) (Addr_IndirectY b c s)),
  (0x0B, fun s => applyAt (ANC b c) (Addr_Immediate s)),
  (0x2B, fun s => applyAt (ANC b c) (Addr_Immediate s)),
  (0x4B, fun s => applyAt (ALR b c) (Addr_Immediate s)),
  (0x6B, fun s => applyAt (ARR b c) (Addr_Immediate s)),
  (0xBB, fun s => applyAt (LAS b c) (Addr_AbsoluteY b c s)),
  (0x67, fun s => applyAt (RRA b c) (Addr_ZeroPage b c s)),
  (0x77, fun s => applyAt (RRA b c) (Addr_ZeroPageX b c s)),
  (0x6F, fun s => applyAt (RRA b c) (Addr_Absolute b c s)),
  (0x7F, fun s => applyAt (RRA b c) (Addr_AbsoluteX b c s)),
  (0x7B, fun s => applyAt (RRA b c) (Addr_AbsoluteY b c s)),
  (0x63, fun s => applyAt (RRA b c) (Addr_IndirectX b c s)),
  (0x73, fun s => applyAt (RRA b c) (Addr_IndirectY b c s)),
  (0x9F, fun s => applyAt (SHA b c) (Addr_AbsoluteY b c s)),
  (0x93, fun s => applyAt (SHA b c) (Addr_IndirectY b c s)),
  (0x9E, fun s => applyAt (SHX b c) (Addr_AbsoluteY b c s)),
  (0x9C, fun s => applyAt (SHY b c) (Addr_AbsoluteX b c s)),
  (0x9B, fun s => applyAt (TAS b c) (Addr_AbsoluteY b c s)),
  (0x8B, fun s => ANE_Immediate b c s),
  (0xAB, fun s => LAX_Immediate b c s),
  (0x02, fun s => { s with halted := true }),
  (0x12, fun s => { s with halted := true }),
  (0x22, fun s => { s with halted := true }),
  (0x32, fun s => { s with halted := true }),
  (0x42, fun s => { s with halted := true }),
  (0x52, fun s => { s with halted := true }),
  (0x62, fun s => { s with halted := true }),
  (0x72, fun s => { s with halted := true }),
  (0x92, fun s => { s with halted := true }),
  (0xB2, fun s => { s with halted := true }),
  (0xD2, fun s => { s with halted := true }),
  (0xF2, fun s => { s with halted := true })]

/-- Embeds `Execute`: the statement of the `case` arm labelled `opcode`, or the
`default` arm (`running = false`) when no label matches.  The diagnostic
written to `std::cerr` in the `default` arm is not modelled. -/
def Execute (s : CPU6502 D) (opcode : Nat) : CPU6502 D :=
  match (arms b c).lookup opcode with
  | some arm => arm s
  | none => { s with running := false }


/-- Embeds `HandleNMI`. -/
def HandleNMI (s : CPU6502 D) : CPU6502 D :=
  let s := Push b c s ((s.PC >>> 8) &&& 0xFF)
  let s := Push b c s (s.PC &&& 0xFF)
  let s := setFlag s Flags.B false
  let s := setFlag s Flags.U true
  let s := Push b c s s.P
  let s := setFlag s Flags.I false
  let lo := read b c s 0xFFFA
  let hi := read b c lo.2 0xFFFB
  let s := { hi.2 with PC := ((hi.1 <<< 8) ||| lo.1) % 65536 }
  { s with cycles := (s.cycles + 7) % 4294967296 }

/-- Embeds `HandleIRQ`. -/
def HandleIRQ (s : CPU6502 D) : CPU6502 D :=
  if Flags.Get s.P Flags.I == false then
    let s := Push b c s ((s.PC >>> 8) &&& 0xFF)
    let s := Push b c s (s.PC &&& 0xFF)
    let s := setFlag s Flags.B false
    let s := setFlag s Flags.U true
    let s := Push b c s s.P
    let s := setFlag s Flags.I false
    let lo := read b c s 0xFFFE
    let hi := read b c lo.2 0xFFFF
    let s := { hi.2 with PC := ((hi.1 <<< 8) ||| lo.1) % 65536 }
    { s with cycles := (s.cycles + 7) % 4294967296 }
  else s

/-- The fetch-and-execute part of the body of the `while` loop of `Run`, taken
when `cycles` is zero: fetch the opcode at `PC++`, clear the two transient
flags, `Execute`, then credit `cycle_table[opcode]` and one cycle for each
transient flag that is set. -/
def fetchExecute (s : CPU6502 D) : CPU6502 D :=
  let r := read b c s s.PC
  let opcode := r.1
  let s := { r.2 with PC := (s.PC + 1) % 65536 }
  let s := { s with page_crossed := false, branch_taken := false }
  let s := Execute b c s opcode
  let s := { s with cycles := (s.cycles + cycle_table.getD opcode 0) % 4294967296 }
  let s := if s.branch_taken then { s with cycles := (s.cycles + 1) % 4294967296 } else s
  if s.page_crossed then { s with cycles := (s.cycles + 1) % 4294967296 } else s

/-- The cycle-burning part of the body of the `while` loop of `Run`, taken when
`cycles > 0`: decrement, `mem->Clock()`, the IRQ poll (skipped on a 6507), and
the throttle block, of which only `throttle_counter = 0` touches the state
(the wall clock and the local `total_cycles` are not modelled). -/
def burnCycle (s : CPU6502 D) : CPU6502 D :=
  let s := { s with cycles := s.cycles - 1 }
  let s := { s with mem := Memory.Clock b c s.mem }
  let s :=
    if !s.isNMOS6507 then
      let q := Memory.CheckIRQLines b c s.mem
      let s := { s with mem := q.2 }
      if q.1 then HandleIRQ b c s else s
    else s
  if s.throttle_counter ≥ 2000 then { s with throttle_counter := 0 } else s

/-- One iteration of the `while (running && !halted)` loop of `Run`. -/
def runIteration (s : CPU6502 D) : CPU6502 D :=
  if s.cycles > 0 then burnCycle b c s else fetchExecute b c s

/-- Embeds `Run`, cut off after `fuel` iterations of its loop. -/
def Run : Nat → CPU6502 D → CPU6502 D
  | 0, s => s
  | fuel + 1, s => if s.running && !s.halted then Run fuel (runIteration b c s) else s

end CPU6502

/-! ## Concrete machines used as test inputs -/

/-- The build with only `USE_6529` defined. -/
def Build.only6529 : Build := { Build.plain with USE_6529 := true }

/-- The build with only `USE_ROM_PROTECT` defined. -/
def Build.romProtect : Build := { Build.plain with USE_ROM_PROTECT := true }

/-- A freshly constructed memory without peripheral state, for profile `rs`. -/
def Memory.fresh (b : Build) (rs : RomSpace) : Memory Unit := Memory.init b Chips.none () rs

/-- The write-protected ranges of the memory map of the specification
(section 6), per machine profile, as inclusive `(first, last)` pairs; profiles
the memory map does not list have none. -/
def listedRanges : RomSpace → List (Nat × Nat)
  | .C64 => [(0xA000, 0xBFFF), (0xE000, 0xFFFF)]
  | .C128 => [(0x4000, 0x7FFF), (0xE000, 0xFFFF)]
  | .VIC20 => [(0x1000, 0x1FFF), (0x8000, 0x8FFF), (0xE000, 0xFFFF)]
  | .PET => [(0xC000, 0xFFFF)]
  | .PLUS4 => [(0x8000, 0xBFFF), (0xFC00, 0xFFFF)]
  | .BBC_MICRO => [(0x8000, 0xBFFF), (0xC000, 0xFFFF)]
  | .BBC_MASTER => [(0x8000, 0xBFFF), (0xC000, 0xFFFF)]
  | .APPLE_II => [(0xD000, 0xFFFF)]
  | .APPLE_II_C => [(0xC000, 0xFFFF)]
  | .APPLE_II_GS => [(0xE000, 0xFFFF)]
  | .ATARI_2600 => [(0xF000, 0xFFFF)]
  | .ATARI_5200 => [(0xD800, 0xFFFF)]
  | .ATARI_7800 => [(0xF000, 0xFFFF)]
  | .ATARI_8BIT => [(0xC000, 0xFFFF)]
  | .ATARI_LYNX => [(0xFE00, 0xFFFF)]
  | .NES => [(0x8000, 0xFFFF)]
  | .FAMICOM_DISK => [(0xE000, 0xFFFF)]
  | .ORIC => [(0xC000, 0xFFFF)]
  | .KIM1 => [(0x0000, 0x03FF)]
  | .SYM1 => [(0x0000, 0x0FFF)]
  | .AIM65 => [(0xE000, 0xFFFF)]
  | .COMMODORE_DISK_DRIVE_1541 => [(0xC000, 0xFFFF)]
  | .COMMODORE_DISK_DRIVE_1571 => [(0x8000, 0xFFFF)]
  | .ATARI_1050_DRIVE => [(0xC000, 0xFFFF)]
  | _ => []

/-- The machine profiles the memory map of the specification lists. -/
def listedProfiles : List RomSpace :=
  [.C64, .C128, .VIC20, .PET, .PLUS4, .BBC_MICRO, .BBC_MASTER, .APPLE_II, .APPLE_II_C,
   .APPLE_II_GS, .ATARI_2600, .ATARI_5200, .ATARI_7800, .ATARI_8BIT, .ATARI_LYNX, .NES,
   .FAMICOM_DISK, .ORIC, .KIM1, .SYM1, .AIM65, .COMMODORE_DISK_DRIVE_1541,
   .COMMODORE_DISK_DRIVE_1571, .ATARI_1050_DRIVE]

/-- The memory `main` builds: the default build, profile `NONE`, with the test
program `LDA #$42; STA $0200; BRK` written at `0x8000`. -/
def Memory.mainProgram : Memory Unit :=
  let w := Memory.Write Build.plain Chips.none
  w (w (w (w (w (w (Memory.fresh Build.plain .NONE) 0x8000 0xA9) 0x8001 0x42) 0x8002 0x8D)
    0x8003 0x00) 0x8004 0x02) 0x8005 0x00

/-- A `CPU6502` object as its member initialisers leave it, attached to `m`; the
members the C++ leaves uninitialised (`cycles`, the two transient flags) are
taken as zero and false. -/
def CPU6502.init {D : Type} (m : Memory D) : CPU6502 D :=
  { A := 0, X := 0, Y := 0, SP := 0xFD, PC := 0, P := 0, mem := m, isNMOS6507 := false,
    running := true, page_crossed := false, branch_taken := false, halted := false,
    cycles := 0, throttle_counter := 0 }

/-- The eight conditional branch opcodes, each with the status flag it tests and
the flag value on which it branches: BEQ, BNE, BCS, BCC, BMI, BPL, BVS, BVC. -/
def branchOpcodes : List (Nat × Nat × Bool) :=
  [(0xF0, Flags.Z, true), (0xD0, Flags.Z, false), (0xB0, Flags.C, true),
   (0x90, Flags.C, false), (0x30, Flags.N, true), (0x10, Flags.N, false),
   (0x70, Flags.V, true), (0x50, Flags.V, false)]

/-- A byte read as a signed 8-bit offset. -/
def signed8 (v : Nat) : Int := if v ≥ 128 then (v : Int) - 256 else (v : Int)

/-- The state `Execute` runs on in `fetchExecute`: the opcode byte has been read
at `PC`, `PC` has moved past it and the two transient flags are cleared. -/
def CPU6502.afterFetch {D : Type} (b : Build) (c : Chips D) (s : CPU6502 D) : CPU6502 D :=
  { (CPU6502.read b c s s.PC).2 with
    PC := (s.PC + 1) % 65536, page_crossed := false, branch_taken := false }

/-- The opcode byte `fetchExecute` reads at `PC`. -/
def CPU6502.opcodeAt {D : Type} (b : Build) (c : Chips D) (s : CPU6502 D) : Nat :=
  (CPU6502.read b c s s.PC).1

/-- A memory of the default build holding `BEQ +2` at `0x80FD`, so that the
following instruction starts at `0x80FF` and the branch target is `0x8101`. -/
def Memory.beqProgram : Memory Unit :=
  let w := Memory.Write Build.plain Chips.none
  w (w (Memory.fresh Build.plain .NONE) 0x80FD 0xF0) 0x80FE 0x02

/-- A CPU about to fetch the `BEQ` of `Memory.beqProgram`, with `Z` set and an
empty cycle budget. -/
def CPU6502.beqState : CPU6502 Unit :=
  { CPU6502.init Memory.beqProgram with PC := 0x80FD, P := 0x26 }

/-- A memory of the default build holding `JMP ($30FF)` at `0x8000`, with
`0x80` at `0x30FF`, `0x40` at `0x3000` and `0xFF` at `0x3100`. -/
def Memory.jmpProgram : Memory Unit :=
  let w := Memory.Write Build.plain Chips.none
  w (w (w (w (w (w (Memory.fresh Build.plain .NONE) 0x8000 0x6C) 0x8001 0xFF) 0x8002 0x30)
    0x30FF 0x80) 0x3000 0x40) 0x3100 0xFF

/-- A CPU about to fetch the `JMP` of `Memory.jmpProgram`, with an empty cycle
budget. -/
def CPU6502.jmpState : CPU6502 Unit := { CPU6502.init Memory.jmpProgram with PC := 0x8000 }

/-- A CPU of the default build with accumulator `0x00` and stack pointer `0x00`,
on a freshly constructed memory. -/
def CPU6502.stackState : CPU6502 Unit :=
  { CPU6502.init (Memory.fresh Build.plain .NONE) with A := 0x00, SP := 0x00, P := 0x24 }

/-! ## Packed BCD, and test inputs for the arithmetic instructions -/

/-- A byte is a valid packed BCD value when each of its nibbles is at most 9. -/
def validBCD (x : Nat) : Prop := x / 16 ≤ 9 ∧ x % 16 ≤ 9

instance (x : Nat) : Decidable (validBCD x) := by unfold validBCD; infer_instance

/-- The number a packed BCD byte stands for: ten times the high nibble plus the
low nibble. -/
def dec (x : Nat) : Nat := 10 * (x / 16) + x % 16

/-- The packed BCD encoding of a number below 100: tens digit in the high nibble,
units digit in the low nibble. -/
def bcd (n : Nat) : Nat := 16 * (n / 10) + n % 10

/-- A CPU of the default build with accumulator `a` and status byte `p`, on a
fresh memory that holds the operand byte `v` at address `0x0010`. -/
def CPU6502.aluState (a p v : Nat) : CPU6502 Unit :=
  { CPU6502.init (Memory.Write Build.plain Chips.none (Memory.fresh Build.plain .NONE) 0x0010 v)
    with A := a, P := p }

/-- A memory of the default build whose IRQ/BRK vector at `0xFFFE`/`0xFFFF` holds
`0x1234`; every other byte, the `BRK` opcode `0x00` at `0x8000` included, is zero. -/
def Memory.irqProgram : Memory Unit :=
  let w := Memory.Write Build.plain Chips.none
  w (w (Memory.fresh Build.plain .NONE) 0xFFFE 0x34) 0xFFFF 0x12

/-- A CPU on `Memory.irqProgram` with `PC = 0x8003`, `SP = 0x01` and status `0x21`
(`U` and `C` set, `I` clear). -/
def CPU6502.irqState : CPU6502 Unit :=
  { CPU6502.init Memory.irqProgram with PC := 0x8003, SP := 0x01, P := 0x21 }

/-- A CPU on `Memory.irqProgram` about to fetch the `BRK` at `0x8000`, with
`SP = 0xFD`, status `0x21` and an empty cycle budget. -/
def CPU6502.brkState : CPU6502 Unit :=
  { CPU6502.init Memory.irqProgram with PC := 0x8000, SP := 0xFD, P := 0x21 }

/-- The twelve JAM/KIL opcodes. -/
def jamOpcodes : List Nat :=
  [0x02, 0x12, 0x22, 0x32, 0x42, 0x52, 0x62, 0x72, 0x92, 0xB2, 0xD2, 0xF2]

/-- The ten bytes of `LDA #imm; STA abs; LDA #0; LDA abs`. -/
def roundTripProgram (imm abs : Nat) : List Nat :=
  [0xA9, imm, 0x8D, abs % 256, abs / 256, 0xA9, 0x00, 0xAD, abs % 256, abs / 256]

/-- A memory of the default build holding `LDA #$42; STA $0200; LDA #$00;
LDA $0200` at `0x8000`. -/
def Memory.roundTrip : Memory Unit :=
  let w := Memory.Write Build.plain Chips.none
  w (w (w (w (w (w (w (w (w (w (Memory.fresh Build.plain .NONE) 0x8000 0xA9) 0x8001 0x42)
    0x8002 0x8D) 0x8003 0x00) 0x8004 0x02) 0x8005 0xA9) 0x8006 0x00) 0x8007 0xAD)
    0x8008 0x00) 0x8009 0x02

/-- A CPU about to fetch the first instruction of `Memory.roundTrip`. -/
def CPU6502.roundTripState : CPU6502 Unit :=
  { CPU6502.init Memory.roundTrip with PC := 0x8000 }

/-- A CPU about to fetch the first instruction of the program `main` writes at
`0x8000`. -/
def CPU6502.mainState : CPU6502 Unit :=
  { CPU6502.init Memory.mainProgram with PC := 0x8000 }

/-! ## tia.cpp

The beam counters are C++ `int`s and are kept as unbounded integers: signed
overflow, which C++ leaves undefined, is outside the model.  A host callback is
modelled by what it is called with: `stallCalls` lists the arguments of the
calls to the WSYNC stall callback, the most recent first.  The audio sink is
never called by the code and is left out. -/

/-- Embeds `reverse4`. -/
def reverse4 (v : Nat) : Nat :=
  (((v &&& 0x1) <<< 3) ||| ((v &&& 0x2) <<< 1) ||| ((v &&& 0x4) >>> 1) ||| ((v &&& 0x8) >>> 3))
    % 256

/-- Embeds `TIA::Object`, with its member initialisers as defaults. -/
structure TIA.Object where
  x : Int := 0
  gfx : Nat := 0
  enabled : Bool := false
  reflect : Bool := false
  size : Nat := 1
  copySpacing : Nat := 0
  motion : Int := 0

/-- Embeds the data members of `class TIA`.  `framebuffer l d` is
`framebuffer_[l][d]`; `wsyncStall` tells whether a stall callback is installed. -/
structure TIA where
  ntsc : Bool
  line : Int
  dot : Int
  frame : Int
  framebuffer : Int → Int → Nat
  inputReader : Option (Int → Bool)
  wsyncStall : Bool
  stallCalls : List Int
  vsync : Bool
  vblank : Bool
  colubk : Nat
  colupf : Nat
  pf0 : Nat
  pf1 : Nat
  pf2 : Nat
  ctrlpf : Nat
  player0 : TIA.Object
  player1 : TIA.Object
  missile0 : TIA.Object
  missile1 : TIA.Object
  ball : TIA.Object
  nusiz0 : Nat
  nusiz1 : Nat
  enam0 : Bool
  enam1 : Bool
  enabl : Bool
  ballSize : Nat

namespace TIA

def ColorClocksPerScanline : Int := 228
def ScanlinesPerFrame : Int := 262
def HORIZ_CLOCKS_PER_LINE : Int := 228

def VSYNC : Nat := 0x00
def VBLANK : Nat := 0x01
def WSYNC : Nat := 0x02
def RSYNC : Nat := 0x03
def NUSIZ0 : Nat := 0x04
def NUSIZ1 : Nat := 0x05
def COLUPF : Nat := 0x08
def COLUBK : Nat := 0x09
def CTRLPF : Nat := 0x0A
def REFP0 : Nat := 0x0B
def REFP1 : Nat := 0x0C
def PF0 : Nat := 0x0D
def PF1 : Nat := 0x0E
def PF2 : Nat := 0x0F
def RESP0 : Nat := 0x10
def RESP1 : Nat := 0x11
def RESM0 : Nat := 0x12
def RESM1 : Nat := 0x13
def RESBL : Nat := 0x14
def GRP0 : Nat := 0x1B
def GRP1 : Nat := 0x1C
def ENAM0 : Nat := 0x1D
def ENAM1 : Nat := 0x1E
def ENABL : Nat := 0x1F
def HMP0 : Nat := 0x20
def HMP1 : Nat := 0x21
def HMM0 : Nat := 0x22
def HMM1 : Nat := 0x23
def HMBL : Nat := 0x24
def HMOVE : Nat := 0x2A
def HMCLR : Nat := 0x2B
def INPT0 : Nat := 0x38
def INPT5 : Nat := 0x3D

/-- Embeds `tiaAddr`: `static_cast<uint8_t>(a & 0x3F)`. -/
def tiaAddr (a : Nat) : Nat := ((a % 65536) &&& 0x3F) % 256

/-- Embeds `TIA::reset`: the beam, the frame buffer, the sync flags, the two
colours and the playfield registers; the objects, the enable bits and the
callbacks are not touched. -/
def reset (s : TIA) (ntsc : Bool) : TIA :=
  { s with ntsc := ntsc, line := 0, dot := 0, frame := 0,
           framebuffer := fun _ _ => 0,
           vsync := false, vblank := false, colubk := 0x00, colupf := 0x0E,
           pf0 := 0, pf1 := 0, pf2 := 0, ctrlpf := 0 }

/-- Embeds the constructor `TIA::TIA`: the member initialisers, then
`reset(true)`; no callback is installed. -/
def init : TIA :=
  reset
    { ntsc := true, line := 0, dot := 0, frame := 0, framebuffer := fun _ _ => 0,
      inputReader := none, wsyncStall := false, stallCalls := [],
      vsync := false, vblank := false, colubk := 0x00, colupf := 0x0E,
      pf0 := 0, pf1 := 0, pf2 := 0, ctrlpf := 0,
      player0 := {}, player1 := {}, missile0 := {}, missile1 := {}, ball := {},
      nusiz0 := 0, nusiz1 := 0, enam0 := false, enam1 := false, enabl := false,
      ballSize := 1 }
    true

/-- Embeds `applyHMOVE`. -/
def applyHMOVE (obj : Object) : Object :=
  let obj := { obj with x := obj.x + obj.motion }
  if obj.x < 0 then { obj with x := obj.x + HORIZ_CLOCKS_PER_LINE }
  else if obj.x ≥ HORIZ_CLOCKS_PER_LINE then { obj with x := obj.x - HORIZ_CLOCKS_PER_LINE }
  else obj

/-- Embeds `hmoveLatchAndApply`. -/
def hmoveLatchAndApply (s : TIA) : TIA :=
  let s := { s with player0 := applyHMOVE s.player0 }
  let s := { s with player1 := applyHMOVE s.player1 }
  let s := { s with missile0 := applyHMOVE s.missile0 }
  let s := { s with missile1 := applyHMOVE s.missile1 }
  { s with ball := applyHMOVE s.ball }

/-- Embeds `incrementBeam`. -/
def incrementBeam (s : TIA) : TIA :=
  let s := { s with dot := s.dot + 1 }
  if s.dot ≥ ColorClocksPerScanline then
    let s := { s with dot := 0 }
    let s := { s with line := s.line + 1 }
    let s := hmoveLatchAndApply s
    if s.line ≥ ScanlinesPerFrame then
      let s := { s with line := 0 }
      { s with frame := s.frame + 1 }
    else s
  else s

/-- The colour a player object puts on the current dot, if any: the body of the
`if (player.enabled)` blocks of `renderDot`.  A negative shift count, which C++
leaves undefined, is taken as zero. -/
def playerColor (s : TIA) (p : Object) (color : Nat) : Nat :=
  if p.enabled then
    let relX := Int.tmod (s.dot - p.x - p.motion + ColorClocksPerScanline) ColorClocksPerScanline
    if relX < 8 then
      let mask := if p.reflect then (1 <<< relX.toNat) % 256 else (0x80 >>> relX.toNat) % 256
      if (p.gfx &&& mask) != 0 then s.colupf else color
    else color
  else color

/-- Embeds `renderDot`: the colour of the current dot, stored in the frame
buffer.  A negative shift count, which C++ leaves undefined, is taken as
zero. -/
def renderDot (s : TIA) : TIA :=
  let color := s.colubk
  let showVideo := !s.vblank
  let pf0_hi := ((s.pf0 >>> 4) &&& 0x0F) % 256
  let pf0_disp := reverse4 pf0_hi
  let pfLeft := ((pf0_disp <<< 16) ||| (s.pf1 <<< 8) ||| s.pf2) % 4294967296
  let leftHalf : Bool := s.dot < ColorClocksPerScanline / 2
  let reflect := (s.ctrlpf &&& 0x01) != 0
  let bitIdx := Int.tdiv (Int.tmod s.dot (ColorClocksPerScanline / 2)) 4
  let pfBitOn : Bool :=
    if showVideo then
      if leftHalf then
        let fromLeft := 19 - bitIdx
        ((pfLeft >>> fromLeft.toNat) &&& 0x1) != 0
      else
        if reflect then ((pfLeft >>> bitIdx.toNat) &&& 0x1) != 0
        else
          let fromLeft := 19 - bitIdx
          ((pfLeft >>> fromLeft.toNat) &&& 0x1) != 0
    else false
  let color := playerColor s s.player0 color
  let color := playerColor s s.player1 color
  let color :=
    if s.enam0 then
      if s.dot = Int.tmod (s.missile0.x + s.missile0.motion) ColorClocksPerScanline
      then s.colupf else color
    else color
  let color :=
    if s.enam1 then
      if s.dot = Int.tmod (s.missile1.x + s.missile1.motion) ColorClocksPerScanline
      then s.colupf else color
    else color
  let color :=
    if s.enabl then
      let bx := Int.tmod (s.ball.x + s.ball.motion) ColorClocksPerScanline
      if s.dot ≥ bx ∧ s.dot < bx + (s.ballSize : Int) then s.colupf else color
    else color
  let color := if pfBitOn then s.colupf else color
  { s with framebuffer := fun l d => if l = s.line ∧ d = s.dot then color else s.framebuffer l d }

/-- The body of the loop of `TIA::tick`, run `n` times. -/
def tickLoop : Nat → TIA → TIA
  | 0, s => s
  | n + 1, s => tickLoop n (incrementBeam (renderDot s))

/-- Embeds `TIA::tick`: the number of dots produced and the new state. -/
def tick (s : TIA) (colorClocks : Int) : Int × TIA :=
  ((colorClocks.toNat : Int), tickLoop colorClocks.toNat s)

/-- Embeds `tiaReadReg`. -/
def tiaReadReg (s : TIA) (r : Nat) : Nat :=
  if INPT0 ≤ r ∧ r ≤ INPT5 then
    match s.inputReader with
    | some f => if f ((r : Int) - (INPT0 : Int)) then 0x80 else 0x00
    | none => 0x00
  else 0x00

/-- Embeds `TIA::read`. -/
def read (s : TIA) (addr : Nat) : Nat := tiaReadReg s (tiaAddr addr)

/-- Embeds `tiaWriteReg`: the `switch` over the register index, every register
without a `case` falling to the empty `default`. -/
def tiaWriteReg (s : TIA) (r v : Nat) : TIA :=
  if r = VSYNC then { s with vsync := (v &&& 0x02) != 0 }
  else if r = VBLANK then { s with vblank := (v &&& 0x02) != 0 }
  else if r = WSYNC then
    let s :=
      if s.wsyncStall then
        let remainingColor := ColorClocksPerScanline - s.dot
        let remainingCpu := Int.tdiv remainingColor 3
        if remainingCpu > 0 then { s with stallCalls := remainingCpu :: s.stallCalls } else s
      else s
    { s with dot := ColorClocksPerScanline - 1 }
  else if r = RSYNC then s
  else if r = COLUBK then { s with colubk := v &&& 0x7F }
  else if r = COLUPF then { s with colupf := v &&& 0x7F }
  else if r = PF0 then { s with pf0 := v }
  else if r = PF1 then { s with pf1 := v }
  else if r = PF2 then { s with pf2 := v }
  else if r = GRP0 then { s with player0 := { s.player0 with gfx := v } }
  else if r = GRP1 then { s with player1 := { s.player1 with gfx := v } }
  else if r = ENAM0 then { s with enam0 := (v &&& 0x02) != 0 }
  else if r = ENAM1 then { s with enam1 := (v &&& 0x02) != 0 }
  else if r = ENABL then { s with enabl := (v &&& 0x02) != 0 }
  else if r = REFP0 then { s with player0 := { s.player0 with reflect := (v &&& 0x08) != 0 } }
  else if r = REFP1 then { s with player1 := { s.player1 with reflect := (v &&& 0x08) != 0 } }
  else if r = RESP0 then { s with player0 := { s.player0 with x := s.dot } }
  else if r = RESP1 then { s with player1 := { s.player1 with x := s.dot } }
  else if r = RESM0 then { s with missile0 := { s.missile0 with x := s.dot } }
  else if r = RESM1 then { s with missile1 := { s.missile1 with x := s.dot } }
  else if r = RESBL then { s with ball := { s.ball with x := s.dot } }
  else if r = HMP0 then { s with player0 := { s.player0 with motion := signed8 v >>> 4 } }
  else if r = HMP1 then { s with player1 := { s.player1 with motion := signed8 v >>> 4 } }
  else if r = HMM0 then { s with missile0 := { s.missile0 with motion := signed8 v >>> 4 } }
  else if r = HMM1 then { s with missile1 := { s.missile1 with motion := signed8 v >>> 4 } }
  else if r = HMBL then { s with ball := { s.ball with motion := signed8 v >>> 4 } }
  else if r = CTRLPF then
    { s with ctrlpf := v, ballSize := (1 <<< ((v >>> 4) &&& 0x03)) % 256 }
  else if r = NUSIZ0 then
    let s := { s with nusiz0 := v &&& 0x07 }
    { s with player0 :=
        { s.player0 with size := if s.nusiz0 = 5 then 2 else (if s.nusiz0 = 7 then 4 else 1) } }
  else if r = NUSIZ1 then
    let s := { s with nusiz1 := v &&& 0x07 }
    { s with player1 :=
        { s.player1 with size := if s.nusiz1 = 5 then 2 else (if s.nusiz1 = 7 then 4 else 1) } }
  else s

/-- Embeds `TIA::write`. -/
def write (s : TIA) (addr v : Nat) : TIA := tiaWriteReg s (tiaAddr addr) (v % 256)

/-- The five motion values: player0, player1, missile0, missile1, ball. -/
def motions (s : TIA) : List Int :=
  [s.player0.motion, s.player1.motion, s.missile0.motion, s.missile1.motion, s.ball.motion]

end TIA

/-! ## acia.cpp -/

/-- Embeds the data members of `class ACIA`. -/
structure ACIA where
  dataReg : Nat
  statusReg : Nat
  controlReg : Nat
  txBuffer : Nat
  txBufferEmpty : Bool
  rxBufferFull : Bool
  irqAsserted : Bool
  txShiftCounter : Nat
  rxShiftCounter : Nat

namespace ACIA

def REG_DATA : Nat := 0x00
def SR_RDRF : Nat := 0x01
def SR_TDRE : Nat := 0x02
def SR_FE : Nat := 0x10
def SR_OVRN : Nat := 0x20
def SR_PE : Nat := 0x40
def SR_IRQ : Nat := 0x80
def CR_CLK_DIV_1 : Nat := 0x00
def CR_CLK_DIV_16 : Nat := 0x01
def CR_CLK_DIV_64 : Nat := 0x02
def CR_RIE : Nat := 0x80

/-- Embeds `ACIA::reset`; `txBuffer_` is not touched. -/
def reset (s : ACIA) : ACIA :=
  { s with dataReg := 0, statusReg := SR_TDRE, controlReg := 0, rxBufferFull := false,
           txBufferEmpty := true, irqAsserted := false, rxShiftCounter := 0,
           txShiftCounter := 0 }

/-- Embeds the constructor `ACIA::ACIA`: the member initialisers, then `reset()`. -/
def init : ACIA :=
  reset { dataReg := 0, statusReg := SR_TDRE, controlReg := 0, txBuffer := 0,
          txBufferEmpty := true, rxBufferFull := false, irqAsserted := false,
          txShiftCounter := 0, rxShiftCounter := 0 }

/-- Embeds `updateIRQ`. -/
def updateIRQ (s : ACIA) : ACIA :=
  let irq : Bool := ((s.controlReg &&& CR_RIE) != 0) && ((s.statusReg &&& SR_RDRF) != 0)
  let s :=
    if irq then { s with statusReg := (s.statusReg ||| SR_IRQ) % 256 }
    else { s with statusReg := (s.statusReg &&& (0xFF ^^^ SR_IRQ)) % 256 }
  { s with irqAsserted := irq }

/-- Embeds `txCyclesForCurrentBaud`. -/
def txCyclesForCurrentBaud (s : ACIA) : Nat :=
  if s.controlReg &&& 0x03 = CR_CLK_DIV_1 then 10
  else if s.controlReg &&& 0x03 = CR_CLK_DIV_16 then 160
  else if s.controlReg &&& 0x03 = CR_CLK_DIV_64 then 640
  else 10

/-- Embeds `ACIA::read`: the byte returned and the new state. -/
def read (s : ACIA) (addr : Nat) : Nat × ACIA :=
  let reg := ((addr % 65536) &&& 0x01) % 256
  if reg = REG_DATA then
    let val := s.dataReg
    let s := { s with rxBufferFull := false }
    let s := { s with statusReg := (s.statusReg &&& (0xFF ^^^ SR_RDRF)) % 256 }
    (val, updateIRQ s)
  else (s.statusReg, s)

/-- Embeds `ACIA::write`. -/
def write (s : ACIA) (addr data : Nat) : ACIA :=
  let reg := ((addr % 65536) &&& 0x01) % 256
  if reg = REG_DATA then
    let s := { s with txBuffer := data % 256 }
    let s := { s with txBufferEmpty := false }
    let s := { s with statusReg := (s.statusReg &&& (0xFF ^^^ SR_TDRE)) % 256 }
    { s with txShiftCounter := txCyclesForCurrentBaud s }
  else
    updateIRQ { s with controlReg := data % 256 }

/-- Embeds `ACIA::receiveByte`. -/
def receiveByte (s : ACIA) (data : Nat) (framingError parityError : Bool) : ACIA :=
  let s :=
    if s.rxBufferFull then { s with statusReg := (s.statusReg ||| SR_OVRN) % 256 }
    else
      let s := { s with dataReg := data % 256 }
      let s := { s with rxBufferFull := true }
      let s := { s with statusReg := (s.statusReg ||| SR_RDRF) % 256 }
      let s := if framingError then { s with statusReg := (s.statusReg ||| SR_FE) % 256 } else s
      if parityError then { s with statusReg := (s.statusReg ||| SR_PE) % 256 } else s
  updateIRQ s

/-- Embeds `ACIA::Clock`. -/
def Clock (s : ACIA) : ACIA :=
  if !s.txBufferEmpty then
    if s.txShiftCounter > 0 then
      let s := { s with txShiftCounter := s.txShiftCounter - 1 }
      if s.txShiftCounter = 0 then
        let s := { s with txBufferEmpty := true }
        let s := { s with statusReg := (s.statusReg ||| SR_TDRE) % 256 }
        updateIRQ s
      else s
    else s
  else s

/-- The calls a host can make on an `ACIA` object. -/
inductive Call where
  | read (addr : Nat)
  | write (addr data : Nat)
  | receiveByte (data : Nat) (framingError parityError : Bool)
  | Clock

/-- The state after one call. -/
def call (s : ACIA) : Call → ACIA
  | .read addr => (read s addr).2
  | .write addr data => write s addr data
  | .receiveByte data fe pe => receiveByte s data fe pe
  | .Clock => Clock s

/-- The state after a sequence of calls, the first call of the list first. -/
def calls (s : ACIA) (cs : List Call) : ACIA := cs.foldl call s

/-- The TDRE bit of the status register. -/
def tdre (s : ACIA) : Bool := (s.statusReg &&& SR_TDRE) != 0

end ACIA

/-! ## riot.cpp

A port callback is modelled by what it returns or is called with: `readA`,
`readB` hold the byte an installed input callback returns, `writeA`, `writeB`
tell whether an output callback is installed and `outA`, `outB` list the bytes
it was called with, the most recent first.  `prescaleCounter` is the
function-`static` counter of `tick`. -/

/-- Embeds the data members of `class RIOT6532` and the `static` local of `tick`. -/
structure RIOT6532 where
  ram : Nat → Nat
  ora : Nat
  orb : Nat
  ddra : Nat
  ddrb : Nat
  readA : Option Nat
  writeA : Bool
  outA : List Nat
  readB : Option Nat
  writeB : Bool
  outB : List Nat
  timer : Nat
  timerShift : Nat
  timerRunning : Bool
  timerIRQ : Bool
  prescaleCounter : Nat

namespace RIOT6532

/-- Embeds `RIOT6532::reset`. -/
def reset (s : RIOT6532) : RIOT6532 :=
  { s with ram := fun _ => 0, ora := 0, orb := 0, ddra := 0, ddrb := 0, timer := 0,
           timerShift := 0, timerRunning := false, timerIRQ := false }

/-- Embeds the constructor `RIOT6532::RIOT6532`: the member initialisers, then
`reset()`; no port callback is installed. -/
def init : RIOT6532 :=
  reset { ram := fun _ => 0, ora := 0, orb := 0, ddra := 0, ddrb := 0,
          readA := none, writeA := false, outA := [], readB := none, writeB := false,
          outB := [], timer := 0, timerShift := 0, timerRunning := false,
          timerIRQ := false, prescaleCounter := 0 }

/-- Embeds `portRead`. -/
def portRead (out ddr : Nat) (inp : Option Nat) : Nat :=
  let inVal := match inp with
    | some v => v % 256
    | none => 0xFF
  ((out &&& ddr) ||| (inVal &&& (0xFF ^^^ ddr))) % 256

/-- Embeds `RIOT6532::read`: `addr &= 0x7F`, then the RAM test `addr < 0x80`, then
the register `switch`. -/
def read (s : RIOT6532) (addr : Nat) : Nat × RIOT6532 :=
  let addr := (addr % 65536) &&& 0x7F
  if addr < 0x80 then (s.ram addr, s)
  else
    let reg := (addr &&& 0x1F) % 256
    if reg = 0x00 then (portRead s.ora s.ddra s.readA, s)
    else if reg = 0x01 then (s.ddra, s)
    else if reg = 0x02 then (portRead s.orb s.ddrb s.readB, s)
    else if reg = 0x03 then (s.ddrb, s)
    else if reg = 0x04 then ((s.timer &&& 0xFF) % 256, s)
    else if reg = 0x05 then ((s.timer &&& 0xFF) % 256, { s with timerIRQ := false })
    else (0xFF, s)

/-- Embeds `RIOT6532::write`: `addr &= 0x7F`, then the RAM test `addr < 0x80` with
its `return`, then the register `switch`. -/
def write (s : RIOT6532) (addr data : Nat) : RIOT6532 :=
  let addr := (addr % 65536) &&& 0x7F
  let data := data % 256
  if addr < 0x80 then { s with ram := fun i => if i = addr then data else s.ram i }
  else
    let reg := (addr &&& 0x1F) % 256
    if reg = 0x00 then
      let s := { s with ora := data }
      if s.writeA then { s with outA := (s.ora &&& s.ddra) :: s.outA } else s
    else if reg = 0x01 then { s with ddra := data }
    else if reg = 0x02 then
      let s := { s with orb := data }
      if s.writeB then { s with outB := (s.orb &&& s.ddrb) :: s.outB } else s
    else if reg = 0x03 then { s with ddrb := data }
    else if reg = 0x14 then
      { s with timerShift := 0, timer := data, timerRunning := true, timerIRQ := false }
    else if reg = 0x15 then
      { s with timerShift := 3, timer := data, timerRunning := true, timerIRQ := false }
    else if reg = 0x16 then
      { s with timerShift := 6, timer := data, timerRunning := true, timerIRQ := false }
    else if reg = 0x17 then
      { s with timerShift := 10, timer := data, timerRunning := true, timerIRQ := false }
    else s

/-- Embeds `RIOT6532::tick`. -/
def tick (s : RIOT6532) : RIOT6532 :=
  if !s.timerRunning then s
  else
    let s := { s with prescaleCounter := (s.prescaleCounter + 1) % 65536 }
    if s.prescaleCounter ≥ (1 <<< s.timerShift) % 4294967296 then
      let s := { s with prescaleCounter := 0 }
      if s.timer = 0 then
        let s := { s with timerIRQ := true }
        { s with timer := 0xFF }
      else { s with timer := (s.timer + 65535) % 65536 }
    else s

end RIOT6532

/-! ## via.cpp -/

/-- Embeds the data members of `class VIA6522`. -/
structure VIA6522 where
  irq_line : Bool
  portA_in : Nat
  portB_in : Nat
  portA_out : Nat
  portB_out : Nat
  ORB : Nat
  ORA : Nat
  DDRB : Nat
  DDRA : Nat
  T1C : Nat
  T1L : Nat
  T2C : Nat
  SR : Nat
  ACR : Nat
  PCR : Nat
  IFR : Nat
  IER : Nat

namespace VIA6522

/-- Embeds the constructor `VIA6522::VIA6522`, with the member initialisers. -/
def init : VIA6522 :=
  { irq_line := false, portA_in := 0, portB_in := 0, portA_out := 0, portB_out := 0,
    ORB := 0, ORA := 0, DDRB := 0, DDRA := 0, T1C := 0, T1L := 0, T2C := 0, SR := 0,
    ACR := 0, PCR := 0, IFR := 0, IER := 0 }

/-- Embeds `UpdateIRQ`. -/
def UpdateIRQ (s : VIA6522) : VIA6522 :=
  { s with irq_line := (s.IFR &&& s.IER &&& 0x7F) != 0 }

/-- Embeds `SetIFR`. -/
def SetIFR (s : VIA6522) (mask : Nat) : VIA6522 :=
  { s with IFR := (s.IFR ||| mask) % 256 }

/-- Embeds `VIA6522::Read`. -/
def Read (s : VIA6522) (reg : Nat) : Nat :=
  let reg := (reg % 256) &&& 0x0F
  if reg = 0x0 then ((s.ORB &&& s.DDRB) ||| (s.portB_in &&& (0xFF ^^^ s.DDRB))) % 256
  else if reg = 0x1 then ((s.ORA &&& s.DDRA) ||| (s.portA_in &&& (0xFF ^^^ s.DDRA))) % 256
  else if reg = 0x2 then s.DDRB
  else if reg = 0x3 then s.DDRA
  else if reg = 0x4 then (s.T1C &&& 0xFF) % 256
  else if reg = 0x5 then (s.T1C >>> 8) % 256
  else if reg = 0x6 then (s.T1L &&& 0xFF) % 256
  else if reg = 0x7 then (s.T1L >>> 8) % 256
  else if reg = 0x8 then (s.T2C &&& 0xFF) % 256
  else if reg = 0x9 then (s.T2C >>> 8) % 256
  else if reg = 0xA then s.SR
  else if reg = 0xB then s.ACR
  else if reg = 0xC then s.PCR
  else if reg = 0xD then s.IFR
  else if reg = 0xE then (s.IER ||| 0x80) % 256
  else 0xFF

/-- Embeds `VIA6522::Write`. -/
def Write (s : VIA6522) (reg val : Nat) : VIA6522 :=
  let reg := (reg % 256) &&& 0x0F
  let val := val % 256
  let s :=
    if reg = 0x0 then { s with ORB := val, portB_out := val }
    else if reg = 0x1 then { s with ORA := val, portA_out := val }
    else if reg = 0x2 then { s with DDRB := val }
    else if reg = 0x3 then { s with DDRA := val }
    else if reg = 0x4 then { s with T1C := ((s.T1C &&& 0xFF00) ||| val) % 65536 }
    else if reg = 0x5 then
      let s := { s with T1C := ((val <<< 8) ||| (s.T1C &&& 0x00FF)) % 65536 }
      let s := { s with T1L := s.T1C }
      SetIFR s 0x40
    else if reg = 0x6 then { s with T1L := ((s.T1L &&& 0xFF00) ||| val) % 65536 }
    else if reg = 0x7 then { s with T1L := ((val <<< 8) ||| (s.T1L &&& 0x00FF)) % 65536 }
    else if reg = 0x8 then { s with T2C := ((s.T2C &&& 0xFF00) ||| val) % 65536 }
    else if reg = 0x9 then
      let s := { s with T2C := ((val <<< 8) ||| (s.T2C &&& 0x00FF)) % 65536 }
      SetIFR s 0x20
    else if reg = 0xA then { s with SR := val }
    else if reg = 0xB then { s with ACR := val }
    else if reg = 0xC then { s with PCR := val }
    else if reg = 0xD then { s with IFR := (s.IFR &&& (0xFF ^^^ val)) % 256 }
    else if reg = 0xE then
      if (val &&& 0x80) != 0 then { s with IER := (s.IER ||| (val &&& 0x7F)) % 256 }
      else { s with IER := (s.IER &&& (0xFF ^^^ (val &&& 0x7F))) % 256 }
    else s
  UpdateIRQ s

/-- Embeds `VIA6522::Tick`. -/
def Tick (s : VIA6522) : VIA6522 :=
  let s :=
    if s.T1C > 0 then
      let s := { s with T1C := (s.T1C + 65535) % 65536 }
      if s.T1C = 0xFFFF then
        let s := SetIFR s 0x40
        if (s.ACR &&& 0x40) != 0 then { s with T1C := s.T1L } else s
      else s
    else s
  let s :=
    if s.T2C > 0 then
      let s := { s with T2C := (s.T2C + 65535) % 65536 }
      if s.T2C = 0xFFFF then SetIFR s 0x20 else s
    else s
  UpdateIRQ s

end VIA6522

/-! ## Test inputs for the peripheral chips -/

/-- A constructed TIA with a WSYNC stall callback installed and the beam at
dot 5 of line 0. -/
def TIA.wsyncState : TIA := { TIA.init with wsyncStall := true, dot := 5 }

/-- The number of `Clock` calls a transmission takes, by the clock-divide
selection in bits 0-1 of the control byte: 0 gives 10, 1 gives 160, 2 gives
640. -/
def ACIA.selectedCycles (cr : Nat) : Nat :=
  if cr &&& 0x03 = 0 then 10 else if cr &&& 0x03 = 1 then 160 else 640

/-- The IRQ bit of the status register agrees with its condition: it is set iff
the RX-IRQ-enable bit of the control register and RDRF are both set. -/
def ACIA.irqConsistent (s : ACIA) : Prop :=
  (s.statusReg &&& ACIA.SR_IRQ ≠ 0) ↔
    (s.controlReg &&& ACIA.CR_RIE ≠ 0 ∧ s.statusReg &&& ACIA.SR_RDRF ≠ 0)

/-- A constructed VIA whose timer 1 counter was loaded with 2 through registers 4
and 5, the flag that load raises then cleared through register `0xD`. -/
def VIA6522.timerState : VIA6522 :=
  VIA6522.Write (VIA6522.Write (VIA6522.Write VIA6522.init 0x4 0x02) 0x5 0x00) 0xD 0x40

/-! ## Test inputs and reference data for the instruction set -/

/-- A memory of the default build holding `JSR $1234` at `0x8000` and `RTS` at
`0x1234`. -/
def Memory.jsrProgram : Memory Unit :=
  let w := Memory.Write Build.plain Chips.none
  w (w (w (w (Memory.fresh Build.plain .NONE) 0x8000 0x20) 0x8001 0x34) 0x8002 0x12)
    0x1234 0x60

/-- A CPU about to fetch the `JSR` of `Memory.jsrProgram`, with `SP = 0xFD`. -/
def CPU6502.jsrState : CPU6502 Unit := { CPU6502.init Memory.jsrProgram with PC := 0x8000 }

/-- The 151 official NMOS 6502 opcodes, grouped by mnemonic: ADC, AND, ASL, the
eight branches, BIT, BRK, the flag clears, CMP, CPX, CPY, DEC, DEX, DEY, EOR,
INC, INX, INY, JMP, JSR, LDA, LDX, LDY, LSR, NOP, ORA, the stack pushes and
pulls, ROL, ROR, RTI, RTS, SBC, the flag sets, STA, STX, STY and the register
transfers. -/
def officialOpcodes : List Nat :=
  [0x69, 0x65, 0x75, 0x6D, 0x7D, 0x79, 0x61, 0x71,
   0x29, 0x25, 0x35, 0x2D, 0x3D, 0x39, 0x21, 0x31,
   0x0A, 0x06, 0x16, 0x0E, 0x1E,
   0x90, 0xB0, 0xF0, 0x30, 0xD0, 0x10, 0x50, 0x70,
   0x24, 0x2C,
   0x00,
   0x18, 0xD8, 0x58, 0xB8,
   0xC9, 0xC5, 0xD5, 0xCD, 0xDD, 0xD9, 0xC1, 0xD1,
   0xE0, 0xE4, 0xEC,
   0xC0, 0xC4, 0xCC,
   0xC6, 0xD6, 0xCE, 0xDE,
   0xCA, 0x88,
   0x49, 0x45, 0x55, 0x4D, 0x5D, 0x59, 0x41, 0x51,
   0xE6, 0xF6, 0xEE, 0xFE,
   0xE8, 0xC8,
   0x4C, 0x6C,
   0x20,
   0xA9, 0xA5, 0xB5, 0xAD, 0xBD, 0xB9, 0xA1, 0xB1,
   0xA2, 0xA6, 0xB6, 0xAE, 0xBE,
   0xA0, 0xA4, 0xB4, 0xAC, 0xBC,
   0x4A, 0x46, 0x56, 0x4E, 0x5E,
   0xEA,
   0x09, 0x05, 0x15, 0x0D, 0x1D, 0x19, 0x01, 0x11,
   0x48, 0x08, 0x68, 0x28,
   0x2A, 0x26, 0x36, 0x2E, 0x3E,
   0x6A, 0x66, 0x76, 0x6E, 0x7E,
   0x40, 0x60,
   0xE9, 0xE5, 0xF5, 0xED, 0xFD, 0xF9, 0xE1, 0xF1,
   0x38, 0xF8, 0x78,
   0x85, 0x95, 0x8D, 0x9D, 0x99, 0x81, 0x91,
   0x86, 0x96, 0x8E,
   0x84, 0x94, 0x8C,
   0xAA, 0xA8, 0xBA, 0x8A, 0x9A, 0x98]

/-- What can happen to the CPU between two instructions: an opcode is executed,
or an interrupt sequence is entered. -/
inductive CPU6502.Event where
  | execute (opcode : Nat)
  | irq
  | nmi

/-- The state after one event. -/
def CPU6502.handle {D : Type} (b : Build) (c : Chips D) (s : CPU6502 D) :
    CPU6502.Event → CPU6502 D
  | .execute opcode => CPU6502.Execute b c s opcode
  | .irq => CPU6502.HandleIRQ b c s
  | .nmi => CPU6502.HandleNMI b c s

/-- The state after a sequence of events, the first event of the list first. -/
def CPU6502.handleAll {D : Type} (b : Build) (c : Chips D) (s : CPU6502 D)
    (evs : List CPU6502.Event) : CPU6502 D :=
  evs.foldl (CPU6502.handle b c) s

/-! ## Test inputs for addressing, ROM protection and the run loop -/

/-- A CPU on `Memory.jsrProgram` whose next two operand bytes, at `0x8001`, are
`0x34 0x12`, with `X = 0xFF` and `Y = 0x01`. -/
def CPU6502.indexState : CPU6502 Unit :=
  { CPU6502.init Memory.jsrProgram with PC := 0x8001, X := 0xFF, Y := 0x01 }

/-- A freshly constructed memory of the build with only `USE_ROM_PROTECT`, profile
`ATARI_2600`, switched to the 13-bit address space of the 6507. -/
def Memory.atari6507 : Memory Unit :=
  { Memory.fresh Build.romProtect .ATARI_2600 with use6507addresspace := true }

/-- The build with only `USE_ACIA` defined. -/
def Build.onlyACIA : Build := { Build.plain with USE_ACIA := true }

/-- Peripheral chips without state whose every register reads `0x80`: a chip
that keeps its interrupt request bit raised. -/
def Chips.irqRaised : Chips Unit where
  read := fun _ d _ => (0x80, d)
  write := fun _ d _ _ => d
  tick := fun _ d => d
  reset := fun _ d => d
  io_read := fun _ => 0
  io_write_data := fun d => d

/-- The state on which the cycle-burning branch of `Run` calls `HandleIRQ`: the
budget has been decremented, the peripherals clocked and the IRQ lines
polled. -/
def CPU6502.irqEntryState {D : Type} (b : Build) (c : Chips D) (s : CPU6502 D) : CPU6502 D :=
  { s with cycles := s.cycles - 1,
           mem := (Memory.CheckIRQLines b c (Memory.Clock b c s.mem)).2 }

/-- A CPU of the `USE_ACIA` build in the middle of burning an instruction: two
cycles of budget left, `I` clear, `PC = 0x8003`, `SP = 0xFD`, on a fresh
memory. -/
def CPU6502.burningState : CPU6502 Unit :=
  { CPU6502.init (Memory.init Build.onlyACIA Chips.irqRaised () .NONE) with
    cycles := 2, P := 0x20, PC := 0x8003 }

/-! ## The VIA on the bus -/

/-- The calls the bus makes on a `VIA6522` object. -/
inductive VIA6522.Call where
  | Read (reg : Nat)
  | Write (reg val : Nat)
  | Tick

/-- The state after one call; `Read` returns a byte and leaves the state as it
is. -/
def VIA6522.call (s : VIA6522) : VIA6522.Call → VIA6522
  | .Read _ => s
  | .Write reg val => VIA6522.Write s reg val
  | .Tick => VIA6522.Tick s

/-- The state after a sequence of calls, the first call of the list first. -/
def VIA6522.calls (s : VIA6522) (cs : List VIA6522.Call) : VIA6522 := cs.foldl VIA6522.call s

/-- The build with only `USE_VIA` defined. -/
def Build.onlyVIA : Build := { Build.plain with USE_VIA := true }

/-- The peripheral chips of a build whose only chip is the VIA: every chip access
is served by the `VIA6522` object. -/
def Chips.via : Chips VIA6522 where
  read := fun _ d reg => (VIA6522.Read d reg, d)
  write := fun _ d reg val => VIA6522.Write d reg val
  tick := fun _ d => VIA6522.Tick d
  reset := fun _ d => d
  io_read := fun _ => 0
  io_write_data := fun d => d

/-- A constructed VIA with the timer 1 interrupt enabled (`IER` written with
`0xC0`) and its flag raised by a write to the high counter byte. -/
def VIA6522.pendingState : VIA6522 :=
  VIA6522.calls VIA6522.init [.Write 0xE 0xC0, .Write 0x5 0x00]

/-! ## The floppy controller (`wd1770.h`, `wd1770.cpp`) -/

/-- The fields of a `WD1770` object.  The registers and `command` are bytes,
`commandCyclesRemaining` is a 32-bit count, the disk image is a list of bytes. -/
structure WD1770 where
  status : Nat
  track : Nat
  sector : Nat
  data : Nat
  irq : Bool
  drq : Bool
  busy : Bool
  command : Nat
  dataPtr : Nat
  diskImage : List Nat
  diskInserted : Bool
  commandCyclesRemaining : Nat

/-- The four values `SEC_TO_CYCLES(sec)`, that is
`static_cast<uint32_t>((sec) * CPU_FREQ)`, takes in `executeCommand`.  They are
products of doubles with the run-time variable `CPU_FREQ` of `speed.h`, so the
model takes them as given: `restore` for `STEP_TIME_S * 40 + HEAD_SETTLE_S`,
`seek` for `STEP_TIME_S + HEAD_SETTLE_S`, `quickFail` for `QUICK_FAIL_S` and
`revolution` for `REVOLUTION_S`. -/
structure WD1770.Timing where
  restore : Nat
  seek : Nat
  quickFail : Nat
  revolution : Nat

namespace WD1770

def STATUS_BUSY : Nat := 0x01
def STATUS_DRQ : Nat := 0x02
def STATUS_CRCERR : Nat := 0x08
def STATUS_RNF : Nat := 0x10
def STATUS_WP : Nat := 0x40
def STATUS_INTRQ : Nat := 0x80

/-- The timing values for `CPU_FREQ = 2000000.0`, the initial value in
`speed.h`, with the products taken in IEEE double arithmetic (where
`0.006 + 0.015` lies just below `0.021`). -/
def Timing.bbc : Timing := { restore := 510000, seek := 41999, quickFail := 2000, revolution := 400000 }

/-- Embeds `WD1770::reset`; `commandCyclesRemaining` is not assigned. -/
def reset (s : WD1770) : WD1770 :=
  { s with status := 0, track := 0, sector := 0, data := 0, irq := false, drq := false,
           busy := false, command := 0, dataPtr := 0, diskInserted := false, diskImage := [] }

/-- Embeds the constructor, which only calls `reset`; `n` is the value the
unassigned `commandCyclesRemaining` happens to hold. -/
def init (n : Nat) : WD1770 :=
  reset { status := 0, track := 0, sector := 0, data := 0, irq := false, drq := false,
          busy := false, command := 0, dataPtr := 0, diskImage := [], diskInserted := false,
          commandCyclesRemaining := n }

/-- Embeds `WD1770::read`: the byte returned and the state after. -/
def read (s : WD1770) (reg : Nat) : Nat × WD1770 :=
  let r := (reg % 65536) &&& 0x03
  if r = 0 then (s.status, s)
  else if r = 1 then (s.track, s)
  else if r = 2 then (s.sector, s)
  else (s.data, { s with drq := false, status := s.status &&& (0xFF ^^^ STATUS_DRQ) })

/-- Embeds `WD1770::insertDisk`. -/
def insertDisk (s : WD1770) (image : List Nat) : WD1770 :=
  { s with diskImage := image, diskInserted := true }

/-- Embeds `WD1770::ejectDisk`. -/
def ejectDisk (s : WD1770) : WD1770 :=
  { s with diskImage := [], diskInserted := false }

/-- Embeds `WD1770::executeCommand`.  The local `error` is assigned and then
only tested by an empty `if`, so it has no counterpart here. -/
def executeCommand (t : Timing) (s : WD1770) (cmd : Nat) : WD1770 :=
  let cmd := cmd % 256
  let s := { s with command := cmd, busy := true }
  let s := { s with status := (s.status ||| STATUS_BUSY) % 256 }
  let s := { s with irq := false, drq := false }
  let s := { s with status := s.status &&& (0xFF ^^^ (STATUS_DRQ ||| STATUS_INTRQ)) }
  if cmd &&& 0xF0 = 0x00 then
    { s with commandCyclesRemaining := t.restore % 4294967296 }
  else if cmd &&& 0xF0 = 0x10 then
    { s with commandCyclesRemaining := t.seek % 4294967296 }
  else if cmd &&& 0xF0 = 0x80 then
    if !s.diskInserted then
      { s with status := (s.status ||| STATUS_RNF) % 256,
               commandCyclesRemaining := t.quickFail % 4294967296 }
    else
      { s with data := 0x00, drq := true, status := (s.status ||| STATUS_DRQ) % 256,
               commandCyclesRemaining := t.revolution % 4294967296 }
  else if cmd &&& 0xF0 = 0xA0 then
    if !s.diskInserted then
      { s with status := (s.status ||| STATUS_WP) % 256,
               commandCyclesRemaining := t.quickFail % 4294967296 }
    else
      { s with commandCyclesRemaining := t.revolution % 4294967296 }
  else
    { s with commandCyclesRemaining := t.quickFail % 4294967296 }

/-- Embeds `WD1770::write`. -/
def write (t : Timing) (s : WD1770) (reg value : Nat) : WD1770 :=
  let r := (reg % 65536) &&& 0x03
  let value := value % 256
  if r = 0 then executeCommand t s value
  else if r = 1 then { s with track := value }
  else if r = 2 then { s with sector := value }
  else { s with data := value, drq := false, status := s.status &&& (0xFF ^^^ STATUS_DRQ) }

/-- Embeds `WD1770::finishCommand`. -/
def finishCommand (s : WD1770) (error : Bool) : WD1770 :=
  let s := { s with busy := false, status := s.status &&& (0xFF ^^^ STATUS_BUSY) }
  let s := if error then { s with status := (s.status ||| STATUS_CRCERR) % 256 } else s
  { s with irq := true, status := (s.status ||| STATUS_INTRQ) % 256 }

/-- Embeds `WD1770::tick`. -/
def tick (s : WD1770) : WD1770 :=
  if s.busy && decide (s.commandCyclesRemaining > 0) then
    let s := { s with commandCyclesRemaining := s.commandCyclesRemaining - 1 }
    if s.commandCyclesRemaining = 0 then
      finishCommand s ((s.status &&& (STATUS_RNF ||| STATUS_WP)) != 0)
    else s
  else s

end WD1770

/-! ## The TIA: the stored pixel and the calls of the bus -/

namespace TIA

/-- The colour index `renderDot` stores at `framebuffer_[line_][dot_]`. -/
def pixel (s : TIA) : Nat := (renderDot s).framebuffer s.line s.dot

/-- The local `pfLeft` of `renderDot`: the 20-bit playfield pattern. -/
def pfLeft (s : TIA) : Nat :=
  ((reverse4 (((s.pf0 >>> 4) &&& 0x0F) % 256) <<< 16) ||| (s.pf1 <<< 8) ||| s.pf2) % 4294967296

/-- The local `bitIdx` of `renderDot`: `(dot_ % (ColorClocksPerScanline / 2)) / 4`. -/
def bitIdx (s : TIA) : Int := Int.tdiv (Int.tmod s.dot (ColorClocksPerScanline / 2)) 4

/-- The local `fromLeft` of `renderDot`: `19 - bitIdx`, the shift count in
`pfLeft >> fromLeft`. -/
def fromLeft (s : TIA) : Int := 19 - bitIdx s

/-- The five objects: player0, player1, missile0, missile1, ball. -/
def objects (s : TIA) : List Object :=
  [s.player0, s.player1, s.missile0, s.missile1, s.ball]

/-- The public calls that change or read a `TIA` object. -/
inductive Call where
  | write (addr v : Nat)
  | read (addr : Nat)
  | reset (ntsc : Bool)
  | tick (colorClocks : Int)

/-- The state after one call; `read` returns a byte and leaves the state as it
is. -/
def call (s : TIA) : Call → TIA
  | .write addr v => write s addr v
  | .read _ => s
  | .reset ntsc => reset s ntsc
  | .tick colorClocks => (tick s colorClocks).2

/-- The state after a sequence of calls, the first call of the list first. -/
def calls (s : TIA) (cs : List Call) : TIA := cs.foldl call s

/-- A constructed TIA with `0x01` written to PF2 and the beam at dot 48, the
first dot of the PF2 part of the left half. -/
def pf2State : TIA := { write init 0x0F 0x01 with dot := 48 }

/-- A constructed TIA after the writes `VBLANK = 0x02` and `ENAM0 = 0x02`: the
latch is set and missile 0, at position 0, is enabled; the beam is at dot 0. -/
def vblankState : TIA := calls init [.write 0x01 0x02, .write 0x1D 0x02]

/-- A constructed TIA after a tick of 80 colour clocks. -/
def dot80State : TIA := calls init [.tick 80]

end TIA

namespace TIA

/-- The position and motion of an object are within a scan line and a signed
nibble. -/
def Object.inRange (o : Object) : Prop :=
  0 ≤ o.x ∧ o.x ≤ 227 ∧ -8 ≤ o.motion ∧ o.motion ≤ 7

instance (o : Object) : Decidable o.inRange := by
  unfold Object.inRange
  infer_instance

/-- The beam is inside the frame and every object is in range. -/
def inBounds (s : TIA) : Prop :=
  (0 ≤ s.dot ∧ s.dot ≤ 227) ∧ (0 ≤ s.line ∧ s.line ≤ 261) ∧
  s.player0.inRange ∧ s.player1.inRange ∧ s.missile0.inRange ∧ s.missile1.inRange ∧
  s.ball.inRange

instance (s : TIA) : Decidable (inBounds s) := by
  unfold inBounds
  infer_instance

end TIA

/-! ## Bit-level facts -/

theorem or_mod_256 (x y : Nat) : (x ||| y) % 256 = (x % 256 ||| y % 256) := by
  apply Nat.eq_of_testBit_eq
  intro i
  have h := Nat.testBit_mod_two_pow (x ||| y) 8 i
  have hx := Nat.testBit_mod_two_pow x 8 i
  have hy := Nat.testBit_mod_two_pow y 8 i
  norm_num at h hx hy
  rw [h, Nat.testBit_or, hx, hy]
  cases decide (i < 8) <;> simp

theorem and_mod_256 (x y : Nat) : (x &&& y) % 256 = (x % 256 &&& y % 256) := by
  apply Nat.eq_of_testBit_eq
  intro i
  have h := Nat.testBit_mod_two_pow (x &&& y) 8 i
  have hx := Nat.testBit_mod_two_pow x 8 i
  have hy := Nat.testBit_mod_two_pow y 8 i
  norm_num at h hx hy
  rw [h, Nat.testBit_and, hx, hy]
  cases decide (i < 8) <;> simp

namespace Flags

theorem Set_mod (reg flag : Nat) (v : Bool) : Set reg flag v = Set (reg % 256) flag v := by
  unfold Set
  split
  · rw [or_mod_256, or_mod_256 (reg % 256)]; simp
  · rw [and_mod_256, and_mod_256 (reg % 256)]; simp

theorem Set_lt (reg flag : Nat) (v : Bool) : Set reg flag v < 256 := by
  unfold Set; split <;> exact Nat.mod_lt _ (by decide)

theorem SetZN_lt (reg value : Nat) : SetZN reg value < 256 := Set_lt _ _ _

set_option maxRecDepth 1000000 in
set_option maxHeartbeats 4000000 in
theorem Get_Set_byte : ∀ r < 256, ∀ i < 8, ∀ j < 8, ∀ v : Bool,
    Get (Set r (1 <<< i) v) (1 <<< j) = if i = j then v else Get r (1 <<< j) := by
  decide

theorem Get_mod (reg : Nat) : ∀ j < 8, Get (reg % 256) (1 <<< j) = Get reg (1 <<< j) := by
  intro j hj
  unfold Get
  have h : ((reg % 256) &&& (1 <<< j)) = (reg &&& (1 <<< j)) := by
    have h1 : (1 <<< j) % 256 = 1 <<< j := by
      interval_cases j <;> rfl
    have := and_mod_256 reg (1 <<< j)
    rw [h1] at this
    rw [← this]
    apply Nat.mod_eq_of_lt
    have : reg &&& (1 <<< j) ≤ 1 <<< j := Nat.and_le_right
    have : (1 <<< j) < 256 := by interval_cases j <;> decide
    omega
  rw [h]

/-- Reading flag `1 << j` after `Set` of flag `1 << i`: the stored value when the
flags coincide, the old flag otherwise. -/
theorem Get_Set (reg : Nat) (i j : Nat) (hi : i < 8) (hj : j < 8) (v : Bool) :
    Get (Set reg (1 <<< i) v) (1 <<< j) = if i = j then v else Get reg (1 <<< j) := by
  rw [Set_mod, Get_Set_byte (reg % 256) (Nat.mod_lt _ (by decide)) i hi j hj v, Get_mod reg j hj]

end Flags

namespace Flags

/-- After `SetZN(v)` the Z flag is set iff `v` is zero and the N flag iff bit 7 of
`v` is set, whatever the register held. -/
theorem SetZN_spec (reg v : Nat) :
    (Get (SetZN reg v) Z = true ↔ v = 0) ∧
    (Get (SetZN reg v) N = true ↔ v &&& 0x80 ≠ 0) := by
  unfold SetZN Z N
  constructor
  · rw [Get_Set _ 7 1 (by decide) (by decide), Get_Set _ 1 1 (by decide) (by decide)]
    simp
  · rw [Get_Set _ 7 7 (by decide) (by decide)]
    simp

end Flags

/-- C1: for every status byte and every byte `v`, after `SetZN(v)` the Z flag is
set iff `v == 0` and the N flag is set iff `(v & 0x80) != 0`. -/
theorem Flags_SetZN_Z_iff_zero_N_iff_bit7 (reg v : Nat) :
    (Flags.Get (Flags.SetZN reg v) Flags.Z = true ↔ v = 0) ∧
    (Flags.Get (Flags.SetZN reg v) Flags.N = true ↔ v &&& 0x80 ≠ 0) :=
  Flags.SetZN_spec reg v

set_option linter.unnecessarySeqFocus false

/-! ## The bus -/

namespace Memory

variable {D : Type}

theorem busAddr_lt (m : Memory D) (a : Nat) : busAddr m a < 65536 := by
  unfold busAddr
  split
  · have : (a % 65536) &&& 0x1FFF ≤ 0x1FFF := Nat.and_le_right
    omega
  · exact Nat.mod_lt _ (by decide)

/-- Whether the ROM switch returns does not depend on the byte written. -/
theorem romSwitch_isNone (c : Chips D) (m : Memory D) (x v w : Nat) :
    (romSwitch c m x v).isNone = (romSwitch c m x w).isNone := by
  obtain ⟨ch, u, rs, dt⟩ := m
  cases rs <;> simp only [romSwitch] <;> (repeat' split) <;> rfl

/-- Reads of plain RAM fetch the array and leave the memory as it is. -/
theorem Read_plainRAM (b : Build) (c : Chips D) (m : Memory D) (a : Nat)
    (h : plainRAM b c m a = true) :
    Read b c m a = (m.data (busAddr m a) % 256, m) := by
  unfold plainRAM at h
  simp only [Bool.and_eq_true, Bool.not_eq_true'] at h
  obtain ⟨⟨⟨⟨⟨⟨⟨⟨⟨⟨⟨⟨h1, h2⟩, h3⟩, h4⟩, h5⟩, h6⟩, h7⟩, h8⟩, h9⟩, h10⟩, h11⟩, h12⟩, h13⟩ := h
  unfold Read
  simp only [h1, h3, h4, h5, h6, h7, h8, h9, h10, h11, h12, h13, Bool.false_and,
    Bool.false_eq_true, if_false]

/-- Writes to plain RAM store the byte into the array and touch nothing else. -/
theorem Write_plainRAM (b : Build) (c : Chips D) (m : Memory D) (a v : Nat)
    (h : plainRAM b c m a = true) :
    Write b c m a v = { m with data := store m.data (busAddr m a) (v % 256) } := by
  unfold plainRAM at h
  simp only [Bool.and_eq_true, Bool.not_eq_true', Bool.or_eq_true] at h
  obtain ⟨⟨⟨⟨⟨⟨⟨⟨⟨⟨⟨⟨h1, h2⟩, h3⟩, h4⟩, h5⟩, h6⟩, h7⟩, h8⟩, h9⟩, h10⟩, h11⟩, h12⟩, h13⟩ := h
  have hrom : (if b.USE_ROM_PROTECT = true then romSwitch c m (busAddr m a) (v % 256)
      else none) = none := by
    split
    · rename_i hp
      have h2' := h2.resolve_left (by simp [hp])
      rw [romSwitch_isNone c m _ 0 (v % 256)] at h2'
      exact Option.isNone_iff_eq_none.mp h2'
    · rfl
  unfold Write
  simp only [hrom]
  unfold writeDispatch
  simp only [h1, h3, h4, h5, h6, h7, h8, h9, h10, h11, h12, h13, Bool.false_and,
    Bool.false_eq_true, if_false]

/-- Plain RAM stays plain RAM when only the array changes. -/
theorem plainRAM_data (b : Build) (c : Chips D) (m : Memory D) (dt : Nat → Nat) (a : Nat) :
    plainRAM b c { m with data := dt } a = plainRAM b c m a := by
  have hs : ∀ x v, (romSwitch c { m with data := dt } x v).isNone = (romSwitch c m x v).isNone := by
    intro x v
    obtain ⟨ch, u, rs, d0⟩ := m
    cases rs <;> simp only [romSwitch] <;> (repeat' split) <;> rfl
  simp only [plainRAM, busAddr, hs]

/-- On plain RAM, a write followed by a read of the same address returns the
byte written. -/
theorem Write_Read_plainRAM (b : Build) (c : Chips D) (m : Memory D) (a v : Nat)
    (h : plainRAM b c m a = true) :
    (Read b c (Write b c m a v) a).1 = v % 256 := by
  rw [Write_plainRAM b c m a v h, Read_plainRAM b c _ a (by rw [plainRAM_data]; exact h)]
  simp [busAddr, store]

end Memory

/-- Inside a range the memory map lists for the profile, the ROM switch returns
with the memory untouched. -/
theorem romSwitch_listed {D : Type} (c : Chips D) (m : Memory D) (a v lo hi : Nat)
    (hrange : (lo, hi) ∈ listedRanges m.romSpace) (hlo : lo ≤ a) (hhi : a ≤ hi) :
    Memory.romSwitch c m a v = some m := by
  obtain ⟨ch, u, rs, dt⟩ := m
  simp only at hrange
  cases rs <;> simp only [listedRanges, List.mem_cons, List.mem_singleton, Prod.mk.injEq,
      List.not_mem_nil, or_false] at hrange <;>
    (simp only [Memory.romSwitch]
     rw [if_pos]
     first
     | omega
     | (simp only [Bool.or_eq_true, Bool.and_eq_true, decide_eq_true_eq]
        omega))

/-- A range the memory map lists ends inside the 16-bit address space. -/
theorem listedRanges_le (rs : RomSpace) (lo hi : Nat) (h : (lo, hi) ∈ listedRanges rs) :
    hi ≤ 0xFFFF := by
  cases rs <;> simp only [listedRanges, List.mem_cons, List.mem_singleton, Prod.mk.injEq,
      List.not_mem_nil, or_false] at h <;> omega

/-- C2 (code defect): on the build with only `USE_6529` defined, no ROM
protection and 6507 masking off, address `0x0200` is outside the single port
window `0x1C00`, yet `Write(0x0200, 0x42)` stores nothing, because the `return`
that follows `io.write` is unconditional: the following `Read(0x0200)` returns
`0x00` and not `0x42`. -/
theorem Memory_Write_Read_lost_on_6529_build :
    (0x0200 : Nat) ≠ 0x1C00 ∧
    (Memory.romSwitch Chips.none (Memory.fresh Build.only6529 .NONE) 0x0200 0x42).isNone = true ∧
    (Memory.Read Build.only6529 Chips.none
      (Memory.Write Build.only6529 Chips.none (Memory.fresh Build.only6529 .NONE) 0x0200 0x42)
      0x0200).1 = 0x00 := by
  refine ⟨by decide, rfl, rfl⟩

/-- C3: with ROM protection compiled in and 6507 masking off, a write to an
address inside one of the ranges the memory map lists for the selected profile
is dropped: the memory is unchanged, so a read of that address returns what it
returned before, for every byte written. -/
theorem Memory_Write_dropped_in_listed_range {D : Type} (b : Build) (c : Chips D)
    (m : Memory D) (a v lo hi : Nat)
    (hprot : b.USE_ROM_PROTECT = true) (h6507 : m.use6507addresspace = false)
    (hrange : (lo, hi) ∈ listedRanges m.romSpace) (hlo : lo ≤ a) (hhi : a ≤ hi) :
    Memory.Write b c m a v = m ∧
    (Memory.Read b c (Memory.Write b c m a v) a).1 = (Memory.Read b c m a).1 := by
  have hw : Memory.Write b c m a v = m := by
    have hle := listedRanges_le _ _ _ hrange
    have ha : a % 65536 = a := Nat.mod_eq_of_lt (by omega)
    unfold Memory.Write
    simp only [Memory.busAddr, h6507, hprot, Bool.false_eq_true, if_false, if_true, ha,
      romSwitch_listed c m a (v % 256) lo hi hrange hlo hhi]
  rw [hw]
  exact ⟨rfl, rfl⟩

/-- C3, instance: on the C64 profile a write of `0x42` to `0xE000` is dropped
and the byte read back is the `0x00` that was there. -/
theorem Memory_Write_dropped_in_listed_range_witness :
    Memory.Write Build.romProtect Chips.none (Memory.fresh Build.romProtect .C64) 0xE000 0x42
      = Memory.fresh Build.romProtect .C64 ∧
    (Memory.Read Build.romProtect Chips.none
      (Memory.Write Build.romProtect Chips.none (Memory.fresh Build.romProtect .C64) 0xE000 0x42)
      0xE000).1
      = (Memory.Read Build.romProtect Chips.none (Memory.fresh Build.romProtect .C64) 0xE000).1 :=
  Memory_Write_dropped_in_listed_range Build.romProtect Chips.none
    (Memory.fresh Build.romProtect .C64) 0xE000 0x42 0xE000 0xFFFF rfl rfl
    (by simp [Memory.fresh, Memory.init, Memory.Reset, listedRanges]) (by decide) (by decide)

/-! ## The CPU: reset -/

namespace Memory

variable {D : Type}

theorem ite_fst_lt {α : Type} (p : Prop) [Decidable p] (x y : Nat × α)
    (hx : x.1 < 256) (hy : y.1 < 256) : (if p then x else y).1 < 256 := by
  split <;> assumption

/-- Embeds `Memory::Read` returns a byte. -/
theorem Read_lt (b : Build) (c : Chips D) (m : Memory D) (a : Nat) : (Read b c m a).1 < 256 := by
  have h : ∀ x : Nat, x % 256 < 256 := fun x => Nat.mod_lt x (Nat.succ_pos 255)
  simp only [Read, chipRead]
  repeat' (first | exact h _ | apply ite_fst_lt)

end Memory

/-- A little-endian word assembled from two bytes fits sixteen bits. -/
theorem word_lt (lo hi : Nat) (hlo : lo < 256) (hhi : hi < 256) : lo ||| (hi <<< 8) < 65536 := by
  have h1 : lo < 2 ^ 16 := by omega
  have h2 : hi <<< 8 < 2 ^ 16 := by
    rw [Nat.shiftLeft_eq]; omega
  exact Nat.or_lt_two_pow h1 h2

namespace CPU6502

variable {D : Type} (b : Build) (c : Chips D)

theorem read_lt (s : CPU6502 D) (a : Nat) : (read b c s a).1 < 256 :=
  Memory.Read_lt b c s.mem a

end CPU6502

/-- C4 (code defect): `Reset` assigns `SP = 0xFD` and then decrements `SP` once
after each of its three dummy stack reads, so for every memory, every earlier
CPU state and every random draw it returns with `SP = 0xFA`, not `0xFD`. -/
theorem CPU6502_Reset_leaves_SP_0xFA {D : Type} (b : Build) (c : Chips D) (s : CPU6502 D)
    (memory : Memory D) (is6507 : Bool) (rA rX rY : Nat) :
    (CPU6502.Reset b c s memory is6507 rA rX rY).SP = 0xFA ∧
    (CPU6502.Reset b c s memory is6507 rA rX rY).SP ≠ 0xFD := by
  have h : (CPU6502.Reset b c s memory is6507 rA rX rY).SP = 0xFA := by
    dsimp only [CPU6502.Reset, CPU6502.read]
  rw [h]
  exact ⟨rfl, by decide⟩

/-- C5: after `Reset`, on any memory, the status byte is exactly `I | U = 0x24`
and `PC` is `lo | (hi << 8)`, where `lo` and `hi` are the bytes `Read(0xFFFC)`
and `Read(0xFFFD)` return, in that order, on the memory as the three dummy
stack reads at `0x01FD`, `0x01FC`, `0x01FB` left it. -/
theorem CPU6502_Reset_P_and_PC {D : Type} (b : Build) (c : Chips D) (s : CPU6502 D)
    (memory : Memory D) (is6507 : Bool) (rA rX rY : Nat) :
    let m0 : Memory D := { memory with use6507addresspace := is6507 }
    let m1 := (Memory.Read b c m0 0x01FD).2
    let m2 := (Memory.Read b c m1 0x01FC).2
    let m3 := (Memory.Read b c m2 0x01FB).2
    let lo := Memory.Read b c m3 0xFFFC
    let hi := Memory.Read b c lo.2 0xFFFD
    (CPU6502.Reset b c s memory is6507 rA rX rY).P = 0x24 ∧
    (CPU6502.Reset b c s memory is6507 rA rX rY).PC = lo.1 ||| (hi.1 <<< 8) ∧
    (CPU6502.Reset b c s memory is6507 rA rX rY).mem = hi.2 := by
  intro m0 m1 m2 m3 lo hi
  refine ⟨?_, ?_, ?_⟩
  · dsimp only [CPU6502.Reset, CPU6502.read]
    rfl
  · have h : (CPU6502.Reset b c s memory is6507 rA rX rY).PC
        = (lo.1 ||| (hi.1 <<< 8)) % 65536 := by
      dsimp only [CPU6502.Reset, CPU6502.read]
      rfl
    rw [h]
    exact Nat.mod_eq_of_lt (word_lt _ _ (Memory.Read_lt _ _ _ _) (Memory.Read_lt _ _ _ _))
  · dsimp only [CPU6502.Reset, CPU6502.read]
    rfl

/-! ## The CPU: what no instruction touches

No addressing helper and no operation writes `cycles`, `running`, `halted`,
`isNMOS6507` or `throttle_counter`; only the arms of `Execute` that halt or
stop the CPU, the interrupt handlers and the run loop do. -/

namespace CPU6502

variable {D : Type} (b : Build) (c : Chips D)

theorem Addr_Immediate_ctl (s : CPU6502 D) :
    ((Addr_Immediate s).2).cycles = s.cycles ∧
    ((Addr_Immediate s).2).running = s.running ∧
    ((Addr_Immediate s).2).halted = s.halted ∧
    ((Addr_Immediate s).2).isNMOS6507 = s.isNMOS6507 ∧
    ((Addr_Immediate s).2).throttle_counter = s.throttle_counter := by
  refine ⟨?_, ?_, ?_, ?_, ?_⟩ <;>
    (simp only [Addr_Immediate, apply_ite CPU6502.cycles, apply_ite CPU6502.running, apply_ite CPU6502.halted, apply_ite CPU6502.isNMOS6507, apply_ite CPU6502.throttle_counter]
     try dsimp only [read, write, setFlag, setZN, Push, Pop, Fetch8, Fetch16, ASL_Mem, LSR_Mem, ROL_Mem, ROR_Mem]
     try simp only [ite_self])

theorem Addr_ZeroPage_ctl (s : CPU6502 D) :
    ((Addr_ZeroPage b c s).2).cycles = s.cycles ∧
    ((Addr_ZeroPage b c s).2).running = s.running ∧
    ((Addr_ZeroPage b c s).2).halted = s.halted ∧
    ((Addr_ZeroPage b c s).2).isNMOS6507 = s.isNMOS6507 ∧
    ((Addr_ZeroPage b c s).2).throttle_counter = s.throttle_counter := by
  refine ⟨?_, ?_, ?_, ?_, ?_⟩ <;>
    (simp only [Addr_ZeroPage, apply_ite CPU6502.cycles, apply_ite CPU6502.running, apply_ite CPU6502.halted, apply_ite CPU6502.isNMOS6507, apply_ite CPU6502.throttle_counter]
     try dsimp only [read, write, setFlag, setZN, Push, Pop, Fetch8, Fetch16, ASL_Mem, LSR_Mem, ROL_Mem, ROR_Mem]
     try simp only [ite_self])

theorem Addr_ZeroPageX_ctl (s : CPU6502 D) :
    ((Addr_ZeroPageX b c s).2).cycles = s.cycles ∧
    ((Addr_ZeroPageX b c s).2).running = s.running ∧
    ((Addr_ZeroPageX b c s).2).halted = s.halted ∧
    ((Addr_ZeroPageX b c s).2).isNMOS6507 = s.isNMOS6507 ∧
    ((Addr_ZeroPageX b c s).2).throttle_counter = s.throttle_counter := by
  refine ⟨?_, ?_, ?_, ?_, ?_⟩ <;>
    (simp only [Addr_ZeroPageX, apply_ite CPU6502.cycles, apply_ite CPU6502.running, apply_ite CPU6502.halted, apply_ite CPU6502.isNMOS6507, apply_ite CPU6502.throttle_counter]
     try dsimp only [read, write, setFlag, setZN, Push, Pop, Fetch8, Fetch16, ASL_Mem, LSR_Mem, ROL_Mem, ROR_Mem]
     try simp only [ite_self])

theorem Addr_ZeroPageY_ctl (s : CPU6502 D) :
    ((Addr_ZeroPageY b c s).2).cycles = s.cycles ∧
    ((Addr_ZeroPageY b c s).2).running = s.running ∧
    ((Addr_ZeroPageY b c s).2).halted = s.halted ∧
    ((Addr_ZeroPageY b c s).2).isNMOS6507 = s.isNMOS6507 ∧
    ((Addr_ZeroPageY b c s).2).throttle_counter = s.throttle_counter := by
  refine ⟨?_, ?_, ?_, ?_, ?_⟩ <;>
    (simp only [Addr_ZeroPageY, apply_ite CPU6502.cycles, apply_ite CPU6502.running, apply_ite CPU6502.halted, apply_ite CPU6502.isNMOS6507, apply_ite CPU6502.throttle_counter]
     try dsimp only [read, write, setFlag, setZN, Push, Pop, Fetch8, Fetch16, ASL_Mem, LSR_Mem, ROL_Mem, ROR_Mem]
     try simp only [ite_self])

theorem Addr_Absolute_ctl (s : CPU6502 D) :
    ((Addr_Absolute b c s).2).cycles = s.cycles ∧
    ((Addr_Absolute b c s).2).running = s.running ∧
    ((Addr_Absolute b c s).2).halted = s.halted ∧
    ((Addr_Absolute b c s).2).isNMOS6507 = s.isNMOS6507 ∧
    ((Addr_Absolute b c s).2).throttle_counter = s.throttle_counter := by
  refine ⟨?_, ?_, ?_, ?_, ?_⟩ <;>
    (simp only [Addr_Absolute, apply_ite CPU6502.cycles, apply_ite CPU6502.running, apply_ite CPU6502.halted, apply_ite CPU6502.isNMOS6507, apply_ite CPU6502.throttle_counter]
     try dsimp only [read, write, setFlag, setZN, Push, Pop, Fetch8, Fetch16, ASL_Mem, LSR_Mem, ROL_Mem, ROR_Mem]
     try simp only [ite_self])

theorem Addr_AbsoluteX_ctl (s : CPU6502 D) :
    ((Addr_AbsoluteX b c s).2).cycles = s.cycles ∧
    ((Addr_AbsoluteX b c s).2).running = s.running ∧
    ((Addr_AbsoluteX b c s).2).halted = s.halted ∧
    ((Addr_AbsoluteX b c s).2).isNMOS6507 = s.isNMOS6507 ∧
    ((Addr_AbsoluteX b c s).2).throttle_counter = s.throttle_counter := by
  refine ⟨?_, ?_, ?_, ?_, ?_⟩ <;>
    (simp only [Addr_AbsoluteX, apply_ite CPU6502.cycles, apply_ite CPU6502.running, apply_ite CPU6502.halted, apply_ite CPU6502.isNMOS6507, apply_ite CPU6502.throttle_counter]
     try dsimp only [read, write, setFlag, setZN, Push, Pop, Fetch8, Fetch16, ASL_Mem, LSR_Mem, ROL_Mem, ROR_Mem]
     try simp only [ite_self])

theorem Addr_AbsoluteY_ctl (s : CPU6502 D) :
    ((Addr_AbsoluteY b c s).2).cycles = s.cycles ∧
    ((Addr_AbsoluteY b c s).2).running = s.running ∧
    ((Addr_AbsoluteY b c s).2).halted = s.halted ∧
    ((Addr_AbsoluteY b c s).2).isNMOS6507 = s.isNMOS6507 ∧
    ((Addr_AbsoluteY b c s).2).throttle_counter = s.throttle_counter := by
  refine ⟨?_, ?_, ?_, ?_, ?_⟩ <;>
    (simp only [Addr_AbsoluteY, apply_ite CPU6502.cycles, apply_ite CPU6502.running, apply_ite CPU6502.halted, apply_ite CPU6502.isNMOS6507, apply_ite CPU6502.throttle_counter]
     try dsimp only [read, write, setFlag, setZN, Push, Pop, Fetch8, Fetch16, ASL_Mem, LSR_Mem, ROL_Mem, ROR_Mem]
     try simp only [ite_self])

theorem Addr_IndirectX_ctl (s : CPU6502 D) :
    ((Addr_IndirectX b c s).2).cycles = s.cycles ∧
    ((Addr_IndirectX b c s).2).running = s.running ∧
    ((Addr_IndirectX b c s).2).halted = s.halted ∧
    ((Addr_IndirectX b c s).2).isNMOS6507 = s.isNMOS6507 ∧
    ((Addr_IndirectX b c s).2).throttle_counter = s.throttle_counter := by
  refine ⟨?_, ?_, ?_, ?_, ?_⟩ <;>
    (simp only [Addr_IndirectX, apply_ite CPU6502.cycles, apply_ite CPU6502.running, apply_ite CPU6502.halted, apply_ite CPU6502.isNMOS6507, apply_ite CPU6502.throttle_counter]
     try dsimp only [read, write, setFlag, setZN, Push, Pop, Fetch8, Fetch16, ASL_Mem, LSR_Mem, ROL_Mem, ROR_Mem]
     try simp only [ite_self])

theorem Addr_IndirectY_ctl (s : CPU6502 D) :
    ((Addr_IndirectY b c s).2).cycles = s.cycles ∧
    ((Addr_IndirectY b c s).2).running = s.running ∧
    ((Addr_IndirectY b c s).2).halted = s.halted ∧
    ((Addr_IndirectY b c s).2).isNMOS6507 = s.isNMOS6507 ∧
    ((Addr_IndirectY b c s).2).throttle_counter = s.throttle_counter := by
  refine ⟨?_, ?_, ?_, ?_, ?_⟩ <;>
    (simp only [Addr_IndirectY, apply_ite CPU6502.cycles, apply_ite CPU6502.running, apply_ite CPU6502.halted, apply_ite CPU6502.isNMOS6507, apply_ite CPU6502.throttle_counter]
     try dsimp only [read, write, setFlag, setZN, Push, Pop, Fetch8, Fetch16, ASL_Mem, LSR_Mem, ROL_Mem, ROR_Mem]
     try simp only [ite_self])

theorem Fetch8_ctl (s : CPU6502 D) :
    ((Fetch8 b c s).2).cycles = s.cycles ∧
    ((Fetch8 b c s).2).running = s.running ∧
    ((Fetch8 b c s).2).halted = s.halted ∧
    ((Fetch8 b c s).2).isNMOS6507 = s.isNMOS6507 ∧
    ((Fetch8 b c s).2).throttle_counter = s.throttle_counter := by
  refine ⟨?_, ?_, ?_, ?_, ?_⟩ <;>
    (simp only [Fetch8, apply_ite CPU6502.cycles, apply_ite CPU6502.running, apply_ite CPU6502.halted, apply_ite CPU6502.isNMOS6507, apply_ite CPU6502.throttle_counter]
     try dsimp only [read, write, setFlag, setZN, Push, Pop, Fetch8, Fetch16, ASL_Mem, LSR_Mem, ROL_Mem, ROR_Mem]
     try simp only [ite_self])

theorem Fetch16_ctl (s : CPU6502 D) :
    ((Fetch16 b c s).2).cycles = s.cycles ∧
    ((Fetch16 b c s).2).running = s.running ∧
    ((Fetch16 b c s).2).halted = s.halted ∧
    ((Fetch16 b c s).2).isNMOS6507 = s.isNMOS6507 ∧
    ((Fetch16 b c s).2).throttle_counter = s.throttle_counter := by
  refine ⟨?_, ?_, ?_, ?_, ?_⟩ <;>
    (simp only [Fetch16, apply_ite CPU6502.cycles, apply_ite CPU6502.running, apply_ite CPU6502.halted, apply_ite CPU6502.isNMOS6507, apply_ite CPU6502.throttle_counter]
     try dsimp only [read, write, setFlag, setZN, Push, Pop, Fetch8, Fetch16, ASL_Mem, LSR_Mem, ROL_Mem, ROR_Mem]
     try simp only [ite_self])

theorem Pop_ctl (s : CPU6502 D) :
    ((Pop b c s).2).cycles = s.cycles ∧
    ((Pop b c s).2).running = s.running ∧
    ((Pop b c s).2).halted = s.halted ∧
    ((Pop b c s).2).isNMOS6507 = s.isNMOS6507 ∧
    ((Pop b c s).2).throttle_counter = s.throttle_counter := by
  refine ⟨?_, ?_, ?_, ?_, ?_⟩ <;>
    (simp only [Pop, apply_ite CPU6502.cycles, apply_ite CPU6502.running, apply_ite CPU6502.halted, apply_ite CPU6502.isNMOS6507, apply_ite CPU6502.throttle_counter]
     try dsimp only [read, write, setFlag, setZN, Push, Pop, Fetch8, Fetch16, ASL_Mem, LSR_Mem, ROL_Mem, ROR_Mem]
     try simp only [ite_self])

theorem LDA_ctl (s : CPU6502 D) (a : Nat) :
    (LDA b c s a).cycles = s.cycles ∧
    (LDA b c s a).running = s.running ∧
    (LDA b c s a).halted = s.halted ∧
    (LDA b c s a).isNMOS6507 = s.isNMOS6507 ∧
    (LDA b c s a).throttle_counter = s.throttle_counter := by
  refine ⟨?_, ?_, ?_, ?_, ?_⟩ <;>
    (simp only [LDA, apply_ite CPU6502.cycles, apply_ite CPU6502.running, apply_ite CPU6502.halted, apply_ite CPU6502.isNMOS6507, apply_ite CPU6502.throttle_counter]
     try dsimp only [read, write, setFlag, setZN, Push, Pop, Fetch8, Fetch16, ASL_Mem, LSR_Mem, ROL_Mem, ROR_Mem]
     try simp only [ite_self])

theorem LDX_ctl (s : CPU6502 D) (a : Nat) :
    (LDX b c s a).cycles = s.cycles ∧
    (LDX b c s a).running = s.running ∧
    (LDX b c s a).halted = s.halted ∧
    (LDX b c s a).isNMOS6507 = s.isNMOS6507 ∧
    (LDX b c s a).throttle_counter = s.throttle_counter := by
  refine ⟨?_, ?_, ?_, ?_, ?_⟩ <;>
    (simp only [LDX, apply_ite CPU6502.cycles, apply_ite CPU6502.running, apply_ite CPU6502.halted, apply_ite CPU6502.isNMOS6507, apply_ite CPU6502.throttle_counter]
     try dsimp only [read, write, setFlag, setZN, Push, Pop, Fetch8, Fetch16, ASL_Mem, LSR_Mem, ROL_Mem, ROR_Mem]
     try simp only [ite_self])

theorem LDY_ctl (s : CPU6502 D) (a : Nat) :
    (LDY b c s a).cycles = s.cycles ∧
    (LDY b c s a).running = s.running ∧
    (LDY b c s a).halted = s.halted ∧
    (LDY b c s a).isNMOS6507 = s.isNMOS6507 ∧
    (LDY b c s a).throttle_counter = s.throttle_counter := by
  refine ⟨?_, ?_, ?_, ?_, ?_⟩ <;>
    (simp only [LDY, apply_ite CPU6502.cycles, apply_ite CPU6502.running, apply_ite CPU6502.halted, apply_ite CPU6502.isNMOS6507, apply_ite CPU6502.throttle_counter]
     try dsimp only [read, write, setFlag, setZN, Push, Pop, Fetch8, Fetch16, ASL_Mem, LSR_Mem, ROL_Mem, ROR_Mem]
     try simp only [ite_self])

theorem STA_ctl (s : CPU6502 D) (a : Nat) :
    (STA b c s a).cycles = s.cycles ∧
    (STA b c s a).running = s.running ∧
    (STA b c s a).halted = s.halted ∧
    (STA b c s a).isNMOS6507 = s.isNMOS6507 ∧
    (STA b c s a).throttle_counter = s.throttle_counter := by
  refine ⟨?_, ?_, ?_, ?_, ?_⟩ <;>
    (simp only [STA, apply_ite CPU6502.cycles, apply_ite CPU6502.running, apply_ite CPU6502.halted, apply_ite CPU6502.isNMOS6507, apply_ite CPU6502.throttle_counter]
     try dsimp only [read, write, setFlag, setZN, Push, Pop, Fetch8, Fetch16, ASL_Mem, LSR_Mem, ROL_Mem, ROR_Mem]
     try simp only [ite_self])

theorem STX_ctl (s : CPU6502 D) (a : Nat) :
    (STX b c s a).cycles = s.cycles ∧
    (STX b c s a).running = s.running ∧
    (STX b c s a).halted = s.halted ∧
    (STX b c s a).isNMOS6507 = s.isNMOS6507 ∧
    (STX b c s a).throttle_counter = s.throttle_counter := by
  refine ⟨?_, ?_, ?_, ?_, ?_⟩ <;>
    (simp only [STX, apply_ite CPU6502.cycles, apply_ite CPU6502.running, apply_ite CPU6502.halted, apply_ite CPU6502.isNMOS6507, apply_ite CPU6502.throttle_counter]
     try dsimp only [read, write, setFlag, setZN, Push, Pop, Fetch8, Fetch16, ASL_Mem, LSR_Mem, ROL_Mem, ROR_Mem]
     try simp only [ite_self])

theorem STY_ctl (s : CPU6502 D) (a : Nat) :
    (STY b c s a).cycles = s.cycles ∧
    (STY b c s a).running = s.running ∧
    (STY b c s a).halted = s.halted ∧
    (STY b c s a).isNMOS6507 = s.isNMOS6507 ∧
    (STY b c s a).throttle_counter = s.throttle_counter := by
  refine ⟨?_, ?_, ?_, ?_, ?_⟩ <;>
    (simp only [STY, apply_ite CPU6502.cycles, apply_ite CPU6502.running, apply_ite CPU6502.halted, apply_ite CPU6502.isNMOS6507, apply_ite CPU6502.throttle_counter]
     try dsimp only [read, write, setFlag, setZN, Push, Pop, Fetch8, Fetch16, ASL_Mem, LSR_Mem, ROL_Mem, ROR_Mem]
     try simp only [ite_self])

theorem INC_ctl (s : CPU6502 D) (a : Nat) :
    (INC b c s a).cycles = s.cycles ∧
    (INC b c s a).running = s.running ∧
    (INC b c s a).halted = s.halted ∧
    (INC b c s a).isNMOS6507 = s.isNMOS6507 ∧
    (INC b c s a).throttle_counter = s.throttle_counter := by
  refine ⟨?_, ?_, ?_, ?_, ?_⟩ <;>
    (simp only [INC, apply_ite CPU6502.cycles, apply_ite CPU6502.running, apply_ite CPU6502.halted, apply_ite CPU6502.isNMOS6507, apply_ite CPU6502.throttle_counter]
     try dsimp only [read, write, setFlag, setZN, Push, Pop, Fetch8, Fetch16, ASL_Mem, LSR_Mem, ROL_Mem, ROR_Mem]
     try simp only [ite_self])

theorem DEC_ctl (s : CPU6502 D) (a : Nat) :
    (DEC b c s a).cycles = s.cycles ∧
    (DEC b c s a).running = s.running ∧
    (DEC b c s a).halted = s.halted ∧
    (DEC b c s a).isNMOS6507 = s.isNMOS6507 ∧
    (DEC b c s a).throttle_counter = s.throttle_counter := by
  refine ⟨?_, ?_, ?_, ?_, ?_⟩ <;>
    (simp only [DEC, apply_ite CPU6502.cycles, apply_ite CPU6502.running, apply_ite CPU6502.halted, apply_ite CPU6502.isNMOS6507, apply_ite CPU6502.throttle_counter]
     try dsimp only [read, write, setFlag, setZN, Push, Pop, Fetch8, Fetch16, ASL_Mem, LSR_Mem, ROL_Mem, ROR_Mem]
     try simp only [ite_self])

theorem ADC_ctl (s : CPU6502 D) (a : Nat) :
    (ADC b c s a).cycles = s.cycles ∧
    (ADC b c s a).running = s.running ∧
    (ADC b c s a).halted = s.halted ∧
    (ADC b c s a).isNMOS6507 = s.isNMOS6507 ∧
    (ADC b c s a).throttle_counter = s.throttle_counter := by
  refine ⟨?_, ?_, ?_, ?_, ?_⟩ <;>
    (simp only [ADC, apply_ite CPU6502.cycles, apply_ite CPU6502.running, apply_ite CPU6502.halted, apply_ite CPU6502.isNMOS6507, apply_ite CPU6502.throttle_counter]
     try dsimp only [read, write, setFlag, setZN, Push, Pop, Fetch8, Fetch16, ASL_Mem, LSR_Mem, ROL_Mem, ROR_Mem]
     try simp only [ite_self])

theorem SBC_ctl (s : CPU6502 D) (a : Nat) :
    (SBC b c s a).cycles = s.cycles ∧
    (SBC b c s a).running = s.running ∧
    (SBC b c s a).halted = s.halted ∧
    (SBC b c s a).isNMOS6507 = s.isNMOS6507 ∧
    (SBC b c s a).throttle_counter = s.throttle_counter := by
  refine ⟨?_, ?_, ?_, ?_, ?_⟩ <;>
    (simp only [SBC, apply_ite CPU6502.cycles, apply_ite CPU6502.running, apply_ite CPU6502.halted, apply_ite CPU6502.isNMOS6507, apply_ite CPU6502.throttle_counter]
     try dsimp only [read, write, setFlag, setZN, Push, Pop, Fetch8, Fetch16, ASL_Mem, LSR_Mem, ROL_Mem, ROR_Mem]
     try simp only [ite_self])

theorem AND_ctl (s : CPU6502 D) (a : Nat) :
    (AND b c s a).cycles = s.cycles ∧
    (AND b c s a).running = s.running ∧
    (AND b c s a).halted = s.halted ∧
    (AND b c s a).isNMOS6507 = s.isNMOS6507 ∧
    (AND b c s a).throttle_counter = s.throttle_counter := by
  refine ⟨?_, ?_, ?_, ?_, ?_⟩ <;>
    (simp only [AND, apply_ite CPU6502.cycles, apply_ite CPU6502.running, apply_ite CPU6502.halted, apply_ite CPU6502.isNMOS6507, apply_ite CPU6502.throttle_counter]
     try dsimp only [read, write, setFlag, setZN, Push, Pop, Fetch8, Fetch16, ASL_Mem, LSR_Mem, ROL_Mem, ROR_Mem]
     try simp only [ite_self])

theorem ORA_ctl (s : CPU6502 D) (a : Nat) :
    (ORA b c s a).cycles = s.cycles ∧
    (ORA b c s a).running = s.running ∧
    (ORA b c s a).halted = s.halted ∧
    (ORA b c s a).isNMOS6507 = s.isNMOS6507 ∧
    (ORA b c s a).throttle_counter = s.throttle_counter := by
  refine ⟨?_, ?_, ?_, ?_, ?_⟩ <;>
    (simp only [ORA, apply_ite CPU6502.cycles, apply_ite CPU6502.running, apply_ite CPU6502.halted, apply_ite CPU6502.isNMOS6507, apply_ite CPU6502.throttle_counter]
     try dsimp only [read, write, setFlag, setZN, Push, Pop, Fetch8, Fetch16, ASL_Mem, LSR_Mem, ROL_Mem, ROR_Mem]
     try simp only [ite_self])

theorem EOR_ctl (s : CPU6502 D) (a : Nat) :
    (EOR b c s a).cycles = s.cycles ∧
    (EOR b c s a).running = s.running ∧
    (EOR b c s a).halted = s.halted ∧
    (EOR b c s a).isNMOS6507 = s.isNMOS6507 ∧
    (EOR b c s a).throttle_counter = s.throttle_counter := by
  refine ⟨?_, ?_, ?_, ?_, ?_⟩ <;>
    (simp only [EOR, apply_ite CPU6502.cycles, apply_ite CPU6502.running, apply_ite CPU6502.halted, apply_ite CPU6502.isNMOS6507, apply_ite CPU6502.throttle_counter]
     try dsimp only [read, write, setFlag, setZN, Push, Pop, Fetch8, Fetch16, ASL_Mem, LSR_Mem, ROL_Mem, ROR_Mem]
     try simp only [ite_self])

theorem CMP_ctl (s : CPU6502 D) (a : Nat) :
    (CMP b c s a).cycles = s.cycles ∧
    (CMP b c s a).running = s.running ∧
    (CMP b c s a).halted = s.halted ∧
    (CMP b c s a).isNMOS6507 = s.isNMOS6507 ∧
    (CMP b c s a).throttle_counter = s.throttle_counter := by
  refine ⟨?_, ?_, ?_, ?_, ?_⟩ <;>
    (simp only [CMP, apply_ite CPU6502.cycles, apply_ite CPU6502.running, apply_ite CPU6502.halted, apply_ite CPU6502.isNMOS6507, apply_ite CPU6502.throttle_counter]
     try dsimp only [read, write, setFlag, setZN, Push, Pop, Fetch8, Fetch16, ASL_Mem, LSR_Mem, ROL_Mem, ROR_Mem]
     try simp only [ite_self])

theorem CPX_ctl (s : CPU6502 D) (a : Nat) :
    (CPX b c s a).cycles = s.cycles ∧
    (CPX b c s a).running = s.running ∧
    (CPX b c s a).halted = s.halted ∧
    (CPX b c s a).isNMOS6507 = s.isNMOS6507 ∧
    (CPX b c s a).throttle_counter = s.throttle_counter := by
  refine ⟨?_, ?_, ?_, ?_, ?_⟩ <;>
    (simp only [CPX, apply_ite CPU6502.cycles, apply_ite CPU6502.running, apply_ite CPU6502.halted, apply_ite CPU6502.isNMOS6507, apply_ite CPU6502.throttle_counter]
     try dsimp only [read, write, setFlag, setZN, Push, Pop, Fetch8, Fetch16, ASL_Mem, LSR_Mem, ROL_Mem, ROR_Mem]
     try simp only [ite_self])

theorem CPY_ctl (s : CPU6502 D) (a : Nat) :
    (CPY b c s a).cycles = s.cycles ∧
    (CPY b c s a).running = s.running ∧
    (CPY b c s a).halted = s.halted ∧
    (CPY b c s a).isNMOS6507 = s.isNMOS6507 ∧
    (CPY b c s a).throttle_counter = s.throttle_counter := by
  refine ⟨?_, ?_, ?_, ?_, ?_⟩ <;>
    (simp only [CPY, apply_ite CPU6502.cycles, apply_ite CPU6502.running, apply_ite CPU6502.halted, apply_ite CPU6502.isNMOS6507, apply_ite CPU6502.throttle_counter]
     try dsimp only [read, write, setFlag, setZN, Push, Pop, Fetch8, Fetch16, ASL_Mem, LSR_Mem, ROL_Mem, ROR_Mem]
     try simp only [ite_self])

theorem LAX_ctl (s : CPU6502 D) (a : Nat) :
    (LAX b c s a).cycles = s.cycles ∧
    (LAX b c s a).running = s.running ∧
    (LAX b c s a).halted = s.halted ∧
    (LAX b c s a).isNMOS6507 = s.isNMOS6507 ∧
    (LAX b c s a).throttle_counter = s.throttle_counter := by
  refine ⟨?_, ?_, ?_, ?_, ?_⟩ <;>
    (simp only [LAX, apply_ite CPU6502.cycles, apply_ite CPU6502.running, apply_ite CPU6502.halted, apply_ite CPU6502.isNMOS6507, apply_ite CPU6502.throttle_counter]
     try dsimp only [read, write, setFlag, setZN, Push, Pop, Fetch8, Fetch16, ASL_Mem, LSR_Mem, ROL_Mem, ROR_Mem]
     try simp only [ite_self])

theorem SAX_ctl (s : CPU6502 D) (a : Nat) :
    (SAX b c s a).cycles = s.cycles ∧
    (SAX b c s a).running = s.running ∧
    (SAX b c s a).halted = s.halted ∧
    (SAX b c s a).isNMOS6507 = s.isNMOS6507 ∧
    (SAX b c s a).throttle_counter = s.throttle_counter := by
  refine ⟨?_, ?_, ?_, ?_, ?_⟩ <;>
    (simp only [SAX, apply_ite CPU6502.cycles, apply_ite CPU6502.running, apply_ite CPU6502.halted, apply_ite CPU6502.isNMOS6507, apply_ite CPU6502.throttle_counter]
     try dsimp only [read, write, setFlag, setZN, Push, Pop, Fetch8, Fetch16, ASL_Mem, LSR_Mem, ROL_Mem, ROR_Mem]
     try simp only [ite_self])

theorem DCP_ctl (s : CPU6502 D) (a : Nat) :
    (DCP b c s a).cycles = s.cycles ∧
    (DCP b c s a).running = s.running ∧
    (DCP b c s a).halted = s.halted ∧
    (DCP b c s a).isNMOS6507 = s.isNMOS6507 ∧
    (DCP b c s a).throttle_counter = s.throttle_counter := by
  refine ⟨?_, ?_, ?_, ?_, ?_⟩ <;>
    (simp only [DCP, apply_ite CPU6502.cycles, apply_ite CPU6502.running, apply_ite CPU6502.halted, apply_ite CPU6502.isNMOS6507, apply_ite CPU6502.throttle_counter]
     try dsimp only [read, write, setFlag, setZN, Push, Pop, Fetch8, Fetch16, ASL_Mem, LSR_Mem, ROL_Mem, ROR_Mem]
     try simp only [ite_self])

theorem ISC_ctl (s : CPU6502 D) (a : Nat) :
    (ISC b c s a).cycles = s.cycles ∧
    (ISC b c s a).running = s.running ∧
    (ISC b c s a).halted = s.halted ∧
    (ISC b c s a).isNMOS6507 = s.isNMOS6507 ∧
    (ISC b c s a).throttle_counter = s.throttle_counter := by
  refine ⟨?_, ?_, ?_, ?_, ?_⟩ <;>
    (simp only [ISC, apply_ite CPU6502.cycles, apply_ite CPU6502.running, apply_ite CPU6502.halted, apply_ite CPU6502.isNMOS6507, apply_ite CPU6502.throttle_counter]
     try dsimp only [read, write, setFlag, setZN, Push, Pop, Fetch8, Fetch16, ASL_Mem, LSR_Mem, ROL_Mem, ROR_Mem]
     try simp only [ite_self])

theorem SLO_ctl (s : CPU6502 D) (a : Nat) :
    (SLO b c s a).cycles = s.cycles ∧
    (SLO b c s a).running = s.running ∧
    (SLO b c s a).halted = s.halted ∧
    (SLO b c s a).isNMOS6507 = s.isNMOS6507 ∧
    (SLO b c s a).throttle_counter = s.throttle_counter := by
  refine ⟨?_, ?_, ?_, ?_, ?_⟩ <;>
    (simp only [SLO, apply_ite CPU6502.cycles, apply_ite CPU6502.running, apply_ite CPU6502.halted, apply_ite CPU6502.isNMOS6507, apply_ite CPU6502.throttle_counter]
     try dsimp only [read, write, setFlag, setZN, Push, Pop, Fetch8, Fetch16, ASL_Mem, LSR_Mem, ROL_Mem, ROR_Mem]
     try simp only [ite_self])

theorem RLA_ctl (s : CPU6502 D) (a : Nat) :
    (RLA b c s a).cycles = s.cycles ∧
    (RLA b c s a).running = s.running ∧
    (RLA b c s a).halted = s.halted ∧
    (RLA b c s a).isNMOS6507 = s.isNMOS6507 ∧
    (RLA b c s a).throttle_counter = s.throttle_counter := by
  refine ⟨?_, ?_, ?_, ?_, ?_⟩ <;>
    (simp only [RLA, apply_ite CPU6502.cycles, apply_ite CPU6502.running, apply_ite CPU6502.halted, apply_ite CPU6502.isNMOS6507, apply_ite CPU6502.throttle_counter]
     try dsimp only [read, write, setFlag, setZN, Push, Pop, Fetch8, Fetch16, ASL_Mem, LSR_Mem, ROL_Mem, ROR_Mem]
     try simp only [ite_self])

theorem SRE_ctl (s : CPU6502 D) (a : Nat) :
    (SRE b c s a).cycles = s.cycles ∧
    (SRE b c s a).running = s.running ∧
    (SRE b c s a).halted = s.halted ∧
    (SRE b c s a).isNMOS6507 = s.isNMOS6507 ∧
    (SRE b c s a).throttle_counter = s.throttle_counter := by
  refine ⟨?_, ?_, ?_, ?_, ?_⟩ <;>
    (simp only [SRE, apply_ite CPU6502.cycles, apply_ite CPU6502.running, apply_ite CPU6502.halted, apply_ite CPU6502.isNMOS6507, apply_ite CPU6502.throttle_counter]
     try dsimp only [read, write, setFlag, setZN, Push, Pop, Fetch8, Fetch16, ASL_Mem, LSR_Mem, ROL_Mem, ROR_Mem]
     try simp only [ite_self])

theorem RRA_ctl (s : CPU6502 D) (a : Nat) :
    (RRA b c s a).cycles = s.cycles ∧
    (RRA b c s a).running = s.running ∧
    (RRA b c s a).halted = s.halted ∧
    (RRA b c s a).isNMOS6507 = s.isNMOS6507 ∧
    (RRA b c s a).throttle_counter = s.throttle_counter := by
  refine ⟨?_, ?_, ?_, ?_, ?_⟩ <;>
    (simp only [RRA, apply_ite CPU6502.cycles, apply_ite CPU6502.running, apply_ite CPU6502.halted, apply_ite CPU6502.isNMOS6507, apply_ite CPU6502.throttle_counter]
     try dsimp only [read, write, setFlag, setZN, Push, Pop, Fetch8, Fetch16, ASL_Mem, LSR_Mem, ROL_Mem, ROR_Mem]
     try simp only [ite_self])

theorem SHA_ctl (s : CPU6502 D) (a : Nat) :
    (SHA b c s a).cycles = s.cycles ∧
    (SHA b c s a).running = s.running ∧
    (SHA b c s a).halted = s.halted ∧
    (SHA b c s a).isNMOS6507 = s.isNMOS6507 ∧
    (SHA b c s a).throttle_counter = s.throttle_counter := by
  refine ⟨?_, ?_, ?_, ?_, ?_⟩ <;>
    (simp only [SHA, apply_ite CPU6502.cycles, apply_ite CPU6502.running, apply_ite CPU6502.halted, apply_ite CPU6502.isNMOS6507, apply_ite CPU6502.throttle_counter]
     try dsimp only [read, write, setFlag, setZN, Push, Pop, Fetch8, Fetch16, ASL_Mem, LSR_Mem, ROL_Mem, ROR_Mem]
     try simp only [ite_self])

theorem SHX_ctl (s : CPU6502 D) (a : Nat) :
    (SHX b c s a).cycles = s.cycles ∧
    (SHX b c s a).running = s.running ∧
    (SHX b c s a).halted = s.halted ∧
    (SHX b c s a).isNMOS6507 = s.isNMOS6507 ∧
    (SHX b c s a).throttle_counter = s.throttle_counter := by
  refine ⟨?_, ?_, ?_, ?_, ?_⟩ <;>
    (simp only [SHX, apply_ite CPU6502.cycles, apply_ite CPU6502.running, apply_ite CPU6502.halted, apply_ite CPU6502.isNMOS6507, apply_ite CPU6502.throttle_counter]
     try dsimp only [read, write, setFlag, setZN, Push, Pop, Fetch8, Fetch16, ASL_Mem, LSR_Mem, ROL_Mem, ROR_Mem]
     try simp only [ite_self])

theorem SHY_ctl (s : CPU6502 D) (a : Nat) :
    (SHY b c s a).cycles = s.cycles ∧
    (SHY b c s a).running = s.running ∧
    (SHY b c s a).halted = s.halted ∧
    (SHY b c s a).isNMOS6507 = s.isNMOS6507 ∧
    (SHY b c s a).throttle_counter = s.throttle_counter := by
  refine ⟨?_, ?_, ?_, ?_, ?_⟩ <;>
    (simp only [SHY, apply_ite CPU6502.cycles, apply_ite CPU6502.running, apply_ite CPU6502.halted, apply_ite CPU6502.isNMOS6507, apply_ite CPU6502.throttle_counter]
     try dsimp only [read, write, setFlag, setZN, Push, Pop, Fetch8, Fetch16, ASL_Mem, LSR_Mem, ROL_Mem, ROR_Mem]
     try simp only [ite_self])

theorem TAS_ctl (s : CPU6502 D) (a : Nat) :
    (TAS b c s a).cycles = s.cycles ∧
    (TAS b c s a).running = s.running ∧
    (TAS b c s a).halted = s.halted ∧
    (TAS b c s a).isNMOS6507 = s.isNMOS6507 ∧
    (TAS b c s a).throttle_counter = s.throttle_counter := by
  refine ⟨?_, ?_, ?_, ?_, ?_⟩ <;>
    (simp only [TAS, apply_ite CPU6502.cycles, apply_ite CPU6502.running, apply_ite CPU6502.halted, apply_ite CPU6502.isNMOS6507, apply_ite CPU6502.throttle_counter]
     try dsimp only [read, write, setFlag, setZN, Push, Pop, Fetch8, Fetch16, ASL_Mem, LSR_Mem, ROL_Mem, ROR_Mem]
     try simp only [ite_self])

theorem ASL_Mem_ctl (s : CPU6502 D) (a : Nat) :
    (ASL_Mem b c s a).cycles = s.cycles ∧
    (ASL_Mem b c s a).running = s.running ∧
    (ASL_Mem b c s a).halted = s.halted ∧
    (ASL_Mem b c s a).isNMOS6507 = s.isNMOS6507 ∧
    (ASL_Mem b c s a).throttle_counter = s.throttle_counter := by
  refine ⟨?_, ?_, ?_, ?_, ?_⟩ <;>
    (simp only [ASL_Mem, apply_ite CPU6502.cycles, apply_ite CPU6502.running, apply_ite CPU6502.halted, apply_ite CPU6502.isNMOS6507, apply_ite CPU6502.throttle_counter]
     try dsimp only [read, write, setFlag, setZN, Push, Pop, Fetch8, Fetch16, ASL_Mem, LSR_Mem, ROL_Mem, ROR_Mem]
     try simp only [ite_self])

theorem LSR_Mem_ctl (s : CPU6502 D) (a : Nat) :
    (LSR_Mem b c s a).cycles = s.cycles ∧
    (LSR_Mem b c s a).running = s.running ∧
    (LSR_Mem b c s a).halted = s.halted ∧
    (LSR_Mem b c s a).isNMOS6507 = s.isNMOS6507 ∧
    (LSR_Mem b c s a).throttle_counter = s.throttle_counter := by
  refine ⟨?_, ?_, ?_, ?_, ?_⟩ <;>
    (simp only [LSR_Mem, apply_ite CPU6502.cycles, apply_ite CPU6502.running, apply_ite CPU6502.halted, apply_ite CPU6502.isNMOS6507, apply_ite CPU6502.throttle_counter]
     try dsimp only [read, write, setFlag, setZN, Push, Pop, Fetch8, Fetch16, ASL_Mem, LSR_Mem, ROL_Mem, ROR_Mem]
     try simp only [ite_self])

theorem ROL_Mem_ctl (s : CPU6502 D) (a : Nat) :
    (ROL_Mem b c s a).cycles = s.cycles ∧
    (ROL_Mem b c s a).running = s.running ∧
    (ROL_Mem b c s a).halted = s.halted ∧
    (ROL_Mem b c s a).isNMOS6507 = s.isNMOS6507 ∧
    (ROL_Mem b c s a).throttle_counter = s.throttle_counter := by
  refine ⟨?_, ?_, ?_, ?_, ?_⟩ <;>
    (simp only [ROL_Mem, apply_ite CPU6502.cycles, apply_ite CPU6502.running, apply_ite CPU6502.halted, apply_ite CPU6502.isNMOS6507, apply_ite CPU6502.throttle_counter]
     try dsimp only [read, write, setFlag, setZN, Push, Pop, Fetch8, Fetch16, ASL_Mem, LSR_Mem, ROL_Mem, ROR_Mem]
     try simp only [ite_self])

theorem ROR_Mem_ctl (s : CPU6502 D) (a : Nat) :
    (ROR_Mem b c s a).cycles = s.cycles ∧
    (ROR_Mem b c s a).running = s.running ∧
    (ROR_Mem b c s a).halted = s.halted ∧
    (ROR_Mem b c s a).isNMOS6507 = s.isNMOS6507 ∧
    (ROR_Mem b c s a).throttle_counter = s.throttle_counter := by
  refine ⟨?_, ?_, ?_, ?_, ?_⟩ <;>
    (simp only [ROR_Mem, apply_ite CPU6502.cycles, apply_ite CPU6502.running, apply_ite CPU6502.halted, apply_ite CPU6502.isNMOS6507, apply_ite CPU6502.throttle_counter]
     try dsimp only [read, write, setFlag, setZN, Push, Pop, Fetch8, Fetch16, ASL_Mem, LSR_Mem, ROL_Mem, ROR_Mem]
     try simp only [ite_self])

theorem ANC_ctl (s : CPU6502 D) (a : Nat) :
    (ANC b c s a).cycles = s.cycles ∧
    (ANC b c s a).running = s.running ∧
    (ANC b c s a).halted = s.halted ∧
    (ANC b c s a).isNMOS6507 = s.isNMOS6507 ∧
    (ANC b c s a).throttle_counter = s.throttle_counter := by
  refine ⟨?_, ?_, ?_, ?_, ?_⟩ <;>
    (simp only [ANC, apply_ite CPU6502.cycles, apply_ite CPU6502.running, apply_ite CPU6502.halted, apply_ite CPU6502.isNMOS6507, apply_ite CPU6502.throttle_counter]
     try dsimp only [read, write, setFlag, setZN, Push, Pop, Fetch8, Fetch16, ASL_Mem, LSR_Mem, ROL_Mem, ROR_Mem]
     try simp only [ite_self])

theorem ALR_ctl (s : CPU6502 D) (a : Nat) :
    (ALR b c s a).cycles = s.cycles ∧
    (ALR b c s a).running = s.running ∧
    (ALR b c s a).halted = s.halted ∧
    (ALR b c s a).isNMOS6507 = s.isNMOS6507 ∧
    (ALR b c s a).throttle_counter = s.throttle_counter := by
  refine ⟨?_, ?_, ?_, ?_, ?_⟩ <;>
    (simp only [ALR, apply_ite CPU6502.cycles, apply_ite CPU6502.running, apply_ite CPU6502.halted, apply_ite CPU6502.isNMOS6507, apply_ite CPU6502.throttle_counter]
     try dsimp only [read, write, setFlag, setZN, Push, Pop, Fetch8, Fetch16, ASL_Mem, LSR_Mem, ROL_Mem, ROR_Mem]
     try simp only [ite_self])

theorem ARR_ctl (s : CPU6502 D) (a : Nat) :
    (ARR b c s a).cycles = s.cycles ∧
    (ARR b c s a).running = s.running ∧
    (ARR b c s a).halted = s.halted ∧
    (ARR b c s a).isNMOS6507 = s.isNMOS6507 ∧
    (ARR b c s a).throttle_counter = s.throttle_counter := by
  refine ⟨?_, ?_, ?_, ?_, ?_⟩ <;>
    (simp only [ARR, apply_ite CPU6502.cycles, apply_ite CPU6502.running, apply_ite CPU6502.halted, apply_ite CPU6502.isNMOS6507, apply_ite CPU6502.throttle_counter]
     try dsimp only [read, write, setFlag, setZN, Push, Pop, Fetch8, Fetch16, ASL_Mem, LSR_Mem, ROL_Mem, ROR_Mem]
     try simp only [ite_self])

theorem LAS_ctl (s : CPU6502 D) (a : Nat) :
    (LAS b c s a).cycles = s.cycles ∧
    (LAS b c s a).running = s.running ∧
    (LAS b c s a).halted = s.halted ∧
    (LAS b c s a).isNMOS6507 = s.isNMOS6507 ∧
    (LAS b c s a).throttle_counter = s.throttle_counter := by
  refine ⟨?_, ?_, ?_, ?_, ?_⟩ <;>
    (simp only [LAS, apply_ite CPU6502.cycles, apply_ite CPU6502.running, apply_ite CPU6502.halted, apply_ite CPU6502.isNMOS6507, apply_ite CPU6502.throttle_counter]
     try dsimp only [read, write, setFlag, setZN, Push, Pop, Fetch8, Fetch16, ASL_Mem, LSR_Mem, ROL_Mem, ROR_Mem]
     try simp only [ite_self])

theorem ASL_MemAbsX_ctl (s : CPU6502 D) (a : Nat) :
    (ASL_MemAbsX b c s a).cycles = s.cycles ∧
    (ASL_MemAbsX b c s a).running = s.running ∧
    (ASL_MemAbsX b c s a).halted = s.halted ∧
    (ASL_MemAbsX b c s a).isNMOS6507 = s.isNMOS6507 ∧
    (ASL_MemAbsX b c s a).throttle_counter = s.throttle_counter := by
  refine ⟨?_, ?_, ?_, ?_, ?_⟩ <;>
    (simp only [ASL_MemAbsX, apply_ite CPU6502.cycles, apply_ite CPU6502.running, apply_ite CPU6502.halted, apply_ite CPU6502.isNMOS6507, apply_ite CPU6502.throttle_counter]
     try dsimp only [read, write, setFlag, setZN, Push, Pop, Fetch8, Fetch16, ASL_Mem, LSR_Mem, ROL_Mem, ROR_Mem]
     try simp only [ite_self])

theorem LSR_MemAbsX_ctl (s : CPU6502 D) (a : Nat) :
    (LSR_MemAbsX b c s a).cycles = s.cycles ∧
    (LSR_MemAbsX b c s a).running = s.running ∧
    (LSR_MemAbsX b c s a).halted = s.halted ∧
    (LSR_MemAbsX b c s a).isNMOS6507 = s.isNMOS6507 ∧
    (LSR_MemAbsX b c s a).throttle_counter = s.throttle_counter := by
  refine ⟨?_, ?_, ?_, ?_, ?_⟩ <;>
    (simp only [LSR_MemAbsX, apply_ite CPU6502.cycles, apply_ite CPU6502.running, apply_ite CPU6502.halted, apply_ite CPU6502.isNMOS6507, apply_ite CPU6502.throttle_counter]
     try dsimp only [read, write, setFlag, setZN, Push, Pop, Fetch8, Fetch16, ASL_Mem, LSR_Mem, ROL_Mem, ROR_Mem]
     try simp only [ite_self])

theorem ROL_MemAbsX_ctl (s : CPU6502 D) (a : Nat) :
    (ROL_MemAbsX b c s a).cycles = s.cycles ∧
    (ROL_MemAbsX b c s a).running = s.running ∧
    (ROL_MemAbsX b c s a).halted = s.halted ∧
    (ROL_MemAbsX b c s a).isNMOS6507 = s.isNMOS6507 ∧
    (ROL_MemAbsX b c s a).throttle_counter = s.throttle_counter := by
  refine ⟨?_, ?_, ?_, ?_, ?_⟩ <;>
    (simp only [ROL_MemAbsX, apply_ite CPU6502.cycles, apply_ite CPU6502.running, apply_ite CPU6502.halted, apply_ite CPU6502.isNMOS6507, apply_ite CPU6502.throttle_counter]
     try dsimp only [read, write, setFlag, setZN, Push, Pop, Fetch8, Fetch16, ASL_Mem, LSR_Mem, ROL_Mem, ROR_Mem]
     try simp only [ite_self])

theorem ROR_MemAbsX_ctl (s : CPU6502 D) (a : Nat) :
    (ROR_MemAbsX b c s a).cycles = s.cycles ∧
    (ROR_MemAbsX b c s a).running = s.running ∧
    (ROR_MemAbsX b c s a).halted = s.halted ∧
    (ROR_MemAbsX b c s a).isNMOS6507 = s.isNMOS6507 ∧
    (ROR_MemAbsX b c s a).throttle_counter = s.throttle_counter := by
  refine ⟨?_, ?_, ?_, ?_, ?_⟩ <;>
    (simp only [ROR_MemAbsX, apply_ite CPU6502.cycles, apply_ite CPU6502.running, apply_ite CPU6502.halted, apply_ite CPU6502.isNMOS6507, apply_ite CPU6502.throttle_counter]
     try dsimp only [read, write, setFlag, setZN, Push, Pop, Fetch8, Fetch16, ASL_Mem, LSR_Mem, ROL_Mem, ROR_Mem]
     try simp only [ite_self])

theorem BIT_ctl (s : CPU6502 D) (a : Nat) :
    (BIT b c s a).cycles = s.cycles ∧
    (BIT b c s a).running = s.running ∧
    (BIT b c s a).halted = s.halted ∧
    (BIT b c s a).isNMOS6507 = s.isNMOS6507 ∧
    (BIT b c s a).throttle_counter = s.throttle_counter := by
  refine ⟨?_, ?_, ?_, ?_, ?_⟩ <;>
    (simp only [BIT, apply_ite CPU6502.cycles, apply_ite CPU6502.running, apply_ite CPU6502.halted, apply_ite CPU6502.isNMOS6507, apply_ite CPU6502.throttle_counter]
     try dsimp only [read, write, setFlag, setZN, Push, Pop, Fetch8, Fetch16, ASL_Mem, LSR_Mem, ROL_Mem, ROR_Mem]
     try simp only [ite_self])

theorem BranchIf_ctl (s : CPU6502 D) (cond : Bool) :
    (BranchIf b c s cond).cycles = s.cycles ∧
    (BranchIf b c s cond).running = s.running ∧
    (BranchIf b c s cond).halted = s.halted ∧
    (BranchIf b c s cond).isNMOS6507 = s.isNMOS6507 ∧
    (BranchIf b c s cond).throttle_counter = s.throttle_counter := by
  refine ⟨?_, ?_, ?_, ?_, ?_⟩ <;>
    (simp only [BranchIf, apply_ite CPU6502.cycles, apply_ite CPU6502.running, apply_ite CPU6502.halted, apply_ite CPU6502.isNMOS6507, apply_ite CPU6502.throttle_counter]
     try dsimp only [read, write, setFlag, setZN, Push, Pop, Fetch8, Fetch16, ASL_Mem, LSR_Mem, ROL_Mem, ROR_Mem]
     try simp only [ite_self])

theorem BEQ_ctl (s : CPU6502 D) :
    (BEQ b c s).cycles = s.cycles ∧
    (BEQ b c s).running = s.running ∧
    (BEQ b c s).halted = s.halted ∧
    (BEQ b c s).isNMOS6507 = s.isNMOS6507 ∧
    (BEQ b c s).throttle_counter = s.throttle_counter := BranchIf_ctl b c s _

theorem BNE_ctl (s : CPU6502 D) :
    (BNE b c s).cycles = s.cycles ∧
    (BNE b c s).running = s.running ∧
    (BNE b c s).halted = s.halted ∧
    (BNE b c s).isNMOS6507 = s.isNMOS6507 ∧
    (BNE b c s).throttle_counter = s.throttle_counter := BranchIf_ctl b c s _

theorem BCS_ctl (s : CPU6502 D) :
    (BCS b c s).cycles = s.cycles ∧
    (BCS b c s).running = s.running ∧
    (BCS b c s).halted = s.halted ∧
    (BCS b c s).isNMOS6507 = s.isNMOS6507 ∧
    (BCS b c s).throttle_counter = s.throttle_counter := BranchIf_ctl b c s _

theorem BCC_ctl (s : CPU6502 D) :
    (BCC b c s).cycles = s.cycles ∧
    (BCC b c s).running = s.running ∧
    (BCC b c s).halted = s.halted ∧
    (BCC b c s).isNMOS6507 = s.isNMOS6507 ∧
    (BCC b c s).throttle_counter = s.throttle_counter := BranchIf_ctl b c s _

theorem BMI_ctl (s : CPU6502 D) :
    (BMI b c s).cycles = s.cycles ∧
    (BMI b c s).running = s.running ∧
    (BMI b c s).halted = s.halted ∧
    (BMI b c s).isNMOS6507 = s.isNMOS6507 ∧
    (BMI b c s).throttle_counter = s.throttle_counter := BranchIf_ctl b c s _

theorem BPL_ctl (s : CPU6502 D) :
    (BPL b c s).cycles = s.cycles ∧
    (BPL b c s).running = s.running ∧
    (BPL b c s).halted = s.halted ∧
    (BPL b c s).isNMOS6507 = s.isNMOS6507 ∧
    (BPL b c s).throttle_counter = s.throttle_counter := BranchIf_ctl b c s _

theorem BVS_ctl (s : CPU6502 D) :
    (BVS b c s).cycles = s.cycles ∧
    (BVS b c s).running = s.running ∧
    (BVS b c s).halted = s.halted ∧
    (BVS b c s).isNMOS6507 = s.isNMOS6507 ∧
    (BVS b c s).throttle_counter = s.throttle_counter := BranchIf_ctl b c s _

theorem BVC_ctl (s : CPU6502 D) :
    (BVC b c s).cycles = s.cycles ∧
    (BVC b c s).running = s.running ∧
    (BVC b c s).halted = s.halted ∧
    (BVC b c s).isNMOS6507 = s.isNMOS6507 ∧
    (BVC b c s).throttle_counter = s.throttle_counter := BranchIf_ctl b c s _

theorem BRK_full_ctl (s : CPU6502 D) :
    (BRK_full b c s).cycles = s.cycles ∧
    (BRK_full b c s).running = s.running ∧
    (BRK_full b c s).halted = s.halted ∧
    (BRK_full b c s).isNMOS6507 = s.isNMOS6507 ∧
    (BRK_full b c s).throttle_counter = s.throttle_counter := by
  refine ⟨?_, ?_, ?_, ?_, ?_⟩ <;>
    (simp only [BRK_full, apply_ite CPU6502.cycles, apply_ite CPU6502.running, apply_ite CPU6502.halted, apply_ite CPU6502.isNMOS6507, apply_ite CPU6502.throttle_counter]
     try dsimp only [read, write, setFlag, setZN, Push, Pop, Fetch8, Fetch16, ASL_Mem, LSR_Mem, ROL_Mem, ROR_Mem]
     try simp only [ite_self])

theorem RTI_ctl (s : CPU6502 D) :
    (RTI b c s).cycles = s.cycles ∧
    (RTI b c s).running = s.running ∧
    (RTI b c s).halted = s.halted ∧
    (RTI b c s).isNMOS6507 = s.isNMOS6507 ∧
    (RTI b c s).throttle_counter = s.throttle_counter := by
  refine ⟨?_, ?_, ?_, ?_, ?_⟩ <;>
    (simp only [RTI, apply_ite CPU6502.cycles, apply_ite CPU6502.running, apply_ite CPU6502.halted, apply_ite CPU6502.isNMOS6507, apply_ite CPU6502.throttle_counter]
     try dsimp only [read, write, setFlag, setZN, Push, Pop, Fetch8, Fetch16, ASL_Mem, LSR_Mem, ROL_Mem, ROR_Mem]
     try simp only [ite_self])

theorem PHA_ctl (s : CPU6502 D) :
    (PHA b c s).cycles = s.cycles ∧
    (PHA b c s).running = s.running ∧
    (PHA b c s).halted = s.halted ∧
    (PHA b c s).isNMOS6507 = s.isNMOS6507 ∧
    (PHA b c s).throttle_counter = s.throttle_counter := by
  refine ⟨?_, ?_, ?_, ?_, ?_⟩ <;>
    (simp only [PHA, apply_ite CPU6502.cycles, apply_ite CPU6502.running, apply_ite CPU6502.halted, apply_ite CPU6502.isNMOS6507, apply_ite CPU6502.throttle_counter]
     try dsimp only [read, write, setFlag, setZN, Push, Pop, Fetch8, Fetch16, ASL_Mem, LSR_Mem, ROL_Mem, ROR_Mem]
     try simp only [ite_self])

theorem PHP_ctl (s : CPU6502 D) :
    (PHP b c s).cycles = s.cycles ∧
    (PHP b c s).running = s.running ∧
    (PHP b c s).halted = s.halted ∧
    (PHP b c s).isNMOS6507 = s.isNMOS6507 ∧
    (PHP b c s).throttle_counter = s.throttle_counter := by
  refine ⟨?_, ?_, ?_, ?_, ?_⟩ <;>
    (simp only [PHP, apply_ite CPU6502.cycles, apply_ite CPU6502.running, apply_ite CPU6502.halted, apply_ite CPU6502.isNMOS6507, apply_ite CPU6502.throttle_counter]
     try dsimp only [read, write, setFlag, setZN, Push, Pop, Fetch8, Fetch16, ASL_Mem, LSR_Mem, ROL_Mem, ROR_Mem]
     try simp only [ite_self])

theorem PLA_ctl (s : CPU6502 D) :
    (PLA b c s).cycles = s.cycles ∧
    (PLA b c s).running = s.running ∧
    (PLA b c s).halted = s.halted ∧
    (PLA b c s).isNMOS6507 = s.isNMOS6507 ∧
    (PLA b c s).throttle_counter = s.throttle_counter := by
  refine ⟨?_, ?_, ?_, ?_, ?_⟩ <;>
    (simp only [PLA, apply_ite CPU6502.cycles, apply_ite CPU6502.running, apply_ite CPU6502.halted, apply_ite CPU6502.isNMOS6507, apply_ite CPU6502.throttle_counter]
     try dsimp only [read, write, setFlag, setZN, Push, Pop, Fetch8, Fetch16, ASL_Mem, LSR_Mem, ROL_Mem, ROR_Mem]
     try simp only [ite_self])

theorem PLP_ctl (s : CPU6502 D) :
    (PLP b c s).cycles = s.cycles ∧
    (PLP b c s).running = s.running ∧
    (PLP b c s).halted = s.halted ∧
    (PLP b c s).isNMOS6507 = s.isNMOS6507 ∧
    (PLP b c s).throttle_counter = s.throttle_counter := by
  refine ⟨?_, ?_, ?_, ?_, ?_⟩ <;>
    (simp only [PLP, apply_ite CPU6502.cycles, apply_ite CPU6502.running, apply_ite CPU6502.halted, apply_ite CPU6502.isNMOS6507, apply_ite CPU6502.throttle_counter]
     try dsimp only [read, write, setFlag, setZN, Push, Pop, Fetch8, Fetch16, ASL_Mem, LSR_Mem, ROL_Mem, ROR_Mem]
     try simp only [ite_self])

theorem JSR_ctl (s : CPU6502 D) :
    (JSR b c s).cycles = s.cycles ∧
    (JSR b c s).running = s.running ∧
    (JSR b c s).halted = s.halted ∧
    (JSR b c s).isNMOS6507 = s.isNMOS6507 ∧
    (JSR b c s).throttle_counter = s.throttle_counter := by
  refine ⟨?_, ?_, ?_, ?_, ?_⟩ <;>
    (simp only [JSR, apply_ite CPU6502.cycles, apply_ite CPU6502.running, apply_ite CPU6502.halted, apply_ite CPU6502.isNMOS6507, apply_ite CPU6502.throttle_counter]
     try dsimp only [read, write, setFlag, setZN, Push, Pop, Fetch8, Fetch16, ASL_Mem, LSR_Mem, ROL_Mem, ROR_Mem]
     try simp only [ite_self])

theorem RTS_ctl (s : CPU6502 D) :
    (RTS b c s).cycles = s.cycles ∧
    (RTS b c s).running = s.running ∧
    (RTS b c s).halted = s.halted ∧
    (RTS b c s).isNMOS6507 = s.isNMOS6507 ∧
    (RTS b c s).throttle_counter = s.throttle_counter := by
  refine ⟨?_, ?_, ?_, ?_, ?_⟩ <;>
    (simp only [RTS, apply_ite CPU6502.cycles, apply_ite CPU6502.running, apply_ite CPU6502.halted, apply_ite CPU6502.isNMOS6507, apply_ite CPU6502.throttle_counter]
     try dsimp only [read, write, setFlag, setZN, Push, Pop, Fetch8, Fetch16, ASL_Mem, LSR_Mem, ROL_Mem, ROR_Mem]
     try simp only [ite_self])

theorem JMP_Absolute_ctl (s : CPU6502 D) :
    (JMP_Absolute b c s).cycles = s.cycles ∧
    (JMP_Absolute b c s).running = s.running ∧
    (JMP_Absolute b c s).halted = s.halted ∧
    (JMP_Absolute b c s).isNMOS6507 = s.isNMOS6507 ∧
    (JMP_Absolute b c s).throttle_counter = s.throttle_counter := by
  refine ⟨?_, ?_, ?_, ?_, ?_⟩ <;>
    (simp only [JMP_Absolute, apply_ite CPU6502.cycles, apply_ite CPU6502.running, apply_ite CPU6502.halted, apply_ite CPU6502.isNMOS6507, apply_ite CPU6502.throttle_counter]
     try dsimp only [read, write, setFlag, setZN, Push, Pop, Fetch8, Fetch16, ASL_Mem, LSR_Mem, ROL_Mem, ROR_Mem]
     try simp only [ite_self])

theorem JMP_Indirect_ctl (s : CPU6502 D) :
    (JMP_Indirect b c s).cycles = s.cycles ∧
    (JMP_Indirect b c s).running = s.running ∧
    (JMP_Indirect b c s).halted = s.halted ∧
    (JMP_Indirect b c s).isNMOS6507 = s.isNMOS6507 ∧
    (JMP_Indirect b c s).throttle_counter = s.throttle_counter := by
  refine ⟨?_, ?_, ?_, ?_, ?_⟩ <;>
    (simp only [JMP_Indirect, apply_ite CPU6502.cycles, apply_ite CPU6502.running, apply_ite CPU6502.halted, apply_ite CPU6502.isNMOS6507, apply_ite CPU6502.throttle_counter]
     try dsimp only [read, write, setFlag, setZN, Push, Pop, Fetch8, Fetch16, ASL_Mem, LSR_Mem, ROL_Mem, ROR_Mem]
     try simp only [ite_self])

theorem ANE_Immediate_ctl (s : CPU6502 D) :
    (ANE_Immediate b c s).cycles = s.cycles ∧
    (ANE_Immediate b c s).running = s.running ∧
    (ANE_Immediate b c s).halted = s.halted ∧
    (ANE_Immediate b c s).isNMOS6507 = s.isNMOS6507 ∧
    (ANE_Immediate b c s).throttle_counter = s.throttle_counter := by
  refine ⟨?_, ?_, ?_, ?_, ?_⟩ <;>
    (simp only [ANE_Immediate, apply_ite CPU6502.cycles, apply_ite CPU6502.running, apply_ite CPU6502.halted, apply_ite CPU6502.isNMOS6507, apply_ite CPU6502.throttle_counter]
     try dsimp only [read, write, setFlag, setZN, Push, Pop, Fetch8, Fetch16, ASL_Mem, LSR_Mem, ROL_Mem, ROR_Mem]
     try simp only [ite_self])

theorem LAX_Immediate_ctl (s : CPU6502 D) :
    (LAX_Immediate b c s).cycles = s.cycles ∧
    (LAX_Immediate b c s).running = s.running ∧
    (LAX_Immediate b c s).halted = s.halted ∧
    (LAX_Immediate b c s).isNMOS6507 = s.isNMOS6507 ∧
    (LAX_Immediate b c s).throttle_counter = s.throttle_counter := by
  refine ⟨?_, ?_, ?_, ?_, ?_⟩ <;>
    (simp only [LAX_Immediate, apply_ite CPU6502.cycles, apply_ite CPU6502.running, apply_ite CPU6502.halted, apply_ite CPU6502.isNMOS6507, apply_ite CPU6502.throttle_counter]
     try dsimp only [read, write, setFlag, setZN, Push, Pop, Fetch8, Fetch16, ASL_Mem, LSR_Mem, ROL_Mem, ROR_Mem]
     try simp only [ite_self])

theorem TAX_ctl (s : CPU6502 D) :
    (TAX s).cycles = s.cycles ∧
    (TAX s).running = s.running ∧
    (TAX s).halted = s.halted ∧
    (TAX s).isNMOS6507 = s.isNMOS6507 ∧
    (TAX s).throttle_counter = s.throttle_counter := by
  refine ⟨?_, ?_, ?_, ?_, ?_⟩ <;>
    (simp only [TAX, apply_ite CPU6502.cycles, apply_ite CPU6502.running, apply_ite CPU6502.halted, apply_ite CPU6502.isNMOS6507, apply_ite CPU6502.throttle_counter]
     try dsimp only [read, write, setFlag, setZN, Push, Pop, Fetch8, Fetch16, ASL_Mem, LSR_Mem, ROL_Mem, ROR_Mem]
     try simp only [ite_self])

theorem TAY_ctl (s : CPU6502 D) :
    (TAY s).cycles = s.cycles ∧
    (TAY s).running = s.running ∧
    (TAY s).halted = s.halted ∧
    (TAY s).isNMOS6507 = s.isNMOS6507 ∧
    (TAY s).throttle_counter = s.throttle_counter := by
  refine ⟨?_, ?_, ?_, ?_, ?_⟩ <;>
    (simp only [TAY, apply_ite CPU6502.cycles, apply_ite CPU6502.running, apply_ite CPU6502.halted, apply_ite CPU6502.isNMOS6507, apply_ite CPU6502.throttle_counter]
     try dsimp only [read, write, setFlag, setZN, Push, Pop, Fetch8, Fetch16, ASL_Mem, LSR_Mem, ROL_Mem, ROR_Mem]
     try simp only [ite_self])

theorem TXA_ctl (s : CPU6502 D) :
    (TXA s).cycles = s.cycles ∧
    (TXA s).running = s.running ∧
    (TXA s).halted = s.halted ∧
    (TXA s).isNMOS6507 = s.isNMOS6507 ∧
    (TXA s).throttle_counter = s.throttle_counter := by
  refine ⟨?_, ?_, ?_, ?_, ?_⟩ <;>
    (simp only [TXA, apply_ite CPU6502.cycles, apply_ite CPU6502.running, apply_ite CPU6502.halted, apply_ite CPU6502.isNMOS6507, apply_ite CPU6502.throttle_counter]
     try dsimp only [read, write, setFlag, setZN, Push, Pop, Fetch8, Fetch16, ASL_Mem, LSR_Mem, ROL_Mem, ROR_Mem]
     try simp only [ite_self])

theorem TYA_ctl (s : CPU6502 D) :
    (TYA s).cycles = s.cycles ∧
    (TYA s).running = s.running ∧
    (TYA s).halted = s.halted ∧
    (TYA s).isNMOS6507 = s.isNMOS6507 ∧
    (TYA s).throttle_counter = s.throttle_counter := by
  refine ⟨?_, ?_, ?_, ?_, ?_⟩ <;>
    (simp only [TYA, apply_ite CPU6502.cycles, apply_ite CPU6502.running, apply_ite CPU6502.halted, apply_ite CPU6502.isNMOS6507, apply_ite CPU6502.throttle_counter]
     try dsimp only [read, write, setFlag, setZN, Push, Pop, Fetch8, Fetch16, ASL_Mem, LSR_Mem, ROL_Mem, ROR_Mem]
     try simp only [ite_self])

theorem INX_ctl (s : CPU6502 D) :
    (INX s).cycles = s.cycles ∧
    (INX s).running = s.running ∧
    (INX s).halted = s.halted ∧
    (INX s).isNMOS6507 = s.isNMOS6507 ∧
    (INX s).throttle_counter = s.throttle_counter := by
  refine ⟨?_, ?_, ?_, ?_, ?_⟩ <;>
    (simp only [INX, apply_ite CPU6502.cycles, apply_ite CPU6502.running, apply_ite CPU6502.halted, apply_ite CPU6502.isNMOS6507, apply_ite CPU6502.throttle_counter]
     try dsimp only [read, write, setFlag, setZN, Push, Pop, Fetch8, Fetch16, ASL_Mem, LSR_Mem, ROL_Mem, ROR_Mem]
     try simp only [ite_self])

theorem INY_ctl (s : CPU6502 D) :
    (INY s).cycles = s.cycles ∧
    (INY s).running = s.running ∧
    (INY s).halted = s.halted ∧
    (INY s).isNMOS6507 = s.isNMOS6507 ∧
    (INY s).throttle_counter = s.throttle_counter := by
  refine ⟨?_, ?_, ?_, ?_, ?_⟩ <;>
    (simp only [INY, apply_ite CPU6502.cycles, apply_ite CPU6502.running, apply_ite CPU6502.halted, apply_ite CPU6502.isNMOS6507, apply_ite CPU6502.throttle_counter]
     try dsimp only [read, write, setFlag, setZN, Push, Pop, Fetch8, Fetch16, ASL_Mem, LSR_Mem, ROL_Mem, ROR_Mem]
     try simp only [ite_self])

theorem DEX_ctl (s : CPU6502 D) :
    (DEX s).cycles = s.cycles ∧
    (DEX s).running = s.running ∧
    (DEX s).halted = s.halted ∧
    (DEX s).isNMOS6507 = s.isNMOS6507 ∧
    (DEX s).throttle_counter = s.throttle_counter := by
  refine ⟨?_, ?_, ?_, ?_, ?_⟩ <;>
    (simp only [DEX, apply_ite CPU6502.cycles, apply_ite CPU6502.running, apply_ite CPU6502.halted, apply_ite CPU6502.isNMOS6507, apply_ite CPU6502.throttle_counter]
     try dsimp only [read, write, setFlag, setZN, Push, Pop, Fetch8, Fetch16, ASL_Mem, LSR_Mem, ROL_Mem, ROR_Mem]
     try simp only [ite_self])

theorem DEY_ctl (s : CPU6502 D) :
    (DEY s).cycles = s.cycles ∧
    (DEY s).running = s.running ∧
    (DEY s).halted = s.halted ∧
    (DEY s).isNMOS6507 = s.isNMOS6507 ∧
    (DEY s).throttle_counter = s.throttle_counter := by
  refine ⟨?_, ?_, ?_, ?_, ?_⟩ <;>
    (simp only [DEY, apply_ite CPU6502.cycles, apply_ite CPU6502.running, apply_ite CPU6502.halted, apply_ite CPU6502.isNMOS6507, apply_ite CPU6502.throttle_counter]
     try dsimp only [read, write, setFlag, setZN, Push, Pop, Fetch8, Fetch16, ASL_Mem, LSR_Mem, ROL_Mem, ROR_Mem]
     try simp only [ite_self])

theorem ASL_A_ctl (s : CPU6502 D) :
    (ASL_A s).cycles = s.cycles ∧
    (ASL_A s).running = s.running ∧
    (ASL_A s).halted = s.halted ∧
    (ASL_A s).isNMOS6507 = s.isNMOS6507 ∧
    (ASL_A s).throttle_counter = s.throttle_counter := by
  refine ⟨?_, ?_, ?_, ?_, ?_⟩ <;>
    (simp only [ASL_A, apply_ite CPU6502.cycles, apply_ite CPU6502.running, apply_ite CPU6502.halted, apply_ite CPU6502.isNMOS6507, apply_ite CPU6502.throttle_counter]
     try dsimp only [read, write, setFlag, setZN, Push, Pop, Fetch8, Fetch16, ASL_Mem, LSR_Mem, ROL_Mem, ROR_Mem]
     try simp only [ite_self])

theorem LSR_A_ctl (s : CPU6502 D) :
    (LSR_A s).cycles = s.cycles ∧
    (LSR_A s).running = s.running ∧
    (LSR_A s).halted = s.halted ∧
    (LSR_A s).isNMOS6507 = s.isNMOS6507 ∧
    (LSR_A s).throttle_counter = s.throttle_counter := by
  refine ⟨?_, ?_, ?_, ?_, ?_⟩ <;>
    (simp only [LSR_A, apply_ite CPU6502.cycles, apply_ite CPU6502.running, apply_ite CPU6502.halted, apply_ite CPU6502.isNMOS6507, apply_ite CPU6502.throttle_counter]
     try dsimp only [read, write, setFlag, setZN, Push, Pop, Fetch8, Fetch16, ASL_Mem, LSR_Mem, ROL_Mem, ROR_Mem]
     try simp only [ite_self])

theorem ROL_A_ctl (s : CPU6502 D) :
    (ROL_A s).cycles = s.cycles ∧
    (ROL_A s).running = s.running ∧
    (ROL_A s).halted = s.halted ∧
    (ROL_A s).isNMOS6507 = s.isNMOS6507 ∧
    (ROL_A s).throttle_counter = s.throttle_counter := by
  refine ⟨?_, ?_, ?_, ?_, ?_⟩ <;>
    (simp only [ROL_A, apply_ite CPU6502.cycles, apply_ite CPU6502.running, apply_ite CPU6502.halted, apply_ite CPU6502.isNMOS6507, apply_ite CPU6502.throttle_counter]
     try dsimp only [read, write, setFlag, setZN, Push, Pop, Fetch8, Fetch16, ASL_Mem, LSR_Mem, ROL_Mem, ROR_Mem]
     try simp only [ite_self])

theorem ROR_A_ctl (s : CPU6502 D) :
    (ROR_A s).cycles = s.cycles ∧
    (ROR_A s).running = s.running ∧
    (ROR_A s).halted = s.halted ∧
    (ROR_A s).isNMOS6507 = s.isNMOS6507 ∧
    (ROR_A s).throttle_counter = s.throttle_counter := by
  refine ⟨?_, ?_, ?_, ?_, ?_⟩ <;>
    (simp only [ROR_A, apply_ite CPU6502.cycles, apply_ite CPU6502.running, apply_ite CPU6502.halted, apply_ite CPU6502.isNMOS6507, apply_ite CPU6502.throttle_counter]
     try dsimp only [read, write, setFlag, setZN, Push, Pop, Fetch8, Fetch16, ASL_Mem, LSR_Mem, ROL_Mem, ROR_Mem]
     try simp only [ite_self])

theorem CLC_ctl (s : CPU6502 D) :
    (CLC s).cycles = s.cycles ∧
    (CLC s).running = s.running ∧
    (CLC s).halted = s.halted ∧
    (CLC s).isNMOS6507 = s.isNMOS6507 ∧
    (CLC s).throttle_counter = s.throttle_counter := by
  refine ⟨?_, ?_, ?_, ?_, ?_⟩ <;>
    (simp only [CLC, apply_ite CPU6502.cycles, apply_ite CPU6502.running, apply_ite CPU6502.halted, apply_ite CPU6502.isNMOS6507, apply_ite CPU6502.throttle_counter]
     try dsimp only [read, write, setFlag, setZN, Push, Pop, Fetch8, Fetch16, ASL_Mem, LSR_Mem, ROL_Mem, ROR_Mem]
     try simp only [ite_self])

theorem SEC_ctl (s : CPU6502 D) :
    (SEC s).cycles = s.cycles ∧
    (SEC s).running = s.running ∧
    (SEC s).halted = s.halted ∧
    (SEC s).isNMOS6507 = s.isNMOS6507 ∧
    (SEC s).throttle_counter = s.throttle_counter := by
  refine ⟨?_, ?_, ?_, ?_, ?_⟩ <;>
    (simp only [SEC, apply_ite CPU6502.cycles, apply_ite CPU6502.running, apply_ite CPU6502.halted, apply_ite CPU6502.isNMOS6507, apply_ite CPU6502.throttle_counter]
     try dsimp only [read, write, setFlag, setZN, Push, Pop, Fetch8, Fetch16, ASL_Mem, LSR_Mem, ROL_Mem, ROR_Mem]
     try simp only [ite_self])

theorem CLI_ctl (s : CPU6502 D) :
    (CLI s).cycles = s.cycles ∧
    (CLI s).running = s.running ∧
    (CLI s).halted = s.halted ∧
    (CLI s).isNMOS6507 = s.isNMOS6507 ∧
    (CLI s).throttle_counter = s.throttle_counter := by
  refine ⟨?_, ?_, ?_, ?_, ?_⟩ <;>
    (simp only [CLI, apply_ite CPU6502.cycles, apply_ite CPU6502.running, apply_ite CPU6502.halted, apply_ite CPU6502.isNMOS6507, apply_ite CPU6502.throttle_counter]
     try dsimp only [read, write, setFlag, setZN, Push, Pop, Fetch8, Fetch16, ASL_Mem, LSR_Mem, ROL_Mem, ROR_Mem]
     try simp only [ite_self])

theorem SEI_ctl (s : CPU6502 D) :
    (SEI s).cycles = s.cycles ∧
    (SEI s).running = s.running ∧
    (SEI s).halted = s.halted ∧
    (SEI s).isNMOS6507 = s.isNMOS6507 ∧
    (SEI s).throttle_counter = s.throttle_counter := by
  refine ⟨?_, ?_, ?_, ?_, ?_⟩ <;>
    (simp only [SEI, apply_ite CPU6502.cycles, apply_ite CPU6502.running, apply_ite CPU6502.halted, apply_ite CPU6502.isNMOS6507, apply_ite CPU6502.throttle_counter]
     try dsimp only [read, write, setFlag, setZN, Push, Pop, Fetch8, Fetch16, ASL_Mem, LSR_Mem, ROL_Mem, ROR_Mem]
     try simp only [ite_self])

theorem CLV_ctl (s : CPU6502 D) :
    (CLV s).cycles = s.cycles ∧
    (CLV s).running = s.running ∧
    (CLV s).halted = s.halted ∧
    (CLV s).isNMOS6507 = s.isNMOS6507 ∧
    (CLV s).throttle_counter = s.throttle_counter := by
  refine ⟨?_, ?_, ?_, ?_, ?_⟩ <;>
    (simp only [CLV, apply_ite CPU6502.cycles, apply_ite CPU6502.running, apply_ite CPU6502.halted, apply_ite CPU6502.isNMOS6507, apply_ite CPU6502.throttle_counter]
     try dsimp only [read, write, setFlag, setZN, Push, Pop, Fetch8, Fetch16, ASL_Mem, LSR_Mem, ROL_Mem, ROR_Mem]
     try simp only [ite_self])

theorem CLD_ctl (s : CPU6502 D) :
    (CLD s).cycles = s.cycles ∧
    (CLD s).running = s.running ∧
    (CLD s).halted = s.halted ∧
    (CLD s).isNMOS6507 = s.isNMOS6507 ∧
    (CLD s).throttle_counter = s.throttle_counter := by
  refine ⟨?_, ?_, ?_, ?_, ?_⟩ <;>
    (simp only [CLD, apply_ite CPU6502.cycles, apply_ite CPU6502.running, apply_ite CPU6502.halted, apply_ite CPU6502.isNMOS6507, apply_ite CPU6502.throttle_counter]
     try dsimp only [read, write, setFlag, setZN, Push, Pop, Fetch8, Fetch16, ASL_Mem, LSR_Mem, ROL_Mem, ROR_Mem]
     try simp only [ite_self])

theorem SED_ctl (s : CPU6502 D) :
    (SED s).cycles = s.cycles ∧
    (SED s).running = s.running ∧
    (SED s).halted = s.halted ∧
    (SED s).isNMOS6507 = s.isNMOS6507 ∧
    (SED s).throttle_counter = s.throttle_counter := by
  refine ⟨?_, ?_, ?_, ?_, ?_⟩ <;>
    (simp only [SED, apply_ite CPU6502.cycles, apply_ite CPU6502.running, apply_ite CPU6502.halted, apply_ite CPU6502.isNMOS6507, apply_ite CPU6502.throttle_counter]
     try dsimp only [read, write, setFlag, setZN, Push, Pop, Fetch8, Fetch16, ASL_Mem, LSR_Mem, ROL_Mem, ROR_Mem]
     try simp only [ite_self])

theorem NOP_ctl (s : CPU6502 D) :
    (NOP s).cycles = s.cycles ∧
    (NOP s).running = s.running ∧
    (NOP s).halted = s.halted ∧
    (NOP s).isNMOS6507 = s.isNMOS6507 ∧
    (NOP s).throttle_counter = s.throttle_counter := by
  refine ⟨?_, ?_, ?_, ?_, ?_⟩ <;>
    (simp only [NOP, apply_ite CPU6502.cycles, apply_ite CPU6502.running, apply_ite CPU6502.halted, apply_ite CPU6502.isNMOS6507, apply_ite CPU6502.throttle_counter]
     try dsimp only [read, write, setFlag, setZN, Push, Pop, Fetch8, Fetch16, ASL_Mem, LSR_Mem, ROL_Mem, ROR_Mem]
     try simp only [ite_self])

theorem TSX_ctl (s : CPU6502 D) :
    (TSX s).cycles = s.cycles ∧
    (TSX s).running = s.running ∧
    (TSX s).halted = s.halted ∧
    (TSX s).isNMOS6507 = s.isNMOS6507 ∧
    (TSX s).throttle_counter = s.throttle_counter := by
  refine ⟨?_, ?_, ?_, ?_, ?_⟩ <;>
    (simp only [TSX, apply_ite CPU6502.cycles, apply_ite CPU6502.running, apply_ite CPU6502.halted, apply_ite CPU6502.isNMOS6507, apply_ite CPU6502.throttle_counter]
     try dsimp only [read, write, setFlag, setZN, Push, Pop, Fetch8, Fetch16, ASL_Mem, LSR_Mem, ROL_Mem, ROR_Mem]
     try simp only [ite_self])

theorem TXS_ctl (s : CPU6502 D) :
    (TXS s).cycles = s.cycles ∧
    (TXS s).running = s.running ∧
    (TXS s).halted = s.halted ∧
    (TXS s).isNMOS6507 = s.isNMOS6507 ∧
    (TXS s).throttle_counter = s.throttle_counter := by
  refine ⟨?_, ?_, ?_, ?_, ?_⟩ <;>
    (simp only [TXS, apply_ite CPU6502.cycles, apply_ite CPU6502.running, apply_ite CPU6502.halted, apply_ite CPU6502.isNMOS6507, apply_ite CPU6502.throttle_counter]
     try dsimp only [read, write, setFlag, setZN, Push, Pop, Fetch8, Fetch16, ASL_Mem, LSR_Mem, ROL_Mem, ROR_Mem]
     try simp only [ite_self])

/-- Membership in a table from a successful lookup. -/
theorem lookup_mem {α : Type} (l : List (Nat × α)) (k : Nat) (v : α)
    (h : l.lookup k = some v) : (k, v) ∈ l := by
  induction l with
  | nil => simp [List.lookup] at h
  | cons x xs ih =>
    obtain ⟨k', v'⟩ := x
    simp only [List.lookup] at h
    split at h
    · rename_i heq
      simp at heq h
      subst heq; subst h; simp
    · exact List.mem_cons_of_mem _ (ih h)

/-- Case principle for `Execute`: a property that holds after the `default` arm
and after every `case` arm holds after `Execute`. -/
theorem Execute_cases (P : CPU6502 D → Prop) (s : CPU6502 D) (op : Nat)
    (hd : P { s with running := false })
    (ha : ∀ e ∈ arms b c, P (e.2 s)) : P (Execute b c s op) := by
  unfold Execute
  split
  · rename_i arm h
    exact ha (op, arm) (lookup_mem _ _ _ h)
  · exact hd

set_option maxRecDepth 100000 in
/-- No arm of `Execute` changes the cycle budget, the 6507 switch or the
throttle counter. -/
theorem arms_cycles (s : CPU6502 D) :
    ∀ e ∈ arms b c, (e.2 s).cycles = s.cycles ∧ (e.2 s).isNMOS6507 = s.isNMOS6507 ∧
      (e.2 s).throttle_counter = s.throttle_counter := by
  simp only [arms, List.forall_mem_cons, List.not_mem_nil, applyAt,
    Addr_Immediate_ctl, Addr_ZeroPage_ctl, Addr_ZeroPageX_ctl, Addr_ZeroPageY_ctl,
    Addr_Absolute_ctl, Addr_AbsoluteX_ctl, Addr_AbsoluteY_ctl, Addr_IndirectX_ctl,
    Addr_IndirectY_ctl, LDA_ctl, LDX_ctl, LDY_ctl, STA_ctl, STX_ctl, STY_ctl, INC_ctl,
    DEC_ctl, ADC_ctl, SBC_ctl, AND_ctl, ORA_ctl, EOR_ctl, CMP_ctl, CPX_ctl, CPY_ctl, LAX_ctl,
    SAX_ctl, DCP_ctl, ISC_ctl, SLO_ctl, RLA_ctl, SRE_ctl, RRA_ctl, SHA_ctl, SHX_ctl, SHY_ctl,
    TAS_ctl, ASL_Mem_ctl, LSR_Mem_ctl, ROL_Mem_ctl, ROR_Mem_ctl, ANC_ctl, ALR_ctl, ARR_ctl,
    LAS_ctl, ASL_MemAbsX_ctl, LSR_MemAbsX_ctl, ROL_MemAbsX_ctl, ROR_MemAbsX_ctl, BIT_ctl,
    BEQ_ctl, BNE_ctl, BCS_ctl, BCC_ctl, BMI_ctl, BPL_ctl, BVS_ctl, BVC_ctl, BRK_full_ctl,
    RTI_ctl, PHA_ctl, PHP_ctl, PLA_ctl, PLP_ctl, JSR_ctl, RTS_ctl, JMP_Absolute_ctl,
    JMP_Indirect_ctl, ANE_Immediate_ctl, LAX_Immediate_ctl, TAX_ctl, TAY_ctl, TXA_ctl,
    TYA_ctl, INX_ctl, INY_ctl, DEX_ctl, DEY_ctl, ASL_A_ctl, LSR_A_ctl, ROL_A_ctl, ROR_A_ctl,
    CLC_ctl, SEC_ctl, CLI_ctl, SEI_ctl, CLV_ctl, CLD_ctl, SED_ctl, NOP_ctl, TSX_ctl, TXS_ctl,
    and_self, false_imp_iff, implies_true]

/-- Embeds `Execute` leaves the cycle budget as it found it. -/
theorem Execute_cycles (s : CPU6502 D) (op : Nat) : (Execute b c s op).cycles = s.cycles :=
  Execute_cases b c (fun t => t.cycles = s.cycles) s op rfl (fun e he => (arms_cycles b c s e he).1)

end CPU6502

/-! ## The CPU: cycle accounting -/

set_option maxRecDepth 100000 in
/-- Every base cycle count is at most seven. -/
theorem cycle_table_le (o : Nat) : cycle_table.getD o 0 ≤ 7 := by
  have hall : ∀ x ∈ cycle_table, x ≤ 7 := by decide
  have hgen : ∀ (l : List Nat), (∀ x ∈ l, x ≤ 7) → ∀ n, l.getD n 0 ≤ 7 := by
    intro l
    induction l with
    | nil => intro _ n; simp
    | cons x xs ih =>
      intro h n
      cases n with
      | zero => exact h x (List.mem_cons_self _ _)
      | succ k =>
        simpa using ih (fun y hy => h y (List.mem_cons_of_mem _ hy)) k
  exact hgen _ hall o

namespace CPU6502

variable {D : Type} (b : Build) (c : Chips D)

/-- The crediting tail of `fetchExecute` on a state with an empty budget. -/
theorem credit_cycles (e : CPU6502 D) (n : Nat) (hn : n ≤ 7) (hc : e.cycles = 0) :
    (let s1 : CPU6502 D := { e with cycles := (e.cycles + n) % 4294967296 }
     let s2 : CPU6502 D :=
       if s1.branch_taken then { s1 with cycles := (s1.cycles + 1) % 4294967296 } else s1
     if s2.page_crossed then { s2 with cycles := (s2.cycles + 1) % 4294967296 } else s2)
      = { e with cycles := n + bit e.branch_taken + bit e.page_crossed } := by
  obtain ⟨A, X, Y, SP, PC, P, mem, i6507, running, pc, bt, halted, cycles, tc⟩ := e
  simp only at hc
  subst hc
  cases bt <;> cases pc <;> simp [bit] <;> omega

end CPU6502

/-- C6: fetching and executing one opcode `o` from a remaining-cycle budget of 0
leaves the budget equal to `cycle_table[o]`, plus one when the branch-taken
flag is set, plus one when the page-crossed flag is set; so the credited cycles
lie between `cycle_table[o]` and `cycle_table[o] + 2`.  This holds for every
byte fetched, the ones `Execute` does not decode included. -/
theorem CPU6502_fetchExecute_credits {D : Type} (b : Build) (c : Chips D) (s : CPU6502 D)
    (h0 : s.cycles = 0) :
    (CPU6502.fetchExecute b c s).cycles
        = cycle_table.getD (CPU6502.read b c s s.PC).1 0
          + CPU6502.bit (CPU6502.fetchExecute b c s).branch_taken
          + CPU6502.bit (CPU6502.fetchExecute b c s).page_crossed ∧
    cycle_table.getD (CPU6502.read b c s s.PC).1 0 ≤ (CPU6502.fetchExecute b c s).cycles ∧
    (CPU6502.fetchExecute b c s).cycles ≤ cycle_table.getD (CPU6502.read b c s s.PC).1 0 + 2 := by
  have hE := CPU6502.Execute_cycles b c
    { (CPU6502.read b c s s.PC).2 with PC := (s.PC + 1) % 65536, page_crossed := false,
                                       branch_taken := false } (CPU6502.read b c s s.PC).1
  have hE0 : (CPU6502.Execute b c
      { (CPU6502.read b c s s.PC).2 with PC := (s.PC + 1) % 65536, page_crossed := false,
                                         branch_taken := false }
      (CPU6502.read b c s s.PC).1).cycles = 0 := by
    rw [hE]; exact h0
  have hcr := CPU6502.credit_cycles _ _ (cycle_table_le (CPU6502.read b c s s.PC).1) hE0
  have hfe : CPU6502.fetchExecute b c s = _ := hcr
  rw [hfe]
  dsimp only
  have hb : ∀ x : Bool, CPU6502.bit x ≤ 1 := by intro x; cases x <;> simp [CPU6502.bit]
  have aux : ∀ n x y : Nat, x ≤ 1 → y ≤ 1 →
      (n + x + y = n + x + y ∧ n ≤ n + x + y ∧ n + x + y ≤ n + 2) := by
    intro n x y hx hy; omega
  exact aux _ _ _ (hb _) (hb _)

/-! ## The CPU: branches -/

theorem testBit_65280 (i : Nat) : Nat.testBit 0xFF00 i = (decide (8 ≤ i) && decide (i < 16)) := by
  have h : (0xFF00 : Nat) = 2 ^ 8 * (2 ^ 8 - 1) := by norm_num
  rw [h, Nat.testBit_mul_pow_two, Nat.testBit_two_pow_sub_one]
  by_cases h8 : 8 ≤ i
  · simp [h8]; omega
  · simp [h8]

/-- Masking a 16-bit address with `0xFF00` keeps its high byte. -/
theorem and_FF00 (x : Nat) (hx : x < 65536) : x &&& 0xFF00 = x / 256 * 256 := by
  apply Nat.eq_of_testBit_eq
  intro i
  have h256 : (256 : Nat) = 2 ^ 8 := by norm_num
  rw [Nat.testBit_and, testBit_65280, h256, Nat.mul_comm, Nat.testBit_mul_pow_two,
    ← Nat.shiftRight_eq_div_pow, Nat.testBit_shiftRight]
  by_cases h8 : 8 ≤ i
  · by_cases h16 : i < 16
    · simp [h8, h16, Nat.add_sub_cancel' h8]
    · have hlt : x < 2 ^ i := lt_of_lt_of_le hx (by
        have : (65536 : Nat) = 2 ^ 16 := by norm_num
        rw [this]; exact Nat.pow_le_pow_right (by norm_num) (by omega))
      simp [h8, h16, Nat.add_sub_cancel' h8, Nat.testBit_lt_two_pow hlt]
  · simp [h8]

/-- Two 16-bit addresses agree under the mask `0xFF00` iff their high bytes are
equal. -/
theorem same_page_iff (x y : Nat) (hx : x < 65536) (hy : y < 65536) :
    (x &&& 0xFF00 = y &&& 0xFF00) ↔ x / 256 = y / 256 := by
  rw [and_FF00 x hx, and_FF00 y hy]
  constructor
  · intro h; omega
  · intro h; rw [h]

namespace CPU6502

variable {D : Type} (b : Build) (c : Chips D)

/-- With an empty budget, `fetchExecute` is `Execute` on the fetched opcode
followed by the credit of `cycle_table[opcode]` and of the two penalties. -/
theorem fetchExecute_eq (s : CPU6502 D) (h0 : s.cycles = 0) :
    fetchExecute b c s =
      { Execute b c (afterFetch b c s) (opcodeAt b c s) with
        cycles := cycle_table.getD (opcodeAt b c s) 0
          + bit (Execute b c (afterFetch b c s) (opcodeAt b c s)).branch_taken
          + bit (Execute b c (afterFetch b c s) (opcodeAt b c s)).page_crossed } := by
  have hE0 : (Execute b c (afterFetch b c s) (opcodeAt b c s)).cycles = 0 := by
    rw [Execute_cycles]; exact h0
  have hcr := credit_cycles (Execute b c (afterFetch b c s) (opcodeAt b c s)) _
    (cycle_table_le (opcodeAt b c s)) hE0
  rw [← hcr]
  rfl

/-- What `BranchIf` leaves in `PC` and in the two transient flags. -/
theorem BranchIf_spec (s : CPU6502 D) (cond : Bool) :
    (BranchIf b c s cond).PC =
      (if cond then
        ((s.PC + 1) % 65536 + (if (read b c s s.PC).1 ≥ 128 then (read b c s s.PC).1 + 65280
          else (read b c s s.PC).1)) % 65536
       else (s.PC + 1) % 65536) ∧
    (BranchIf b c s cond).branch_taken = cond ∧
    (BranchIf b c s cond).page_crossed =
      (cond && (((s.PC + 1) % 65536 &&& 0xFF00) !=
        (((s.PC + 1) % 65536 + (if (read b c s s.PC).1 ≥ 128 then (read b c s s.PC).1 + 65280
          else (read b c s s.PC).1)) % 65536 &&& 0xFF00))) := by
  cases cond
  · simp only [BranchIf, Fetch8, Bool.false_eq_true, if_false, Bool.false_and, and_self]
  · have hq : ∀ q : Bool, (if q = true then true else false) = q := by
      intro q; cases q <;> rfl
    simp only [BranchIf, Fetch8, if_true, Bool.true_and, apply_ite CPU6502.PC,
      apply_ite CPU6502.branch_taken, apply_ite CPU6502.page_crossed, ite_self, hq, and_self]

/-- The step of a conditional branch, for whichever condition `cond` the
opcode's arm passes to `BranchIf`. -/
theorem fetchExecute_branch (s : CPU6502 D) (h0 : s.cycles = 0) (cond : Bool)
    (hE : Execute b c (afterFetch b c s) (opcodeAt b c s)
      = BranchIf b c (afterFetch b c s) cond)
    (hc : cycle_table.getD (opcodeAt b c s) 0 = 2) :
    (cond = false →
      (fetchExecute b c s).PC = (s.PC + 2) % 65536 ∧ (fetchExecute b c s).cycles = 2) ∧
    (cond = true →
      ((fetchExecute b c s).PC : Int)
        = (((s.PC + 2) % 65536 : Nat) + signed8
            (Memory.Read b c (Memory.Read b c s.mem s.PC).2 ((s.PC + 1) % 65536)).1) % 65536 ∧
      (fetchExecute b c s).cycles
        = if (fetchExecute b c s).PC / 256 = (s.PC + 2) % 65536 / 256 then 3 else 4) := by
  obtain ⟨hpc, hbt, hpg⟩ := BranchIf_spec b c (afterFetch b c s) cond
  have hv : (read b c (afterFetch b c s) (afterFetch b c s).PC).1
      = (Memory.Read b c (Memory.Read b c s.mem s.PC).2 ((s.PC + 1) % 65536)).1 := rfl
  have hp : (afterFetch b c s).PC = (s.PC + 1) % 65536 := rfl
  have hvlt := Memory.Read_lt b c (Memory.Read b c s.mem s.PC).2 ((s.PC + 1) % 65536)
  rw [hv, hp] at hpc hpg
  generalize (Memory.Read b c (Memory.Read b c s.mem s.PC).2 ((s.PC + 1) % 65536)).1 = v
    at hpc hpg hvlt ⊢
  have hfe := fetchExecute_eq b c s h0
  rw [hE, hc, hbt, hpg] at hfe
  have hPC : (fetchExecute b c s).PC = (BranchIf b c (afterFetch b c s) cond).PC := by
    rw [hfe]
  have hcy : (fetchExecute b c s).cycles = 2 + bit cond + bit (cond &&
      (((s.PC + 1) % 65536 + 1) % 65536 &&& 0xFF00 !=
        (((s.PC + 1) % 65536 + 1) % 65536 + if v ≥ 128 then v + 65280 else v) % 65536
          &&& 0xFF00)) := by
    rw [hfe]
  rw [hPC, hcy, hpc]
  have hn : ((s.PC + 1) % 65536 + 1) % 65536 = (s.PC + 2) % 65536 := by omega
  rw [hn]
  constructor
  · intro hcond
    subst hcond
    simp [bit]
  · intro hcond
    subst hcond
    rw [if_pos rfl, Bool.true_and]
    have hnlt : (s.PC + 2) % 65536 < 65536 := Nat.mod_lt _ (by norm_num)
    have htlt : ((s.PC + 2) % 65536 + if v ≥ 128 then v + 65280 else v) % 65536 < 65536 :=
      Nat.mod_lt _ (by norm_num)
    generalize (s.PC + 2) % 65536 = n at hnlt htlt ⊢
    have hsig : (((n + if v ≥ 128 then v + 65280 else v) % 65536 : Nat) : Int)
        = ((n : Int) + signed8 v) % 65536 := by
      unfold signed8
      split <;> omega
    generalize (n + if v ≥ 128 then v + 65280 else v) % 65536 = tgt at htlt hsig ⊢
    refine ⟨hsig, ?_⟩
    have hiff := same_page_iff n tgt hnlt htlt
    by_cases hpage : tgt / 256 = n / 256
    · have h1 : (n &&& 0xFF00 != tgt &&& 0xFF00) = false := by
        rw [hiff.mpr hpage.symm]; exact bne_self_eq_false _
      rw [if_pos hpage, h1]
      rfl
    · have h1 : (n &&& 0xFF00 != tgt &&& 0xFF00) = true := by
        apply bne_iff_ne.mpr
        intro h
        exact hpage (hiff.mp h).symm
      rw [if_neg hpage, h1]
      rfl

end CPU6502

/-- C7: for each of the eight conditional branch opcodes, fetched and executed
from an empty budget at address `PC`, with `n = PC + 2` the address of the
following instruction and `d` the operand byte read as a signed offset: when
the tested flag does not have the branching value, `PC` becomes `n` and 2
cycles are credited; when it has, `PC` becomes `(n + d) mod 65536` and 3 cycles
are credited if `n` and the target have the same high byte, 4 if not. -/
theorem CPU6502_branch_PC_and_cycles {D : Type} (b : Build) (c : Chips D) (s : CPU6502 D)
    (op flag : Nat) (sense : Bool)
    (h0 : s.cycles = 0) (hop : CPU6502.opcodeAt b c s = op)
    (hmem : (op, flag, sense) ∈ branchOpcodes) :
    ((Flags.Get s.P flag == sense) = false →
      (CPU6502.fetchExecute b c s).PC = (s.PC + 2) % 65536 ∧
      (CPU6502.fetchExecute b c s).cycles = 2) ∧
    ((Flags.Get s.P flag == sense) = true →
      ((CPU6502.fetchExecute b c s).PC : Int)
        = (((s.PC + 2) % 65536 : Nat) + signed8
            (Memory.Read b c (Memory.Read b c s.mem s.PC).2 ((s.PC + 1) % 65536)).1) % 65536 ∧
      (CPU6502.fetchExecute b c s).cycles
        = if (CPU6502.fetchExecute b c s).PC / 256 = (s.PC + 2) % 65536 / 256 then 3 else 4) := by
  have hT : ∀ x : Bool, (x == true) = x := fun x => by cases x <;> rfl
  have hF : ∀ x : Bool, (x == false) = !x := fun x => by cases x <;> rfl
  simp only [branchOpcodes, List.mem_cons, List.mem_singleton, Prod.mk.injEq, List.not_mem_nil,
    or_false] at hmem
  rcases hmem with h | h | h | h | h | h | h | h <;>
  obtain ⟨hopc, hflag, hsense⟩ := h <;>
  subst hopc hflag hsense <;>
  (first | rw [hT] | rw [hF]) <;>
  refine CPU6502.fetchExecute_branch b c s h0 _ ?_ ?_ <;>
  rw [hop] <;> rfl

/-- C7, instance: `BEQ +2` at `0x80FD` with `Z` set; the following instruction
is at `0x80FF`, the target `0x8101` lies on the next page. -/
theorem CPU6502_branch_PC_and_cycles_witness :
    (CPU6502.beqState.cycles = 0 ∧
      CPU6502.opcodeAt Build.plain Chips.none CPU6502.beqState = 0xF0 ∧
      (0xF0, Flags.Z, true) ∈ branchOpcodes) ∧
    (((Flags.Get CPU6502.beqState.P Flags.Z == true) = false →
      (CPU6502.fetchExecute Build.plain Chips.none CPU6502.beqState).PC
        = (CPU6502.beqState.PC + 2) % 65536 ∧
      (CPU6502.fetchExecute Build.plain Chips.none CPU6502.beqState).cycles = 2) ∧
    ((Flags.Get CPU6502.beqState.P Flags.Z == true) = true →
      ((CPU6502.fetchExecute Build.plain Chips.none CPU6502.beqState).PC : Int)
        = (((CPU6502.beqState.PC + 2) % 65536 : Nat) + signed8
            (Memory.Read Build.plain Chips.none
              (Memory.Read Build.plain Chips.none CPU6502.beqState.mem CPU6502.beqState.PC).2
              ((CPU6502.beqState.PC + 1) % 65536)).1) % 65536 ∧
      (CPU6502.fetchExecute Build.plain Chips.none CPU6502.beqState).cycles
        = if (CPU6502.fetchExecute Build.plain Chips.none CPU6502.beqState).PC / 256
            = (CPU6502.beqState.PC + 2) % 65536 / 256 then 3 else 4)) :=
  ⟨⟨rfl, rfl, by simp [branchOpcodes]⟩,
   CPU6502_branch_PC_and_cycles Build.plain Chips.none CPU6502.beqState 0xF0 Flags.Z true
     rfl rfl (by simp [branchOpcodes])⟩

/-- The `BEQ +2` example evaluated: the branch is taken to `0x8101` and 4 cycles
are credited. -/
theorem CPU6502_beq_page_cross_example :
    (CPU6502.fetchExecute Build.plain Chips.none CPU6502.beqState).PC = 0x8101 ∧
    (CPU6502.fetchExecute Build.plain Chips.none CPU6502.beqState).cycles = 4 := by
  decide

/-- C6, instance: the first instruction of the program of `main`, `LDA #$42`
(opcode `0xA9`, 2 base cycles), fetched from an empty budget. -/
theorem CPU6502_fetchExecute_credits_witness :
    ({ CPU6502.init Memory.mainProgram with PC := 0x8000 } : CPU6502 Unit).cycles = 0 ∧
    ((CPU6502.fetchExecute Build.plain Chips.none
        { CPU6502.init Memory.mainProgram with PC := 0x8000 }).cycles
        = cycle_table.getD (CPU6502.read Build.plain Chips.none
            { CPU6502.init Memory.mainProgram with PC := 0x8000 } 0x8000).1 0
          + CPU6502.bit (CPU6502.fetchExecute Build.plain Chips.none
              { CPU6502.init Memory.mainProgram with PC := 0x8000 }).branch_taken
          + CPU6502.bit (CPU6502.fetchExecute Build.plain Chips.none
              { CPU6502.init Memory.mainProgram with PC := 0x8000 }).page_crossed ∧
      cycle_table.getD (CPU6502.read Build.plain Chips.none
            { CPU6502.init Memory.mainProgram with PC := 0x8000 } 0x8000).1 0
        ≤ (CPU6502.fetchExecute Build.plain Chips.none
            { CPU6502.init Memory.mainProgram with PC := 0x8000 }).cycles ∧
      (CPU6502.fetchExecute Build.plain Chips.none
          { CPU6502.init Memory.mainProgram with PC := 0x8000 }).cycles
        ≤ cycle_table.getD (CPU6502.read Build.plain Chips.none
            { CPU6502.init Memory.mainProgram with PC := 0x8000 } 0x8000).1 0 + 2) :=
  ⟨rfl, CPU6502_fetchExecute_credits Build.plain Chips.none
    { CPU6502.init Memory.mainProgram with PC := 0x8000 } rfl⟩

/-! ## The CPU: indirect jump, zero page, stack -/

/-- Masking with `0xFF` keeps the low byte. -/
theorem and_FF (x : Nat) : x &&& 0xFF = x % 256 := Nat.and_pow_two_sub_one_eq_mod x 8

/-- C8: `JMP (ptr)` (opcode `0x6C`) sets `PC` to
`Read(ptr) | (Read((ptr & 0xFF00) | ((ptr + 1) & 0x00FF)) << 8)`, the low byte
read first; when the low byte of `ptr` is `0xFF` the second address is
`ptr & 0xFF00`, which is not `ptr + 1`. -/
theorem CPU6502_JMP_Indirect_target {D : Type} (b : Build) (c : Chips D) (s : CPU6502 D) :
    CPU6502.Execute b c s 0x6C = CPU6502.JMP_Indirect b c s ∧
    (CPU6502.JMP_Indirect b c s).PC
      = (Memory.Read b c (CPU6502.Fetch16 b c s).2.mem (CPU6502.Fetch16 b c s).1).1 |||
        ((Memory.Read b c
            (Memory.Read b c (CPU6502.Fetch16 b c s).2.mem (CPU6502.Fetch16 b c s).1).2
            (((CPU6502.Fetch16 b c s).1 &&& 0xFF00) |||
              (((CPU6502.Fetch16 b c s).1 + 1) &&& 0x00FF))).1 <<< 8) ∧
    ((CPU6502.Fetch16 b c s).1 % 256 = 0xFF →
      (((CPU6502.Fetch16 b c s).1 &&& 0xFF00) ||| (((CPU6502.Fetch16 b c s).1 + 1) &&& 0x00FF))
        = (CPU6502.Fetch16 b c s).1 &&& 0xFF00 ∧
      (CPU6502.Fetch16 b c s).1 &&& 0xFF00 ≠ ((CPU6502.Fetch16 b c s).1 + 1) % 65536) := by
  refine ⟨rfl, ?_, ?_⟩
  · have h : (CPU6502.JMP_Indirect b c s).PC
        = ((Memory.Read b c (CPU6502.Fetch16 b c s).2.mem (CPU6502.Fetch16 b c s).1).1 |||
          ((Memory.Read b c
            (Memory.Read b c (CPU6502.Fetch16 b c s).2.mem (CPU6502.Fetch16 b c s).1).2
            (((CPU6502.Fetch16 b c s).1 &&& 0xFF00) |||
              (((CPU6502.Fetch16 b c s).1 + 1) &&& 0x00FF))).1 <<< 8)) % 65536 := rfl
    rw [h]
    exact Nat.mod_eq_of_lt (word_lt _ _ (Memory.Read_lt _ _ _ _) (Memory.Read_lt _ _ _ _))
  · have hlt : (CPU6502.Fetch16 b c s).1 < 65536 := Nat.mod_lt _ (by norm_num)
    generalize (CPU6502.Fetch16 b c s).1 = ptr at hlt ⊢
    intro hlow
    have h1 : (ptr + 1) &&& 0x00FF = 0 := by rw [and_FF]; omega
    rw [h1, Nat.or_zero, and_FF00 ptr hlt]
    refine ⟨rfl, ?_⟩
    omega

/-- C9: zero-page indexed addressing stays in page zero.  `Addr_ZeroPageX` and
`Addr_ZeroPageY` return `(zp + index) mod 256`, below `0x100`, for the operand
byte `zp`; `Addr_IndirectX` reads the low pointer byte at `(zp + X) mod 256` and
the high one at `(zp + X + 1) mod 256`. -/
theorem CPU6502_zero_page_wraps {D : Type} (b : Build) (c : Chips D) (s : CPU6502 D) :
    ((CPU6502.Addr_ZeroPageX b c s).1 = ((CPU6502.Fetch8 b c s).1 + s.X) % 256 ∧
      (CPU6502.Addr_ZeroPageX b c s).1 < 0x100) ∧
    ((CPU6502.Addr_ZeroPageY b c s).1 = ((CPU6502.Fetch8 b c s).1 + s.Y) % 256 ∧
      (CPU6502.Addr_ZeroPageY b c s).1 < 0x100) ∧
    (CPU6502.Addr_IndirectX b c s).1
      = (Memory.Read b c (CPU6502.Fetch8 b c s).2.mem
            (((CPU6502.Fetch8 b c s).1 + s.X) % 256)).1 |||
        ((Memory.Read b c
            (Memory.Read b c (CPU6502.Fetch8 b c s).2.mem
              (((CPU6502.Fetch8 b c s).1 + s.X) % 256)).2
            (((CPU6502.Fetch8 b c s).1 + s.X + 1) % 256)).1 <<< 8) ∧
    ((CPU6502.Fetch8 b c s).1 + s.X) % 256 < 0x100 ∧
    ((CPU6502.Fetch8 b c s).1 + s.X + 1) % 256 < 0x100 := by
  have hm : ∀ x : Nat, x % 256 < 0x100 := fun x => Nat.mod_lt x (by norm_num)
  refine ⟨⟨rfl, hm _⟩, ⟨rfl, hm _⟩, ?_, hm _, hm _⟩
  have h : (CPU6502.Addr_IndirectX b c s).1
      = ((Memory.Read b c (CPU6502.Fetch8 b c s).2.mem
            (((CPU6502.Fetch8 b c s).1 + s.X) % 256)).1 |||
        ((Memory.Read b c
            (Memory.Read b c (CPU6502.Fetch8 b c s).2.mem
              (((CPU6502.Fetch8 b c s).1 + s.X) % 256)).2
            ((((CPU6502.Fetch8 b c s).1 + s.X) % 256 + 1) % 256)).1 <<< 8)) % 65536 := rfl
  have hw : (((CPU6502.Fetch8 b c s).1 + s.X) % 256 + 1) % 256
      = ((CPU6502.Fetch8 b c s).1 + s.X + 1) % 256 := by omega
  rw [h, hw]
  exact Nat.mod_eq_of_lt (word_lt _ _ (Memory.Read_lt _ _ _ _) (Memory.Read_lt _ _ _ _))

/-- C8, instance: bytes `6C FF 30` with `[0x30FF] = 0x80`, `[0x3000] = 0x40`,
`[0x3100] = 0xFF`: the pointer is `0x30FF` and the jump goes to `0x4080`, not
`0xFF80`. -/
theorem CPU6502_JMP_Indirect_target_witness :
    (CPU6502.Fetch16 Build.plain Chips.none
      (CPU6502.afterFetch Build.plain Chips.none CPU6502.jmpState)).1 = 0x30FF ∧
    (CPU6502.Execute Build.plain Chips.none
      (CPU6502.afterFetch Build.plain Chips.none CPU6502.jmpState) 0x6C).PC = 0x4080 ∧
    (CPU6502.fetchExecute Build.plain Chips.none CPU6502.jmpState).PC = 0x4080 := by
  refine ⟨by decide, ?_, by decide⟩
  rw [(CPU6502_JMP_Indirect_target Build.plain Chips.none
    (CPU6502.afterFetch Build.plain Chips.none CPU6502.jmpState)).1]
  decide

namespace Memory

variable {D : Type}

/-- A stack-page address is the address the bus decodes, with or without the
13-bit mask. -/
theorem busAddr_stack (m : Memory D) (sp : Nat) (h : sp < 256) :
    busAddr m (0x0100 + sp) = 0x0100 + sp := by
  unfold busAddr
  have h1 : (0x0100 + sp) % 65536 = 0x0100 + sp := Nat.mod_eq_of_lt (by omega)
  rw [h1]
  split
  · have := Nat.and_pow_two_sub_one_eq_mod (0x0100 + sp) 13
    norm_num at this
    rw [this]
    omega
  · rfl

end Memory

/-- C10: for every accumulator byte `A` and every stack pointer `SP` (`0x00`
included), with the stack slot `0x0100 + SP` plain writable RAM, `PHA` writes
`A` at `0x0100 + SP` and leaves `SP - 1` modulo 256 (`0xFF` from `0x00`), and
`PHA` followed by `PLA` leaves `A` and `SP` as they were, with `Z` set iff
`A == 0` and `N` set iff bit 7 of `A` is set. -/
theorem CPU6502_PHA_PLA_roundtrip {D : Type} (b : Build) (c : Chips D) (s : CPU6502 D)
    (hA : s.A < 256) (hSP : s.SP < 256)
    (hram : Memory.plainRAM b c s.mem (0x0100 + s.SP) = true) :
    CPU6502.Execute b c s 0x48 = CPU6502.PHA b c s ∧
    CPU6502.Execute b c (CPU6502.PHA b c s) 0x68 = CPU6502.PLA b c (CPU6502.PHA b c s) ∧
    (CPU6502.PHA b c s).mem.data (0x0100 + s.SP) = s.A ∧
    (CPU6502.PHA b c s).SP = (s.SP + 255) % 256 ∧
    (CPU6502.PLA b c (CPU6502.PHA b c s)).A = s.A ∧
    (CPU6502.PLA b c (CPU6502.PHA b c s)).SP = s.SP ∧
    (Flags.Get (CPU6502.PLA b c (CPU6502.PHA b c s)).P Flags.Z = true ↔ s.A = 0) ∧
    (Flags.Get (CPU6502.PLA b c (CPU6502.PHA b c s)).P Flags.N = true ↔ s.A &&& 0x80 ≠ 0) := by
  have hmem : (CPU6502.PHA b c s).mem
      = { s.mem with data := Memory.store s.mem.data (0x0100 + s.SP) s.A } := by
    have h := Memory.Write_plainRAM b c s.mem (0x0100 + s.SP) s.A hram
    rw [Memory.busAddr_stack s.mem s.SP hSP, Nat.mod_eq_of_lt hA] at h
    exact h
  have hsp : (CPU6502.PHA b c s).SP = (s.SP + 255) % 256 := rfl
  have hsp' : ((s.SP + 255) % 256 + 1) % 256 = s.SP := by omega
  have hram' : Memory.plainRAM b c (CPU6502.PHA b c s).mem (0x0100 + s.SP) = true := by
    rw [hmem, Memory.plainRAM_data]; exact hram
  have hread : Memory.Read b c (CPU6502.PHA b c s).mem (0x0100 + s.SP)
      = (s.A, (CPU6502.PHA b c s).mem) := by
    rw [Memory.Read_plainRAM b c _ _ hram', Memory.busAddr_stack _ s.SP hSP]
    rw [hmem]
    simp only [Memory.store, if_true, Nat.mod_eq_of_lt hA]
  have hpop : CPU6502.Pop b c (CPU6502.PHA b c s)
      = (s.A, { CPU6502.PHA b c s with SP := s.SP }) := by
    unfold CPU6502.Pop CPU6502.read
    simp only [hsp, hsp', hread]
  have hpla : CPU6502.PLA b c (CPU6502.PHA b c s)
      = CPU6502.setZN { CPU6502.PHA b c s with SP := s.SP, A := s.A } s.A := by
    unfold CPU6502.PLA
    simp only [hpop]
  have hz := Flags.SetZN_spec (CPU6502.PHA b c s).P s.A
  refine ⟨rfl, rfl, ?_, hsp, ?_, ?_, ?_, ?_⟩
  · rw [hmem]; simp only [Memory.store, if_true]
  · rw [hpla]; rfl
  · rw [hpla]; rfl
  · rw [hpla]; exact hz.1
  · rw [hpla]; exact hz.2

/-- C10, instance: `A = 0x00` pushed from `SP = 0x00` on the default build; the
byte lands at `0x0100` and the push leaves `SP = 0xFF`. -/
theorem CPU6502_PHA_PLA_roundtrip_witness :
    (CPU6502.stackState.A < 256 ∧ CPU6502.stackState.SP < 256 ∧
      Memory.plainRAM Build.plain Chips.none CPU6502.stackState.mem
        (0x0100 + CPU6502.stackState.SP) = true) ∧
    (CPU6502.PHA Build.plain Chips.none CPU6502.stackState).SP = 0xFF ∧
    (CPU6502.PLA Build.plain Chips.none
      (CPU6502.PHA Build.plain Chips.none CPU6502.stackState)).A = CPU6502.stackState.A ∧
    (CPU6502.PLA Build.plain Chips.none
      (CPU6502.PHA Build.plain Chips.none CPU6502.stackState)).SP = CPU6502.stackState.SP ∧
    Flags.Get (CPU6502.PLA Build.plain Chips.none
      (CPU6502.PHA Build.plain Chips.none CPU6502.stackState)).P Flags.Z = true :=
  have h := CPU6502_PHA_PLA_roundtrip Build.plain Chips.none CPU6502.stackState
    (by decide) (by decide) (by decide)
  ⟨⟨by decide, by decide, by decide⟩, h.2.2.2.1, h.2.2.2.2.1, h.2.2.2.2.2.1,
    h.2.2.2.2.2.2.1.mpr rfl⟩

/-! ## The bus and the stack on plain RAM -/

namespace Memory

variable {D : Type}

/-- Whether the ROM switch returns depends on the profile and the address only. -/
theorem romSwitch_isNone_congr (c : Chips D) (m m' : Memory D) (x v w : Nat)
    (hr : m'.romSpace = m.romSpace) :
    (romSwitch c m' x v).isNone = (romSwitch c m x w).isNone := by
  obtain ⟨ch, u, rs, dt⟩ := m
  obtain ⟨ch', u', rs', dt'⟩ := m'
  simp only at hr
  subst hr
  cases rs' <;> simp only [romSwitch] <;> (repeat' split) <;> rfl

/-- Being plain RAM depends on the 6507 switch and the profile only, not on the
array or the chip state. -/
theorem plainRAM_congr (b : Build) (c : Chips D) (m m' : Memory D) (a : Nat)
    (hu : m'.use6507addresspace = m.use6507addresspace) (hr : m'.romSpace = m.romSpace) :
    plainRAM b c m' a = plainRAM b c m a := by
  have hs := romSwitch_isNone_congr c m m' (busAddr m a) 0 0 hr
  have hb : busAddr m' a = busAddr m a := by simp only [busAddr, hu]
  simp only [plainRAM, hb, hs]

/-- A read leaves the 6507 switch, the profile and the array alone. -/
theorem Read_frame (b : Build) (c : Chips D) (m : Memory D) (a : Nat) :
    (Read b c m a).2.use6507addresspace = m.use6507addresspace ∧
    (Read b c m a).2.romSpace = m.romSpace ∧
    (Read b c m a).2.data = m.data := by
  have h : ∀ (p : Prop) [Decidable p] (x y : Nat × Memory D),
      (x.2.use6507addresspace = m.use6507addresspace ∧ x.2.romSpace = m.romSpace ∧
        x.2.data = m.data) →
      (y.2.use6507addresspace = m.use6507addresspace ∧ y.2.romSpace = m.romSpace ∧
        y.2.data = m.data) →
      ((if p then x else y).2.use6507addresspace = m.use6507addresspace ∧
        (if p then x else y).2.romSpace = m.romSpace ∧
        (if p then x else y).2.data = m.data) := by
    intro p _ x y hx hy
    split <;> assumption
  simp only [Read, chipRead]
  repeat' (first | exact ⟨rfl, rfl, rfl⟩ | apply h)

/-- Plain RAM stays plain RAM across a read of any address. -/
theorem plainRAM_Read (b : Build) (c : Chips D) (m : Memory D) (a x : Nat) :
    plainRAM b c (Read b c m x).2 a = plainRAM b c m a :=
  plainRAM_congr b c m _ a (Read_frame b c m x).1 (Read_frame b c m x).2.1

/-- A write leaves the 6507 switch and the profile alone. -/
theorem Write_frame (b : Build) (c : Chips D) (m : Memory D) (a v : Nat) :
    (Write b c m a v).use6507addresspace = m.use6507addresspace ∧
    (Write b c m a v).romSpace = m.romSpace := by
  have hd : (writeDispatch b c m (busAddr m a) (v % 256)).use6507addresspace
        = m.use6507addresspace ∧
      (writeDispatch b c m (busAddr m a) (v % 256)).romSpace = m.romSpace := by
    have h : ∀ (p : Prop) [Decidable p] (x y : Memory D),
        (x.use6507addresspace = m.use6507addresspace ∧ x.romSpace = m.romSpace) →
        (y.use6507addresspace = m.use6507addresspace ∧ y.romSpace = m.romSpace) →
        ((if p then x else y).use6507addresspace = m.use6507addresspace ∧
          (if p then x else y).romSpace = m.romSpace) := by
      intro p _ x y hx hy
      split <;> assumption
    simp only [writeDispatch, chipWrite]
    repeat' (first | exact ⟨rfl, rfl⟩ | apply h)
  have hs : ∀ x w m', romSwitch c m x w = some m' →
      m'.use6507addresspace = m.use6507addresspace ∧ m'.romSpace = m.romSpace := by
    intro x w m' h
    simp only [romSwitch, chipWrite] at h
    split at h <;> (repeat' (split at h)) <;> cases h <;> exact ⟨rfl, rfl⟩
  unfold Write
  dsimp only
  split
  · rename_i m' h
    split at h
    · exact hs _ _ m' h
    · exact absurd h (by simp)
  · exact hd

/-- Plain RAM stays plain RAM across a write to any address. -/
theorem plainRAM_Write (b : Build) (c : Chips D) (m : Memory D) (a x v : Nat) :
    plainRAM b c (Write b c m x v) a = plainRAM b c m a :=
  plainRAM_congr b c m _ a (Write_frame b c m x v).1 (Write_frame b c m x v).2

end Memory

namespace CPU6502

variable {D : Type} (b : Build) (c : Chips D)

/-- A CPU read of plain RAM returns the array byte and changes nothing. -/
theorem read_plain (s : CPU6502 D) (a : Nat) (h : Memory.plainRAM b c s.mem a = true) :
    read b c s a = (s.mem.data (Memory.busAddr s.mem a) % 256, s) := by
  unfold read
  rw [Memory.Read_plainRAM b c s.mem a h]

/-- A CPU write to plain RAM stores the byte and changes nothing else. -/
theorem write_plain (s : CPU6502 D) (a v : Nat) (h : Memory.plainRAM b c s.mem a = true) :
    write b c s a v
      = { s with mem := { s.mem with
            data := Memory.store s.mem.data (Memory.busAddr s.mem a) (v % 256) } } := by
  unfold write
  rw [Memory.Write_plainRAM b c s.mem a v h]

/-- A push onto a plain RAM stack slot: the byte lands at `0x0100 + SP` and `SP`
steps down modulo 256. -/
theorem Push_plain (s : CPU6502 D) (v : Nat) (hsp : s.SP < 256)
    (h : Memory.plainRAM b c s.mem (0x0100 + s.SP) = true) :
    Push b c s v
      = { s with SP := (s.SP + 255) % 256,
                 mem := { s.mem with
                   data := Memory.store s.mem.data (0x0100 + s.SP) (v % 256) } } := by
  unfold Push
  rw [write_plain b c { s with SP := (s.SP + 255) % 256 } _ _ h]
  dsimp only
  rw [Memory.busAddr_stack s.mem s.SP hsp]

/-- A pop from a plain RAM stack slot: `SP` steps up modulo 256 and the byte at
`0x0100 + SP` is returned. -/
theorem Pop_plain (s : CPU6502 D)
    (h : Memory.plainRAM b c s.mem (0x0100 + (s.SP + 1) % 256) = true) :
    Pop b c s
      = (s.mem.data (0x0100 + (s.SP + 1) % 256) % 256, { s with SP := (s.SP + 1) % 256 }) := by
  unfold Pop
  rw [read_plain b c { s with SP := (s.SP + 1) % 256 } _ h]
  dsimp only
  rw [Memory.busAddr_stack s.mem _ (Nat.mod_lt _ (by norm_num))]

end CPU6502

/-! ## The CPU: PHP and PLP -/

set_option maxRecDepth 1000000 in
set_option maxHeartbeats 4000000 in
/-- The byte `PLP` builds from what `PHP` pushed, and its flags, for every status
byte. -/
theorem plp_php_byte : ∀ p < 256,
    ((((p ||| Flags.B ||| Flags.U) % 256 % 256) &&& CPU6502.not8 Flags.B) ||| Flags.U) % 256
        = (p &&& CPU6502.not8 Flags.B) ||| Flags.U ∧
    (p ||| Flags.B ||| Flags.U) % 256 = p ||| Flags.B ||| Flags.U ∧
    Flags.Get ((p &&& CPU6502.not8 Flags.B) ||| Flags.U) Flags.C = Flags.Get p Flags.C ∧
    Flags.Get ((p &&& CPU6502.not8 Flags.B) ||| Flags.U) Flags.Z = Flags.Get p Flags.Z ∧
    Flags.Get ((p &&& CPU6502.not8 Flags.B) ||| Flags.U) Flags.I = Flags.Get p Flags.I ∧
    Flags.Get ((p &&& CPU6502.not8 Flags.B) ||| Flags.U) Flags.D = Flags.Get p Flags.D ∧
    Flags.Get ((p &&& CPU6502.not8 Flags.B) ||| Flags.U) Flags.V = Flags.Get p Flags.V ∧
    Flags.Get ((p &&& CPU6502.not8 Flags.B) ||| Flags.U) Flags.N = Flags.Get p Flags.N ∧
    Flags.Get ((p &&& CPU6502.not8 Flags.B) ||| Flags.U) Flags.B = false ∧
    Flags.Get ((p &&& CPU6502.not8 Flags.B) ||| Flags.U) Flags.U = true := by
  decide

/-- C11: for every status byte `P` and stack pointer `SP`, with the stack slot
`0x0100 + SP` plain writable RAM, `PHP` writes `P | B | U` at `0x0100 + SP`, and
`PHP` followed by `PLP` leaves `SP` unchanged and `P` equal to `P` with `B`
cleared and `U` set: the flags C, Z, I, D, V, N read exactly as before. -/
theorem CPU6502_PHP_PLP_roundtrip {D : Type} (b : Build) (c : Chips D) (s : CPU6502 D)
    (hP : s.P < 256) (hSP : s.SP < 256)
    (hram : Memory.plainRAM b c s.mem (0x0100 + s.SP) = true) :
    CPU6502.Execute b c s 0x08 = CPU6502.PHP b c s ∧
    CPU6502.Execute b c (CPU6502.PHP b c s) 0x28 = CPU6502.PLP b c (CPU6502.PHP b c s) ∧
    (CPU6502.PHP b c s).mem.data (0x0100 + s.SP) = s.P ||| Flags.B ||| Flags.U ∧
    (CPU6502.PLP b c (CPU6502.PHP b c s)).SP = s.SP ∧
    (CPU6502.PLP b c (CPU6502.PHP b c s)).P = (s.P &&& CPU6502.not8 Flags.B) ||| Flags.U ∧
    (∀ flag ∈ [Flags.C, Flags.Z, Flags.I, Flags.D, Flags.V, Flags.N],
      Flags.Get (CPU6502.PLP b c (CPU6502.PHP b c s)).P flag = Flags.Get s.P flag) ∧
    Flags.Get (CPU6502.PLP b c (CPU6502.PHP b c s)).P Flags.B = false ∧
    Flags.Get (CPU6502.PLP b c (CPU6502.PHP b c s)).P Flags.U = true := by
  obtain ⟨hv, hpush, hC, hZ, hI, hD, hV, hN, hB, hU⟩ := plp_php_byte s.P hP
  have hphp : CPU6502.PHP b c s
      = { s with SP := (s.SP + 255) % 256,
                 mem := { s.mem with
                   data := Memory.store s.mem.data (0x0100 + s.SP)
                     ((s.P ||| Flags.B ||| Flags.U) % 256) } } :=
    CPU6502.Push_plain b c s _ hSP hram
  have hsp' : ((s.SP + 255) % 256 + 1) % 256 = s.SP := by omega
  have hram' : Memory.plainRAM b c (CPU6502.PHP b c s).mem
      (0x0100 + ((CPU6502.PHP b c s).SP + 1) % 256) = true := by
    rw [hphp]
    dsimp only
    rw [hsp', Memory.plainRAM_data]
    exact hram
  have hpop := CPU6502.Pop_plain b c (CPU6502.PHP b c s) hram'
  have hplp : CPU6502.PLP b c (CPU6502.PHP b c s)
      = { CPU6502.PHP b c s with
          SP := s.SP, P := (s.P &&& CPU6502.not8 Flags.B) ||| Flags.U } := by
    unfold CPU6502.PLP
    rw [hpop]
    dsimp only
    rw [hphp]
    dsimp only
    simp only [hsp', Memory.store, if_true, hv]
  have hP' : (CPU6502.PLP b c (CPU6502.PHP b c s)).P
      = (s.P &&& CPU6502.not8 Flags.B) ||| Flags.U := by rw [hplp]
  refine ⟨rfl, rfl, ?_, ?_, hP', ?_, ?_, ?_⟩
  · rw [hphp]
    simp only [Memory.store, if_true, hpush]
  · rw [hplp]
  · intro flag hflag
    rw [hP']
    simp only [List.mem_cons, List.mem_singleton, List.not_mem_nil, or_false] at hflag
    rcases hflag with h | h | h | h | h | h <;> subst h <;> assumption
  · rw [hP']; exact hB
  · rw [hP']; exact hU

/-- The round trip of C11 on `CPU6502.stackState`, whose status byte is `0x24`:
`PHP` stores `0x34` at `0x0100`, and `PLP` gives back `SP = 0x00` and `P = 0x24`. -/
theorem CPU6502_PHP_PLP_roundtrip_witness :
    (CPU6502.stackState.P < 256 ∧ CPU6502.stackState.SP < 256 ∧
      Memory.plainRAM Build.plain Chips.none CPU6502.stackState.mem
        (0x0100 + CPU6502.stackState.SP) = true) ∧
    (CPU6502.PHP Build.plain Chips.none CPU6502.stackState).mem.data 0x0100 = 0x34 ∧
    (CPU6502.PLP Build.plain Chips.none
      (CPU6502.PHP Build.plain Chips.none CPU6502.stackState)).SP = 0x00 ∧
    (CPU6502.PLP Build.plain Chips.none
      (CPU6502.PHP Build.plain Chips.none CPU6502.stackState)).P = 0x24 :=
  have h := CPU6502_PHP_PLP_roundtrip Build.plain Chips.none CPU6502.stackState
    (by decide) (by decide) (by decide)
  ⟨⟨by decide, by decide, by decide⟩, h.2.2.1, h.2.2.2.1, h.2.2.2.2.1⟩

/-! ## The CPU: ADC and SBC -/

theorem and_0F (x : Nat) : x &&& 0x0F = x % 16 := Nat.and_pow_two_sub_one_eq_mod x 4

theorem shr_4 (x : Nat) : x >>> 4 = x / 16 := Nat.shiftRight_eq_div_pow x 4

/-- Joining a high and a low nibble into a byte. -/
theorem nibble_join (h l : Nat) : ((h <<< 4) ||| (l % 16)) % 256 = 16 * (h % 16) + l % 16 := by
  rw [Nat.shiftLeft_eq]
  have hl : l % 16 < 2 ^ 4 := Nat.mod_lt _ (by norm_num)
  have := Nat.mul_add_lt_is_or hl h
  rw [Nat.mul_comm h, ← this]
  omega

namespace Flags

/-- The flags other than Z and N are not touched by `SetZN`. -/
theorem Get_SetZN (reg v j : Nat) (hj : j < 8) (h1 : j ≠ 1) (h7 : j ≠ 7) :
    Get (SetZN reg v) (1 <<< j) = Get reg (1 <<< j) := by
  unfold SetZN Z N
  rw [Get_Set _ 7 j (by decide) hj, if_neg (Ne.symm h7), Get_Set _ 1 j (by decide) hj,
    if_neg (Ne.symm h1)]

end Flags


namespace Flags
theorem Get_C_SetZN (reg v : Nat) : Get (SetZN reg v) C = Get reg C :=
  Get_SetZN reg v 0 (by decide) (by decide) (by decide)
theorem Get_V_SetZN (reg v : Nat) : Get (SetZN reg v) V = Get reg V :=
  Get_SetZN reg v 6 (by decide) (by decide) (by decide)
theorem Get_C_Set_V (reg : Nat) (x : Bool) : Get (Set reg V x) C = Get reg C :=
  Get_Set reg 6 0 (by decide) (by decide) x
theorem Get_C_Set_C (reg : Nat) (x : Bool) : Get (Set reg C x) C = x :=
  Get_Set reg 0 0 (by decide) (by decide) x
theorem Get_V_Set_V (reg : Nat) (x : Bool) : Get (Set reg V x) V = x :=
  Get_Set reg 6 6 (by decide) (by decide) x
end Flags

namespace CPU6502
variable {D : Type} (b : Build) (c : Chips D)

theorem bit_le (q : Bool) : bit q ≤ 1 := by cases q <;> decide

end CPU6502

theorem CPU6502_ADC_decimal_BCD {D : Type} (b : Build) (c : Chips D) (s : CPU6502 D)
    (addr : Nat) (hD : Flags.Get s.P Flags.D = true) (hA : validBCD s.A)
    (hv : validBCD (CPU6502.read b c s addr).1) :
    (CPU6502.ADC b c s addr).A
      = bcd ((dec s.A + dec (CPU6502.read b c s addr).1
          + CPU6502.bit (Flags.Get s.P Flags.C)) % 100) ∧
    (Flags.Get (CPU6502.ADC b c s addr).P Flags.C = true
      ↔ dec s.A + dec (CPU6502.read b c s addr).1
          + CPU6502.bit (Flags.Get s.P Flags.C) ≥ 100) := by
  have hD2 : Flags.Get (CPU6502.read b c s addr).2.P Flags.D = true := hD
  have hA2 : (CPU6502.read b c s addr).2.A = s.A := rfl
  have hP2 : (CPU6502.read b c s addr).2.P = s.P := rfl
  have hc := CPU6502.bit_le (Flags.Get s.P Flags.C)
  unfold validBCD at hA hv
  unfold CPU6502.ADC
  dsimp only
  rw [if_pos hD2]
  simp only [CPU6502.setZN, CPU6502.setFlag, hA2, hP2, Flags.Get_C_SetZN, Flags.Get_C_Set_V,
    Flags.Get_C_Set_C, and_0F, shr_4, nibble_join, decide_eq_true_eq, dec, bcd]
  generalize (CPU6502.read b c s addr).1 = v at hv ⊢
  generalize CPU6502.bit (Flags.Get s.P Flags.C) = cin at hc ⊢
  generalize s.A = a at hA ⊢
  obtain ⟨hA1, hA0⟩ := hA
  obtain ⟨hv1, hv0⟩ := hv
  generalize a / 16 = ah at hA1 ⊢
  generalize a % 16 = al at hA0 ⊢
  generalize v / 16 = vh at hv1 ⊢
  generalize v % 16 = vl at hv0 ⊢
  constructor
  · split_ifs <;> omega
  · split_ifs <;> omega

/-- Decimal `ADC` of C13 on `0x09 + 0x01` with carry clear: `A = 0x10`, `C = 0`,
`Z = 0`. -/
theorem CPU6502_ADC_decimal_BCD_witness :
    (Flags.Get (CPU6502.aluState 0x09 0x2C 0x01).P Flags.D = true ∧
      validBCD (CPU6502.aluState 0x09 0x2C 0x01).A ∧
      validBCD (CPU6502.read Build.plain Chips.none (CPU6502.aluState 0x09 0x2C 0x01) 0x0010).1) ∧
    (CPU6502.ADC Build.plain Chips.none (CPU6502.aluState 0x09 0x2C 0x01) 0x0010).A = 0x10 ∧
    Flags.Get (CPU6502.ADC Build.plain Chips.none (CPU6502.aluState 0x09 0x2C 0x01) 0x0010).P
      Flags.C = false ∧
    Flags.Get (CPU6502.ADC Build.plain Chips.none (CPU6502.aluState 0x09 0x2C 0x01) 0x0010).P
      Flags.Z = false :=
  have h := CPU6502_ADC_decimal_BCD Build.plain Chips.none (CPU6502.aluState 0x09 0x2C 0x01)
    0x0010 (by decide) (by decide) (by decide)
  ⟨⟨by decide, by decide, by decide⟩, h.1.trans (by decide),
    Bool.eq_false_iff.mpr (fun hc => absurd (h.2.mp hc) (by decide)), by decide⟩

namespace CPU6502
variable {D : Type} (b : Build) (c : Chips D)

/-- Both branches of `ADC` end in `A = result; P.SetZN(A)`. -/
theorem ADC_P_SetZN (s : CPU6502 D) (addr : Nat) :
    ∃ reg, (ADC b c s addr).P = Flags.SetZN reg (ADC b c s addr).A := by
  unfold ADC
  dsimp only
  split
  · exact ⟨_, rfl⟩
  · exact ⟨_, rfl⟩

end CPU6502

/-- C14 (code defect): the decimal branch of `ADC` is headed `Decimal mode (NMOS
6502 behaviour)` but ends with `A = result; P.SetZN(A);`, so `Z` and `N` are
those of the BCD-adjusted byte, not of the binary sum.  On `A = 0x99`, operand
`0x01`, carry clear, decimal mode, the binary sum is `0x9A` (non-zero, bit 7
set), yet `ADC` stores `0x00` in `A`, sets `Z` and clears `N`; hence the flags
are not, for every input, those of `(A + v + c) mod 256`. -/
theorem CPU6502_ADC_decimal_ZN_not_from_binary_sum :
    Flags.Get (CPU6502.aluState 0x99 0x2C 0x01).P Flags.D = true ∧
    ((CPU6502.aluState 0x99 0x2C 0x01).A
      + (CPU6502.read Build.plain Chips.none (CPU6502.aluState 0x99 0x2C 0x01) 0x0010).1
      + CPU6502.bit (Flags.Get (CPU6502.aluState 0x99 0x2C 0x01).P Flags.C)) % 256 = 0x9A ∧
    (CPU6502.ADC Build.plain Chips.none (CPU6502.aluState 0x99 0x2C 0x01) 0x0010).A = 0x00 ∧
    Flags.Get (CPU6502.ADC Build.plain Chips.none (CPU6502.aluState 0x99 0x2C 0x01) 0x0010).P
      Flags.Z = true ∧
    Flags.Get (CPU6502.ADC Build.plain Chips.none (CPU6502.aluState 0x99 0x2C 0x01) 0x0010).P
      Flags.N = false ∧
    ¬ (∀ (s : CPU6502 Unit) (addr : Nat), Flags.Get s.P Flags.D = true →
        (Flags.Get (CPU6502.ADC Build.plain Chips.none s addr).P Flags.Z = true
          ↔ (s.A + (CPU6502.read Build.plain Chips.none s addr).1
              + CPU6502.bit (Flags.Get s.P Flags.C)) % 256 = 0) ∧
        (Flags.Get (CPU6502.ADC Build.plain Chips.none s addr).P Flags.N = true
          ↔ ((s.A + (CPU6502.read Build.plain Chips.none s addr).1
              + CPU6502.bit (Flags.Get s.P Flags.C)) % 256) &&& 0x80 ≠ 0)) := by
  refine ⟨by decide, by decide, by decide, by decide, by decide, ?_⟩
  intro h
  have h1 := (h (CPU6502.aluState 0x99 0x2C 0x01) 0x0010 (by decide)).1
  revert h1
  decide

/-- In decimal mode, for every `A`, operand and carry-in, `ADC` sets `Z` and `N`
from the BCD-adjusted byte it stores in `A`: `Z` is set iff the new `A` is zero
and `N` iff bit 7 of the new `A` is set. -/
theorem CPU6502_ADC_decimal_ZN_from_stored_A {D : Type} (b : Build) (c : Chips D)
    (s : CPU6502 D) (addr : Nat) (_hD : Flags.Get s.P Flags.D = true) :
    (Flags.Get (CPU6502.ADC b c s addr).P Flags.Z = true ↔ (CPU6502.ADC b c s addr).A = 0) ∧
    (Flags.Get (CPU6502.ADC b c s addr).P Flags.N = true
      ↔ (CPU6502.ADC b c s addr).A &&& 0x80 ≠ 0) := by
  obtain ⟨reg, h⟩ := CPU6502.ADC_P_SetZN b c s addr
  rw [h]
  exact Flags.SetZN_spec reg _

/-- Decimal `ADC` on `0x99 + 0x01` with carry clear: `A` becomes `0x00`, so `Z`
is set. -/
theorem CPU6502_ADC_decimal_ZN_from_stored_A_witness :
    Flags.Get (CPU6502.aluState 0x99 0x2C 0x01).P Flags.D = true ∧
    (CPU6502.ADC Build.plain Chips.none (CPU6502.aluState 0x99 0x2C 0x01) 0x0010).A = 0x00 ∧
    Flags.Get (CPU6502.ADC Build.plain Chips.none (CPU6502.aluState 0x99 0x2C 0x01) 0x0010).P
      Flags.Z = true :=
  have h := CPU6502_ADC_decimal_ZN_from_stored_A Build.plain Chips.none
    (CPU6502.aluState 0x99 0x2C 0x01) 0x0010 (by decide)
  ⟨by decide, by decide, h.1.mpr (by decide)⟩

namespace CPU6502
variable {D : Type} (b : Build) (c : Chips D)

/-- Decimal `SBC` stores `hi >= 0` in the carry, which holds for every `uint8_t`:
the carry is set whatever the operands. -/
theorem SBC_decimal_C (s : CPU6502 D) (addr : Nat) (hD : Flags.Get s.P Flags.D = true) :
    Flags.Get (SBC b c s addr).P Flags.C = true := by
  have hD2 : Flags.Get (read b c s addr).2.P Flags.D = true := hD
  unfold SBC
  dsimp only
  rw [if_pos hD2]
  simp only [setZN, setFlag, Flags.Get_C_SetZN, Flags.Get_C_Set_V, Flags.Get_C_Set_C,
    ge_iff_le, Nat.zero_le, decide_True]

end CPU6502

/-- C15 (code defect): decimal `SBC` on `A = 0x00`, operand `0x01`, carry set (no
borrow in) has to borrow, since `dec(A) = 0 < 1 = dec(v) + (1 - c)`, yet the
carry is set afterwards: the code stores `hi >= 0` for an unsigned `hi`. -/
theorem CPU6502_SBC_decimal_carry_set_on_borrow :
    Flags.Get (CPU6502.aluState 0x00 0x2D 0x01).P Flags.D = true ∧
    Flags.Get (CPU6502.aluState 0x00 0x2D 0x01).P Flags.C = true ∧
    validBCD (CPU6502.aluState 0x00 0x2D 0x01).A ∧
    (CPU6502.read Build.plain Chips.none (CPU6502.aluState 0x00 0x2D 0x01) 0x0010).1 = 0x01 ∧
    ¬ (dec 0x00 ≥ dec 0x01 + (1 - 1)) ∧
    (CPU6502.SBC Build.plain Chips.none (CPU6502.aluState 0x00 0x2D 0x01) 0x0010).A = 0x99 ∧
    Flags.Get (CPU6502.SBC Build.plain Chips.none (CPU6502.aluState 0x00 0x2D 0x01) 0x0010).P
      Flags.C = true := by
  decide

set_option maxRecDepth 100000 in
theorem sign_and : ∀ x < 256, x &&& 0x80 = if 128 ≤ x then 128 else 0 := by
  decide

theorem and_and_0x80 (p q : Nat) : p &&& q &&& 0x80 = (p &&& 0x80) &&& (q &&& 0x80) := by
  apply Nat.eq_of_testBit_eq
  intro i
  simp only [Nat.testBit_and]
  cases p.testBit i <;> cases q.testBit i <;> cases (0x80 : Nat).testBit i <;> rfl

/-- The overflow expression of `ADC` and `SBC` on bytes: the operands have the
same sign bit and the result has the other one. -/
theorem overflow_bit (x y r : Nat) (hx : x < 256) (hy : y < 256) (hr : r < 256) :
    ((CPU6502.not8 (x ^^^ y) &&& (x ^^^ r) &&& 0x80) != 0)
      = decide ((128 ≤ x ↔ 128 ≤ y) ∧ ¬ (128 ≤ x ↔ 128 ≤ r)) := by
  unfold CPU6502.not8
  have e1 : (0xFF ^^^ (x ^^^ y)) &&& 0x80 = (0xFF &&& 0x80) ^^^ ((x &&& 0x80) ^^^ (y &&& 0x80)) := by
    rw [Nat.and_xor_distrib_right, Nat.and_xor_distrib_right]
  have e2 : (x ^^^ r) &&& 0x80 = (x &&& 0x80) ^^^ (r &&& 0x80) := Nat.and_xor_distrib_right
  rw [and_and_0x80, e1, e2, sign_and x hx, sign_and y hy, sign_and r hr]
  by_cases h1 : 128 ≤ x <;> by_cases h2 : 128 ≤ y <;> by_cases h3 : 128 ≤ r <;>
    simp only [h1, h2, h3, if_true, if_false] <;> decide

/-- C16: in binary mode (`D` clear), for every byte `A`, operand `v` and carry-in
`c`, `ADC` leaves `A = (A + v + c) mod 256`, sets `C` iff `A + v + c > 255`, sets
`V` iff the signed sum `s8(A) + s8(v) + c` lies outside `[-128, 127]`, and sets
`Z` and `N` from the new `A`. -/
theorem CPU6502_ADC_binary {D : Type} (b : Build) (c : Chips D) (s : CPU6502 D)
    (addr : Nat) (hD : Flags.Get s.P Flags.D = false) (hA : s.A < 256) :
    (CPU6502.ADC b c s addr).A
      = (s.A + (CPU6502.read b c s addr).1 + CPU6502.bit (Flags.Get s.P Flags.C)) % 256 ∧
    (Flags.Get (CPU6502.ADC b c s addr).P Flags.C = true
      ↔ s.A + (CPU6502.read b c s addr).1 + CPU6502.bit (Flags.Get s.P Flags.C) > 255) ∧
    (Flags.Get (CPU6502.ADC b c s addr).P Flags.V = true
      ↔ (signed8 s.A + signed8 (CPU6502.read b c s addr).1
            + (CPU6502.bit (Flags.Get s.P Flags.C) : Int) < -128
          ∨ signed8 s.A + signed8 (CPU6502.read b c s addr).1
            + (CPU6502.bit (Flags.Get s.P Flags.C) : Int) > 127)) ∧
    (Flags.Get (CPU6502.ADC b c s addr).P Flags.Z = true ↔ (CPU6502.ADC b c s addr).A = 0) ∧
    (Flags.Get (CPU6502.ADC b c s addr).P Flags.N = true
      ↔ (CPU6502.ADC b c s addr).A &&& 0x80 ≠ 0) := by
  have hD2 : ¬ (Flags.Get (CPU6502.read b c s addr).2.P Flags.D = true) := by
    show ¬ (Flags.Get s.P Flags.D = true)
    rw [hD]; decide
  have hA2 : (CPU6502.read b c s addr).2.A = s.A := rfl
  have hP2 : (CPU6502.read b c s addr).2.P = s.P := rfl
  have hc := CPU6502.bit_le (Flags.Get s.P Flags.C)
  have hv := CPU6502.read_lt b c s addr
  have hshape : CPU6502.ADC b c s addr
      = CPU6502.setZN
          { CPU6502.setFlag
              (CPU6502.setFlag (CPU6502.read b c s addr).2 Flags.C
                (decide ((s.A + (CPU6502.read b c s addr).1
                  + CPU6502.bit (Flags.Get s.P Flags.C)) % 65536 > 0xFF)))
              Flags.V
              ((CPU6502.not8 (s.A ^^^ (CPU6502.read b c s addr).1)
                &&& (s.A ^^^ ((s.A + (CPU6502.read b c s addr).1
                  + CPU6502.bit (Flags.Get s.P Flags.C)) % 65536 % 256)) &&& 0x80) != 0)
            with A := (s.A + (CPU6502.read b c s addr).1
                  + CPU6502.bit (Flags.Get s.P Flags.C)) % 65536 % 256 }
          ((s.A + (CPU6502.read b c s addr).1
                  + CPU6502.bit (Flags.Get s.P Flags.C)) % 65536 % 256) := by
    unfold CPU6502.ADC
    dsimp only
    rw [if_neg hD2]
    rfl
  rw [hshape]
  generalize (CPU6502.read b c s addr).1 = v at hv ⊢
  generalize CPU6502.bit (Flags.Get s.P Flags.C) = cin at hc ⊢
  have hr : (s.A + v + cin) % 65536 % 256 < 256 := Nat.mod_lt _ (by norm_num)
  simp only [CPU6502.setZN, CPU6502.setFlag]
  refine ⟨by omega, ?_, ?_, (Flags.SetZN_spec _ _).1, (Flags.SetZN_spec _ _).2⟩
  · rw [Flags.Get_C_SetZN, Flags.Get_C_Set_V, Flags.Get_C_Set_C, decide_eq_true_eq]
    omega
  · rw [Flags.Get_V_SetZN, Flags.Get_V_Set_V, overflow_bit _ _ _ hA hv hr, decide_eq_true_eq]
    unfold signed8
    generalize s.A = a at hA ⊢
    split_ifs <;> omega

/-- Binary `ADC` of C16 on `0x7F + 0x01` with carry clear: `A = 0x80`, `C` clear,
`V` set (127 + 1 leaves the signed range), `N` set. -/
theorem CPU6502_ADC_binary_witness :
    (Flags.Get (CPU6502.aluState 0x7F 0x24 0x01).P Flags.D = false ∧
      (CPU6502.aluState 0x7F 0x24 0x01).A < 256) ∧
    (CPU6502.ADC Build.plain Chips.none (CPU6502.aluState 0x7F 0x24 0x01) 0x0010).A = 0x80 ∧
    Flags.Get (CPU6502.ADC Build.plain Chips.none (CPU6502.aluState 0x7F 0x24 0x01) 0x0010).P
      Flags.V = true :=
  have h := CPU6502_ADC_binary Build.plain Chips.none (CPU6502.aluState 0x7F 0x24 0x01)
    0x0010 (by decide) (by decide)
  ⟨⟨by decide, by decide⟩, h.1.trans (by decide), h.2.2.1.mpr (by decide)⟩

/-! ## The CPU: interrupts -/

namespace CPU6502
variable {D : Type} (b : Build) (c : Chips D)

/-- The status byte `HandleIRQ` leaves when it responds: `B` cleared, `U` set,
then `I` cleared. -/
theorem HandleIRQ_P (s : CPU6502 D) (hI : Flags.Get s.P Flags.I = false) :
    (HandleIRQ b c s).P
      = Flags.Set (Flags.Set (Flags.Set s.P Flags.B false) Flags.U true) Flags.I false := by
  unfold HandleIRQ
  rw [if_pos (by rw [hI]; rfl)]
  dsimp only [setFlag, Push, write, read]

end CPU6502

/-- C17 (code defect): when `HandleIRQ` is entered with the `I` flag clear, the `I`
flag is clear in the status register when it returns: the sequence ends with
`P.Set(Flags::I, false)`. -/
theorem CPU6502_HandleIRQ_leaves_I_clear {D : Type} (b : Build) (c : Chips D)
    (s : CPU6502 D) (hI : Flags.Get s.P Flags.I = false) :
    Flags.Get (CPU6502.HandleIRQ b c s).P Flags.I = false := by
  rw [CPU6502.HandleIRQ_P b c s hI]
  exact Flags.Get_Set _ 2 2 (by decide) (by decide) false

/-- The defect of C17 on `CPU6502.irqState`, entered with `I` clear: the handler
is entered (`PC` becomes the vector `0x1234`) and `I` is still clear. -/
theorem CPU6502_HandleIRQ_leaves_I_clear_witness :
    Flags.Get CPU6502.irqState.P Flags.I = false ∧
    (CPU6502.HandleIRQ Build.plain Chips.none CPU6502.irqState).PC = 0x1234 ∧
    Flags.Get (CPU6502.HandleIRQ Build.plain Chips.none CPU6502.irqState).P Flags.I = false :=
  ⟨by decide, by decide,
    CPU6502_HandleIRQ_leaves_I_clear Build.plain Chips.none CPU6502.irqState (by decide)⟩

namespace CPU6502
variable {D : Type} (b : Build) (c : Chips D)

/-- When `HandleIRQ` responds, everything after the three pushes is determined
by the state the third push leaves. -/
theorem HandleIRQ_after_pushes (s : CPU6502 D) (hI : Flags.Get s.P Flags.I = false) :
    HandleIRQ b c s =
      { (read b c (read b c (setFlag (Push b c (setFlag (setFlag
            (Push b c (Push b c s ((s.PC >>> 8) &&& 0xFF)) (s.PC &&& 0xFF)) Flags.B false)
            Flags.U true) (Flags.Set (Flags.Set s.P Flags.B false) Flags.U true))
          Flags.I false) 0xFFFE).2 0xFFFF).2 with
        PC := (((Memory.Read b c (Memory.Read b c (Push b c (setFlag (setFlag
            (Push b c (Push b c s ((s.PC >>> 8) &&& 0xFF)) (s.PC &&& 0xFF)) Flags.B false)
            Flags.U true) (Flags.Set (Flags.Set s.P Flags.B false) Flags.U true)).mem
              0xFFFE).2 0xFFFF).1 <<< 8)
          ||| (Memory.Read b c (Push b c (setFlag (setFlag
            (Push b c (Push b c s ((s.PC >>> 8) &&& 0xFF)) (s.PC &&& 0xFF)) Flags.B false)
            Flags.U true) (Flags.Set (Flags.Set s.P Flags.B false) Flags.U true)).mem
              0xFFFE).1) % 65536,
        cycles := (s.cycles + 7) % 4294967296 } := by
  unfold HandleIRQ
  rw [if_pos (by rw [hI]; rfl)]
  dsimp only [setFlag, Push, write, read]

/-- Two pushes on plain stack slots, written out. -/
theorem Push2_plain (s : CPU6502 D) (v0 v1 : Nat) (hSP : s.SP < 256)
    (h0 : Memory.plainRAM b c s.mem (0x0100 + s.SP) = true)
    (h1 : Memory.plainRAM b c s.mem (0x0100 + (s.SP + 255) % 256) = true) :
    Push b c (Push b c s v0) v1
      = { s with
          SP := (s.SP + 254) % 256,
          mem := { s.mem with
            data := Memory.store (Memory.store s.mem.data
              (0x0100 + s.SP) (v0 % 256))
              (0x0100 + (s.SP + 255) % 256) (v1 % 256) } } := by
  have e1 := Push_plain b c s v0 hSP h0
  rw [e1]
  have hsp1 : (s.SP + 255) % 256 < 256 := Nat.mod_lt _ (by norm_num)
  have e2 := Push_plain b c
    { s with SP := (s.SP + 255) % 256,
             mem := { s.mem with
               data := Memory.store s.mem.data (0x0100 + s.SP) (v0 % 256) } } v1 hsp1
    (by dsimp only; rw [Memory.plainRAM_data]; exact h1)
  rw [e2]
  dsimp only
  have hsp2 : ((s.SP + 255) % 256 + 255) % 256 = (s.SP + 254) % 256 := by omega
  rw [hsp2]

/-- Three pushes on plain stack slots, the status byte replaced by `p` before the
third. -/
theorem Push3_plain (s : CPU6502 D) (v0 v1 v2 p : Nat) (hSP : s.SP < 256)
    (h0 : Memory.plainRAM b c s.mem (0x0100 + s.SP) = true)
    (h1 : Memory.plainRAM b c s.mem (0x0100 + (s.SP + 255) % 256) = true)
    (h2 : Memory.plainRAM b c s.mem (0x0100 + (s.SP + 254) % 256) = true) :
    Push b c { Push b c (Push b c s v0) v1 with P := p } v2
      = { s with
          P := p,
          SP := (s.SP + 253) % 256,
          mem := { s.mem with
            data := Memory.store (Memory.store (Memory.store s.mem.data
              (0x0100 + s.SP) (v0 % 256))
              (0x0100 + (s.SP + 255) % 256) (v1 % 256))
              (0x0100 + (s.SP + 254) % 256) (v2 % 256) } } := by
  rw [Push2_plain b c s v0 v1 hSP h0 h1]
  have hsp3 : ((s.SP + 254) % 256 + 255) % 256 = (s.SP + 253) % 256 := by omega
  have e3 := Push_plain b c
    { s with P := p, SP := (s.SP + 254) % 256,
             mem := { s.mem with
               data := Memory.store (Memory.store s.mem.data (0x0100 + s.SP) (v0 % 256))
                 (0x0100 + (s.SP + 255) % 256) (v1 % 256) } } v2
    (Nat.mod_lt _ (by norm_num))
    (by dsimp only; rw [Memory.plainRAM_data]; exact h2)
  rw [e3]
  dsimp only
  rw [hsp3]

end CPU6502

/-- C18: `HandleIRQ` with the `I` flag set returns the state unchanged (no register,
no memory byte, no cycle budget changes).  With `I` clear and the three stack
slots plain RAM it writes PCH at `0x0100 + SP`, PCL at `0x0100 + (SP - 1)` and `P`
with `B = 0`, `U = 1` at `0x0100 + (SP - 2)` (`SP` arithmetic modulo 256),
decreases `SP` by 3, sets `PC` to `Read(0xFFFE) | (Read(0xFFFF) << 8)`, the reads
taken in that order on the memory the pushes left, and adds exactly 7 to the
budget; `A`, `X`, `Y` are unchanged. -/
theorem CPU6502_HandleIRQ_sequence {D : Type} (b : Build) (c : Chips D) (s : CPU6502 D) :
    (Flags.Get s.P Flags.I = true → CPU6502.HandleIRQ b c s = s) ∧
    (Flags.Get s.P Flags.I = false → s.SP < 256 →
      Memory.plainRAM b c s.mem (0x0100 + s.SP) = true →
      Memory.plainRAM b c s.mem (0x0100 + (s.SP + 255) % 256) = true →
      Memory.plainRAM b c s.mem (0x0100 + (s.SP + 254) % 256) = true →
      (CPU6502.HandleIRQ b c s).mem.data (0x0100 + s.SP) = (s.PC >>> 8) &&& 0xFF ∧
      (CPU6502.HandleIRQ b c s).mem.data (0x0100 + (s.SP + 255) % 256) = s.PC &&& 0xFF ∧
      (CPU6502.HandleIRQ b c s).mem.data (0x0100 + (s.SP + 254) % 256)
        = Flags.Set (Flags.Set s.P Flags.B false) Flags.U true ∧
      (∀ a, a ≠ 0x0100 + s.SP → a ≠ 0x0100 + (s.SP + 255) % 256 →
        a ≠ 0x0100 + (s.SP + 254) % 256 →
        (CPU6502.HandleIRQ b c s).mem.data a = s.mem.data a) ∧
      (CPU6502.HandleIRQ b c s).SP = (s.SP + 253) % 256 ∧
      (CPU6502.HandleIRQ b c s).PC
        = (Memory.Read b c
            { s.mem with
              data := Memory.store (Memory.store (Memory.store s.mem.data
                (0x0100 + s.SP) ((s.PC >>> 8) &&& 0xFF))
                (0x0100 + (s.SP + 255) % 256) (s.PC &&& 0xFF))
                (0x0100 + (s.SP + 254) % 256)
                (Flags.Set (Flags.Set s.P Flags.B false) Flags.U true) } 0xFFFE).1
          ||| ((Memory.Read b c
            (Memory.Read b c
              { s.mem with
                data := Memory.store (Memory.store (Memory.store s.mem.data
                  (0x0100 + s.SP) ((s.PC >>> 8) &&& 0xFF))
                  (0x0100 + (s.SP + 255) % 256) (s.PC &&& 0xFF))
                  (0x0100 + (s.SP + 254) % 256)
                  (Flags.Set (Flags.Set s.P Flags.B false) Flags.U true) } 0xFFFE).2
              0xFFFF).1 <<< 8) ∧
      (CPU6502.HandleIRQ b c s).cycles = (s.cycles + 7) % 4294967296 ∧
      (CPU6502.HandleIRQ b c s).A = s.A ∧ (CPU6502.HandleIRQ b c s).X = s.X ∧
      (CPU6502.HandleIRQ b c s).Y = s.Y) := by
  constructor
  · intro hI
    unfold CPU6502.HandleIRQ
    rw [if_neg (by rw [hI]; decide)]
  · intro hI hSP h0 h1 h2
    have e3 := CPU6502.Push3_plain b c s ((s.PC >>> 8) &&& 0xFF) (s.PC &&& 0xFF)
        (Flags.Set (Flags.Set s.P Flags.B false) Flags.U true)
        (Flags.Set (Flags.Set s.P Flags.B false) Flags.U true) hSP h0 h1 h2
    have hv0 : ((s.PC >>> 8) &&& 0xFF) % 256 = (s.PC >>> 8) &&& 0xFF := by
      rw [and_FF]; exact Nat.mod_mod _ _
    have hv1 : (s.PC &&& 0xFF) % 256 = s.PC &&& 0xFF := by
      rw [and_FF]; exact Nat.mod_mod _ _
    have hv2 : Flags.Set (Flags.Set s.P Flags.B false) Flags.U true % 256
        = Flags.Set (Flags.Set s.P Flags.B false) Flags.U true :=
      Nat.mod_eq_of_lt (Flags.Set_lt _ _ _)
    rw [hv0, hv1, hv2] at e3
    have hshape : CPU6502.setFlag (CPU6502.setFlag
        (CPU6502.Push b c (CPU6502.Push b c s ((s.PC >>> 8) &&& 0xFF)) (s.PC &&& 0xFF))
        Flags.B false) Flags.U true
        = { CPU6502.Push b c (CPU6502.Push b c s ((s.PC >>> 8) &&& 0xFF)) (s.PC &&& 0xFF) with
            P := Flags.Set (Flags.Set s.P Flags.B false) Flags.U true } := by
      dsimp only [CPU6502.setFlag, CPU6502.Push, CPU6502.write]
    rw [CPU6502.HandleIRQ_after_pushes b c s hI, hshape, e3]
    dsimp only [CPU6502.setFlag, CPU6502.read]
    have hd := fun m x => (Memory.Read_frame b c m x).2.2
    have hlo := Memory.Read_lt b c
      { s.mem with
        data := Memory.store (Memory.store (Memory.store s.mem.data
          (0x0100 + s.SP) ((s.PC >>> 8) &&& 0xFF))
          (0x0100 + (s.SP + 255) % 256) (s.PC &&& 0xFF))
          (0x0100 + (s.SP + 254) % 256)
          (Flags.Set (Flags.Set s.P Flags.B false) Flags.U true) } 0xFFFE
    have hhi := Memory.Read_lt b c
      (Memory.Read b c
      { s.mem with
        data := Memory.store (Memory.store (Memory.store s.mem.data
          (0x0100 + s.SP) ((s.PC >>> 8) &&& 0xFF))
          (0x0100 + (s.SP + 255) % 256) (s.PC &&& 0xFF))
          (0x0100 + (s.SP + 254) % 256)
          (Flags.Set (Flags.Set s.P Flags.B false) Flags.U true) } 0xFFFE).2 0xFFFF
    have hne1 : 0x0100 + s.SP ≠ 0x0100 + (s.SP + 255) % 256 := by omega
    have hne2 : 0x0100 + s.SP ≠ 0x0100 + (s.SP + 254) % 256 := by omega
    have hne3 : 0x0100 + (s.SP + 255) % 256 ≠ 0x0100 + (s.SP + 254) % 256 := by omega
    refine ⟨?_, ?_, ?_, ?_, rfl, ?_, rfl, rfl, rfl, rfl⟩
    · rw [hd, hd]
      simp only [Memory.store, if_neg hne1, if_neg hne2, if_true]
    · rw [hd, hd]
      simp only [Memory.store, if_neg hne3, if_true]
    · rw [hd, hd]
      simp only [Memory.store, if_true]
    · intro a ha0 ha1 ha2
      rw [hd, hd]
      simp only [Memory.store, if_neg ha0, if_neg ha1, if_neg ha2]
    · rw [Nat.lor_comm]
      exact Nat.mod_eq_of_lt (word_lt _ _ hlo hhi)

/-- The sequence of C18 on `CPU6502.irqState` (`PC = 0x8003`, `SP = 0x01`, `P = 0x21`):
`0x80` at `0x0101`, `0x03` at `0x0100`, `0x21` at `0x01FF`, `SP = 0xFE`,
`PC = 0x1234` and a budget of 7. -/
theorem CPU6502_HandleIRQ_sequence_witness :
    (Flags.Get CPU6502.irqState.P Flags.I = false ∧ CPU6502.irqState.SP < 256 ∧
      Memory.plainRAM Build.plain Chips.none CPU6502.irqState.mem 0x0101 = true ∧
      Memory.plainRAM Build.plain Chips.none CPU6502.irqState.mem 0x0100 = true ∧
      Memory.plainRAM Build.plain Chips.none CPU6502.irqState.mem 0x01FF = true) ∧
    (CPU6502.HandleIRQ Build.plain Chips.none CPU6502.irqState).mem.data 0x0101 = 0x80 ∧
    (CPU6502.HandleIRQ Build.plain Chips.none CPU6502.irqState).mem.data 0x0100 = 0x03 ∧
    (CPU6502.HandleIRQ Build.plain Chips.none CPU6502.irqState).mem.data 0x01FF = 0x21 ∧
    (CPU6502.HandleIRQ Build.plain Chips.none CPU6502.irqState).SP = 0xFE ∧
    (CPU6502.HandleIRQ Build.plain Chips.none CPU6502.irqState).PC = 0x1234 ∧
    (CPU6502.HandleIRQ Build.plain Chips.none CPU6502.irqState).cycles = 7 :=
  have h := (CPU6502_HandleIRQ_sequence Build.plain Chips.none CPU6502.irqState).2
    (by decide) (by decide) (by decide) (by decide) (by decide)
  ⟨⟨by decide, by decide, by decide, by decide, by decide⟩,
    h.1.trans (by decide), h.2.1.trans (by decide), h.2.2.1.trans (by decide),
    h.2.2.2.2.1.trans (by decide), h.2.2.2.2.2.1.trans (by decide),
    h.2.2.2.2.2.2.1.trans (by decide)⟩

namespace CPU6502
variable {D : Type} (b : Build) (c : Chips D)

/-- Three pushes on plain stack slots, written out. -/
theorem Push3_same (s : CPU6502 D) (v0 v1 v2 : Nat) (hSP : s.SP < 256)
    (h0 : Memory.plainRAM b c s.mem (0x0100 + s.SP) = true)
    (h1 : Memory.plainRAM b c s.mem (0x0100 + (s.SP + 255) % 256) = true)
    (h2 : Memory.plainRAM b c s.mem (0x0100 + (s.SP + 254) % 256) = true) :
    Push b c (Push b c (Push b c s v0) v1) v2
      = { s with
          SP := (s.SP + 253) % 256,
          mem := { s.mem with
            data := Memory.store (Memory.store (Memory.store s.mem.data
              (0x0100 + s.SP) (v0 % 256))
              (0x0100 + (s.SP + 255) % 256) (v1 % 256))
              (0x0100 + (s.SP + 254) % 256) (v2 % 256) } } := by
  rw [Push2_plain b c s v0 v1 hSP h0 h1]
  have hsp3 : ((s.SP + 254) % 256 + 255) % 256 = (s.SP + 253) % 256 := by omega
  have e3 := Push_plain b c
    { s with SP := (s.SP + 254) % 256,
             mem := { s.mem with
               data := Memory.store (Memory.store s.mem.data (0x0100 + s.SP) (v0 % 256))
                 (0x0100 + (s.SP + 255) % 256) (v1 % 256) } } v2
    (Nat.mod_lt _ (by norm_num))
    (by dsimp only; rw [Memory.plainRAM_data]; exact h2)
  rw [e3]
  dsimp only
  rw [hsp3]

/-- Everything `BRK_full` does after its three pushes is determined by the state
the third push leaves. -/
theorem BRK_full_after_pushes (s : CPU6502 D) :
    BRK_full b c s =
      { (read b c (read b c (setFlag
          (Push b c (Push b c (Push b c { s with PC := (s.PC + 1) % 65536 }
            ((((s.PC + 1) % 65536) >>> 8) &&& 0xFF)) (((s.PC + 1) % 65536) &&& 0xFF))
            (s.P ||| Flags.B ||| Flags.U)) Flags.I true) 0xFFFE).2 0xFFFF).2 with
        PC := ((Memory.Read b c
            (Push b c (Push b c (Push b c { s with PC := (s.PC + 1) % 65536 }
              ((((s.PC + 1) % 65536) >>> 8) &&& 0xFF)) (((s.PC + 1) % 65536) &&& 0xFF))
              (s.P ||| Flags.B ||| Flags.U)).mem 0xFFFE).1
          ||| ((Memory.Read b c (Memory.Read b c
            (Push b c (Push b c (Push b c { s with PC := (s.PC + 1) % 65536 }
              ((((s.PC + 1) % 65536) >>> 8) &&& 0xFF)) (((s.PC + 1) % 65536) &&& 0xFF))
              (s.P ||| Flags.B ||| Flags.U)).mem 0xFFFE).2 0xFFFF).1 <<< 8)) % 65536 } := by
  unfold BRK_full
  dsimp only [setFlag, Push, write, read]

end CPU6502

set_option maxRecDepth 1000000 in
set_option maxHeartbeats 4000000 in
/-- The byte `BRK` and `PHP` push, for every status byte: it fits a byte and has
`B` and `U` set. -/
theorem pushed_status_byte : ∀ p < 256,
    (p ||| Flags.B ||| Flags.U) % 256 = p ||| Flags.B ||| Flags.U ∧
    Flags.Get (p ||| Flags.B ||| Flags.U) Flags.B = true ∧
    Flags.Get (p ||| Flags.B ||| Flags.U) Flags.U = true := by
  decide

namespace CPU6502
variable {D : Type} (b : Build) (c : Chips D)

/-- What `BRK_full` leaves, on a state whose three stack slots are plain RAM. -/
theorem BRK_full_spec (u : CPU6502 D) (hSP : u.SP < 256) (hP : u.P < 256)
    (h0 : Memory.plainRAM b c u.mem (0x0100 + u.SP) = true)
    (h1 : Memory.plainRAM b c u.mem (0x0100 + (u.SP + 255) % 256) = true)
    (h2 : Memory.plainRAM b c u.mem (0x0100 + (u.SP + 254) % 256) = true) :
    (BRK_full b c u).mem.data (0x0100 + u.SP) = (((u.PC + 1) % 65536) >>> 8) &&& 0xFF ∧
    (BRK_full b c u).mem.data (0x0100 + (u.SP + 255) % 256) = ((u.PC + 1) % 65536) &&& 0xFF ∧
    (BRK_full b c u).mem.data (0x0100 + (u.SP + 254) % 256) = u.P ||| Flags.B ||| Flags.U ∧
    (BRK_full b c u).P = Flags.Set u.P Flags.I true ∧
    (BRK_full b c u).SP = (u.SP + 253) % 256 ∧
    (BRK_full b c u).PC
      = (Memory.Read b c
          { u.mem with
            data := Memory.store (Memory.store (Memory.store u.mem.data
              (0x0100 + u.SP) ((((u.PC + 1) % 65536) >>> 8) &&& 0xFF))
              (0x0100 + (u.SP + 255) % 256) (((u.PC + 1) % 65536) &&& 0xFF))
              (0x0100 + (u.SP + 254) % 256) (u.P ||| Flags.B ||| Flags.U) } 0xFFFE).1
        ||| ((Memory.Read b c
          (Memory.Read b c
            { u.mem with
              data := Memory.store (Memory.store (Memory.store u.mem.data
                (0x0100 + u.SP) ((((u.PC + 1) % 65536) >>> 8) &&& 0xFF))
                (0x0100 + (u.SP + 255) % 256) (((u.PC + 1) % 65536) &&& 0xFF))
                (0x0100 + (u.SP + 254) % 256) (u.P ||| Flags.B ||| Flags.U) } 0xFFFE).2
            0xFFFF).1 <<< 8) := by
  have e3 := Push3_same b c { u with PC := (u.PC + 1) % 65536 }
    ((((u.PC + 1) % 65536) >>> 8) &&& 0xFF) (((u.PC + 1) % 65536) &&& 0xFF)
    (u.P ||| Flags.B ||| Flags.U) hSP h0 h1 h2
  have hv0 : ((((u.PC + 1) % 65536) >>> 8) &&& 0xFF) % 256
      = (((u.PC + 1) % 65536) >>> 8) &&& 0xFF := by
    rw [and_FF]; exact Nat.mod_mod _ _
  have hv1 : (((u.PC + 1) % 65536) &&& 0xFF) % 256 = ((u.PC + 1) % 65536) &&& 0xFF := by
    rw [and_FF]; exact Nat.mod_mod _ _
  have hv2 := (pushed_status_byte u.P hP).1
  rw [hv0, hv1, hv2] at e3
  dsimp only at e3
  rw [BRK_full_after_pushes b c u, e3]
  dsimp only [setFlag, read]
  have hd := fun m x => (Memory.Read_frame b c m x).2.2
  have hlo := Memory.Read_lt b c
    { u.mem with
      data := Memory.store (Memory.store (Memory.store u.mem.data
        (0x0100 + u.SP) ((((u.PC + 1) % 65536) >>> 8) &&& 0xFF))
        (0x0100 + (u.SP + 255) % 256) (((u.PC + 1) % 65536) &&& 0xFF))
        (0x0100 + (u.SP + 254) % 256) (u.P ||| Flags.B ||| Flags.U) } 0xFFFE
  have hhi := Memory.Read_lt b c
    (Memory.Read b c
    { u.mem with
      data := Memory.store (Memory.store (Memory.store u.mem.data
        (0x0100 + u.SP) ((((u.PC + 1) % 65536) >>> 8) &&& 0xFF))
        (0x0100 + (u.SP + 255) % 256) (((u.PC + 1) % 65536) &&& 0xFF))
        (0x0100 + (u.SP + 254) % 256) (u.P ||| Flags.B ||| Flags.U) } 0xFFFE).2 0xFFFF
  have hne1 : 0x0100 + u.SP ≠ 0x0100 + (u.SP + 255) % 256 := by omega
  have hne2 : 0x0100 + u.SP ≠ 0x0100 + (u.SP + 254) % 256 := by omega
  have hne3 : 0x0100 + (u.SP + 255) % 256 ≠ 0x0100 + (u.SP + 254) % 256 := by omega
  refine ⟨?_, ?_, ?_, rfl, rfl, ?_⟩
  · rw [hd, hd]
    simp only [Memory.store, if_neg hne1, if_neg hne2, if_true]
  · rw [hd, hd]
    simp only [Memory.store, if_neg hne3, if_true]
  · rw [hd, hd]
    simp only [Memory.store, if_true]
  · exact Nat.mod_eq_of_lt (word_lt _ _ hlo hhi)

end CPU6502

/-- C19: executing opcode `0x00` (BRK) fetched at address `a = s.PC`, with the three
stack slots plain RAM, pushes the high then the low byte of `a + 2` (modulo
`0x10000`), then pushes `P | B | U` (a byte with `B = 1` and `U = 1`), sets `I` in
the live status register and leaves its `B` bit as it was (clear when it was
clear), decreases `SP` by 3 modulo 256 and sets `PC` to
`Read(0xFFFE) | (Read(0xFFFF) << 8)`, read on the memory the pushes left. -/
theorem CPU6502_BRK_sequence {D : Type} (b : Build) (c : Chips D) (s : CPU6502 D)
    (hSP : s.SP < 256) (hP : s.P < 256)
    (h0 : Memory.plainRAM b c s.mem (0x0100 + s.SP) = true)
    (h1 : Memory.plainRAM b c s.mem (0x0100 + (s.SP + 255) % 256) = true)
    (h2 : Memory.plainRAM b c s.mem (0x0100 + (s.SP + 254) % 256) = true) :
    CPU6502.Execute b c (CPU6502.afterFetch b c s) 0x00
      = CPU6502.BRK_full b c (CPU6502.afterFetch b c s) ∧
    (CPU6502.Execute b c (CPU6502.afterFetch b c s) 0x00).mem.data (0x0100 + s.SP)
      = (((s.PC + 2) % 65536) >>> 8) &&& 0xFF ∧
    (CPU6502.Execute b c (CPU6502.afterFetch b c s) 0x00).mem.data
        (0x0100 + (s.SP + 255) % 256)
      = ((s.PC + 2) % 65536) &&& 0xFF ∧
    (CPU6502.Execute b c (CPU6502.afterFetch b c s) 0x00).mem.data
        (0x0100 + (s.SP + 254) % 256)
      = s.P ||| Flags.B ||| Flags.U ∧
    Flags.Get (s.P ||| Flags.B ||| Flags.U) Flags.B = true ∧
    Flags.Get (s.P ||| Flags.B ||| Flags.U) Flags.U = true ∧
    Flags.Get (CPU6502.Execute b c (CPU6502.afterFetch b c s) 0x00).P Flags.I = true ∧
    Flags.Get (CPU6502.Execute b c (CPU6502.afterFetch b c s) 0x00).P Flags.B
      = Flags.Get s.P Flags.B ∧
    (CPU6502.Execute b c (CPU6502.afterFetch b c s) 0x00).SP = (s.SP + 253) % 256 ∧
    (CPU6502.Execute b c (CPU6502.afterFetch b c s) 0x00).PC
      = (Memory.Read b c
          { (CPU6502.afterFetch b c s).mem with
            data := Memory.store (Memory.store (Memory.store s.mem.data
              (0x0100 + s.SP) ((((s.PC + 2) % 65536) >>> 8) &&& 0xFF))
              (0x0100 + (s.SP + 255) % 256) (((s.PC + 2) % 65536) &&& 0xFF))
              (0x0100 + (s.SP + 254) % 256) (s.P ||| Flags.B ||| Flags.U) } 0xFFFE).1
        ||| ((Memory.Read b c
          (Memory.Read b c
            { (CPU6502.afterFetch b c s).mem with
              data := Memory.store (Memory.store (Memory.store s.mem.data
                (0x0100 + s.SP) ((((s.PC + 2) % 65536) >>> 8) &&& 0xFF))
                (0x0100 + (s.SP + 255) % 256) (((s.PC + 2) % 65536) &&& 0xFF))
                (0x0100 + (s.SP + 254) % 256) (s.P ||| Flags.B ||| Flags.U) } 0xFFFE).2
            0xFFFF).1 <<< 8) := by
  have hE : CPU6502.Execute b c (CPU6502.afterFetch b c s) 0x00
      = CPU6502.BRK_full b c (CPU6502.afterFetch b c s) := rfl
  have hm : (CPU6502.afterFetch b c s).mem = (Memory.Read b c s.mem s.PC).2 := rfl
  have hdata : (CPU6502.afterFetch b c s).mem.data = s.mem.data := by
    rw [hm]; exact (Memory.Read_frame b c s.mem s.PC).2.2
  have hpc : ((CPU6502.afterFetch b c s).PC + 1) % 65536 = (s.PC + 2) % 65536 := by
    show ((s.PC + 1) % 65536 + 1) % 65536 = (s.PC + 2) % 65536
    omega
  have hsp : (CPU6502.afterFetch b c s).SP = s.SP := rfl
  have hp : (CPU6502.afterFetch b c s).P = s.P := rfl
  have hram : ∀ x, Memory.plainRAM b c s.mem x = true →
      Memory.plainRAM b c (CPU6502.afterFetch b c s).mem x = true := by
    intro x hx
    rw [hm, Memory.plainRAM_Read]
    exact hx
  have h := CPU6502.BRK_full_spec b c (CPU6502.afterFetch b c s) hSP hP
    (hram _ h0) (hram _ h1) (hram _ h2)
  rw [hpc, hsp, hp, hdata] at h
  obtain ⟨k0, k1, k2, kP, kSP, kPC⟩ := h
  obtain ⟨-, pB, pU⟩ := pushed_status_byte s.P hP
  rw [hE]
  refine ⟨rfl, k0, k1, k2, pB, pU, ?_, ?_, kSP, kPC⟩
  · rw [kP]
    exact Flags.Get_Set _ 2 2 (by decide) (by decide) true
  · rw [kP]
    exact Flags.Get_Set _ 2 4 (by decide) (by decide) true

/-- The sequence of C19 on `CPU6502.brkState` (`BRK` at `0x8000`, `SP = 0xFD`,
`P = 0x21`): `0x80` at `0x01FD`, `0x02` at `0x01FC`, `0x31` at `0x01FB`, `I` set,
`B` clear, `SP = 0xFA` and `PC = 0x1234`. -/
theorem CPU6502_BRK_sequence_witness :
    (CPU6502.brkState.SP < 256 ∧ CPU6502.brkState.P < 256 ∧
      CPU6502.opcodeAt Build.plain Chips.none CPU6502.brkState = 0x00 ∧
      Memory.plainRAM Build.plain Chips.none CPU6502.brkState.mem 0x01FD = true ∧
      Memory.plainRAM Build.plain Chips.none CPU6502.brkState.mem 0x01FC = true ∧
      Memory.plainRAM Build.plain Chips.none CPU6502.brkState.mem 0x01FB = true) ∧
    (CPU6502.Execute Build.plain Chips.none
      (CPU6502.afterFetch Build.plain Chips.none CPU6502.brkState) 0x00).mem.data 0x01FD
        = 0x80 ∧
    (CPU6502.Execute Build.plain Chips.none
      (CPU6502.afterFetch Build.plain Chips.none CPU6502.brkState) 0x00).mem.data 0x01FC
        = 0x02 ∧
    (CPU6502.Execute Build.plain Chips.none
      (CPU6502.afterFetch Build.plain Chips.none CPU6502.brkState) 0x00).mem.data 0x01FB
        = 0x31 ∧
    Flags.Get (CPU6502.Execute Build.plain Chips.none
      (CPU6502.afterFetch Build.plain Chips.none CPU6502.brkState) 0x00).P Flags.I = true ∧
    Flags.Get (CPU6502.Execute Build.plain Chips.none
      (CPU6502.afterFetch Build.plain Chips.none CPU6502.brkState) 0x00).P Flags.B = false ∧
    (CPU6502.Execute Build.plain Chips.none
      (CPU6502.afterFetch Build.plain Chips.none CPU6502.brkState) 0x00).SP = 0xFA ∧
    (CPU6502.Execute Build.plain Chips.none
      (CPU6502.afterFetch Build.plain Chips.none CPU6502.brkState) 0x00).PC = 0x1234 :=
  have h := CPU6502_BRK_sequence Build.plain Chips.none CPU6502.brkState
    (by decide) (by decide) (by decide) (by decide) (by decide)
  ⟨⟨by decide, by decide, by decide, by decide, by decide, by decide⟩,
    h.2.1.trans (by decide), h.2.2.1.trans (by decide), h.2.2.2.1.trans (by decide),
    h.2.2.2.2.2.2.1, h.2.2.2.2.2.2.2.1.trans (by decide),
    h.2.2.2.2.2.2.2.2.1.trans (by decide), h.2.2.2.2.2.2.2.2.2.trans (by decide)⟩

/-! ## The CPU: the halted latch -/

namespace CPU6502
variable {D : Type} (b : Build) (c : Chips D)

set_option maxRecDepth 100000 in
/-- Every arm of `Execute` whose opcode is not a JAM opcode leaves the halted
latch as it found it. -/
theorem arms_halted (s : CPU6502 D) :
    ∀ e ∈ arms b c, e.1 ∉ jamOpcodes → (e.2 s).halted = s.halted := by
  have j02 : 0x02 ∈ jamOpcodes := by decide
  have j12 : 0x12 ∈ jamOpcodes := by decide
  have j22 : 0x22 ∈ jamOpcodes := by decide
  have j32 : 0x32 ∈ jamOpcodes := by decide
  have j42 : 0x42 ∈ jamOpcodes := by decide
  have j52 : 0x52 ∈ jamOpcodes := by decide
  have j62 : 0x62 ∈ jamOpcodes := by decide
  have j72 : 0x72 ∈ jamOpcodes := by decide
  have j92 : 0x92 ∈ jamOpcodes := by decide
  have jB2 : 0xB2 ∈ jamOpcodes := by decide
  have jD2 : 0xD2 ∈ jamOpcodes := by decide
  have jF2 : 0xF2 ∈ jamOpcodes := by decide
  simp only [arms, List.forall_mem_cons, List.not_mem_nil, applyAt,
    Addr_Immediate_ctl, Addr_ZeroPage_ctl, Addr_ZeroPageX_ctl, Addr_ZeroPageY_ctl,
    Addr_Absolute_ctl, Addr_AbsoluteX_ctl, Addr_AbsoluteY_ctl, Addr_IndirectX_ctl,
    Addr_IndirectY_ctl, LDA_ctl, LDX_ctl, LDY_ctl, STA_ctl, STX_ctl, STY_ctl, INC_ctl,
    DEC_ctl, ADC_ctl, SBC_ctl, AND_ctl, ORA_ctl, EOR_ctl, CMP_ctl, CPX_ctl, CPY_ctl, LAX_ctl,
    SAX_ctl, DCP_ctl, ISC_ctl, SLO_ctl, RLA_ctl, SRE_ctl, RRA_ctl, SHA_ctl, SHX_ctl, SHY_ctl,
    TAS_ctl, ASL_Mem_ctl, LSR_Mem_ctl, ROL_Mem_ctl, ROR_Mem_ctl, ANC_ctl, ALR_ctl, ARR_ctl,
    LAS_ctl, ASL_MemAbsX_ctl, LSR_MemAbsX_ctl, ROL_MemAbsX_ctl, ROR_MemAbsX_ctl, BIT_ctl,
    BEQ_ctl, BNE_ctl, BCS_ctl, BCC_ctl, BMI_ctl, BPL_ctl, BVS_ctl, BVC_ctl, BRK_full_ctl,
    RTI_ctl, PHA_ctl, PHP_ctl, PLA_ctl, PLP_ctl, JSR_ctl, RTS_ctl, JMP_Absolute_ctl,
    JMP_Indirect_ctl, ANE_Immediate_ctl, LAX_Immediate_ctl, TAX_ctl, TAY_ctl, TXA_ctl,
    TYA_ctl, INX_ctl, INY_ctl, DEX_ctl, DEY_ctl, ASL_A_ctl, LSR_A_ctl, ROL_A_ctl, ROR_A_ctl,
    CLC_ctl, SEC_ctl, CLI_ctl, SEI_ctl, CLV_ctl, CLD_ctl, SED_ctl, NOP_ctl, TSX_ctl, TXS_ctl,
    j02, j12, j22, j32, j42, j52, j62, j72, j92, jB2, jD2, jF2,
    not_true_eq_false, and_self, false_imp_iff, implies_true]

end CPU6502

/-- C20: for every opcode byte `o`, `Execute(o)` sets the halted latch when `o` is
one of the twelve JAM/KIL opcodes `0x02, 0x12, 0x22, 0x32, 0x42, 0x52, 0x62,
0x72, 0x92, 0xB2, 0xD2, 0xF2`, and leaves the latch unchanged for every other
opcode, decoded or not. -/
theorem CPU6502_Execute_halted_iff_JAM {D : Type} (b : Build) (c : Chips D)
    (s : CPU6502 D) (o : Nat) :
    (o ∈ jamOpcodes → (CPU6502.Execute b c s o).halted = true) ∧
    (o ∉ jamOpcodes → (CPU6502.Execute b c s o).halted = s.halted) := by
  constructor
  · intro h
    simp only [jamOpcodes, List.mem_cons, List.mem_singleton, List.not_mem_nil,
      or_false] at h
    rcases h with h | h | h | h | h | h | h | h | h | h | h | h <;> subst h <;> rfl
  · intro h
    unfold CPU6502.Execute
    split
    · rename_i arm hl
      exact CPU6502.arms_halted b c s (o, arm) (CPU6502.lookup_mem _ _ _ hl) h
    · rfl

/-- The latch of C20 on `CPU6502.stackState`, whose latch is clear: opcode `0x02`
sets it, `NOP` (`0xEA`) and the undecoded `0x80` leave it clear. -/
theorem CPU6502_Execute_halted_iff_JAM_witness :
    (0x02 ∈ jamOpcodes ∧ 0xEA ∉ jamOpcodes ∧ 0x80 ∉ jamOpcodes) ∧
    (CPU6502.Execute Build.plain Chips.none CPU6502.stackState 0x02).halted = true ∧
    (CPU6502.Execute Build.plain Chips.none CPU6502.stackState 0xEA).halted = false ∧
    (CPU6502.Execute Build.plain Chips.none CPU6502.stackState 0x80).halted = false :=
  ⟨⟨by decide, by decide, by decide⟩,
    (CPU6502_Execute_halted_iff_JAM Build.plain Chips.none CPU6502.stackState 0x02).1
      (by decide),
    (CPU6502_Execute_halted_iff_JAM Build.plain Chips.none CPU6502.stackState 0xEA).2
      (by decide),
    (CPU6502_Execute_halted_iff_JAM Build.plain Chips.none CPU6502.stackState 0x80).2
      (by decide)⟩

/-! ## The CPU: load and store -/

theorem word_join (a : Nat) : (a % 256 ||| ((a / 256) <<< 8)) = a := by
  rw [Nat.shiftLeft_eq, Nat.lor_comm, Nat.mul_comm]
  have hl : a % 256 < 2 ^ 8 := Nat.mod_lt _ (by norm_num)
  have := Nat.mul_add_lt_is_or hl (a / 256)
  rw [← this]
  omega

namespace CPU6502
variable {D : Type} (b : Build) (c : Chips D)

/-- The registers and the memory `fetchExecute` leaves are those `Execute` leaves:
the crediting tail only touches the budget. -/
theorem fetchExecute_fields (s : CPU6502 D) :
    (fetchExecute b c s).A = (Execute b c (afterFetch b c s) (opcodeAt b c s)).A ∧
    (fetchExecute b c s).PC = (Execute b c (afterFetch b c s) (opcodeAt b c s)).PC ∧
    (fetchExecute b c s).mem = (Execute b c (afterFetch b c s) (opcodeAt b c s)).mem := by
  have h : ∀ (e : CPU6502 D) (n : Nat),
      (let s1 : CPU6502 D := { e with cycles := (e.cycles + n) % 4294967296 }
       let s2 : CPU6502 D :=
         if s1.branch_taken then { s1 with cycles := (s1.cycles + 1) % 4294967296 } else s1
       if s2.page_crossed then { s2 with cycles := (s2.cycles + 1) % 4294967296 } else s2)
      = { e with cycles :=
            (let s1 : CPU6502 D := { e with cycles := (e.cycles + n) % 4294967296 }
             let s2 : CPU6502 D :=
               if s1.branch_taken then { s1 with cycles := (s1.cycles + 1) % 4294967296 }
               else s1
             if s2.page_crossed then { s2 with cycles := (s2.cycles + 1) % 4294967296 }
             else s2).cycles } := by
    intro e n
    obtain ⟨A, X, Y, SP, PC, P, mem, i6507, running, pc, bt, halted, cycles, tc⟩ := e
    cases bt <;> cases pc <;> rfl
  have hfe : fetchExecute b c s
      = (let e := Execute b c (afterFetch b c s) (opcodeAt b c s)
         let n := cycle_table.getD (opcodeAt b c s) 0
         let s1 : CPU6502 D := { e with cycles := (e.cycles + n) % 4294967296 }
         let s2 : CPU6502 D :=
           if s1.branch_taken then { s1 with cycles := (s1.cycles + 1) % 4294967296 } else s1
         if s2.page_crossed then { s2 with cycles := (s2.cycles + 1) % 4294967296 } else s2) :=
    rfl
  rw [hfe]
  dsimp only
  rw [h]
  exact ⟨rfl, rfl, rfl⟩

/-- The fetch of an opcode byte held in plain RAM. -/
theorem fetch_plain (s : CPU6502 D) (h : Memory.plainRAM b c s.mem s.PC = true) :
    opcodeAt b c s = s.mem.data (Memory.busAddr s.mem s.PC) % 256 ∧
    afterFetch b c s
      = { s with PC := (s.PC + 1) % 65536, page_crossed := false, branch_taken := false } := by
  unfold opcodeAt afterFetch
  rw [read_plain b c s _ h]
  exact ⟨rfl, rfl⟩

/-- `Fetch8` on a byte held in plain RAM. -/
theorem Fetch8_plain (s : CPU6502 D) (h : Memory.plainRAM b c s.mem s.PC = true) :
    Fetch8 b c s
      = (s.mem.data (Memory.busAddr s.mem s.PC) % 256, { s with PC := (s.PC + 1) % 65536 }) := by
  unfold Fetch8
  rw [read_plain b c s _ h]

end CPU6502

namespace CPU6502
variable {D : Type} (b : Build) (c : Chips D)

/-- `Fetch16` on two bytes held in plain RAM. -/
theorem Fetch16_plain (s : CPU6502 D) (h0 : Memory.plainRAM b c s.mem s.PC = true)
    (h1 : Memory.plainRAM b c s.mem ((s.PC + 1) % 65536) = true) :
    Fetch16 b c s
      = ((s.mem.data (Memory.busAddr s.mem s.PC) % 256
            ||| ((s.mem.data (Memory.busAddr s.mem ((s.PC + 1) % 65536)) % 256) <<< 8)) % 65536,
          { s with PC := ((s.PC + 1) % 65536 + 1) % 65536 }) := by
  unfold Fetch16
  dsimp only
  rw [Fetch8_plain b c s h0]
  dsimp only
  rw [Fetch8_plain b c { s with PC := (s.PC + 1) % 65536 } h1]

/-- `LDA #imm` (opcode `0xA9`) with the operand byte in plain RAM. -/
theorem Execute_LDA_imm (u : CPU6502 D) (h : Memory.plainRAM b c u.mem u.PC = true) :
    Execute b c u 0xA9
      = setZN { u with PC := (u.PC + 1) % 65536,
                       A := u.mem.data (Memory.busAddr u.mem u.PC) % 256 }
          (u.mem.data (Memory.busAddr u.mem u.PC) % 256) := by
  have hE : Execute b c u 0xA9 = applyAt (LDA b c) (Addr_Immediate u) := rfl
  rw [hE]
  unfold applyAt Addr_Immediate LDA
  dsimp only
  rw [read_plain b c { u with PC := (u.PC + 1) % 65536 } _ h]

/-- `STA abs` (opcode `0x8D`) with the operand bytes and the target in plain RAM. -/
theorem Execute_STA_abs (u : CPU6502 D) (h0 : Memory.plainRAM b c u.mem u.PC = true)
    (h1 : Memory.plainRAM b c u.mem ((u.PC + 1) % 65536) = true)
    (ha : Memory.plainRAM b c u.mem
      ((u.mem.data (Memory.busAddr u.mem u.PC) % 256
        ||| ((u.mem.data (Memory.busAddr u.mem ((u.PC + 1) % 65536)) % 256) <<< 8)) % 65536)
      = true) :
    Execute b c u 0x8D
      = { u with
          PC := ((u.PC + 1) % 65536 + 1) % 65536,
          mem := { u.mem with
            data := Memory.store u.mem.data
              (Memory.busAddr u.mem
                ((u.mem.data (Memory.busAddr u.mem u.PC) % 256
                  ||| ((u.mem.data (Memory.busAddr u.mem ((u.PC + 1) % 65536)) % 256) <<< 8))
                  % 65536))
              (u.A % 256) } } := by
  have hE : Execute b c u 0x8D = applyAt (STA b c) (Addr_Absolute b c u) := rfl
  rw [hE]
  unfold applyAt Addr_Absolute STA
  rw [Fetch16_plain b c u h0 h1]
  dsimp only
  rw [write_plain b c { u with PC := ((u.PC + 1) % 65536 + 1) % 65536 } _ _ ha]

/-- `LDA abs` (opcode `0xAD`) with the operand bytes and the source in plain RAM. -/
theorem Execute_LDA_abs (u : CPU6502 D) (h0 : Memory.plainRAM b c u.mem u.PC = true)
    (h1 : Memory.plainRAM b c u.mem ((u.PC + 1) % 65536) = true)
    (ha : Memory.plainRAM b c u.mem
      ((u.mem.data (Memory.busAddr u.mem u.PC) % 256
        ||| ((u.mem.data (Memory.busAddr u.mem ((u.PC + 1) % 65536)) % 256) <<< 8)) % 65536)
      = true) :
    Execute b c u 0xAD
      = setZN { u with
          PC := ((u.PC + 1) % 65536 + 1) % 65536,
          A := u.mem.data (Memory.busAddr u.mem
                ((u.mem.data (Memory.busAddr u.mem u.PC) % 256
                  ||| ((u.mem.data (Memory.busAddr u.mem ((u.PC + 1) % 65536)) % 256) <<< 8))
                  % 65536)) % 256 }
          (u.mem.data (Memory.busAddr u.mem
                ((u.mem.data (Memory.busAddr u.mem u.PC) % 256
                  ||| ((u.mem.data (Memory.busAddr u.mem ((u.PC + 1) % 65536)) % 256) <<< 8))
                  % 65536)) % 256) := by
  have hE : Execute b c u 0xAD = applyAt (LDA b c) (Addr_Absolute b c u) := rfl
  rw [hE]
  unfold applyAt Addr_Absolute LDA
  rw [Fetch16_plain b c u h0 h1]
  dsimp only
  rw [read_plain b c { u with PC := ((u.PC + 1) % 65536 + 1) % 65536 } _ ha]

end CPU6502

namespace CPU6502
variable {D : Type} (b : Build) (c : Chips D)

/-- One `fetchExecute` step on `LDA #v` held in plain RAM at `PC`. -/
theorem step_LDA_imm (s : CPU6502 D) (v : Nat) (hv : v < 256) (hPC : s.PC + 2 ≤ 65536)
    (p0 : Memory.plainRAM b c s.mem s.PC = true)
    (d0 : s.mem.data (Memory.busAddr s.mem s.PC) = 0xA9)
    (p1 : Memory.plainRAM b c s.mem (s.PC + 1) = true)
    (d1 : s.mem.data (Memory.busAddr s.mem (s.PC + 1)) = v) :
    (fetchExecute b c s).A = v ∧ (fetchExecute b c s).PC = (s.PC + 2) % 65536 ∧
    (fetchExecute b c s).mem = s.mem := by
  obtain ⟨hA, hP, hM⟩ := fetchExecute_fields b c s
  obtain ⟨hop, haf⟩ := fetch_plain b c s p0
  have hop2 : opcodeAt b c s = 0xA9 := by rw [hop, d0]
  have h1 : (s.PC + 1) % 65536 = s.PC + 1 := Nat.mod_eq_of_lt (by omega)
  rw [hop2, haf, h1] at hA hP hM
  have hE := Execute_LDA_imm b c
    { s with PC := s.PC + 1, page_crossed := false, branch_taken := false } p1
  dsimp only at hE
  rw [d1, Nat.mod_eq_of_lt hv] at hE
  rw [hE] at hA hP hM
  exact ⟨hA, hP, hM⟩

/-- One `fetchExecute` step on `STA abs` held in plain RAM at `PC`, the target in
plain RAM. -/
theorem step_STA_abs (s : CPU6502 D) (abs : Nat) (hA : s.A < 256)
    (hPC : s.PC + 3 ≤ 65536)
    (p0 : Memory.plainRAM b c s.mem s.PC = true)
    (d0 : s.mem.data (Memory.busAddr s.mem s.PC) = 0x8D)
    (p1 : Memory.plainRAM b c s.mem (s.PC + 1) = true)
    (d1 : s.mem.data (Memory.busAddr s.mem (s.PC + 1)) = abs % 256)
    (p2 : Memory.plainRAM b c s.mem (s.PC + 2) = true)
    (d2 : s.mem.data (Memory.busAddr s.mem (s.PC + 2)) = abs / 256)
    (habs : abs < 65536) (pa : Memory.plainRAM b c s.mem abs = true) :
    (fetchExecute b c s).A = s.A ∧ (fetchExecute b c s).PC = (s.PC + 3) % 65536 ∧
    (fetchExecute b c s).mem
      = { s.mem with data := Memory.store s.mem.data (Memory.busAddr s.mem abs) s.A } := by
  obtain ⟨hA', hP, hM⟩ := fetchExecute_fields b c s
  obtain ⟨hop, haf⟩ := fetch_plain b c s p0
  have hop2 : opcodeAt b c s = 0x8D := by rw [hop, d0]
  have h1 : (s.PC + 1) % 65536 = s.PC + 1 := Nat.mod_eq_of_lt (by omega)
  have h2 : (s.PC + 1 + 1) % 65536 = s.PC + 2 := Nat.mod_eq_of_lt (by omega)
  have hw : (abs % 256 % 256 ||| ((abs / 256 % 256) <<< 8)) % 65536 = abs := by
    rw [Nat.mod_mod, Nat.mod_eq_of_lt (show abs / 256 < 256 by omega), word_join,
      Nat.mod_eq_of_lt habs]
  rw [hop2, haf, h1] at hA' hP hM
  have hE := Execute_STA_abs b c
    { s with PC := s.PC + 1, page_crossed := false, branch_taken := false } p1
  dsimp only at hE
  rw [h2, d1, d2, hw, Nat.mod_eq_of_lt hA] at hE
  have hE2 := hE p2 pa
  rw [hE2] at hA' hP hM
  have h3 : (s.PC + 2 + 1) % 65536 = (s.PC + 3) % 65536 := rfl
  exact ⟨hA', hP.trans h3, hM⟩

/-- One `fetchExecute` step on `LDA abs` held in plain RAM at `PC`, the source in
plain RAM. -/
theorem step_LDA_abs (s : CPU6502 D) (abs : Nat)
    (hPC : s.PC + 3 ≤ 65536)
    (p0 : Memory.plainRAM b c s.mem s.PC = true)
    (d0 : s.mem.data (Memory.busAddr s.mem s.PC) = 0xAD)
    (p1 : Memory.plainRAM b c s.mem (s.PC + 1) = true)
    (d1 : s.mem.data (Memory.busAddr s.mem (s.PC + 1)) = abs % 256)
    (p2 : Memory.plainRAM b c s.mem (s.PC + 2) = true)
    (d2 : s.mem.data (Memory.busAddr s.mem (s.PC + 2)) = abs / 256)
    (habs : abs < 65536) (pa : Memory.plainRAM b c s.mem abs = true) :
    (fetchExecute b c s).A = s.mem.data (Memory.busAddr s.mem abs) % 256 ∧
    (fetchExecute b c s).PC = (s.PC + 3) % 65536 ∧
    (fetchExecute b c s).mem = s.mem := by
  obtain ⟨hA', hP, hM⟩ := fetchExecute_fields b c s
  obtain ⟨hop, haf⟩ := fetch_plain b c s p0
  have hop2 : opcodeAt b c s = 0xAD := by rw [hop, d0]
  have h1 : (s.PC + 1) % 65536 = s.PC + 1 := Nat.mod_eq_of_lt (by omega)
  have h2 : (s.PC + 1 + 1) % 65536 = s.PC + 2 := Nat.mod_eq_of_lt (by omega)
  have hw : (abs % 256 % 256 ||| ((abs / 256 % 256) <<< 8)) % 65536 = abs := by
    rw [Nat.mod_mod, Nat.mod_eq_of_lt (show abs / 256 < 256 by omega), word_join,
      Nat.mod_eq_of_lt habs]
  rw [hop2, haf, h1] at hA' hP hM
  have hE := Execute_LDA_abs b c
    { s with PC := s.PC + 1, page_crossed := false, branch_taken := false } p1
  dsimp only at hE
  rw [h2, d1, d2, hw] at hE
  have hE2 := hE p2 pa
  rw [hE2] at hA' hP hM
  have h3 : (s.PC + 2 + 1) % 65536 = (s.PC + 3) % 65536 := rfl
  exact ⟨hA', hP.trans h3, hM⟩

end CPU6502

/-- C12: for every byte `imm` and every address `abs` that is plain writable RAM and
whose bus address differs from those of the ten program bytes, executing the
four instructions `LDA #imm; STA abs; LDA #0; LDA abs`, held in plain RAM at
`PC`, leaves `A = imm` and `memory[abs] = imm` (both in the array and as
`Read(abs)` returns it), with `PC` past the program. -/
theorem CPU6502_LDA_STA_LDA_roundtrip {D : Type} (b : Build) (c : Chips D) (s : CPU6502 D)
    (imm abs : Nat) (himm : imm < 256) (habs : abs < 65536) (hPC : s.PC + 10 ≤ 65536)
    (hram : ∀ i < 10, Memory.plainRAM b c s.mem (s.PC + i) = true)
    (hprog : ∀ i < 10, s.mem.data (Memory.busAddr s.mem (s.PC + i))
      = (roundTripProgram imm abs).getD i 0)
    (hdisj : ∀ i < 10, Memory.busAddr s.mem (s.PC + i) ≠ Memory.busAddr s.mem abs)
    (pa : Memory.plainRAM b c s.mem abs = true) :
    (CPU6502.fetchExecute b c (CPU6502.fetchExecute b c
      (CPU6502.fetchExecute b c (CPU6502.fetchExecute b c s)))).A = imm ∧
    (CPU6502.fetchExecute b c (CPU6502.fetchExecute b c
      (CPU6502.fetchExecute b c (CPU6502.fetchExecute b c s)))).mem.data
        (Memory.busAddr s.mem abs) = imm ∧
    (Memory.Read b c (CPU6502.fetchExecute b c (CPU6502.fetchExecute b c
      (CPU6502.fetchExecute b c (CPU6502.fetchExecute b c s)))).mem abs).1 = imm ∧
    (CPU6502.fetchExecute b c (CPU6502.fetchExecute b c
      (CPU6502.fetchExecute b c (CPU6502.fetchExecute b c s)))).PC = (s.PC + 10) % 65536 := by
  -- first instruction: load the immediate
  obtain ⟨hA1, hP1, hM1⟩ := CPU6502.step_LDA_imm b c s imm himm (by omega)
    (hram 0 (by norm_num)) (hprog 0 (by norm_num)) (hram 1 (by norm_num))
    (hprog 1 (by norm_num))
  rw [Nat.mod_eq_of_lt (show s.PC + 2 < 65536 by omega)] at hP1
  generalize CPU6502.fetchExecute b c s = s1 at hA1 hP1 hM1 ⊢
  -- second instruction: store at abs
  obtain ⟨hA2, hP2, hM2⟩ := CPU6502.step_STA_abs b c s1 abs (by rw [hA1]; exact himm)
    (by rw [hP1]; omega)
    (by rw [hM1, hP1]; exact hram 2 (by norm_num))
    (by rw [hM1, hP1]; exact hprog 2 (by norm_num))
    (by rw [hM1, hP1]; exact hram 3 (by norm_num))
    (by rw [hM1, hP1]; exact hprog 3 (by norm_num))
    (by rw [hM1, hP1]; exact hram 4 (by norm_num))
    (by rw [hM1, hP1]; exact hprog 4 (by norm_num))
    habs (by rw [hM1]; exact pa)
  rw [hP1, Nat.mod_eq_of_lt (show s.PC + 2 + 3 < 65536 by omega)] at hP2
  rw [hM1, hA1] at hM2
  rw [hA1] at hA2
  generalize CPU6502.fetchExecute b c s1 = s2 at hA2 hP2 hM2 ⊢
  have kram : ∀ x, Memory.plainRAM b c s2.mem x = Memory.plainRAM b c s.mem x := by
    intro x; rw [hM2]; exact Memory.plainRAM_data b c s.mem _ x
  have kbus : ∀ x, Memory.busAddr s2.mem x = Memory.busAddr s.mem x := by
    intro x; rw [hM2]; rfl
  have kdata : ∀ i < 10, s2.mem.data (Memory.busAddr s.mem (s.PC + i))
      = (roundTripProgram imm abs).getD i 0 := by
    intro i hi
    rw [hM2]
    show Memory.store s.mem.data (Memory.busAddr s.mem abs) imm
      (Memory.busAddr s.mem (s.PC + i)) = _
    unfold Memory.store
    rw [if_neg (hdisj i hi)]
    exact hprog i hi
  have kabs : s2.mem.data (Memory.busAddr s.mem abs) = imm := by
    rw [hM2]
    show Memory.store s.mem.data (Memory.busAddr s.mem abs) imm
      (Memory.busAddr s.mem abs) = _
    unfold Memory.store
    rw [if_pos rfl]
  -- third instruction: load zero
  obtain ⟨hA3, hP3, hM3⟩ := CPU6502.step_LDA_imm b c s2 0 (by norm_num)
    (by rw [hP2]; omega)
    (by rw [kram, hP2]; exact hram 5 (by norm_num))
    (by rw [kbus, hP2]; exact kdata 5 (by norm_num))
    (by rw [kram, hP2]; exact hram 6 (by norm_num))
    (by rw [kbus, hP2]; exact kdata 6 (by norm_num))
  rw [hP2, Nat.mod_eq_of_lt (show s.PC + 2 + 3 + 2 < 65536 by omega)] at hP3
  generalize CPU6502.fetchExecute b c s2 = s3 at hA3 hP3 hM3 ⊢
  -- fourth instruction: load from abs
  obtain ⟨hA4, hP4, hM4⟩ := CPU6502.step_LDA_abs b c s3 abs
    (by rw [hP3]; omega)
    (by rw [hM3, kram, hP3]; exact hram 7 (by norm_num))
    (by rw [hM3, kbus, hP3]; exact kdata 7 (by norm_num))
    (by rw [hM3, kram, hP3]; exact hram 8 (by norm_num))
    (by rw [hM3, kbus, hP3]; exact kdata 8 (by norm_num))
    (by rw [hM3, kram, hP3]; exact hram 9 (by norm_num))
    (by rw [hM3, kbus, hP3]; exact kdata 9 (by norm_num))
    habs (by rw [hM3, kram]; exact pa)
  rw [hM3, kbus, kabs, Nat.mod_eq_of_lt himm] at hA4
  rw [hM3] at hM4
  refine ⟨hA4, ?_, ?_, ?_⟩
  · rw [hM4]; exact kabs
  · rw [hM4, Memory.Read_plainRAM b c s2.mem abs (by rw [kram]; exact pa)]
    show s2.mem.data (Memory.busAddr s2.mem abs) % 256 = imm
    rw [kbus, kabs, Nat.mod_eq_of_lt himm]
  · rw [hP4, hP3]

/-- The round trip of C12 on `CPU6502.roundTripState` (`imm = 0x42`, `abs = 0x0200`,
program at `0x8000`): `A = 0x42` and `memory[0x0200] = 0x42` after the four
instructions.  On the program `main` writes (`A9 42 8D 00 02` at `0x8000`) the
first two instructions already leave `A = 0x42` and `memory[0x0200] = 0x42`. -/
theorem CPU6502_LDA_STA_LDA_roundtrip_witness :
    ((0x42 : Nat) < 256 ∧ (0x0200 : Nat) < 65536 ∧ CPU6502.roundTripState.PC + 10 ≤ 65536 ∧
      (∀ i < 10, Memory.plainRAM Build.plain Chips.none CPU6502.roundTripState.mem
        (CPU6502.roundTripState.PC + i) = true) ∧
      (∀ i < 10, CPU6502.roundTripState.mem.data
          (Memory.busAddr CPU6502.roundTripState.mem (CPU6502.roundTripState.PC + i))
        = (roundTripProgram 0x42 0x0200).getD i 0) ∧
      (∀ i < 10, Memory.busAddr CPU6502.roundTripState.mem (CPU6502.roundTripState.PC + i)
        ≠ Memory.busAddr CPU6502.roundTripState.mem 0x0200) ∧
      Memory.plainRAM Build.plain Chips.none CPU6502.roundTripState.mem 0x0200 = true) ∧
    (CPU6502.fetchExecute Build.plain Chips.none (CPU6502.fetchExecute Build.plain Chips.none
      (CPU6502.fetchExecute Build.plain Chips.none (CPU6502.fetchExecute Build.plain Chips.none
        CPU6502.roundTripState)))).A = 0x42 ∧
    (CPU6502.fetchExecute Build.plain Chips.none (CPU6502.fetchExecute Build.plain Chips.none
      (CPU6502.fetchExecute Build.plain Chips.none (CPU6502.fetchExecute Build.plain Chips.none
        CPU6502.roundTripState)))).mem.data 0x0200 = 0x42 ∧
    (CPU6502.fetchExecute Build.plain Chips.none
      (CPU6502.fetchExecute Build.plain Chips.none CPU6502.mainState)).A = 0x42 ∧
    (CPU6502.fetchExecute Build.plain Chips.none
      (CPU6502.fetchExecute Build.plain Chips.none CPU6502.mainState)).mem.data 0x0200 = 0x42 :=
  have h := CPU6502_LDA_STA_LDA_roundtrip Build.plain Chips.none CPU6502.roundTripState
    0x42 0x0200 (by decide) (by decide) (by decide) (by decide) (by decide) (by decide)
    (by decide)
  ⟨⟨by decide, by decide, by decide, by decide, by decide, by decide, by decide⟩,
    h.1, h.2.1, by decide, by decide⟩

/-! ## The TIA: the beam -/

namespace TIA

/-- The beam counters after `renderDot`, which only writes the frame buffer. -/
theorem renderDot_beam (s : TIA) :
    (renderDot s).dot = s.dot ∧ (renderDot s).line = s.line ∧ (renderDot s).frame = s.frame ∧
    (renderDot s).stallCalls = s.stallCalls ∧ (renderDot s).wsyncStall = s.wsyncStall :=
  ⟨rfl, rfl, rfl, rfl, rfl⟩

/-- The beam counters after `hmoveLatchAndApply`, which only moves the objects. -/
theorem hmoveLatchAndApply_beam (s : TIA) :
    (hmoveLatchAndApply s).dot = s.dot ∧ (hmoveLatchAndApply s).line = s.line ∧
    (hmoveLatchAndApply s).frame = s.frame :=
  ⟨rfl, rfl, rfl⟩

/-- One tick of the beam: the dot advances, rolling into the next line after
column 227 and into the next frame after line 261. -/
theorem incrementBeam_beam (s : TIA) :
    (incrementBeam s).dot = (if s.dot + 1 ≥ 228 then 0 else s.dot + 1) ∧
    (incrementBeam s).line
      = (if s.dot + 1 ≥ 228 then (if s.line + 1 ≥ 262 then 0 else s.line + 1) else s.line) ∧
    (incrementBeam s).frame
      = (if s.dot + 1 ≥ 228 then (if s.line + 1 ≥ 262 then s.frame + 1 else s.frame)
         else s.frame) := by
  unfold incrementBeam
  simp only [ColorClocksPerScanline, ScanlinesPerFrame, hmoveLatchAndApply]
  by_cases h1 : s.dot + 1 ≥ 228
  · by_cases h2 : s.line + 1 ≥ 262
    · simp only [h1, h2, if_true]
      exact ⟨trivial, trivial, trivial⟩
    · simp only [h1, h2, if_true, if_false]
      exact ⟨trivial, trivial, trivial⟩
  · simp only [h1, if_false]
    exact ⟨trivial, trivial, trivial⟩

/-- The beam after `n` ticks from a position inside the frame: it stays inside
the frame, and the dots counted since frame 0 have grown by `n`. -/
theorem tickLoop_beam (n : Nat) : ∀ s : TIA,
    0 ≤ s.dot → s.dot ≤ 227 → 0 ≤ s.line → s.line ≤ 261 →
    0 ≤ (tickLoop n s).dot ∧ (tickLoop n s).dot ≤ 227 ∧
    0 ≤ (tickLoop n s).line ∧ (tickLoop n s).line ≤ 261 ∧
    (tickLoop n s).line * 228 + (tickLoop n s).dot + 59736 * (tickLoop n s).frame
      = s.line * 228 + s.dot + 59736 * s.frame + n := by
  induction n with
  | zero =>
    intro s h0 h1 h2 h3
    exact ⟨h0, h1, h2, h3, by simp [tickLoop]⟩
  | succ n ih =>
    intro s h0 h1 h2 h3
    obtain ⟨hd, hl, hf⟩ := incrementBeam_beam (renderDot s)
    obtain ⟨rd, rl, rf, -, -⟩ := renderDot_beam s
    rw [rd] at hd
    rw [rd, rl] at hl
    rw [rd, rl, rf] at hf
    have hd0 : 0 ≤ (incrementBeam (renderDot s)).dot := by rw [hd]; split_ifs <;> omega
    have hd1 : (incrementBeam (renderDot s)).dot ≤ 227 := by rw [hd]; split_ifs <;> omega
    have hl0 : 0 ≤ (incrementBeam (renderDot s)).line := by rw [hl]; split_ifs <;> omega
    have hl1 : (incrementBeam (renderDot s)).line ≤ 261 := by rw [hl]; split_ifs <;> omega
    obtain ⟨k0, k1, k2, k3, k4⟩ := ih (incrementBeam (renderDot s)) hd0 hd1 hl0 hl1
    refine ⟨k0, k1, k2, k3, ?_⟩
    show (tickLoop n (incrementBeam (renderDot s))).line * 228
      + (tickLoop n (incrementBeam (renderDot s))).dot
      + 59736 * (tickLoop n (incrementBeam (renderDot s))).frame = _
    rw [k4, hd, hl, hf]
    push_cast
    split_ifs <;> omega

/-- The loop of `tick(n)` is `n` calls of `tick(1)`. -/
theorem tickLoop_iterate (n : Nat) : ∀ s : TIA,
    (fun t => (tick t 1).2)^[n] s = tickLoop n s := by
  induction n with
  | zero => intro s; rfl
  | succ n ih =>
    intro s
    rw [Function.iterate_succ_apply, ih]
    rfl

end TIA

/-- C24: from any beam position with `0 <= dot <= 227` and `0 <= line <= 261`,
`tick(59736)` (228 * 262 single-dot ticks) produces 59736 dots, returns the beam
to the same position and increases the frame counter by exactly one; from the
reset state the beam is back at `(0, 0)` with frame counter 1. -/
theorem TIA_tick_full_frame (s : TIA) (hd0 : 0 ≤ s.dot) (hd1 : s.dot ≤ 227)
    (hl0 : 0 ≤ s.line) (hl1 : s.line ≤ 261) :
    (228 : Int) * 262 = 59736 ∧
    (fun t => (TIA.tick t 1).2)^[59736] s = (TIA.tick s 59736).2 ∧
    (TIA.tick s 59736).1 = 59736 ∧
    (TIA.tick s 59736).2.line = s.line ∧
    (TIA.tick s 59736).2.dot = s.dot ∧
    (TIA.tick s 59736).2.frame = s.frame + 1 ∧
    (TIA.tick (TIA.reset s true) 59736).2.line = 0 ∧
    (TIA.tick (TIA.reset s true) 59736).2.dot = 0 ∧
    (TIA.tick (TIA.reset s true) 59736).2.frame = 1 := by
  have key : ∀ t : TIA, 0 ≤ t.dot → t.dot ≤ 227 → 0 ≤ t.line → t.line ≤ 261 →
      (TIA.tick t 59736).2.line = t.line ∧ (TIA.tick t 59736).2.dot = t.dot ∧
      (TIA.tick t 59736).2.frame = t.frame + 1 := by
    intro t h0 h1 h2 h3
    obtain ⟨k0, k1, k2, k3, k4⟩ := TIA.tickLoop_beam 59736 t h0 h1 h2 h3
    have ht : (59736 : Int).toNat = 59736 := by decide
    unfold TIA.tick
    dsimp only
    rw [ht]
    push_cast at k4
    refine ⟨?_, ?_, ?_⟩ <;> omega
  obtain ⟨a1, a2, a3⟩ := key s hd0 hd1 hl0 hl1
  obtain ⟨b1, b2, b3⟩ := key (TIA.reset s true) (le_refl _)
    (by show (0 : Int) ≤ 227; decide) (le_refl _) (by show (0 : Int) ≤ 261; decide)
  have ht : (59736 : Int).toNat = 59736 := by decide
  have hit : (fun t => (TIA.tick t 1).2)^[59736] s = (TIA.tick s 59736).2 := by
    rw [TIA.tickLoop_iterate]
    unfold TIA.tick
    dsimp only
    rw [ht]
  exact ⟨by norm_num, hit, by show (((59736 : Int).toNat : Nat) : Int) = 59736; decide,
    a1, a2, a3, b1, b2, b3⟩

/-- The full frame of C24 from the constructed TIA: the beam starts at `(0, 0)`
in frame 0 and is back at `(0, 0)` in frame 1. -/
theorem TIA_tick_full_frame_witness :
    (0 ≤ TIA.init.dot ∧ TIA.init.dot ≤ 227 ∧ 0 ≤ TIA.init.line ∧ TIA.init.line ≤ 261) ∧
    (TIA.tick TIA.init 59736).2.line = 0 ∧
    (TIA.tick TIA.init 59736).2.dot = 0 ∧
    (TIA.tick TIA.init 59736).2.frame = 1 :=
  have h := TIA_tick_full_frame TIA.init (by decide) (by decide) (by decide) (by decide)
  ⟨⟨by decide, by decide, by decide, by decide⟩, h.2.2.2.1, h.2.2.2.2.1, h.2.2.2.2.2.1⟩

/-! ## The TIA: register writes -/

/-- C25, refuted as stated: at dot 226 of line 0, with a stall callback installed,
`(228 - 226) / 3 = 0` and the write to WSYNC does not call the callback at all. -/
theorem TIA_WSYNC_no_stall_at_dot_226 :
    ¬ (∀ (s : TIA) (v : Nat), s.wsyncStall = true → 0 ≤ s.dot → s.dot ≤ 227 →
        (TIA.write s 0x02 v).stallCalls = Int.tdiv (228 - s.dot) 3 :: s.stallCalls) := by
  intro h
  have h1 := h { TIA.init with wsyncStall := true, dot := 226 } 0 rfl (by decide) (by decide)
  revert h1
  decide

/-- C25, amended: a write to WSYNC with a stall callback installed calls the
callback exactly once, with `(228 - d) / 3` CPU cycles, when the dot `d` is in
`0..225`, and does not call it when `d` is 226 or 227; in both cases, for a
line in `0..261`, the beam is moved so that after one further tick
`(dot, line) = (0, (line + 1) mod 262)`. -/
theorem TIA_WSYNC_stall (s : TIA) (v : Nat) (hw : s.wsyncStall = true)
    (hd0 : 0 ≤ s.dot) (hd1 : s.dot ≤ 227) (hl0 : 0 ≤ s.line) (hl1 : s.line ≤ 261) :
    (s.dot ≤ 225 →
      (TIA.write s 0x02 v).stallCalls = Int.tdiv (228 - s.dot) 3 :: s.stallCalls) ∧
    (226 ≤ s.dot → (TIA.write s 0x02 v).stallCalls = s.stallCalls) ∧
    (TIA.tick (TIA.write s 0x02 v) 1).2.dot = 0 ∧
    (TIA.tick (TIA.write s 0x02 v) 1).2.line = (s.line + 1) % 262 := by
  have hW : TIA.write s 0x02 v
      = { (if Int.tdiv (228 - s.dot) 3 > 0
            then { s with stallCalls := Int.tdiv (228 - s.dot) 3 :: s.stallCalls } else s)
          with dot := 227 } := by
    unfold TIA.write TIA.tiaWriteReg
    have h2 : TIA.tiaAddr 0x02 = 0x02 := by decide
    rw [h2]
    simp only [TIA.VSYNC, TIA.VBLANK, TIA.WSYNC, TIA.ColorClocksPerScanline, hw, if_true]
    rfl
  have hdot : (TIA.write s 0x02 v).dot = 227 := by rw [hW]
  have hline : (TIA.write s 0x02 v).line = s.line := by
    rw [hW]; split_ifs <;> rfl
  have hstep : (TIA.tick (TIA.write s 0x02 v) 1).2
      = TIA.incrementBeam (TIA.renderDot (TIA.write s 0x02 v)) := rfl
  obtain ⟨kd, kl, -⟩ := TIA.incrementBeam_beam (TIA.renderDot (TIA.write s 0x02 v))
  obtain ⟨rd, rl, -, -, -⟩ := TIA.renderDot_beam (TIA.write s 0x02 v)
  rw [rd, hdot] at kd
  rw [rd, rl, hdot, hline] at kl
  have htd : Int.tdiv (228 - s.dot) 3 = (228 - s.dot) / 3 :=
    Int.tdiv_eq_ediv (by omega) (by decide)
  refine ⟨?_, ?_, ?_, ?_⟩
  · intro h
    have hpos : Int.tdiv (228 - s.dot) 3 > 0 := by rw [htd]; omega
    rw [hW, if_pos hpos]
  · intro h
    have hz : ¬ (Int.tdiv (228 - s.dot) 3 > 0) := by rw [htd]; omega
    rw [hW, if_neg hz]
  · rw [hstep, kd]; rfl
  · rw [hstep, kl]
    split_ifs <;> omega

/-- The stall of C25 at dot 5 of line 0: the callback is called once, with 74 CPU
cycles, and the next tick leaves the beam at dot 0 of line 1. -/
theorem TIA_WSYNC_stall_witness :
    (TIA.wsyncState.wsyncStall = true ∧ 0 ≤ TIA.wsyncState.dot ∧ TIA.wsyncState.dot ≤ 227 ∧
      0 ≤ TIA.wsyncState.line ∧ TIA.wsyncState.line ≤ 261 ∧ TIA.wsyncState.dot ≤ 225) ∧
    (TIA.write TIA.wsyncState 0x02 0).stallCalls = [74] ∧
    (TIA.tick (TIA.write TIA.wsyncState 0x02 0) 1).2.dot = 0 ∧
    (TIA.tick (TIA.write TIA.wsyncState 0x02 0) 1).2.line = 1 :=
  have h := TIA_WSYNC_stall TIA.wsyncState 0 rfl (by decide) (by decide) (by decide)
    (by decide)
  ⟨⟨rfl, by decide, by decide, by decide, by decide, by decide⟩,
    (h.1 (by decide)).trans (by decide), h.2.2.1, h.2.2.2.trans (by decide)⟩

/-- C26 (code defect): `tiaWriteReg` has no `case HMCLR`, so a write of any byte to
register `0x2B` falls to the empty `default` and leaves the whole TIA state,
the five motion values included, as it was: after `HMP0 = 0x70` (motion 7) a
write to HMCLR leaves the motion of player 0 at 7. -/
theorem TIA_HMCLR_write_changes_nothing :
    (∀ (s : TIA) (v : Nat), TIA.write s 0x2B v = s) ∧
    TIA.tiaAddr 0x2B = TIA.HMCLR ∧
    TIA.motions (TIA.write TIA.init 0x20 0x70) = [7, 0, 0, 0, 0] ∧
    TIA.motions (TIA.write (TIA.write TIA.init 0x20 0x70) 0x2B 0x00) = [7, 0, 0, 0, 0] :=
  ⟨fun _ _ => rfl, by decide, by decide, by decide⟩

/-! ## The ACIA -/

/-- Setting bit `i` of a byte register, read at bit `j`. -/
theorem byte_or_get (x i j : Nat) (hi : i < 8) (hj : j < 8) :
    Flags.Get ((x ||| (1 <<< i)) % 256) (1 <<< j)
      = if i = j then true else Flags.Get x (1 <<< j) :=
  Flags.Get_Set x i j hi hj true

/-- Clearing bit `i` of a byte register, read at bit `j`. -/
theorem byte_andnot_get (x i j : Nat) (hi : i < 8) (hj : j < 8) :
    Flags.Get ((x &&& (0xFF ^^^ (1 <<< i))) % 256) (1 <<< j)
      = if i = j then false else Flags.Get x (1 <<< j) :=
  Flags.Get_Set x i j hi hj false

namespace ACIA

/-- The status bit `1 << j` after `updateIRQ`: bit 7 is the IRQ condition, the
other bits are untouched. -/
theorem updateIRQ_status (s : ACIA) (j : Nat) (hj : j < 8) :
    Flags.Get (updateIRQ s).statusReg (1 <<< j)
      = if j = 7 then (((s.controlReg &&& CR_RIE) != 0) && ((s.statusReg &&& SR_RDRF) != 0))
        else Flags.Get s.statusReg (1 <<< j) := by
  unfold updateIRQ
  dsimp only
  cases hq : (((s.controlReg &&& CR_RIE) != 0) && ((s.statusReg &&& SR_RDRF) != 0))
  · simp only [Bool.false_eq_true, if_false]
    have := byte_andnot_get s.statusReg 7 j (by decide) hj
    rw [show (1 <<< 7 : Nat) = SR_IRQ from rfl] at this
    rw [this]
    by_cases h : j = 7
    · subst h; rfl
    · rw [if_neg h, if_neg (Ne.symm h)]
  · simp only [if_true]
    have := byte_or_get s.statusReg 7 j (by decide) hj
    rw [show (1 <<< 7 : Nat) = SR_IRQ from rfl] at this
    rw [this]
    by_cases h : j = 7
    · subst h; rfl
    · rw [if_neg h, if_neg (Ne.symm h)]

/-- Embeds `updateIRQ` leaves every member but the status register and the IRQ
line as it was. -/
theorem updateIRQ_frame (s : ACIA) :
    (updateIRQ s).controlReg = s.controlReg ∧ (updateIRQ s).txBufferEmpty = s.txBufferEmpty ∧
    (updateIRQ s).txShiftCounter = s.txShiftCounter := by
  unfold updateIRQ
  dsimp only
  split <;> exact ⟨rfl, rfl, rfl⟩

theorem tdre_eq (s : ACIA) : tdre s = Flags.Get s.statusReg (1 <<< 1) := rfl

/-- A `Clock` call during a transmission with more than one cycle left only
decrements the countdown. -/
theorem Clock_counting (s : ACIA) (n : Nat) (he : s.txBufferEmpty = false)
    (hc : s.txShiftCounter = n + 2) :
    Clock s = { s with txShiftCounter := n + 1 } := by
  unfold Clock
  simp only [he, hc, Bool.not_false, if_true]
  rw [if_pos (by omega), if_neg (by omega)]
  rfl

/-- The `Clock` call that ends a transmission sets TDRE. -/
theorem Clock_last (s : ACIA) (he : s.txBufferEmpty = false) (hc : s.txShiftCounter = 1) :
    tdre (Clock s) = true := by
  unfold Clock
  simp only [he, hc, Bool.not_false, if_true]
  rw [if_pos (by omega), tdre_eq, updateIRQ_status _ 1 (by decide), if_neg (by decide)]
  have := byte_or_get s.statusReg 1 1 (by decide) (by decide)
  rw [if_pos rfl] at this
  exact this

/-- A transmission with `n + 1` cycles left: TDRE stays clear through the first
`n` `Clock` calls and is set by call `n + 1`. -/
theorem Clock_countdown (n : Nat) : ∀ s : ACIA,
    s.txBufferEmpty = false → s.txShiftCounter = n + 1 → tdre s = false →
    (∀ j ≤ n, tdre (Clock^[j] s) = false) ∧ tdre (Clock^[n + 1] s) = true := by
  induction n with
  | zero =>
    intro s he hc ht
    refine ⟨?_, ?_⟩
    · intro j hj
      have : j = 0 := by omega
      subst this
      exact ht
    · exact Clock_last s he hc
  | succ n ih =>
    intro s he hc ht
    have hstep := Clock_counting s n he hc
    have ih' := ih (Clock s) (by rw [hstep]; exact he) (by rw [hstep])
      (by rw [hstep]; exact ht)
    refine ⟨?_, ?_⟩
    · intro j hj
      cases j with
      | zero => exact ht
      | succ j =>
        rw [Function.iterate_succ_apply]
        exact ih'.1 j (by omega)
    · rw [Function.iterate_succ_apply]
      exact ih'.2

end ACIA

/-- C27: after a control-register write whose bits 0-1 select `N` cycles (0 gives
10, 1 gives 160, 2 gives 640) followed by a data-register write, TDRE is clear
immediately, is clear after each of the first `N - 1` `Clock` calls and is set
after the `N`-th; this holds from every ACIA state and for every data byte. -/
theorem ACIA_TDRE_countdown (s : ACIA) (cr d : Nat) (hcr : cr < 256)
    (hsel : cr &&& 0x03 ≤ 2) :
    (ACIA.write (ACIA.write s 0x01 cr) 0x00 d).txShiftCounter = ACIA.selectedCycles cr ∧
    ACIA.tdre (ACIA.write (ACIA.write s 0x01 cr) 0x00 d) = false ∧
    (∀ j < ACIA.selectedCycles cr,
      ACIA.tdre (ACIA.Clock^[j] (ACIA.write (ACIA.write s 0x01 cr) 0x00 d)) = false) ∧
    ACIA.tdre (ACIA.Clock^[ACIA.selectedCycles cr]
      (ACIA.write (ACIA.write s 0x01 cr) 0x00 d)) = true := by
  have h1 : ACIA.write s 0x01 cr = ACIA.updateIRQ { s with controlReg := cr % 256 } := rfl
  have hc1 : (ACIA.write s 0x01 cr).controlReg = cr := by
    rw [h1, (ACIA.updateIRQ_frame _).1]
    exact Nat.mod_eq_of_lt hcr
  generalize ACIA.write s 0x01 cr = s1 at hc1 ⊢
  have h2 : ACIA.write s1 0x00 d
      = { s1 with txBuffer := d % 256, txBufferEmpty := false,
                  statusReg := (s1.statusReg &&& (0xFF ^^^ ACIA.SR_TDRE)) % 256,
                  txShiftCounter := ACIA.txCyclesForCurrentBaud s1 } := rfl
  have hN : ACIA.txCyclesForCurrentBaud s1 = ACIA.selectedCycles cr := by
    unfold ACIA.txCyclesForCurrentBaud ACIA.selectedCycles
    rw [hc1]
    simp only [ACIA.CR_CLK_DIV_1, ACIA.CR_CLK_DIV_16, ACIA.CR_CLK_DIV_64]
    split_ifs <;> first | rfl | omega
  have hpos : ∃ n, ACIA.selectedCycles cr = n + 1 := by
    unfold ACIA.selectedCycles
    split_ifs
    · exact ⟨9, rfl⟩
    · exact ⟨159, rfl⟩
    · exact ⟨639, rfl⟩
  obtain ⟨n, hn⟩ := hpos
  have ht : ACIA.tdre (ACIA.write s1 0x00 d) = false := by
    rw [h2, ACIA.tdre_eq]
    have := byte_andnot_get s1.statusReg 1 1 (by decide) (by decide)
    rw [if_pos rfl] at this
    exact this
  have hcd := ACIA.Clock_countdown n (ACIA.write s1 0x00 d) (by rw [h2])
    (by rw [h2]; exact hN.trans hn) ht
  refine ⟨?_, ht, ?_, ?_⟩
  · rw [h2]; exact hN
  · intro j hj
    exact hcd.1 j (by omega)
  · rw [hn]; exact hcd.2

/-- The countdown of C27 on the constructed ACIA with `CR_CLK_DIV_1` and data
`0x55`: TDRE is clear right after the data write, still clear after 9 `Clock`
calls and set after 10. -/
theorem ACIA_TDRE_countdown_witness :
    ((0x00 : Nat) < 256 ∧ (0x00 : Nat) &&& 0x03 ≤ 2) ∧
    ACIA.selectedCycles ACIA.CR_CLK_DIV_1 = 10 ∧
    ACIA.tdre (ACIA.write (ACIA.write ACIA.init 0x01 0x00) 0x00 0x55) = false ∧
    ACIA.tdre (ACIA.Clock^[9] (ACIA.write (ACIA.write ACIA.init 0x01 0x00) 0x00 0x55))
      = false ∧
    ACIA.tdre (ACIA.Clock^[10] (ACIA.write (ACIA.write ACIA.init 0x01 0x00) 0x00 0x55))
      = true :=
  have h := ACIA_TDRE_countdown ACIA.init 0x00 0x55 (by decide) (by decide)
  ⟨⟨by decide, by decide⟩, by decide, h.2.1, h.2.2.1 9 (by decide), h.2.2.2⟩

namespace ACIA

/-- The invariant of C28 in terms of the three bits. -/
theorem irqConsistent_iff (s : ACIA) :
    irqConsistent s ↔
      Flags.Get s.statusReg (1 <<< 7)
        = (Flags.Get s.controlReg (1 <<< 7) && Flags.Get s.statusReg (1 <<< 0)) := by
  unfold irqConsistent
  have e7 : Flags.Get s.statusReg (1 <<< 7) = ((s.statusReg &&& SR_IRQ) != 0) := rfl
  have c7 : Flags.Get s.controlReg (1 <<< 7) = ((s.controlReg &&& CR_RIE) != 0) := rfl
  have e0 : Flags.Get s.statusReg (1 <<< 0) = ((s.statusReg &&& SR_RDRF) != 0) := rfl
  rw [e7, c7, e0]
  generalize s.statusReg &&& SR_IRQ = a
  generalize s.controlReg &&& CR_RIE = b
  generalize s.statusReg &&& SR_RDRF = c
  rcases a with _ | a <;> rcases b with _ | b <;> rcases c with _ | c <;> simp

/-- Embeds `updateIRQ` establishes the invariant, whatever the state. -/
theorem updateIRQ_consistent (s : ACIA) : irqConsistent (updateIRQ s) := by
  rw [irqConsistent_iff, updateIRQ_status s 7 (by decide), updateIRQ_status s 0 (by decide),
    (updateIRQ_frame s).1, if_pos rfl, if_neg (by decide)]
  rfl

/-- The invariant only reads the control register and bits 7 and 0 of the
status register. -/
theorem irqConsistent_congr (s t : ACIA) (hc : t.controlReg = s.controlReg)
    (h7 : Flags.Get t.statusReg (1 <<< 7) = Flags.Get s.statusReg (1 <<< 7))
    (h0 : Flags.Get t.statusReg (1 <<< 0) = Flags.Get s.statusReg (1 <<< 0))
    (h : irqConsistent s) : irqConsistent t := by
  rw [irqConsistent_iff] at h ⊢
  rw [hc, h7, h0]
  exact h

/-- Every call keeps the invariant. -/
theorem call_consistent (s : ACIA) (k : Call) (h : irqConsistent s) :
    irqConsistent (call s k) := by
  cases k with
  | read addr =>
    show irqConsistent (read s addr).2
    unfold read
    dsimp only
    split
    · exact updateIRQ_consistent _
    · exact h
  | write addr data =>
    show irqConsistent (write s addr data)
    unfold write
    dsimp only
    split
    · refine irqConsistent_congr s _ rfl ?_ ?_ h
      · have := byte_andnot_get s.statusReg 1 7 (by decide) (by decide)
        rw [if_neg (by decide)] at this
        exact this
      · have := byte_andnot_get s.statusReg 1 0 (by decide) (by decide)
        rw [if_neg (by decide)] at this
        exact this
    · exact updateIRQ_consistent _
  | receiveByte data fe pe =>
    exact updateIRQ_consistent _
  | Clock =>
    show irqConsistent (Clock s)
    unfold Clock
    dsimp only
    split
    · split
      · split
        · exact updateIRQ_consistent _
        · exact irqConsistent_congr s _ rfl rfl rfl h
      · exact h
    · exact h

/-- The state `reset` leaves satisfies the invariant. -/
theorem reset_consistent (s : ACIA) : irqConsistent (reset s) := by
  rw [irqConsistent_iff]
  show Flags.Get SR_TDRE (1 <<< 7) = (Flags.Get 0 (1 <<< 7) && Flags.Get SR_TDRE (1 <<< 0))
  decide

end ACIA

/-- C28: in every ACIA state reached from `reset` by any sequence of `read`,
`write`, `receiveByte` and `Clock` calls, status bit 7 (IRQ) is set iff control
bit 7 (RX-IRQ-enable) and status bit 0 (RDRF) are both set. -/
theorem ACIA_IRQ_bit_invariant (s0 : ACIA) (cs : List ACIA.Call) :
    ((ACIA.calls (ACIA.reset s0) cs).statusReg &&& 0x80 ≠ 0) ↔
      ((ACIA.calls (ACIA.reset s0) cs).controlReg &&& 0x80 ≠ 0 ∧
        (ACIA.calls (ACIA.reset s0) cs).statusReg &&& 0x01 ≠ 0) := by
  have key : ∀ (cs : List ACIA.Call) (s : ACIA), ACIA.irqConsistent s →
      ACIA.irqConsistent (ACIA.calls s cs) := by
    intro cs
    induction cs with
    | nil => intro s h; exact h
    | cons k ks ih =>
      intro s h
      exact ih (ACIA.call s k) (ACIA.call_consistent s k h)
  exact key cs (ACIA.reset s0) (ACIA.reset_consistent s0)

/-! ## The RIOT -/

namespace RIOT6532

/-- Embeds `RIOT6532::write` masks the address with `0x7F` and then tests it against
`0x80`: the test always succeeds, so every write stores the byte in the RAM
array and returns before the register `switch`. -/
theorem write_eq_ram (s : RIOT6532) (addr data : Nat) :
    write s addr data
      = { s with ram := fun i => if i = (addr % 65536) &&& 0x7F then data % 256 else s.ram i } := by
  have h : (addr % 65536) &&& 0x7F < 0x80 :=
    Nat.lt_of_le_of_lt Nat.and_le_right (by decide)
  unfold write
  dsimp only
  rw [if_pos h]

end RIOT6532

/-- C29 (code defect): `RIOT6532::write(0x14 + k, n)` never reaches the timer
registers.  For every state, byte `n` and `k` in `0..3` the write leaves the
timer counter, the prescaler shift, the running flag and the IRQ latch as they
were and stores `n` at RAM offset `0x14 + k`; on the constructed chip,
`write(0x14, 0x05)` leaves the counter at 0 and the timer stopped. -/
theorem RIOT6532_timer_write_goes_to_RAM :
    (∀ (s : RIOT6532) (k n : Nat), k ≤ 3 →
      (RIOT6532.write s (0x14 + k) n).timer = s.timer ∧
      (RIOT6532.write s (0x14 + k) n).timerShift = s.timerShift ∧
      (RIOT6532.write s (0x14 + k) n).timerRunning = s.timerRunning ∧
      (RIOT6532.write s (0x14 + k) n).timerIRQ = s.timerIRQ ∧
      (RIOT6532.write s (0x14 + k) n).ram (0x14 + k) = n % 256) ∧
    (RIOT6532.write RIOT6532.init 0x14 0x05).timer = 0 ∧
    (RIOT6532.write RIOT6532.init 0x14 0x05).timerRunning = false ∧
    (RIOT6532.write RIOT6532.init 0x14 0x05).ram 0x14 = 0x05 := by
  refine ⟨?_, by decide, by decide, by decide⟩
  intro s k n hk
  rw [RIOT6532.write_eq_ram]
  refine ⟨rfl, rfl, rfl, rfl, ?_⟩
  have : (0x14 + k) % 65536 &&& 0x7F = 0x14 + k := by
    interval_cases k <;> rfl
  simp only [this, if_true]

/-! ## The VIA -/

namespace VIA6522

/-- With both counters inside sixteen bits, the underflow tests of `Tick` never
succeed: a counter is only decremented when it is positive, so it is never
`0xFFFF` afterwards, and `Tick` leaves `IFR` as it was. -/
theorem Tick_IFR (s : VIA6522) (h1 : s.T1C < 65536) (h2 : s.T2C < 65536) :
    (Tick s).IFR = s.IFR ∧ (Tick s).T1C = s.T1C - 1 ∧ (Tick s).T2C = s.T2C - 1 := by
  unfold Tick
  dsimp only [UpdateIRQ, SetIFR]
  by_cases a1 : s.T1C > 0
  · have n1 : ¬ ((s.T1C + 65535) % 65536 = 0xFFFF) := by omega
    have e1 : (s.T1C + 65535) % 65536 = s.T1C - 1 := by omega
    by_cases a2 : s.T2C > 0
    · have n2 : ¬ ((s.T2C + 65535) % 65536 = 0xFFFF) := by omega
      have e2 : (s.T2C + 65535) % 65536 = s.T2C - 1 := by omega
      simp only [a1, a2, n1, n2, if_true, if_false]
      exact ⟨trivial, e1, e2⟩
    · simp only [a1, a2, n1, if_true, if_false]
      exact ⟨trivial, e1, by omega⟩
  · by_cases a2 : s.T2C > 0
    · have n2 : ¬ ((s.T2C + 65535) % 65536 = 0xFFFF) := by omega
      have e2 : (s.T2C + 65535) % 65536 = s.T2C - 1 := by omega
      simp only [a1, a2, n2, if_true, if_false]
      exact ⟨trivial, by omega, e2⟩
    · simp only [a1, a2, if_false]
      exact ⟨trivial, by omega, by omega⟩

/-- Any number of `Tick` calls leaves `IFR` as it was and counts each counter
down to zero, where it stays. -/
theorem Tick_iterate (n : Nat) : ∀ s : VIA6522, s.T1C < 65536 → s.T2C < 65536 →
    (Tick^[n] s).IFR = s.IFR ∧ (Tick^[n] s).T1C = s.T1C - n ∧ (Tick^[n] s).T2C = s.T2C - n := by
  induction n with
  | zero => intro s _ _; exact ⟨rfl, rfl, rfl⟩
  | succ n ih =>
    intro s h1 h2
    obtain ⟨k0, k1, k2⟩ := Tick_IFR s h1 h2
    obtain ⟨j0, j1, j2⟩ := ih (Tick s) (by omega) (by omega)
    rw [Function.iterate_succ_apply]
    refine ⟨j0.trans k0, ?_, ?_⟩ <;> omega

end VIA6522

/-- C30 (code defect): `Tick` never raises a timer flag.  From any state with
`T1C = n` and `T2C = m` (sixteen-bit values), after `n + 1` calls the counter
`T1C` rests at 0 without having wrapped and `IFR` is what it was, so bit 6 is
still clear if it was clear; likewise `T2C` and bit 5 after `m + 1` calls. -/
theorem VIA6522_Tick_never_sets_IFR (s : VIA6522) (h1 : s.T1C < 65536)
    (h2 : s.T2C < 65536) :
    (VIA6522.Tick^[s.T1C + 1] s).IFR = s.IFR ∧
    (VIA6522.Tick^[s.T1C + 1] s).T1C = 0 ∧
    (s.IFR &&& 0x40 = 0 → (VIA6522.Tick^[s.T1C + 1] s).IFR &&& 0x40 = 0) ∧
    (VIA6522.Tick^[s.T2C + 1] s).IFR = s.IFR ∧
    (VIA6522.Tick^[s.T2C + 1] s).T2C = 0 ∧
    (s.IFR &&& 0x20 = 0 → (VIA6522.Tick^[s.T2C + 1] s).IFR &&& 0x20 = 0) := by
  obtain ⟨a0, a1, -⟩ := VIA6522.Tick_iterate (s.T1C + 1) s h1 h2
  obtain ⟨b0, -, b2⟩ := VIA6522.Tick_iterate (s.T2C + 1) s h1 h2
  refine ⟨a0, by omega, ?_, b0, by omega, ?_⟩
  · intro h; rw [a0]; exact h
  · intro h; rw [b0]; exact h

/-- The defect of C30 on the constructed VIA with `T1C = 2` (written through
registers 4 and 5, then `IFR` cleared): `IFR` bit 6 is clear, and after 3 `Tick`
calls it is still clear, with `T1C` at 0. -/
theorem VIA6522_Tick_never_sets_IFR_witness :
    (VIA6522.timerState.T1C < 65536 ∧ VIA6522.timerState.T2C < 65536) ∧
    VIA6522.timerState.T1C = 2 ∧ VIA6522.timerState.IFR &&& 0x40 = 0 ∧
    (VIA6522.Tick^[3] VIA6522.timerState).IFR &&& 0x40 = 0 ∧
    (VIA6522.Tick^[3] VIA6522.timerState).T1C = 0 :=
  have h := VIA6522_Tick_never_sets_IFR VIA6522.timerState (by decide) (by decide)
  ⟨⟨by decide, by decide⟩, by decide, by decide, h.2.2.1 (by decide), h.2.1⟩

/-! ## The CPU: subroutines -/

theorem word_split (r : Nat) (h : r < 65536) :
    ((((r >>> 8) &&& 0xFF) % 256) <<< 8 ||| ((r &&& 0xFF) % 256)) % 65536 = r := by
  rw [and_FF, and_FF, Nat.shiftRight_eq_div_pow, Nat.mod_mod, Nat.mod_mod, Nat.lor_comm]
  have h1 : r / 2 ^ 8 % 256 = r / 256 := by
    have : r / 2 ^ 8 = r / 256 := rfl
    rw [this]; omega
  rw [h1, word_join, Nat.mod_eq_of_lt h]

namespace CPU6502
variable {D : Type} (b : Build) (c : Chips D)

/-- The state `Fetch16` leaves: `PC` moved by two, the memory after the two
operand reads, whose array and plain-RAM map are those before. -/
theorem Fetch16_frame (u : CPU6502 D) :
    (Fetch16 b c u).2
      = { u with PC := ((u.PC + 1) % 65536 + 1) % 65536, mem := (Fetch16 b c u).2.mem } ∧
    (Fetch16 b c u).2.mem.data = u.mem.data ∧
    (∀ a, Memory.plainRAM b c (Fetch16 b c u).2.mem a = Memory.plainRAM b c u.mem a) := by
  have hm : (Fetch16 b c u).2.mem
      = (Memory.Read b c (Memory.Read b c u.mem u.PC).2 ((u.PC + 1) % 65536)).2 := rfl
  refine ⟨rfl, ?_, ?_⟩
  · rw [hm, (Memory.Read_frame b c _ _).2.2, (Memory.Read_frame b c _ _).2.2]
  · intro a
    rw [hm, Memory.plainRAM_Read, Memory.plainRAM_Read]

/-- What `JSR` leaves, on a state whose two stack slots are plain RAM. -/
theorem JSR_spec (u : CPU6502 D) (hSP : u.SP < 256)
    (h0 : Memory.plainRAM b c u.mem (0x0100 + u.SP) = true)
    (h1 : Memory.plainRAM b c u.mem (0x0100 + (u.SP + 255) % 256) = true) :
    JSR b c u
      = { u with
          PC := (Fetch16 b c u).1,
          SP := (u.SP + 254) % 256,
          mem := { (Fetch16 b c u).2.mem with
            data := Memory.store (Memory.store u.mem.data
              (0x0100 + u.SP) (((((u.PC + 1) % 65536) >>> 8) &&& 0xFF) % 256))
              (0x0100 + (u.SP + 255) % 256) ((((u.PC + 1) % 65536) &&& 0xFF) % 256) } } := by
  obtain ⟨hf, hd, hp⟩ := Fetch16_frame b c u
  have hret : (((u.PC + 1) % 65536 + 1) % 65536 + 65535) % 65536 = (u.PC + 1) % 65536 := by
    rw [Nat.mod_add_mod]
    omega
  have hJ : JSR b c u
      = { Push b c (Push b c (Fetch16 b c u).2
            (((((Fetch16 b c u).2.PC + 65535) % 65536) >>> 8) &&& 0xFF))
            ((((Fetch16 b c u).2.PC + 65535) % 65536) &&& 0xFF) with
          PC := (Fetch16 b c u).1 } := rfl
  have hpc : (Fetch16 b c u).2.PC = ((u.PC + 1) % 65536 + 1) % 65536 := rfl
  have hsp : (Fetch16 b c u).2.SP = u.SP := rfl
  rw [hJ, hpc, hret]
  rw [Push2_plain b c (Fetch16 b c u).2 _ _ hSP (by rw [hp]; exact h0)
    (by rw [hp]; exact h1)]
  rw [hd]
  rw [hf]

end CPU6502

namespace CPU6502
variable {D : Type} (b : Build) (c : Chips D)

/-- What `RTS` leaves in `PC` and `SP`, on a state whose two stack slots above `SP`
are plain RAM. -/
theorem RTS_spec (v : CPU6502 D)
    (h1 : Memory.plainRAM b c v.mem (0x0100 + (v.SP + 1) % 256) = true)
    (h2 : Memory.plainRAM b c v.mem (0x0100 + ((v.SP + 1) % 256 + 1) % 256) = true) :
    (RTS b c v).PC
      = ((((v.mem.data (0x0100 + ((v.SP + 1) % 256 + 1) % 256) % 256) <<< 8)
          ||| (v.mem.data (0x0100 + (v.SP + 1) % 256) % 256)) % 65536 + 1) % 65536 ∧
    (RTS b c v).SP = ((v.SP + 1) % 256 + 1) % 256 := by
  unfold RTS
  dsimp only
  rw [Pop_plain b c v h1]
  dsimp only
  rw [Pop_plain b c { v with SP := (v.SP + 1) % 256 } h2]
  exact ⟨rfl, rfl⟩

/-- The memory of the state left by the fetch of an opcode that follows a state
`t`: same array, same plain-RAM map. -/
theorem afterFetch_mem (t : CPU6502 D) :
    (afterFetch b c t).mem.data = t.mem.data ∧
    (∀ a, Memory.plainRAM b c (afterFetch b c t).mem a = Memory.plainRAM b c t.mem a) := by
  have hm : (afterFetch b c t).mem = (Memory.Read b c t.mem t.PC).2 := rfl
  refine ⟨?_, ?_⟩
  · rw [hm]; exact (Memory.Read_frame b c t.mem t.PC).2.2
  · intro a; rw [hm]; exact Memory.plainRAM_Read b c t.mem a t.PC

end CPU6502

/-- C22: for a `JSR` (opcode `0x20`) fetched at address `a = s.PC`, with any operand
bytes and any `SP`, the two stack slots being plain RAM: `JSR` pushes the high
then the low byte of `a + 2` and lowers `SP` by two, and `RTS` (opcode `0x60`)
executed right after it leaves `PC = a + 3` (modulo `0x10000`) and `SP` as it
was before the `JSR`. -/
theorem CPU6502_JSR_RTS_roundtrip {D : Type} (b : Build) (c : Chips D) (s : CPU6502 D)
    (hSP : s.SP < 256)
    (h0 : Memory.plainRAM b c s.mem (0x0100 + s.SP) = true)
    (h1 : Memory.plainRAM b c s.mem (0x0100 + (s.SP + 255) % 256) = true) :
    CPU6502.Execute b c (CPU6502.afterFetch b c s) 0x20
      = CPU6502.JSR b c (CPU6502.afterFetch b c s) ∧
    (CPU6502.JSR b c (CPU6502.afterFetch b c s)).mem.data (0x0100 + s.SP)
      = (((s.PC + 2) % 65536) >>> 8) &&& 0xFF ∧
    (CPU6502.JSR b c (CPU6502.afterFetch b c s)).mem.data (0x0100 + (s.SP + 255) % 256)
      = ((s.PC + 2) % 65536) &&& 0xFF ∧
    (CPU6502.JSR b c (CPU6502.afterFetch b c s)).SP = (s.SP + 254) % 256 ∧
    (CPU6502.JSR b c (CPU6502.afterFetch b c s)).PC
      = (CPU6502.Fetch16 b c (CPU6502.afterFetch b c s)).1 ∧
    CPU6502.Execute b c
        (CPU6502.afterFetch b c (CPU6502.JSR b c (CPU6502.afterFetch b c s))) 0x60
      = CPU6502.RTS b c
          (CPU6502.afterFetch b c (CPU6502.JSR b c (CPU6502.afterFetch b c s))) ∧
    (CPU6502.RTS b c
      (CPU6502.afterFetch b c (CPU6502.JSR b c (CPU6502.afterFetch b c s)))).PC
      = (s.PC + 3) % 65536 ∧
    (CPU6502.RTS b c
      (CPU6502.afterFetch b c (CPU6502.JSR b c (CPU6502.afterFetch b c s)))).SP = s.SP := by
  obtain ⟨ud, up⟩ := CPU6502.afterFetch_mem b c s
  have uSP : (CPU6502.afterFetch b c s).SP = s.SP := rfl
  have uPC : ((CPU6502.afterFetch b c s).PC + 1) % 65536 = (s.PC + 2) % 65536 := by
    show ((s.PC + 1) % 65536 + 1) % 65536 = (s.PC + 2) % 65536
    rw [Nat.mod_add_mod]
  have hJ := CPU6502.JSR_spec b c (CPU6502.afterFetch b c s) hSP
    (by rw [up]; exact h0) (by rw [up]; exact h1)
  rw [uPC, uSP, ud] at hJ
  have hv0 : ((((s.PC + 2) % 65536) >>> 8) &&& 0xFF) % 256
      = (((s.PC + 2) % 65536) >>> 8) &&& 0xFF := by
    rw [and_FF]; exact Nat.mod_mod _ _
  have hv1 : (((s.PC + 2) % 65536) &&& 0xFF) % 256 = ((s.PC + 2) % 65536) &&& 0xFF := by
    rw [and_FF]; exact Nat.mod_mod _ _
  have hne : 0x0100 + s.SP ≠ 0x0100 + (s.SP + 255) % 256 := by omega
  have jSP : (CPU6502.JSR b c (CPU6502.afterFetch b c s)).SP = (s.SP + 254) % 256 := by
    rw [hJ]
  have jD0 : (CPU6502.JSR b c (CPU6502.afterFetch b c s)).mem.data (0x0100 + s.SP)
      = (((s.PC + 2) % 65536) >>> 8) &&& 0xFF := by
    rw [hJ]
    simp only [Memory.store, if_neg hne, if_true, hv0]
  have jD1 : (CPU6502.JSR b c (CPU6502.afterFetch b c s)).mem.data
      (0x0100 + (s.SP + 255) % 256) = ((s.PC + 2) % 65536) &&& 0xFF := by
    rw [hJ]
    simp only [Memory.store, if_true, hv1]
  have jP : ∀ a, Memory.plainRAM b c (CPU6502.JSR b c (CPU6502.afterFetch b c s)).mem a
      = Memory.plainRAM b c s.mem a := by
    intro a
    rw [hJ]
    dsimp only
    rw [Memory.plainRAM_data, (CPU6502.Fetch16_frame b c _).2.2, up]
  obtain ⟨vd, vp⟩ := CPU6502.afterFetch_mem b c
    (CPU6502.JSR b c (CPU6502.afterFetch b c s))
  have vSP : (CPU6502.afterFetch b c (CPU6502.JSR b c (CPU6502.afterFetch b c s))).SP
      = (s.SP + 254) % 256 := jSP
  have e1 : ((s.SP + 254) % 256 + 1) % 256 = (s.SP + 255) % 256 := by omega
  have e2 : ((s.SP + 255) % 256 + 1) % 256 = s.SP := by omega
  have hR := CPU6502.RTS_spec b c
    (CPU6502.afterFetch b c (CPU6502.JSR b c (CPU6502.afterFetch b c s)))
    (by rw [vp, jP, vSP, e1]; exact h1)
    (by rw [vp, jP, vSP, e1, e2]; exact h0)
  rw [vSP, e1, e2, vd, jD0, jD1] at hR
  have hr : (s.PC + 2) % 65536 < 65536 := Nat.mod_lt _ (by norm_num)
  have hws := word_split ((s.PC + 2) % 65536) hr
  rw [hws, Nat.mod_add_mod] at hR
  exact ⟨rfl, jD0, jD1, jSP, by rw [hJ], rfl, hR.1, hR.2⟩

/-- The round trip of C22 on `CPU6502.jsrState` (`JSR $1234` at `0x8000`,
`SP = 0xFD`): `0x80` at `0x01FD`, `0x02` at `0x01FC`, `PC = 0x1234` after the
`JSR`, and `PC = 0x8003`, `SP = 0xFD` after the `RTS`. -/
theorem CPU6502_JSR_RTS_roundtrip_witness :
    (CPU6502.jsrState.SP < 256 ∧
      Memory.plainRAM Build.plain Chips.none CPU6502.jsrState.mem 0x01FD = true ∧
      Memory.plainRAM Build.plain Chips.none CPU6502.jsrState.mem 0x01FC = true) ∧
    CPU6502.opcodeAt Build.plain Chips.none CPU6502.jsrState = 0x20 ∧
    (CPU6502.JSR Build.plain Chips.none
      (CPU6502.afterFetch Build.plain Chips.none CPU6502.jsrState)).mem.data 0x01FD = 0x80 ∧
    (CPU6502.JSR Build.plain Chips.none
      (CPU6502.afterFetch Build.plain Chips.none CPU6502.jsrState)).mem.data 0x01FC = 0x02 ∧
    (CPU6502.JSR Build.plain Chips.none
      (CPU6502.afterFetch Build.plain Chips.none CPU6502.jsrState)).PC = 0x1234 ∧
    CPU6502.opcodeAt Build.plain Chips.none (CPU6502.JSR Build.plain Chips.none
      (CPU6502.afterFetch Build.plain Chips.none CPU6502.jsrState)) = 0x60 ∧
    (CPU6502.RTS Build.plain Chips.none (CPU6502.afterFetch Build.plain Chips.none
      (CPU6502.JSR Build.plain Chips.none
        (CPU6502.afterFetch Build.plain Chips.none CPU6502.jsrState)))).PC = 0x8003 ∧
    (CPU6502.RTS Build.plain Chips.none (CPU6502.afterFetch Build.plain Chips.none
      (CPU6502.JSR Build.plain Chips.none
        (CPU6502.afterFetch Build.plain Chips.none CPU6502.jsrState)))).SP = 0xFD :=
  have h := CPU6502_JSR_RTS_roundtrip Build.plain Chips.none CPU6502.jsrState
    (by decide) (by decide) (by decide)
  ⟨⟨by decide, by decide, by decide⟩, by decide,
    h.2.1.trans (by decide), h.2.2.1.trans (by decide), h.2.2.2.2.1.trans (by decide),
    by decide, h.2.2.2.2.2.2.1, h.2.2.2.2.2.2.2⟩

/-! ## The CPU: the official instruction set -/

namespace CPU6502
variable {D : Type} (b : Build) (c : Chips D)

/-- A key of a table is found by `lookup`. -/
theorem lookup_isSome_of_mem {α : Type} (l : List (Nat × α)) (k : Nat)
    (h : k ∈ l.map Prod.fst) : (l.lookup k).isSome = true := by
  induction l with
  | nil => simp at h
  | cons x xs ih =>
    obtain ⟨k', v'⟩ := x
    simp only [List.lookup]
    by_cases hk : k = k'
    · subst hk
      simp
    · have hb : (k == k') = false := by simpa using hk
      rw [hb]
      simp only [List.map_cons, List.mem_cons] at h
      rcases h with h | h
      · exact absurd h hk
      · exact ih h

set_option maxRecDepth 100000 in
/-- No arm of `Execute` changes the `running` flag. -/
theorem arms_running (s : CPU6502 D) :
    ∀ e ∈ arms b c, (e.2 s).running = s.running := by
  simp only [arms, List.forall_mem_cons, List.not_mem_nil, applyAt,
    Addr_Immediate_ctl, Addr_ZeroPage_ctl, Addr_ZeroPageX_ctl, Addr_ZeroPageY_ctl,
    Addr_Absolute_ctl, Addr_AbsoluteX_ctl, Addr_AbsoluteY_ctl, Addr_IndirectX_ctl,
    Addr_IndirectY_ctl, LDA_ctl, LDX_ctl, LDY_ctl, STA_ctl, STX_ctl, STY_ctl, INC_ctl,
    DEC_ctl, ADC_ctl, SBC_ctl, AND_ctl, ORA_ctl, EOR_ctl, CMP_ctl, CPX_ctl, CPY_ctl, LAX_ctl,
    SAX_ctl, DCP_ctl, ISC_ctl, SLO_ctl, RLA_ctl, SRE_ctl, RRA_ctl, SHA_ctl, SHX_ctl, SHY_ctl,
    TAS_ctl, ASL_Mem_ctl, LSR_Mem_ctl, ROL_Mem_ctl, ROR_Mem_ctl, ANC_ctl, ALR_ctl, ARR_ctl,
    LAS_ctl, ASL_MemAbsX_ctl, LSR_MemAbsX_ctl, ROL_MemAbsX_ctl, ROR_MemAbsX_ctl, BIT_ctl,
    BEQ_ctl, BNE_ctl, BCS_ctl, BCC_ctl, BMI_ctl, BPL_ctl, BVS_ctl, BVC_ctl, BRK_full_ctl,
    RTI_ctl, PHA_ctl, PHP_ctl, PLA_ctl, PLP_ctl, JSR_ctl, RTS_ctl, JMP_Absolute_ctl,
    JMP_Indirect_ctl, ANE_Immediate_ctl, LAX_Immediate_ctl, TAX_ctl, TAY_ctl, TXA_ctl,
    TYA_ctl, INX_ctl, INY_ctl, DEX_ctl, DEY_ctl, ASL_A_ctl, LSR_A_ctl, ROL_A_ctl, ROR_A_ctl,
    CLC_ctl, SEC_ctl, CLI_ctl, SEI_ctl, CLV_ctl, CLD_ctl, SED_ctl, NOP_ctl, TSX_ctl, TXS_ctl,
    and_self, false_imp_iff, implies_true]

set_option maxRecDepth 1000000 in
/-- Every official opcode is the label of a `case` of `Execute`. -/
theorem official_decoded : ∀ o ∈ officialOpcodes, o ∈ (arms b c).map Prod.fst := by
  simp only [arms, List.map_cons, List.map_nil]
  decide

/-- What `Execute` does to the halted latch on an opcode that is not a JAM
opcode. -/
theorem Execute_halted_of_not_jam (s : CPU6502 D) (o : Nat) (h : o ∉ jamOpcodes) :
    (Execute b c s o).halted = s.halted := by
  unfold Execute
  split
  · rename_i arm hl
    exact arms_halted b c s (o, arm) (lookup_mem _ _ _ hl) h
  · rfl

end CPU6502

set_option maxRecDepth 100000 in
/-- C21: the list of official NMOS 6502 opcodes has 151 distinct entries, and for
each of them `Execute` finds a `case` (it does not reach the unknown-opcode
`default` branch), leaves `running` as it was (so `true` stays `true`) and
leaves `halted` unchanged. -/
theorem CPU6502_official_opcodes_decoded {D : Type} (b : Build) (c : Chips D)
    (s : CPU6502 D) :
    officialOpcodes.length = 151 ∧ officialOpcodes.Nodup ∧
    ∀ o ∈ officialOpcodes,
      ((CPU6502.arms b c).lookup o).isSome = true ∧
      (CPU6502.Execute b c s o).running = s.running ∧
      (CPU6502.Execute b c s o).halted = s.halted := by
  refine ⟨by decide, by decide, ?_⟩
  intro o ho
  have hk := CPU6502.official_decoded b c o ho
  have hs := CPU6502.lookup_isSome_of_mem (CPU6502.arms b c) o hk
  have hj : ∀ x ∈ officialOpcodes, x ∉ jamOpcodes := by decide
  refine ⟨hs, ?_, CPU6502.Execute_halted_of_not_jam b c s o (hj o ho)⟩
  unfold CPU6502.Execute
  split
  · rename_i arm hl
    exact CPU6502.arms_running b c s (o, arm) (CPU6502.lookup_mem _ _ _ hl)
  · rename_i hl
    rw [hl] at hs
    exact absurd hs (by simp)

/-- The decoding of C21 on `CPU6502.stackState` for `NOP` (`0xEA`) and `LDA #`
(`0xA9`): both are official, both are found, and both leave `running` set and
`halted` clear. -/
theorem CPU6502_official_opcodes_decoded_witness :
    (0xEA ∈ officialOpcodes ∧ 0xA9 ∈ officialOpcodes) ∧
    (CPU6502.Execute Build.plain Chips.none CPU6502.stackState 0xEA).running = true ∧
    (CPU6502.Execute Build.plain Chips.none CPU6502.stackState 0xEA).halted = false ∧
    (CPU6502.Execute Build.plain Chips.none CPU6502.stackState 0xA9).running = true :=
  have h := (CPU6502_official_opcodes_decoded Build.plain Chips.none CPU6502.stackState).2.2
  ⟨⟨by decide, by decide⟩, (h 0xEA (by decide)).2.1, (h 0xEA (by decide)).2.2,
    (h 0xA9 (by decide)).2.1⟩

/-! ## The CPU: the B and U bits of the live status register -/

namespace Flags

theorem Get_ite (p : Prop) [Decidable p] (x y f : Nat) :
    Get (if p then x else y) f = if p then Get x f else Get y f := by
  split <;> rfl

theorem Get_U_Set_C (reg : Nat) (v : Bool) : Get (Set reg C v) U = Get reg U :=
  Get_Set reg 0 5 (by decide) (by decide) v
theorem Get_B_Set_C (reg : Nat) (v : Bool) : Get (Set reg C v) B = Get reg B :=
  Get_Set reg 0 4 (by decide) (by decide) v

theorem Get_U_Set_Z (reg : Nat) (v : Bool) : Get (Set reg Z v) U = Get reg U :=
  Get_Set reg 1 5 (by decide) (by decide) v
theorem Get_B_Set_Z (reg : Nat) (v : Bool) : Get (Set reg Z v) B = Get reg B :=
  Get_Set reg 1 4 (by decide) (by decide) v

theorem Get_U_Set_I (reg : Nat) (v : Bool) : Get (Set reg I v) U = Get reg U :=
  Get_Set reg 2 5 (by decide) (by decide) v
theorem Get_B_Set_I (reg : Nat) (v : Bool) : Get (Set reg I v) B = Get reg B :=
  Get_Set reg 2 4 (by decide) (by decide) v

theorem Get_U_Set_D (reg : Nat) (v : Bool) : Get (Set reg D v) U = Get reg U :=
  Get_Set reg 3 5 (by decide) (by decide) v
theorem Get_B_Set_D (reg : Nat) (v : Bool) : Get (Set reg D v) B = Get reg B :=
  Get_Set reg 3 4 (by decide) (by decide) v

theorem Get_U_Set_V (reg : Nat) (v : Bool) : Get (Set reg V v) U = Get reg U :=
  Get_Set reg 6 5 (by decide) (by decide) v
theorem Get_B_Set_V (reg : Nat) (v : Bool) : Get (Set reg V v) B = Get reg B :=
  Get_Set reg 6 4 (by decide) (by decide) v

theorem Get_U_Set_N (reg : Nat) (v : Bool) : Get (Set reg N v) U = Get reg U :=
  Get_Set reg 7 5 (by decide) (by decide) v
theorem Get_B_Set_N (reg : Nat) (v : Bool) : Get (Set reg N v) B = Get reg B :=
  Get_Set reg 7 4 (by decide) (by decide) v

theorem Get_U_SetZN (reg v : Nat) : Get (SetZN reg v) U = Get reg U :=
  Get_SetZN reg v 5 (by decide) (by decide) (by decide)
theorem Get_B_SetZN (reg v : Nat) : Get (SetZN reg v) B = Get reg B :=
  Get_SetZN reg v 4 (by decide) (by decide) (by decide)

set_option maxRecDepth 1000000 in
set_option maxHeartbeats 4000000 in
theorem pulled_byte : ∀ x < 256,
    Get (((x &&& CPU6502.not8 B) ||| U) % 256) U = true ∧
    Get (((x &&& CPU6502.not8 B) ||| U) % 256) B = false := by
  decide

/-- The status byte `PLP` and `RTI` build from any pulled value has `U` set and `B`
clear. -/
theorem pulled_status (x : Nat) :
    Get (((x &&& CPU6502.not8 B) ||| U) % 256) U = true ∧
    Get (((x &&& CPU6502.not8 B) ||| U) % 256) B = false := by
  have h := pulled_byte (x % 256) (Nat.mod_lt _ (by norm_num))
  have e : ((x &&& CPU6502.not8 B) ||| U) % 256
      = (((x % 256) &&& CPU6502.not8 B) ||| U) % 256 := by
    rw [or_mod_256, and_mod_256, or_mod_256 ((x % 256) &&& CPU6502.not8 B),
      and_mod_256 (x % 256), Nat.mod_mod]
  rw [e]
  exact h

end Flags

namespace CPU6502
variable {D : Type} (b : Build) (c : Chips D)

theorem Addr_Immediate_P (s : CPU6502 D) : ((Addr_Immediate s).2).P = s.P := by
  simp only [Addr_Immediate, apply_ite CPU6502.P, apply_ite Prod.snd]
  try dsimp only [read, write, Fetch8, Fetch16]
  try simp only [ite_self]

theorem Addr_ZeroPage_P (s : CPU6502 D) : ((Addr_ZeroPage b c s).2).P = s.P := by
  simp only [Addr_ZeroPage, apply_ite CPU6502.P, apply_ite Prod.snd]
  try dsimp only [read, write, Fetch8, Fetch16]
  try simp only [ite_self]

theorem Addr_ZeroPageX_P (s : CPU6502 D) : ((Addr_ZeroPageX b c s).2).P = s.P := by
  simp only [Addr_ZeroPageX, apply_ite CPU6502.P, apply_ite Prod.snd]
  try dsimp only [read, write, Fetch8, Fetch16]
  try simp only [ite_self]

theorem Addr_ZeroPageY_P (s : CPU6502 D) : ((Addr_ZeroPageY b c s).2).P = s.P := by
  simp only [Addr_ZeroPageY, apply_ite CPU6502.P, apply_ite Prod.snd]
  try dsimp only [read, write, Fetch8, Fetch16]
  try simp only [ite_self]

theorem Addr_Absolute_P (s : CPU6502 D) : ((Addr_Absolute b c s).2).P = s.P := by
  simp only [Addr_Absolute, apply_ite CPU6502.P, apply_ite Prod.snd]
  try dsimp only [read, write, Fetch8, Fetch16]
  try simp only [ite_self]

theorem Addr_AbsoluteX_P (s : CPU6502 D) : ((Addr_AbsoluteX b c s).2).P = s.P := by
  simp only [Addr_AbsoluteX, apply_ite CPU6502.P, apply_ite Prod.snd]
  try dsimp only [read, write, Fetch8, Fetch16]
  try simp only [ite_self]

theorem Addr_AbsoluteY_P (s : CPU6502 D) : ((Addr_AbsoluteY b c s).2).P = s.P := by
  simp only [Addr_AbsoluteY, apply_ite CPU6502.P, apply_ite Prod.snd]
  try dsimp only [read, write, Fetch8, Fetch16]
  try simp only [ite_self]

theorem Addr_IndirectX_P (s : CPU6502 D) : ((Addr_IndirectX b c s).2).P = s.P := by
  simp only [Addr_IndirectX, apply_ite CPU6502.P, apply_ite Prod.snd]
  try dsimp only [read, write, Fetch8, Fetch16]
  try simp only [ite_self]

theorem Addr_IndirectY_P (s : CPU6502 D) : ((Addr_IndirectY b c s).2).P = s.P := by
  simp only [Addr_IndirectY, apply_ite CPU6502.P, apply_ite Prod.snd]
  try dsimp only [read, write, Fetch8, Fetch16]
  try simp only [ite_self]

theorem Fetch8_P (s : CPU6502 D) : ((Fetch8 b c s).2).P = s.P := by
  simp only [Fetch8, apply_ite CPU6502.P, apply_ite Prod.snd]
  try dsimp only [read, write, Fetch8, Fetch16]
  try simp only [ite_self]

theorem Fetch16_P (s : CPU6502 D) : ((Fetch16 b c s).2).P = s.P := by
  simp only [Fetch16, apply_ite CPU6502.P, apply_ite Prod.snd]
  try dsimp only [read, write, Fetch8, Fetch16]
  try simp only [ite_self]

theorem Pop_P (s : CPU6502 D) : ((Pop b c s).2).P = s.P := by
  simp only [Pop, apply_ite CPU6502.P, apply_ite Prod.snd]
  try dsimp only [read, write, Fetch8, Fetch16]
  try simp only [ite_self]

theorem LDA_UB (s : CPU6502 D) (a : Nat) :
    Flags.Get (LDA b c s a).P Flags.U = Flags.Get s.P Flags.U ∧
    Flags.Get (LDA b c s a).P Flags.B = Flags.Get s.P Flags.B := by
  constructor <;>
    (simp only [LDA, apply_ite CPU6502.P, Flags.Get_ite]
     try dsimp only [read, write, setFlag, setZN, Push, Pop, Fetch8, Fetch16, ASL_Mem, LSR_Mem, ROL_Mem, ROR_Mem]
     try simp only [Flags.Get_U_Set_C, Flags.Get_B_Set_C, Flags.Get_U_Set_Z, Flags.Get_B_Set_Z, Flags.Get_U_Set_I, Flags.Get_B_Set_I, Flags.Get_U_Set_D, Flags.Get_B_Set_D, Flags.Get_U_Set_V, Flags.Get_B_Set_V, Flags.Get_U_Set_N, Flags.Get_B_Set_N, Flags.Get_U_SetZN, Flags.Get_B_SetZN, ite_self])

theorem LDX_UB (s : CPU6502 D) (a : Nat) :
    Flags.Get (LDX b c s a).P Flags.U = Flags.Get s.P Flags.U ∧
    Flags.Get (LDX b c s a).P Flags.B = Flags.Get s.P Flags.B := by
  constructor <;>
    (simp only [LDX, apply_ite CPU6502.P, Flags.Get_ite]
     try dsimp only [read, write, setFlag, setZN, Push, Pop, Fetch8, Fetch16, ASL_Mem, LSR_Mem, ROL_Mem, ROR_Mem]
     try simp only [Flags.Get_U_Set_C, Flags.Get_B_Set_C, Flags.Get_U_Set_Z, Flags.Get_B_Set_Z, Flags.Get_U_Set_I, Flags.Get_B_Set_I, Flags.Get_U_Set_D, Flags.Get_B_Set_D, Flags.Get_U_Set_V, Flags.Get_B_Set_V, Flags.Get_U_Set_N, Flags.Get_B_Set_N, Flags.Get_U_SetZN, Flags.Get_B_SetZN, ite_self])

theorem LDY_UB (s : CPU6502 D) (a : Nat) :
    Flags.Get (LDY b c s a).P Flags.U = Flags.Get s.P Flags.U ∧
    Flags.Get (LDY b c s a).P Flags.B = Flags.Get s.P Flags.B := by
  constructor <;>
    (simp only [LDY, apply_ite CPU6502.P, Flags.Get_ite]
     try dsimp only [read, write, setFlag, setZN, Push, Pop, Fetch8, Fetch16, ASL_Mem, LSR_Mem, ROL_Mem, ROR_Mem]
     try simp only [Flags.Get_U_Set_C, Flags.Get_B_Set_C, Flags.Get_U_Set_Z, Flags.Get_B_Set_Z, Flags.Get_U_Set_I, Flags.Get_B_Set_I, Flags.Get_U_Set_D, Flags.Get_B_Set_D, Flags.Get_U_Set_V, Flags.Get_B_Set_V, Flags.Get_U_Set_N, Flags.Get_B_Set_N, Flags.Get_U_SetZN, Flags.Get_B_SetZN, ite_self])

theorem STA_UB (s : CPU6502 D) (a : Nat) :
    Flags.Get (STA b c s a).P Flags.U = Flags.Get s.P Flags.U ∧
    Flags.Get (STA b c s a).P Flags.B = Flags.Get s.P Flags.B := by
  constructor <;>
    (simp only [STA, apply_ite CPU6502.P, Flags.Get_ite]
     try dsimp only [read, write, setFlag, setZN, Push, Pop, Fetch8, Fetch16, ASL_Mem, LSR_Mem, ROL_Mem, ROR_Mem]
     try simp only [Flags.Get_U_Set_C, Flags.Get_B_Set_C, Flags.Get_U_Set_Z, Flags.Get_B_Set_Z, Flags.Get_U_Set_I, Flags.Get_B_Set_I, Flags.Get_U_Set_D, Flags.Get_B_Set_D, Flags.Get_U_Set_V, Flags.Get_B_Set_V, Flags.Get_U_Set_N, Flags.Get_B_Set_N, Flags.Get_U_SetZN, Flags.Get_B_SetZN, ite_self])

theorem STX_UB (s : CPU6502 D) (a : Nat) :
    Flags.Get (STX b c s a).P Flags.U = Flags.Get s.P Flags.U ∧
    Flags.Get (STX b c s a).P Flags.B = Flags.Get s.P Flags.B := by
  constructor <;>
    (simp only [STX, apply_ite CPU6502.P, Flags.Get_ite]
     try dsimp only [read, write, setFlag, setZN, Push, Pop, Fetch8, Fetch16, ASL_Mem, LSR_Mem, ROL_Mem, ROR_Mem]
     try simp only [Flags.Get_U_Set_C, Flags.Get_B_Set_C, Flags.Get_U_Set_Z, Flags.Get_B_Set_Z, Flags.Get_U_Set_I, Flags.Get_B_Set_I, Flags.Get_U_Set_D, Flags.Get_B_Set_D, Flags.Get_U_Set_V, Flags.Get_B_Set_V, Flags.Get_U_Set_N, Flags.Get_B_Set_N, Flags.Get_U_SetZN, Flags.Get_B_SetZN, ite_self])

theorem STY_UB (s : CPU6502 D) (a : Nat) :
    Flags.Get (STY b c s a).P Flags.U = Flags.Get s.P Flags.U ∧
    Flags.Get (STY b c s a).P Flags.B = Flags.Get s.P Flags.B := by
  constructor <;>
    (simp only [STY, apply_ite CPU6502.P, Flags.Get_ite]
     try dsimp only [read, write, setFlag, setZN, Push, Pop, Fetch8, Fetch16, ASL_Mem, LSR_Mem, ROL_Mem, ROR_Mem]
     try simp only [Flags.Get_U_Set_C, Flags.Get_B_Set_C, Flags.Get_U_Set_Z, Flags.Get_B_Set_Z, Flags.Get_U_Set_I, Flags.Get_B_Set_I, Flags.Get_U_Set_D, Flags.Get_B_Set_D, Flags.Get_U_Set_V, Flags.Get_B_Set_V, Flags.Get_U_Set_N, Flags.Get_B_Set_N, Flags.Get_U_SetZN, Flags.Get_B_SetZN, ite_self])

theorem INC_UB (s : CPU6502 D) (a : Nat) :
    Flags.Get (INC b c s a).P Flags.U = Flags.Get s.P Flags.U ∧
    Flags.Get (INC b c s a).P Flags.B = Flags.Get s.P Flags.B := by
  constructor <;>
    (simp only [INC, apply_ite CPU6502.P, Flags.Get_ite]
     try dsimp only [read, write, setFlag, setZN, Push, Pop, Fetch8, Fetch16, ASL_Mem, LSR_Mem, ROL_Mem, ROR_Mem]
     try simp only [Flags.Get_U_Set_C, Flags.Get_B_Set_C, Flags.Get_U_Set_Z, Flags.Get_B_Set_Z, Flags.Get_U_Set_I, Flags.Get_B_Set_I, Flags.Get_U_Set_D, Flags.Get_B_Set_D, Flags.Get_U_Set_V, Flags.Get_B_Set_V, Flags.Get_U_Set_N, Flags.Get_B_Set_N, Flags.Get_U_SetZN, Flags.Get_B_SetZN, ite_self])

theorem DEC_UB (s : CPU6502 D) (a : Nat) :
    Flags.Get (DEC b c s a).P Flags.U = Flags.Get s.P Flags.U ∧
    Flags.Get (DEC b c s a).P Flags.B = Flags.Get s.P Flags.B := by
  constructor <;>
    (simp only [DEC, apply_ite CPU6502.P, Flags.Get_ite]
     try dsimp only [read, write, setFlag, setZN, Push, Pop, Fetch8, Fetch16, ASL_Mem, LSR_Mem, ROL_Mem, ROR_Mem]
     try simp only [Flags.Get_U_Set_C, Flags.Get_B_Set_C, Flags.Get_U_Set_Z, Flags.Get_B_Set_Z, Flags.Get_U_Set_I, Flags.Get_B_Set_I, Flags.Get_U_Set_D, Flags.Get_B_Set_D, Flags.Get_U_Set_V, Flags.Get_B_Set_V, Flags.Get_U_Set_N, Flags.Get_B_Set_N, Flags.Get_U_SetZN, Flags.Get_B_SetZN, ite_self])

theorem ADC_UB (s : CPU6502 D) (a : Nat) :
    Flags.Get (ADC b c s a).P Flags.U = Flags.Get s.P Flags.U ∧
    Flags.Get (ADC b c s a).P Flags.B = Flags.Get s.P Flags.B := by
  constructor <;>
    (simp only [ADC, apply_ite CPU6502.P, Flags.Get_ite]
     try dsimp only [read, write, setFlag, setZN, Push, Pop, Fetch8, Fetch16, ASL_Mem, LSR_Mem, ROL_Mem, ROR_Mem]
     try simp only [Flags.Get_U_Set_C, Flags.Get_B_Set_C, Flags.Get_U_Set_Z, Flags.Get_B_Set_Z, Flags.Get_U_Set_I, Flags.Get_B_Set_I, Flags.Get_U_Set_D, Flags.Get_B_Set_D, Flags.Get_U_Set_V, Flags.Get_B_Set_V, Flags.Get_U_Set_N, Flags.Get_B_Set_N, Flags.Get_U_SetZN, Flags.Get_B_SetZN, ite_self])

theorem SBC_UB (s : CPU6502 D) (a : Nat) :
    Flags.Get (SBC b c s a).P Flags.U = Flags.Get s.P Flags.U ∧
    Flags.Get (SBC b c s a).P Flags.B = Flags.Get s.P Flags.B := by
  constructor <;>
    (simp only [SBC, apply_ite CPU6502.P, Flags.Get_ite]
     try dsimp only [read, write, setFlag, setZN, Push, Pop, Fetch8, Fetch16, ASL_Mem, LSR_Mem, ROL_Mem, ROR_Mem]
     try simp only [Flags.Get_U_Set_C, Flags.Get_B_Set_C, Flags.Get_U_Set_Z, Flags.Get_B_Set_Z, Flags.Get_U_Set_I, Flags.Get_B_Set_I, Flags.Get_U_Set_D, Flags.Get_B_Set_D, Flags.Get_U_Set_V, Flags.Get_B_Set_V, Flags.Get_U_Set_N, Flags.Get_B_Set_N, Flags.Get_U_SetZN, Flags.Get_B_SetZN, ite_self])

theorem AND_UB (s : CPU6502 D) (a : Nat) :
    Flags.Get (AND b c s a).P Flags.U = Flags.Get s.P Flags.U ∧
    Flags.Get (AND b c s a).P Flags.B = Flags.Get s.P Flags.B := by
  constructor <;>
    (simp only [AND, apply_ite CPU6502.P, Flags.Get_ite]
     try dsimp only [read, write, setFlag, setZN, Push, Pop, Fetch8, Fetch16, ASL_Mem, LSR_Mem, ROL_Mem, ROR_Mem]
     try simp only [Flags.Get_U_Set_C, Flags.Get_B_Set_C, Flags.Get_U_Set_Z, Flags.Get_B_Set_Z, Flags.Get_U_Set_I, Flags.Get_B_Set_I, Flags.Get_U_Set_D, Flags.Get_B_Set_D, Flags.Get_U_Set_V, Flags.Get_B_Set_V, Flags.Get_U_Set_N, Flags.Get_B_Set_N, Flags.Get_U_SetZN, Flags.Get_B_SetZN, ite_self])

theorem ORA_UB (s : CPU6502 D) (a : Nat) :
    Flags.Get (ORA b c s a).P Flags.U = Flags.Get s.P Flags.U ∧
    Flags.Get (ORA b c s a).P Flags.B = Flags.Get s.P Flags.B := by
  constructor <;>
    (simp only [ORA, apply_ite CPU6502.P, Flags.Get_ite]
     try dsimp only [read, write, setFlag, setZN, Push, Pop, Fetch8, Fetch16, ASL_Mem, LSR_Mem, ROL_Mem, ROR_Mem]
     try simp only [Flags.Get_U_Set_C, Flags.Get_B_Set_C, Flags.Get_U_Set_Z, Flags.Get_B_Set_Z, Flags.Get_U_Set_I, Flags.Get_B_Set_I, Flags.Get_U_Set_D, Flags.Get_B_Set_D, Flags.Get_U_Set_V, Flags.Get_B_Set_V, Flags.Get_U_Set_N, Flags.Get_B_Set_N, Flags.Get_U_SetZN, Flags.Get_B_SetZN, ite_self])

theorem EOR_UB (s : CPU6502 D) (a : Nat) :
    Flags.Get (EOR b c s a).P Flags.U = Flags.Get s.P Flags.U ∧
    Flags.Get (EOR b c s a).P Flags.B = Flags.Get s.P Flags.B := by
  constructor <;>
    (simp only [EOR, apply_ite CPU6502.P, Flags.Get_ite]
     try dsimp only [read, write, setFlag, setZN, Push, Pop, Fetch8, Fetch16, ASL_Mem, LSR_Mem, ROL_Mem, ROR_Mem]
     try simp only [Flags.Get_U_Set_C, Flags.Get_B_Set_C, Flags.Get_U_Set_Z, Flags.Get_B_Set_Z, Flags.Get_U_Set_I, Flags.Get_B_Set_I, Flags.Get_U_Set_D, Flags.Get_B_Set_D, Flags.Get_U_Set_V, Flags.Get_B_Set_V, Flags.Get_U_Set_N, Flags.Get_B_Set_N, Flags.Get_U_SetZN, Flags.Get_B_SetZN, ite_self])

theorem CMP_UB (s : CPU6502 D) (a : Nat) :
    Flags.Get (CMP b c s a).P Flags.U = Flags.Get s.P Flags.U ∧
    Flags.Get (CMP b c s a).P Flags.B = Flags.Get s.P Flags.B := by
  constructor <;>
    (simp only [CMP, apply_ite CPU6502.P, Flags.Get_ite]
     try dsimp only [read, write, setFlag, setZN, Push, Pop, Fetch8, Fetch16, ASL_Mem, LSR_Mem, ROL_Mem, ROR_Mem]
     try simp only [Flags.Get_U_Set_C, Flags.Get_B_Set_C, Flags.Get_U_Set_Z, Flags.Get_B_Set_Z, Flags.Get_U_Set_I, Flags.Get_B_Set_I, Flags.Get_U_Set_D, Flags.Get_B_Set_D, Flags.Get_U_Set_V, Flags.Get_B_Set_V, Flags.Get_U_Set_N, Flags.Get_B_Set_N, Flags.Get_U_SetZN, Flags.Get_B_SetZN, ite_self])

theorem CPX_UB (s : CPU6502 D) (a : Nat) :
    Flags.Get (CPX b c s a).P Flags.U = Flags.Get s.P Flags.U ∧
    Flags.Get (CPX b c s a).P Flags.B = Flags.Get s.P Flags.B := by
  constructor <;>
    (simp only [CPX, apply_ite CPU6502.P, Flags.Get_ite]
     try dsimp only [read, write, setFlag, setZN, Push, Pop, Fetch8, Fetch16, ASL_Mem, LSR_Mem, ROL_Mem, ROR_Mem]
     try simp only [Flags.Get_U_Set_C, Flags.Get_B_Set_C, Flags.Get_U_Set_Z, Flags.Get_B_Set_Z, Flags.Get_U_Set_I, Flags.Get_B_Set_I, Flags.Get_U_Set_D, Flags.Get_B_Set_D, Flags.Get_U_Set_V, Flags.Get_B_Set_V, Flags.Get_U_Set_N, Flags.Get_B_Set_N, Flags.Get_U_SetZN, Flags.Get_B_SetZN, ite_self])

theorem CPY_UB (s : CPU6502 D) (a : Nat) :
    Flags.Get (CPY b c s a).P Flags.U = Flags.Get s.P Flags.U ∧
    Flags.Get (CPY b c s a).P Flags.B = Flags.Get s.P Flags.B := by
  constructor <;>
    (simp only [CPY, apply_ite CPU6502.P, Flags.Get_ite]
     try dsimp only [read, write, setFlag, setZN, Push, Pop, Fetch8, Fetch16, ASL_Mem, LSR_Mem, ROL_Mem, ROR_Mem]
     try simp only [Flags.Get_U_Set_C, Flags.Get_B_Set_C, Flags.Get_U_Set_Z, Flags.Get_B_Set_Z, Flags.Get_U_Set_I, Flags.Get_B_Set_I, Flags.Get_U_Set_D, Flags.Get_B_Set_D, Flags.Get_U_Set_V, Flags.Get_B_Set_V, Flags.Get_U_Set_N, Flags.Get_B_Set_N, Flags.Get_U_SetZN, Flags.Get_B_SetZN, ite_self])

theorem LAX_UB (s : CPU6502 D) (a : Nat) :
    Flags.Get (LAX b c s a).P Flags.U = Flags.Get s.P Flags.U ∧
    Flags.Get (LAX b c s a).P Flags.B = Flags.Get s.P Flags.B := by
  constructor <;>
    (simp only [LAX, apply_ite CPU6502.P, Flags.Get_ite]
     try dsimp only [read, write, setFlag, setZN, Push, Pop, Fetch8, Fetch16, ASL_Mem, LSR_Mem, ROL_Mem, ROR_Mem]
     try simp only [Flags.Get_U_Set_C, Flags.Get_B_Set_C, Flags.Get_U_Set_Z, Flags.Get_B_Set_Z, Flags.Get_U_Set_I, Flags.Get_B_Set_I, Flags.Get_U_Set_D, Flags.Get_B_Set_D, Flags.Get_U_Set_V, Flags.Get_B_Set_V, Flags.Get_U_Set_N, Flags.Get_B_Set_N, Flags.Get_U_SetZN, Flags.Get_B_SetZN, ite_self])

theorem SAX_UB (s : CPU6502 D) (a : Nat) :
    Flags.Get (SAX b c s a).P Flags.U = Flags.Get s.P Flags.U ∧
    Flags.Get (SAX b c s a).P Flags.B = Flags.Get s.P Flags.B := by
  constructor <;>
    (simp only [SAX, apply_ite CPU6502.P, Flags.Get_ite]
     try dsimp only [read, write, setFlag, setZN, Push, Pop, Fetch8, Fetch16, ASL_Mem, LSR_Mem, ROL_Mem, ROR_Mem]
     try simp only [Flags.Get_U_Set_C, Flags.Get_B_Set_C, Flags.Get_U_Set_Z, Flags.Get_B_Set_Z, Flags.Get_U_Set_I, Flags.Get_B_Set_I, Flags.Get_U_Set_D, Flags.Get_B_Set_D, Flags.Get_U_Set_V, Flags.Get_B_Set_V, Flags.Get_U_Set_N, Flags.Get_B_Set_N, Flags.Get_U_SetZN, Flags.Get_B_SetZN, ite_self])

theorem DCP_UB (s : CPU6502 D) (a : Nat) :
    Flags.Get (DCP b c s a).P Flags.U = Flags.Get s.P Flags.U ∧
    Flags.Get (DCP b c s a).P Flags.B = Flags.Get s.P Flags.B := by
  constructor <;>
    (simp only [DCP, apply_ite CPU6502.P, Flags.Get_ite]
     try dsimp only [read, write, setFlag, setZN, Push, Pop, Fetch8, Fetch16, ASL_Mem, LSR_Mem, ROL_Mem, ROR_Mem]
     try simp only [Flags.Get_U_Set_C, Flags.Get_B_Set_C, Flags.Get_U_Set_Z, Flags.Get_B_Set_Z, Flags.Get_U_Set_I, Flags.Get_B_Set_I, Flags.Get_U_Set_D, Flags.Get_B_Set_D, Flags.Get_U_Set_V, Flags.Get_B_Set_V, Flags.Get_U_Set_N, Flags.Get_B_Set_N, Flags.Get_U_SetZN, Flags.Get_B_SetZN, ite_self])

theorem ISC_UB (s : CPU6502 D) (a : Nat) :
    Flags.Get (ISC b c s a).P Flags.U = Flags.Get s.P Flags.U ∧
    Flags.Get (ISC b c s a).P Flags.B = Flags.Get s.P Flags.B := by
  constructor <;>
    (simp only [ISC, apply_ite CPU6502.P, Flags.Get_ite]
     try dsimp only [read, write, setFlag, setZN, Push, Pop, Fetch8, Fetch16, ASL_Mem, LSR_Mem, ROL_Mem, ROR_Mem]
     try simp only [Flags.Get_U_Set_C, Flags.Get_B_Set_C, Flags.Get_U_Set_Z, Flags.Get_B_Set_Z, Flags.Get_U_Set_I, Flags.Get_B_Set_I, Flags.Get_U_Set_D, Flags.Get_B_Set_D, Flags.Get_U_Set_V, Flags.Get_B_Set_V, Flags.Get_U_Set_N, Flags.Get_B_Set_N, Flags.Get_U_SetZN, Flags.Get_B_SetZN, ite_self])

theorem SLO_UB (s : CPU6502 D) (a : Nat) :
    Flags.Get (SLO b c s a).P Flags.U = Flags.Get s.P Flags.U ∧
    Flags.Get (SLO b c s a).P Flags.B = Flags.Get s.P Flags.B := by
  constructor <;>
    (simp only [SLO, apply_ite CPU6502.P, Flags.Get_ite]
     try dsimp only [read, write, setFlag, setZN, Push, Pop, Fetch8, Fetch16, ASL_Mem, LSR_Mem, ROL_Mem, ROR_Mem]
     try simp only [Flags.Get_U_Set_C, Flags.Get_B_Set_C, Flags.Get_U_Set_Z, Flags.Get_B_Set_Z, Flags.Get_U_Set_I, Flags.Get_B_Set_I, Flags.Get_U_Set_D, Flags.Get_B_Set_D, Flags.Get_U_Set_V, Flags.Get_B_Set_V, Flags.Get_U_Set_N, Flags.Get_B_Set_N, Flags.Get_U_SetZN, Flags.Get_B_SetZN, ite_self])

theorem RLA_UB (s : CPU6502 D) (a : Nat) :
    Flags.Get (RLA b c s a).P Flags.U = Flags.Get s.P Flags.U ∧
    Flags.Get (RLA b c s a).P Flags.B = Flags.Get s.P Flags.B := by
  constructor <;>
    (simp only [RLA, apply_ite CPU6502.P, Flags.Get_ite]
     try dsimp only [read, write, setFlag, setZN, Push, Pop, Fetch8, Fetch16, ASL_Mem, LSR_Mem, ROL_Mem, ROR_Mem]
     try simp only [Flags.Get_U_Set_C, Flags.Get_B_Set_C, Flags.Get_U_Set_Z, Flags.Get_B_Set_Z, Flags.Get_U_Set_I, Flags.Get_B_Set_I, Flags.Get_U_Set_D, Flags.Get_B_Set_D, Flags.Get_U_Set_V, Flags.Get_B_Set_V, Flags.Get_U_Set_N, Flags.Get_B_Set_N, Flags.Get_U_SetZN, Flags.Get_B_SetZN, ite_self])

theorem SRE_UB (s : CPU6502 D) (a : Nat) :
    Flags.Get (SRE b c s a).P Flags.U = Flags.Get s.P Flags.U ∧
    Flags.Get (SRE b c s a).P Flags.B = Flags.Get s.P Flags.B := by
  constructor <;>
    (simp only [SRE, apply_ite CPU6502.P, Flags.Get_ite]
     try dsimp only [read, write, setFlag, setZN, Push, Pop, Fetch8, Fetch16, ASL_Mem, LSR_Mem, ROL_Mem, ROR_Mem]
     try simp only [Flags.Get_U_Set_C, Flags.Get_B_Set_C, Flags.Get_U_Set_Z, Flags.Get_B_Set_Z, Flags.Get_U_Set_I, Flags.Get_B_Set_I, Flags.Get_U_Set_D, Flags.Get_B_Set_D, Flags.Get_U_Set_V, Flags.Get_B_Set_V, Flags.Get_U_Set_N, Flags.Get_B_Set_N, Flags.Get_U_SetZN, Flags.Get_B_SetZN, ite_self])

theorem RRA_UB (s : CPU6502 D) (a : Nat) :
    Flags.Get (RRA b c s a).P Flags.U = Flags.Get s.P Flags.U ∧
    Flags.Get (RRA b c s a).P Flags.B = Flags.Get s.P Flags.B := by
  constructor <;>
    (simp only [RRA, apply_ite CPU6502.P, Flags.Get_ite]
     try dsimp only [read, write, setFlag, setZN, Push, Pop, Fetch8, Fetch16, ASL_Mem, LSR_Mem, ROL_Mem, ROR_Mem]
     try simp only [Flags.Get_U_Set_C, Flags.Get_B_Set_C, Flags.Get_U_Set_Z, Flags.Get_B_Set_Z, Flags.Get_U_Set_I, Flags.Get_B_Set_I, Flags.Get_U_Set_D, Flags.Get_B_Set_D, Flags.Get_U_Set_V, Flags.Get_B_Set_V, Flags.Get_U_Set_N, Flags.Get_B_Set_N, Flags.Get_U_SetZN, Flags.Get_B_SetZN, ite_self])

theorem SHA_UB (s : CPU6502 D) (a : Nat) :
    Flags.Get (SHA b c s a).P Flags.U = Flags.Get s.P Flags.U ∧
    Flags.Get (SHA b c s a).P Flags.B = Flags.Get s.P Flags.B := by
  constructor <;>
    (simp only [SHA, apply_ite CPU6502.P, Flags.Get_ite]
     try dsimp only [read, write, setFlag, setZN, Push, Pop, Fetch8, Fetch16, ASL_Mem, LSR_Mem, ROL_Mem, ROR_Mem]
     try simp only [Flags.Get_U_Set_C, Flags.Get_B_Set_C, Flags.Get_U_Set_Z, Flags.Get_B_Set_Z, Flags.Get_U_Set_I, Flags.Get_B_Set_I, Flags.Get_U_Set_D, Flags.Get_B_Set_D, Flags.Get_U_Set_V, Flags.Get_B_Set_V, Flags.Get_U_Set_N, Flags.Get_B_Set_N, Flags.Get_U_SetZN, Flags.Get_B_SetZN, ite_self])

theorem SHX_UB (s : CPU6502 D) (a : Nat) :
    Flags.Get (SHX b c s a).P Flags.U = Flags.Get s.P Flags.U ∧
    Flags.Get (SHX b c s a).P Flags.B = Flags.Get s.P Flags.B := by
  constructor <;>
    (simp only [SHX, apply_ite CPU6502.P, Flags.Get_ite]
     try dsimp only [read, write, setFlag, setZN, Push, Pop, Fetch8, Fetch16, ASL_Mem, LSR_Mem, ROL_Mem, ROR_Mem]
     try simp only [Flags.Get_U_Set_C, Flags.Get_B_Set_C, Flags.Get_U_Set_Z, Flags.Get_B_Set_Z, Flags.Get_U_Set_I, Flags.Get_B_Set_I, Flags.Get_U_Set_D, Flags.Get_B_Set_D, Flags.Get_U_Set_V, Flags.Get_B_Set_V, Flags.Get_U_Set_N, Flags.Get_B_Set_N, Flags.Get_U_SetZN, Flags.Get_B_SetZN, ite_self])

theorem SHY_UB (s : CPU6502 D) (a : Nat) :
    Flags.Get (SHY b c s a).P Flags.U = Flags.Get s.P Flags.U ∧
    Flags.Get (SHY b c s a).P Flags.B = Flags.Get s.P Flags.B := by
  constructor <;>
    (simp only [SHY, apply_ite CPU6502.P, Flags.Get_ite]
     try dsimp only [read, write, setFlag, setZN, Push, Pop, Fetch8, Fetch16, ASL_Mem, LSR_Mem, ROL_Mem, ROR_Mem]
     try simp only [Flags.Get_U_Set_C, Flags.Get_B_Set_C, Flags.Get_U_Set_Z, Flags.Get_B_Set_Z, Flags.Get_U_Set_I, Flags.Get_B_Set_I, Flags.Get_U_Set_D, Flags.Get_B_Set_D, Flags.Get_U_Set_V, Flags.Get_B_Set_V, Flags.Get_U_Set_N, Flags.Get_B_Set_N, Flags.Get_U_SetZN, Flags.Get_B_SetZN, ite_self])

theorem TAS_UB (s : CPU6502 D) (a : Nat) :
    Flags.Get (TAS b c s a).P Flags.U = Flags.Get s.P Flags.U ∧
    Flags.Get (TAS b c s a).P Flags.B = Flags.Get s.P Flags.B := by
  constructor <;>
    (simp only [TAS, apply_ite CPU6502.P, Flags.Get_ite]
     try dsimp only [read, write, setFlag, setZN, Push, Pop, Fetch8, Fetch16, ASL_Mem, LSR_Mem, ROL_Mem, ROR_Mem]
     try simp only [Flags.Get_U_Set_C, Flags.Get_B_Set_C, Flags.Get_U_Set_Z, Flags.Get_B_Set_Z, Flags.Get_U_Set_I, Flags.Get_B_Set_I, Flags.Get_U_Set_D, Flags.Get_B_Set_D, Flags.Get_U_Set_V, Flags.Get_B_Set_V, Flags.Get_U_Set_N, Flags.Get_B_Set_N, Flags.Get_U_SetZN, Flags.Get_B_SetZN, ite_self])

theorem ASL_Mem_UB (s : CPU6502 D) (a : Nat) :
    Flags.Get (ASL_Mem b c s a).P Flags.U = Flags.Get s.P Flags.U ∧
    Flags.Get (ASL_Mem b c s a).P Flags.B = Flags.Get s.P Flags.B := by
  constructor <;>
    (simp only [ASL_Mem, apply_ite CPU6502.P, Flags.Get_ite]
     try dsimp only [read, write, setFlag, setZN, Push, Pop, Fetch8, Fetch16, ASL_Mem, LSR_Mem, ROL_Mem, ROR_Mem]
     try simp only [Flags.Get_U_Set_C, Flags.Get_B_Set_C, Flags.Get_U_Set_Z, Flags.Get_B_Set_Z, Flags.Get_U_Set_I, Flags.Get_B_Set_I, Flags.Get_U_Set_D, Flags.Get_B_Set_D, Flags.Get_U_Set_V, Flags.Get_B_Set_V, Flags.Get_U_Set_N, Flags.Get_B_Set_N, Flags.Get_U_SetZN, Flags.Get_B_SetZN, ite_self])

theorem LSR_Mem_UB (s : CPU6502 D) (a : Nat) :
    Flags.Get (LSR_Mem b c s a).P Flags.U = Flags.Get s.P Flags.U ∧
    Flags.Get (LSR_Mem b c s a).P Flags.B = Flags.Get s.P Flags.B := by
  constructor <;>
    (simp only [LSR_Mem, apply_ite CPU6502.P, Flags.Get_ite]
     try dsimp only [read, write, setFlag, setZN, Push, Pop, Fetch8, Fetch16, ASL_Mem, LSR_Mem, ROL_Mem, ROR_Mem]
     try simp only [Flags.Get_U_Set_C, Flags.Get_B_Set_C, Flags.Get_U_Set_Z, Flags.Get_B_Set_Z, Flags.Get_U_Set_I, Flags.Get_B_Set_I, Flags.Get_U_Set_D, Flags.Get_B_Set_D, Flags.Get_U_Set_V, Flags.Get_B_Set_V, Flags.Get_U_Set_N, Flags.Get_B_Set_N, Flags.Get_U_SetZN, Flags.Get_B_SetZN, ite_self])

theorem ROL_Mem_UB (s : CPU6502 D) (a : Nat) :
    Flags.Get (ROL_Mem b c s a).P Flags.U = Flags.Get s.P Flags.U ∧
    Flags.Get (ROL_Mem b c s a).P Flags.B = Flags.Get s.P Flags.B := by
  constructor <;>
    (simp only [ROL_Mem, apply_ite CPU6502.P, Flags.Get_ite]
     try dsimp only [read, write, setFlag, setZN, Push, Pop, Fetch8, Fetch16, ASL_Mem, LSR_Mem, ROL_Mem, ROR_Mem]
     try simp only [Flags.Get_U_Set_C, Flags.Get_B_Set_C, Flags.Get_U_Set_Z, Flags.Get_B_Set_Z, Flags.Get_U_Set_I, Flags.Get_B_Set_I, Flags.Get_U_Set_D, Flags.Get_B_Set_D, Flags.Get_U_Set_V, Flags.Get_B_Set_V, Flags.Get_U_Set_N, Flags.Get_B_Set_N, Flags.Get_U_SetZN, Flags.Get_B_SetZN, ite_self])

theorem ROR_Mem_UB (s : CPU6502 D) (a : Nat) :
    Flags.Get (ROR_Mem b c s a).P Flags.U = Flags.Get s.P Flags.U ∧
    Flags.Get (ROR_Mem b c s a).P Flags.B = Flags.Get s.P Flags.B := by
  constructor <;>
    (simp only [ROR_Mem, apply_ite CPU6502.P, Flags.Get_ite]
     try dsimp only [read, write, setFlag, setZN, Push, Pop, Fetch8, Fetch16, ASL_Mem, LSR_Mem, ROL_Mem, ROR_Mem]
     try simp only [Flags.Get_U_Set_C, Flags.Get_B_Set_C, Flags.Get_U_Set_Z, Flags.Get_B_Set_Z, Flags.Get_U_Set_I, Flags.Get_B_Set_I, Flags.Get_U_Set_D, Flags.Get_B_Set_D, Flags.Get_U_Set_V, Flags.Get_B_Set_V, Flags.Get_U_Set_N, Flags.Get_B_Set_N, Flags.Get_U_SetZN, Flags.Get_B_SetZN, ite_self])

theorem ANC_UB (s : CPU6502 D) (a : Nat) :
    Flags.Get (ANC b c s a).P Flags.U = Flags.Get s.P Flags.U ∧
    Flags.Get (ANC b c s a).P Flags.B = Flags.Get s.P Flags.B := by
  constructor <;>
    (simp only [ANC, apply_ite CPU6502.P, Flags.Get_ite]
     try dsimp only [read, write, setFlag, setZN, Push, Pop, Fetch8, Fetch16, ASL_Mem, LSR_Mem, ROL_Mem, ROR_Mem]
     try simp only [Flags.Get_U_Set_C, Flags.Get_B_Set_C, Flags.Get_U_Set_Z, Flags.Get_B_Set_Z, Flags.Get_U_Set_I, Flags.Get_B_Set_I, Flags.Get_U_Set_D, Flags.Get_B_Set_D, Flags.Get_U_Set_V, Flags.Get_B_Set_V, Flags.Get_U_Set_N, Flags.Get_B_Set_N, Flags.Get_U_SetZN, Flags.Get_B_SetZN, ite_self])

theorem ALR_UB (s : CPU6502 D) (a : Nat) :
    Flags.Get (ALR b c s a).P Flags.U = Flags.Get s.P Flags.U ∧
    Flags.Get (ALR b c s a).P Flags.B = Flags.Get s.P Flags.B := by
  constructor <;>
    (simp only [ALR, apply_ite CPU6502.P, Flags.Get_ite]
     try dsimp only [read, write, setFlag, setZN, Push, Pop, Fetch8, Fetch16, ASL_Mem, LSR_Mem, ROL_Mem, ROR_Mem]
     try simp only [Flags.Get_U_Set_C, Flags.Get_B_Set_C, Flags.Get_U_Set_Z, Flags.Get_B_Set_Z, Flags.Get_U_Set_I, Flags.Get_B_Set_I, Flags.Get_U_Set_D, Flags.Get_B_Set_D, Flags.Get_U_Set_V, Flags.Get_B_Set_V, Flags.Get_U_Set_N, Flags.Get_B_Set_N, Flags.Get_U_SetZN, Flags.Get_B_SetZN, ite_self])

theorem ARR_UB (s : CPU6502 D) (a : Nat) :
    Flags.Get (ARR b c s a).P Flags.U = Flags.Get s.P Flags.U ∧
    Flags.Get (ARR b c s a).P Flags.B = Flags.Get s.P Flags.B := by
  constructor <;>
    (simp only [ARR, apply_ite CPU6502.P, Flags.Get_ite]
     try dsimp only [read, write, setFlag, setZN, Push, Pop, Fetch8, Fetch16, ASL_Mem, LSR_Mem, ROL_Mem, ROR_Mem]
     try simp only [Flags.Get_U_Set_C, Flags.Get_B_Set_C, Flags.Get_U_Set_Z, Flags.Get_B_Set_Z, Flags.Get_U_Set_I, Flags.Get_B_Set_I, Flags.Get_U_Set_D, Flags.Get_B_Set_D, Flags.Get_U_Set_V, Flags.Get_B_Set_V, Flags.Get_U_Set_N, Flags.Get_B_Set_N, Flags.Get_U_SetZN, Flags.Get_B_SetZN, ite_self])

theorem LAS_UB (s : CPU6502 D) (a : Nat) :
    Flags.Get (LAS b c s a).P Flags.U = Flags.Get s.P Flags.U ∧
    Flags.Get (LAS b c s a).P Flags.B = Flags.Get s.P Flags.B := by
  constructor <;>
    (simp only [LAS, apply_ite CPU6502.P, Flags.Get_ite]
     try dsimp only [read, write, setFlag, setZN, Push, Pop, Fetch8, Fetch16, ASL_Mem, LSR_Mem, ROL_Mem, ROR_Mem]
     try simp only [Flags.Get_U_Set_C, Flags.Get_B_Set_C, Flags.Get_U_Set_Z, Flags.Get_B_Set_Z, Flags.Get_U_Set_I, Flags.Get_B_Set_I, Flags.Get_U_Set_D, Flags.Get_B_Set_D, Flags.Get_U_Set_V, Flags.Get_B_Set_V, Flags.Get_U_Set_N, Flags.Get_B_Set_N, Flags.Get_U_SetZN, Flags.Get_B_SetZN, ite_self])

theorem ASL_MemAbsX_UB (s : CPU6502 D) (a : Nat) :
    Flags.Get (ASL_MemAbsX b c s a).P Flags.U = Flags.Get s.P Flags.U ∧
    Flags.Get (ASL_MemAbsX b c s a).P Flags.B = Flags.Get s.P Flags.B := by
  constructor <;>
    (simp only [ASL_MemAbsX, apply_ite CPU6502.P, Flags.Get_ite]
     try dsimp only [read, write, setFlag, setZN, Push, Pop, Fetch8, Fetch16, ASL_Mem, LSR_Mem, ROL_Mem, ROR_Mem]
     try simp only [Flags.Get_U_Set_C, Flags.Get_B_Set_C, Flags.Get_U_Set_Z, Flags.Get_B_Set_Z, Flags.Get_U_Set_I, Flags.Get_B_Set_I, Flags.Get_U_Set_D, Flags.Get_B_Set_D, Flags.Get_U_Set_V, Flags.Get_B_Set_V, Flags.Get_U_Set_N, Flags.Get_B_Set_N, Flags.Get_U_SetZN, Flags.Get_B_SetZN, ite_self])

theorem LSR_MemAbsX_UB (s : CPU6502 D) (a : Nat) :
    Flags.Get (LSR_MemAbsX b c s a).P Flags.U = Flags.Get s.P Flags.U ∧
    Flags.Get (LSR_MemAbsX b c s a).P Flags.B = Flags.Get s.P Flags.B := by
  constructor <;>
    (simp only [LSR_MemAbsX, apply_ite CPU6502.P, Flags.Get_ite]
     try dsimp only [read, write, setFlag, setZN, Push, Pop, Fetch8, Fetch16, ASL_Mem, LSR_Mem, ROL_Mem, ROR_Mem]
     try simp only [Flags.Get_U_Set_C, Flags.Get_B_Set_C, Flags.Get_U_Set_Z, Flags.Get_B_Set_Z, Flags.Get_U_Set_I, Flags.Get_B_Set_I, Flags.Get_U_Set_D, Flags.Get_B_Set_D, Flags.Get_U_Set_V, Flags.Get_B_Set_V, Flags.Get_U_Set_N, Flags.Get_B_Set_N, Flags.Get_U_SetZN, Flags.Get_B_SetZN, ite_self])

theorem ROL_MemAbsX_UB (s : CPU6502 D) (a : Nat) :
    Flags.Get (ROL_MemAbsX b c s a).P Flags.U = Flags.Get s.P Flags.U ∧
    Flags.Get (ROL_MemAbsX b c s a).P Flags.B = Flags.Get s.P Flags.B := by
  constructor <;>
    (simp only [ROL_MemAbsX, apply_ite CPU6502.P, Flags.Get_ite]
     try dsimp only [read, write, setFlag, setZN, Push, Pop, Fetch8, Fetch16, ASL_Mem, LSR_Mem, ROL_Mem, ROR_Mem]
     try simp only [Flags.Get_U_Set_C, Flags.Get_B_Set_C, Flags.Get_U_Set_Z, Flags.Get_B_Set_Z, Flags.Get_U_Set_I, Flags.Get_B_Set_I, Flags.Get_U_Set_D, Flags.Get_B_Set_D, Flags.Get_U_Set_V, Flags.Get_B_Set_V, Flags.Get_U_Set_N, Flags.Get_B_Set_N, Flags.Get_U_SetZN, Flags.Get_B_SetZN, ite_self])

theorem ROR_MemAbsX_UB (s : CPU6502 D) (a : Nat) :
    Flags.Get (ROR_MemAbsX b c s a).P Flags.U = Flags.Get s.P Flags.U ∧
    Flags.Get (ROR_MemAbsX b c s a).P Flags.B = Flags.Get s.P Flags.B := by
  constructor <;>
    (simp only [ROR_MemAbsX, apply_ite CPU6502.P, Flags.Get_ite]
     try dsimp only [read, write, setFlag, setZN, Push, Pop, Fetch8, Fetch16, ASL_Mem, LSR_Mem, ROL_Mem, ROR_Mem]
     try simp only [Flags.Get_U_Set_C, Flags.Get_B_Set_C, Flags.Get_U_Set_Z, Flags.Get_B_Set_Z, Flags.Get_U_Set_I, Flags.Get_B_Set_I, Flags.Get_U_Set_D, Flags.Get_B_Set_D, Flags.Get_U_Set_V, Flags.Get_B_Set_V, Flags.Get_U_Set_N, Flags.Get_B_Set_N, Flags.Get_U_SetZN, Flags.Get_B_SetZN, ite_self])

theorem BIT_UB (s : CPU6502 D) (a : Nat) :
    Flags.Get (BIT b c s a).P Flags.U = Flags.Get s.P Flags.U ∧
    Flags.Get (BIT b c s a).P Flags.B = Flags.Get s.P Flags.B := by
  constructor <;>
    (simp only [BIT, apply_ite CPU6502.P, Flags.Get_ite]
     try dsimp only [read, write, setFlag, setZN, Push, Pop, Fetch8, Fetch16, ASL_Mem, LSR_Mem, ROL_Mem, ROR_Mem]
     try simp only [Flags.Get_U_Set_C, Flags.Get_B_Set_C, Flags.Get_U_Set_Z, Flags.Get_B_Set_Z, Flags.Get_U_Set_I, Flags.Get_B_Set_I, Flags.Get_U_Set_D, Flags.Get_B_Set_D, Flags.Get_U_Set_V, Flags.Get_B_Set_V, Flags.Get_U_Set_N, Flags.Get_B_Set_N, Flags.Get_U_SetZN, Flags.Get_B_SetZN, ite_self])

theorem BranchIf_UB (s : CPU6502 D) (cond : Bool) :
    Flags.Get (BranchIf b c s cond).P Flags.U = Flags.Get s.P Flags.U ∧
    Flags.Get (BranchIf b c s cond).P Flags.B = Flags.Get s.P Flags.B := by
  constructor <;>
    (simp only [BranchIf, apply_ite CPU6502.P, Flags.Get_ite]
     try dsimp only [read, write, setFlag, setZN, Push, Pop, Fetch8, Fetch16, ASL_Mem, LSR_Mem, ROL_Mem, ROR_Mem]
     try simp only [Flags.Get_U_Set_C, Flags.Get_B_Set_C, Flags.Get_U_Set_Z, Flags.Get_B_Set_Z, Flags.Get_U_Set_I, Flags.Get_B_Set_I, Flags.Get_U_Set_D, Flags.Get_B_Set_D, Flags.Get_U_Set_V, Flags.Get_B_Set_V, Flags.Get_U_Set_N, Flags.Get_B_Set_N, Flags.Get_U_SetZN, Flags.Get_B_SetZN, ite_self])

theorem BEQ_UB (s : CPU6502 D) :
    Flags.Get (BEQ b c s).P Flags.U = Flags.Get s.P Flags.U ∧
    Flags.Get (BEQ b c s).P Flags.B = Flags.Get s.P Flags.B := by
  constructor <;>
    (simp only [BEQ, apply_ite CPU6502.P, Flags.Get_ite, BranchIf_UB]
     try dsimp only [read, write, setFlag, setZN, Push, Pop, Fetch8, Fetch16, ASL_Mem, LSR_Mem, ROL_Mem, ROR_Mem]
     try simp only [Flags.Get_U_Set_C, Flags.Get_B_Set_C, Flags.Get_U_Set_Z, Flags.Get_B_Set_Z, Flags.Get_U_Set_I, Flags.Get_B_Set_I, Flags.Get_U_Set_D, Flags.Get_B_Set_D, Flags.Get_U_Set_V, Flags.Get_B_Set_V, Flags.Get_U_Set_N, Flags.Get_B_Set_N, Flags.Get_U_SetZN, Flags.Get_B_SetZN, ite_self])

theorem BNE_UB (s : CPU6502 D) :
    Flags.Get (BNE b c s).P Flags.U = Flags.Get s.P Flags.U ∧
    Flags.Get (BNE b c s).P Flags.B = Flags.Get s.P Flags.B := by
  constructor <;>
    (simp only [BNE, apply_ite CPU6502.P, Flags.Get_ite, BranchIf_UB]
     try dsimp only [read, write, setFlag, setZN, Push, Pop, Fetch8, Fetch16, ASL_Mem, LSR_Mem, ROL_Mem, ROR_Mem]
     try simp only [Flags.Get_U_Set_C, Flags.Get_B_Set_C, Flags.Get_U_Set_Z, Flags.Get_B_Set_Z, Flags.Get_U_Set_I, Flags.Get_B_Set_I, Flags.Get_U_Set_D, Flags.Get_B_Set_D, Flags.Get_U_Set_V, Flags.Get_B_Set_V, Flags.Get_U_Set_N, Flags.Get_B_Set_N, Flags.Get_U_SetZN, Flags.Get_B_SetZN, ite_self])

theorem BCS_UB (s : CPU6502 D) :
    Flags.Get (BCS b c s).P Flags.U = Flags.Get s.P Flags.U ∧
    Flags.Get (BCS b c s).P Flags.B = Flags.Get s.P Flags.B := by
  constructor <;>
    (simp only [BCS, apply_ite CPU6502.P, Flags.Get_ite, BranchIf_UB]
     try dsimp only [read, write, setFlag, setZN, Push, Pop, Fetch8, Fetch16, ASL_Mem, LSR_Mem, ROL_Mem, ROR_Mem]
     try simp only [Flags.Get_U_Set_C, Flags.Get_B_Set_C, Flags.Get_U_Set_Z, Flags.Get_B_Set_Z, Flags.Get_U_Set_I, Flags.Get_B_Set_I, Flags.Get_U_Set_D, Flags.Get_B_Set_D, Flags.Get_U_Set_V, Flags.Get_B_Set_V, Flags.Get_U_Set_N, Flags.Get_B_Set_N, Flags.Get_U_SetZN, Flags.Get_B_SetZN, ite_self])

theorem BCC_UB (s : CPU6502 D) :
    Flags.Get (BCC b c s).P Flags.U = Flags.Get s.P Flags.U ∧
    Flags.Get (BCC b c s).P Flags.B = Flags.Get s.P Flags.B := by
  constructor <;>
    (simp only [BCC, apply_ite CPU6502.P, Flags.Get_ite, BranchIf_UB]
     try dsimp only [read, write, setFlag, setZN, Push, Pop, Fetch8, Fetch16, ASL_Mem, LSR_Mem, ROL_Mem, ROR_Mem]
     try simp only [Flags.Get_U_Set_C, Flags.Get_B_Set_C, Flags.Get_U_Set_Z, Flags.Get_B_Set_Z, Flags.Get_U_Set_I, Flags.Get_B_Set_I, Flags.Get_U_Set_D, Flags.Get_B_Set_D, Flags.Get_U_Set_V, Flags.Get_B_Set_V, Flags.Get_U_Set_N, Flags.Get_B_Set_N, Flags.Get_U_SetZN, Flags.Get_B_SetZN, ite_self])

theorem BMI_UB (s : CPU6502 D) :
    Flags.Get (BMI b c s).P Flags.U = Flags.Get s.P Flags.U ∧
    Flags.Get (BMI b c s).P Flags.B = Flags.Get s.P Flags.B := by
  constructor <;>
    (simp only [BMI, apply_ite CPU6502.P, Flags.Get_ite, BranchIf_UB]
     try dsimp only [read, write, setFlag, setZN, Push, Pop, Fetch8, Fetch16, ASL_Mem, LSR_Mem, ROL_Mem, ROR_Mem]
     try simp only [Flags.Get_U_Set_C, Flags.Get_B_Set_C, Flags.Get_U_Set_Z, Flags.Get_B_Set_Z, Flags.Get_U_Set_I, Flags.Get_B_Set_I, Flags.Get_U_Set_D, Flags.Get_B_Set_D, Flags.Get_U_Set_V, Flags.Get_B_Set_V, Flags.Get_U_Set_N, Flags.Get_B_Set_N, Flags.Get_U_SetZN, Flags.Get_B_SetZN, ite_self])

theorem BPL_UB (s : CPU6502 D) :
    Flags.Get (BPL b c s).P Flags.U = Flags.Get s.P Flags.U ∧
    Flags.Get (BPL b c s).P Flags.B = Flags.Get s.P Flags.B := by
  constructor <;>
    (simp only [BPL, apply_ite CPU6502.P, Flags.Get_ite, BranchIf_UB]
     try dsimp only [read, write, setFlag, setZN, Push, Pop, Fetch8, Fetch16, ASL_Mem, LSR_Mem, ROL_Mem, ROR_Mem]
     try simp only [Flags.Get_U_Set_C, Flags.Get_B_Set_C, Flags.Get_U_Set_Z, Flags.Get_B_Set_Z, Flags.Get_U_Set_I, Flags.Get_B_Set_I, Flags.Get_U_Set_D, Flags.Get_B_Set_D, Flags.Get_U_Set_V, Flags.Get_B_Set_V, Flags.Get_U_Set_N, Flags.Get_B_Set_N, Flags.Get_U_SetZN, Flags.Get_B_SetZN, ite_self])

theorem BVS_UB (s : CPU6502 D) :
    Flags.Get (BVS b c s).P Flags.U = Flags.Get s.P Flags.U ∧
    Flags.Get (BVS b c s).P Flags.B = Flags.Get s.P Flags.B := by
  constructor <;>
    (simp only [BVS, apply_ite CPU6502.P, Flags.Get_ite, BranchIf_UB]
     try dsimp only [read, write, setFlag, setZN, Push, Pop, Fetch8, Fetch16, ASL_Mem, LSR_Mem, ROL_Mem, ROR_Mem]
     try simp only [Flags.Get_U_Set_C, Flags.Get_B_Set_C, Flags.Get_U_Set_Z, Flags.Get_B_Set_Z, Flags.Get_U_Set_I, Flags.Get_B_Set_I, Flags.Get_U_Set_D, Flags.Get_B_Set_D, Flags.Get_U_Set_V, Flags.Get_B_Set_V, Flags.Get_U_Set_N, Flags.Get_B_Set_N, Flags.Get_U_SetZN, Flags.Get_B_SetZN, ite_self])

theorem BVC_UB (s : CPU6502 D) :
    Flags.Get (BVC b c s).P Flags.U = Flags.Get s.P Flags.U ∧
    Flags.Get (BVC b c s).P Flags.B = Flags.Get s.P Flags.B := by
  constructor <;>
    (simp only [BVC, apply_ite CPU6502.P, Flags.Get_ite, BranchIf_UB]
     try dsimp only [read, write, setFlag, setZN, Push, Pop, Fetch8, Fetch16, ASL_Mem, LSR_Mem, ROL_Mem, ROR_Mem]
     try simp only [Flags.Get_U_Set_C, Flags.Get_B_Set_C, Flags.Get_U_Set_Z, Flags.Get_B_Set_Z, Flags.Get_U_Set_I, Flags.Get_B_Set_I, Flags.Get_U_Set_D, Flags.Get_B_Set_D, Flags.Get_U_Set_V, Flags.Get_B_Set_V, Flags.Get_U_Set_N, Flags.Get_B_Set_N, Flags.Get_U_SetZN, Flags.Get_B_SetZN, ite_self])

theorem BRK_full_UB (s : CPU6502 D) :
    Flags.Get (BRK_full b c s).P Flags.U = Flags.Get s.P Flags.U ∧
    Flags.Get (BRK_full b c s).P Flags.B = Flags.Get s.P Flags.B := by
  constructor <;>
    (simp only [BRK_full, apply_ite CPU6502.P, Flags.Get_ite]
     try dsimp only [read, write, setFlag, setZN, Push, Pop, Fetch8, Fetch16, ASL_Mem, LSR_Mem, ROL_Mem, ROR_Mem]
     try simp only [Flags.Get_U_Set_C, Flags.Get_B_Set_C, Flags.Get_U_Set_Z, Flags.Get_B_Set_Z, Flags.Get_U_Set_I, Flags.Get_B_Set_I, Flags.Get_U_Set_D, Flags.Get_B_Set_D, Flags.Get_U_Set_V, Flags.Get_B_Set_V, Flags.Get_U_Set_N, Flags.Get_B_Set_N, Flags.Get_U_SetZN, Flags.Get_B_SetZN, ite_self])

theorem RTI_UB (s : CPU6502 D) :
    Flags.Get (RTI b c s).P Flags.U = true ∧ Flags.Get (RTI b c s).P Flags.B = false := by
  unfold RTI
  dsimp only [Pop, read]
  exact Flags.pulled_status _

theorem PHA_UB (s : CPU6502 D) :
    Flags.Get (PHA b c s).P Flags.U = Flags.Get s.P Flags.U ∧
    Flags.Get (PHA b c s).P Flags.B = Flags.Get s.P Flags.B := by
  constructor <;>
    (simp only [PHA, apply_ite CPU6502.P, Flags.Get_ite]
     try dsimp only [read, write, setFlag, setZN, Push, Pop, Fetch8, Fetch16, ASL_Mem, LSR_Mem, ROL_Mem, ROR_Mem]
     try simp only [Flags.Get_U_Set_C, Flags.Get_B_Set_C, Flags.Get_U_Set_Z, Flags.Get_B_Set_Z, Flags.Get_U_Set_I, Flags.Get_B_Set_I, Flags.Get_U_Set_D, Flags.Get_B_Set_D, Flags.Get_U_Set_V, Flags.Get_B_Set_V, Flags.Get_U_Set_N, Flags.Get_B_Set_N, Flags.Get_U_SetZN, Flags.Get_B_SetZN, ite_self])

theorem PHP_UB (s : CPU6502 D) :
    Flags.Get (PHP b c s).P Flags.U = Flags.Get s.P Flags.U ∧
    Flags.Get (PHP b c s).P Flags.B = Flags.Get s.P Flags.B := by
  constructor <;>
    (simp only [PHP, apply_ite CPU6502.P, Flags.Get_ite]
     try dsimp only [read, write, setFlag, setZN, Push, Pop, Fetch8, Fetch16, ASL_Mem, LSR_Mem, ROL_Mem, ROR_Mem]
     try simp only [Flags.Get_U_Set_C, Flags.Get_B_Set_C, Flags.Get_U_Set_Z, Flags.Get_B_Set_Z, Flags.Get_U_Set_I, Flags.Get_B_Set_I, Flags.Get_U_Set_D, Flags.Get_B_Set_D, Flags.Get_U_Set_V, Flags.Get_B_Set_V, Flags.Get_U_Set_N, Flags.Get_B_Set_N, Flags.Get_U_SetZN, Flags.Get_B_SetZN, ite_self])

theorem PLA_UB (s : CPU6502 D) :
    Flags.Get (PLA b c s).P Flags.U = Flags.Get s.P Flags.U ∧
    Flags.Get (PLA b c s).P Flags.B = Flags.Get s.P Flags.B := by
  constructor <;>
    (simp only [PLA, apply_ite CPU6502.P, Flags.Get_ite]
     try dsimp only [read, write, setFlag, setZN, Push, Pop, Fetch8, Fetch16, ASL_Mem, LSR_Mem, ROL_Mem, ROR_Mem]
     try simp only [Flags.Get_U_Set_C, Flags.Get_B_Set_C, Flags.Get_U_Set_Z, Flags.Get_B_Set_Z, Flags.Get_U_Set_I, Flags.Get_B_Set_I, Flags.Get_U_Set_D, Flags.Get_B_Set_D, Flags.Get_U_Set_V, Flags.Get_B_Set_V, Flags.Get_U_Set_N, Flags.Get_B_Set_N, Flags.Get_U_SetZN, Flags.Get_B_SetZN, ite_self])

theorem PLP_UB (s : CPU6502 D) :
    Flags.Get (PLP b c s).P Flags.U = true ∧ Flags.Get (PLP b c s).P Flags.B = false := by
  unfold PLP
  dsimp only [Pop, read]
  exact Flags.pulled_status _

theorem JSR_UB (s : CPU6502 D) :
    Flags.Get (JSR b c s).P Flags.U = Flags.Get s.P Flags.U ∧
    Flags.Get (JSR b c s).P Flags.B = Flags.Get s.P Flags.B := by
  constructor <;>
    (simp only [JSR, apply_ite CPU6502.P, Flags.Get_ite]
     try dsimp only [read, write, setFlag, setZN, Push, Pop, Fetch8, Fetch16, ASL_Mem, LSR_Mem, ROL_Mem, ROR_Mem]
     try simp only [Flags.Get_U_Set_C, Flags.Get_B_Set_C, Flags.Get_U_Set_Z, Flags.Get_B_Set_Z, Flags.Get_U_Set_I, Flags.Get_B_Set_I, Flags.Get_U_Set_D, Flags.Get_B_Set_D, Flags.Get_U_Set_V, Flags.Get_B_Set_V, Flags.Get_U_Set_N, Flags.Get_B_Set_N, Flags.Get_U_SetZN, Flags.Get_B_SetZN, ite_self])

theorem RTS_UB (s : CPU6502 D) :
    Flags.Get (RTS b c s).P Flags.U = Flags.Get s.P Flags.U ∧
    Flags.Get (RTS b c s).P Flags.B = Flags.Get s.P Flags.B := by
  constructor <;>
    (simp only [RTS, apply_ite CPU6502.P, Flags.Get_ite]
     try dsimp only [read, write, setFlag, setZN, Push, Pop, Fetch8, Fetch16, ASL_Mem, LSR_Mem, ROL_Mem, ROR_Mem]
     try simp only [Flags.Get_U_Set_C, Flags.Get_B_Set_C, Flags.Get_U_Set_Z, Flags.Get_B_Set_Z, Flags.Get_U_Set_I, Flags.Get_B_Set_I, Flags.Get_U_Set_D, Flags.Get_B_Set_D, Flags.Get_U_Set_V, Flags.Get_B_Set_V, Flags.Get_U_Set_N, Flags.Get_B_Set_N, Flags.Get_U_SetZN, Flags.Get_B_SetZN, ite_self])

theorem JMP_Absolute_UB (s : CPU6502 D) :
    Flags.Get (JMP_Absolute b c s).P Flags.U = Flags.Get s.P Flags.U ∧
    Flags.Get (JMP_Absolute b c s).P Flags.B = Flags.Get s.P Flags.B := by
  constructor <;>
    (simp only [JMP_Absolute, apply_ite CPU6502.P, Flags.Get_ite]
     try dsimp only [read, write, setFlag, setZN, Push, Pop, Fetch8, Fetch16, ASL_Mem, LSR_Mem, ROL_Mem, ROR_Mem]
     try simp only [Flags.Get_U_Set_C, Flags.Get_B_Set_C, Flags.Get_U_Set_Z, Flags.Get_B_Set_Z, Flags.Get_U_Set_I, Flags.Get_B_Set_I, Flags.Get_U_Set_D, Flags.Get_B_Set_D, Flags.Get_U_Set_V, Flags.Get_B_Set_V, Flags.Get_U_Set_N, Flags.Get_B_Set_N, Flags.Get_U_SetZN, Flags.Get_B_SetZN, ite_self])

theorem JMP_Indirect_UB (s : CPU6502 D) :
    Flags.Get (JMP_Indirect b c s).P Flags.U = Flags.Get s.P Flags.U ∧
    Flags.Get (JMP_Indirect b c s).P Flags.B = Flags.Get s.P Flags.B := by
  constructor <;>
    (simp only [JMP_Indirect, apply_ite CPU6502.P, Flags.Get_ite]
     try dsimp only [read, write, setFlag, setZN, Push, Pop, Fetch8, Fetch16, ASL_Mem, LSR_Mem, ROL_Mem, ROR_Mem]
     try simp only [Flags.Get_U_Set_C, Flags.Get_B_Set_C, Flags.Get_U_Set_Z, Flags.Get_B_Set_Z, Flags.Get_U_Set_I, Flags.Get_B_Set_I, Flags.Get_U_Set_D, Flags.Get_B_Set_D, Flags.Get_U_Set_V, Flags.Get_B_Set_V, Flags.Get_U_Set_N, Flags.Get_B_Set_N, Flags.Get_U_SetZN, Flags.Get_B_SetZN, ite_self])

theorem ANE_Immediate_UB (s : CPU6502 D) :
    Flags.Get (ANE_Immediate b c s).P Flags.U = Flags.Get s.P Flags.U ∧
    Flags.Get (ANE_Immediate b c s).P Flags.B = Flags.Get s.P Flags.B := by
  constructor <;>
    (simp only [ANE_Immediate, apply_ite CPU6502.P, Flags.Get_ite]
     try dsimp only [read, write, setFlag, setZN, Push, Pop, Fetch8, Fetch16, ASL_Mem, LSR_Mem, ROL_Mem, ROR_Mem]
     try simp only [Flags.Get_U_Set_C, Flags.Get_B_Set_C, Flags.Get_U_Set_Z, Flags.Get_B_Set_Z, Flags.Get_U_Set_I, Flags.Get_B_Set_I, Flags.Get_U_Set_D, Flags.Get_B_Set_D, Flags.Get_U_Set_V, Flags.Get_B_Set_V, Flags.Get_U_Set_N, Flags.Get_B_Set_N, Flags.Get_U_SetZN, Flags.Get_B_SetZN, ite_self])

theorem LAX_Immediate_UB (s : CPU6502 D) :
    Flags.Get (LAX_Immediate b c s).P Flags.U = Flags.Get s.P Flags.U ∧
    Flags.Get (LAX_Immediate b c s).P Flags.B = Flags.Get s.P Flags.B := by
  constructor <;>
    (simp only [LAX_Immediate, apply_ite CPU6502.P, Flags.Get_ite]
     try dsimp only [read, write, setFlag, setZN, Push, Pop, Fetch8, Fetch16, ASL_Mem, LSR_Mem, ROL_Mem, ROR_Mem]
     try simp only [Flags.Get_U_Set_C, Flags.Get_B_Set_C, Flags.Get_U_Set_Z, Flags.Get_B_Set_Z, Flags.Get_U_Set_I, Flags.Get_B_Set_I, Flags.Get_U_Set_D, Flags.Get_B_Set_D, Flags.Get_U_Set_V, Flags.Get_B_Set_V, Flags.Get_U_Set_N, Flags.Get_B_Set_N, Flags.Get_U_SetZN, Flags.Get_B_SetZN, ite_self])

theorem TAX_UB (s : CPU6502 D) :
    Flags.Get (TAX s).P Flags.U = Flags.Get s.P Flags.U ∧
    Flags.Get (TAX s).P Flags.B = Flags.Get s.P Flags.B := by
  constructor <;>
    (simp only [TAX, apply_ite CPU6502.P, Flags.Get_ite]
     try dsimp only [read, write, setFlag, setZN, Push, Pop, Fetch8, Fetch16, ASL_Mem, LSR_Mem, ROL_Mem, ROR_Mem]
     try simp only [Flags.Get_U_Set_C, Flags.Get_B_Set_C, Flags.Get_U_Set_Z, Flags.Get_B_Set_Z, Flags.Get_U_Set_I, Flags.Get_B_Set_I, Flags.Get_U_Set_D, Flags.Get_B_Set_D, Flags.Get_U_Set_V, Flags.Get_B_Set_V, Flags.Get_U_Set_N, Flags.Get_B_Set_N, Flags.Get_U_SetZN, Flags.Get_B_SetZN, ite_self])

theorem TAY_UB (s : CPU6502 D) :
    Flags.Get (TAY s).P Flags.U = Flags.Get s.P Flags.U ∧
    Flags.Get (TAY s).P Flags.B = Flags.Get s.P Flags.B := by
  constructor <;>
    (simp only [TAY, apply_ite CPU6502.P, Flags.Get_ite]
     try dsimp only [read, write, setFlag, setZN, Push, Pop, Fetch8, Fetch16, ASL_Mem, LSR_Mem, ROL_Mem, ROR_Mem]
     try simp only [Flags.Get_U_Set_C, Flags.Get_B_Set_C, Flags.Get_U_Set_Z, Flags.Get_B_Set_Z, Flags.Get_U_Set_I, Flags.Get_B_Set_I, Flags.Get_U_Set_D, Flags.Get_B_Set_D, Flags.Get_U_Set_V, Flags.Get_B_Set_V, Flags.Get_U_Set_N, Flags.Get_B_Set_N, Flags.Get_U_SetZN, Flags.Get_B_SetZN, ite_self])

theorem TXA_UB (s : CPU6502 D) :
    Flags.Get (TXA s).P Flags.U = Flags.Get s.P Flags.U ∧
    Flags.Get (TXA s).P Flags.B = Flags.Get s.P Flags.B := by
  constructor <;>
    (simp only [TXA, apply_ite CPU6502.P, Flags.Get_ite]
     try dsimp only [read, write, setFlag, setZN, Push, Pop, Fetch8, Fetch16, ASL_Mem, LSR_Mem, ROL_Mem, ROR_Mem]
     try simp only [Flags.Get_U_Set_C, Flags.Get_B_Set_C, Flags.Get_U_Set_Z, Flags.Get_B_Set_Z, Flags.Get_U_Set_I, Flags.Get_B_Set_I, Flags.Get_U_Set_D, Flags.Get_B_Set_D, Flags.Get_U_Set_V, Flags.Get_B_Set_V, Flags.Get_U_Set_N, Flags.Get_B_Set_N, Flags.Get_U_SetZN, Flags.Get_B_SetZN, ite_self])

theorem TYA_UB (s : CPU6502 D) :
    Flags.Get (TYA s).P Flags.U = Flags.Get s.P Flags.U ∧
    Flags.Get (TYA s).P Flags.B = Flags.Get s.P Flags.B := by
  constructor <;>
    (simp only [TYA, apply_ite CPU6502.P, Flags.Get_ite]
     try dsimp only [read, write, setFlag, setZN, Push, Pop, Fetch8, Fetch16, ASL_Mem, LSR_Mem, ROL_Mem, ROR_Mem]
     try simp only [Flags.Get_U_Set_C, Flags.Get_B_Set_C, Flags.Get_U_Set_Z, Flags.Get_B_Set_Z, Flags.Get_U_Set_I, Flags.Get_B_Set_I, Flags.Get_U_Set_D, Flags.Get_B_Set_D, Flags.Get_U_Set_V, Flags.Get_B_Set_V, Flags.Get_U_Set_N, Flags.Get_B_Set_N, Flags.Get_U_SetZN, Flags.Get_B_SetZN, ite_self])

theorem INX_UB (s : CPU6502 D) :
    Flags.Get (INX s).P Flags.U = Flags.Get s.P Flags.U ∧
    Flags.Get (INX s).P Flags.B = Flags.Get s.P Flags.B := by
  constructor <;>
    (simp only [INX, apply_ite CPU6502.P, Flags.Get_ite]
     try dsimp only [read, write, setFlag, setZN, Push, Pop, Fetch8, Fetch16, ASL_Mem, LSR_Mem, ROL_Mem, ROR_Mem]
     try simp only [Flags.Get_U_Set_C, Flags.Get_B_Set_C, Flags.Get_U_Set_Z, Flags.Get_B_Set_Z, Flags.Get_U_Set_I, Flags.Get_B_Set_I, Flags.Get_U_Set_D, Flags.Get_B_Set_D, Flags.Get_U_Set_V, Flags.Get_B_Set_V, Flags.Get_U_Set_N, Flags.Get_B_Set_N, Flags.Get_U_SetZN, Flags.Get_B_SetZN, ite_self])

theorem INY_UB (s : CPU6502 D) :
    Flags.Get (INY s).P Flags.U = Flags.Get s.P Flags.U ∧
    Flags.Get (INY s).P Flags.B = Flags.Get s.P Flags.B := by
  constructor <;>
    (simp only [INY, apply_ite CPU6502.P, Flags.Get_ite]
     try dsimp only [read, write, setFlag, setZN, Push, Pop, Fetch8, Fetch16, ASL_Mem, LSR_Mem, ROL_Mem, ROR_Mem]
     try simp only [Flags.Get_U_Set_C, Flags.Get_B_Set_C, Flags.Get_U_Set_Z, Flags.Get_B_Set_Z, Flags.Get_U_Set_I, Flags.Get_B_Set_I, Flags.Get_U_Set_D, Flags.Get_B_Set_D, Flags.Get_U_Set_V, Flags.Get_B_Set_V, Flags.Get_U_Set_N, Flags.Get_B_Set_N, Flags.Get_U_SetZN, Flags.Get_B_SetZN, ite_self])

theorem DEX_UB (s : CPU6502 D) :
    Flags.Get (DEX s).P Flags.U = Flags.Get s.P Flags.U ∧
    Flags.Get (DEX s).P Flags.B = Flags.Get s.P Flags.B := by
  constructor <;>
    (simp only [DEX, apply_ite CPU6502.P, Flags.Get_ite]
     try dsimp only [read, write, setFlag, setZN, Push, Pop, Fetch8, Fetch16, ASL_Mem, LSR_Mem, ROL_Mem, ROR_Mem]
     try simp only [Flags.Get_U_Set_C, Flags.Get_B_Set_C, Flags.Get_U_Set_Z, Flags.Get_B_Set_Z, Flags.Get_U_Set_I, Flags.Get_B_Set_I, Flags.Get_U_Set_D, Flags.Get_B_Set_D, Flags.Get_U_Set_V, Flags.Get_B_Set_V, Flags.Get_U_Set_N, Flags.Get_B_Set_N, Flags.Get_U_SetZN, Flags.Get_B_SetZN, ite_self])

theorem DEY_UB (s : CPU6502 D) :
    Flags.Get (DEY s).P Flags.U = Flags.Get s.P Flags.U ∧
    Flags.Get (DEY s).P Flags.B = Flags.Get s.P Flags.B := by
  constructor <;>
    (simp only [DEY, apply_ite CPU6502.P, Flags.Get_ite]
     try dsimp only [read, write, setFlag, setZN, Push, Pop, Fetch8, Fetch16, ASL_Mem, LSR_Mem, ROL_Mem, ROR_Mem]
     try simp only [Flags.Get_U_Set_C, Flags.Get_B_Set_C, Flags.Get_U_Set_Z, Flags.Get_B_Set_Z, Flags.Get_U_Set_I, Flags.Get_B_Set_I, Flags.Get_U_Set_D, Flags.Get_B_Set_D, Flags.Get_U_Set_V, Flags.Get_B_Set_V, Flags.Get_U_Set_N, Flags.Get_B_Set_N, Flags.Get_U_SetZN, Flags.Get_B_SetZN, ite_self])

theorem ASL_A_UB (s : CPU6502 D) :
    Flags.Get (ASL_A s).P Flags.U = Flags.Get s.P Flags.U ∧
    Flags.Get (ASL_A s).P Flags.B = Flags.Get s.P Flags.B := by
  constructor <;>
    (simp only [ASL_A, apply_ite CPU6502.P, Flags.Get_ite]
     try dsimp only [read, write, setFlag, setZN, Push, Pop, Fetch8, Fetch16, ASL_Mem, LSR_Mem, ROL_Mem, ROR_Mem]
     try simp only [Flags.Get_U_Set_C, Flags.Get_B_Set_C, Flags.Get_U_Set_Z, Flags.Get_B_Set_Z, Flags.Get_U_Set_I, Flags.Get_B_Set_I, Flags.Get_U_Set_D, Flags.Get_B_Set_D, Flags.Get_U_Set_V, Flags.Get_B_Set_V, Flags.Get_U_Set_N, Flags.Get_B_Set_N, Flags.Get_U_SetZN, Flags.Get_B_SetZN, ite_self])

theorem LSR_A_UB (s : CPU6502 D) :
    Flags.Get (LSR_A s).P Flags.U = Flags.Get s.P Flags.U ∧
    Flags.Get (LSR_A s).P Flags.B = Flags.Get s.P Flags.B := by
  constructor <;>
    (simp only [LSR_A, apply_ite CPU6502.P, Flags.Get_ite]
     try dsimp only [read, write, setFlag, setZN, Push, Pop, Fetch8, Fetch16, ASL_Mem, LSR_Mem, ROL_Mem, ROR_Mem]
     try simp only [Flags.Get_U_Set_C, Flags.Get_B_Set_C, Flags.Get_U_Set_Z, Flags.Get_B_Set_Z, Flags.Get_U_Set_I, Flags.Get_B_Set_I, Flags.Get_U_Set_D, Flags.Get_B_Set_D, Flags.Get_U_Set_V, Flags.Get_B_Set_V, Flags.Get_U_Set_N, Flags.Get_B_Set_N, Flags.Get_U_SetZN, Flags.Get_B_SetZN, ite_self])

theorem ROL_A_UB (s : CPU6502 D) :
    Flags.Get (ROL_A s).P Flags.U = Flags.Get s.P Flags.U ∧
    Flags.Get (ROL_A s).P Flags.B = Flags.Get s.P Flags.B := by
  constructor <;>
    (simp only [ROL_A, apply_ite CPU6502.P, Flags.Get_ite]
     try dsimp only [read, write, setFlag, setZN, Push, Pop, Fetch8, Fetch16, ASL_Mem, LSR_Mem, ROL_Mem, ROR_Mem]
     try simp only [Flags.Get_U_Set_C, Flags.Get_B_Set_C, Flags.Get_U_Set_Z, Flags.Get_B_Set_Z, Flags.Get_U_Set_I, Flags.Get_B_Set_I, Flags.Get_U_Set_D, Flags.Get_B_Set_D, Flags.Get_U_Set_V, Flags.Get_B_Set_V, Flags.Get_U_Set_N, Flags.Get_B_Set_N, Flags.Get_U_SetZN, Flags.Get_B_SetZN, ite_self])

theorem ROR_A_UB (s : CPU6502 D) :
    Flags.Get (ROR_A s).P Flags.U = Flags.Get s.P Flags.U ∧
    Flags.Get (ROR_A s).P Flags.B = Flags.Get s.P Flags.B := by
  constructor <;>
    (simp only [ROR_A, apply_ite CPU6502.P, Flags.Get_ite]
     try dsimp only [read, write, setFlag, setZN, Push, Pop, Fetch8, Fetch16, ASL_Mem, LSR_Mem, ROL_Mem, ROR_Mem]
     try simp only [Flags.Get_U_Set_C, Flags.Get_B_Set_C, Flags.Get_U_Set_Z, Flags.Get_B_Set_Z, Flags.Get_U_Set_I, Flags.Get_B_Set_I, Flags.Get_U_Set_D, Flags.Get_B_Set_D, Flags.Get_U_Set_V, Flags.Get_B_Set_V, Flags.Get_U_Set_N, Flags.Get_B_Set_N, Flags.Get_U_SetZN, Flags.Get_B_SetZN, ite_self])

theorem CLC_UB (s : CPU6502 D) :
    Flags.Get (CLC s).P Flags.U = Flags.Get s.P Flags.U ∧
    Flags.Get (CLC s).P Flags.B = Flags.Get s.P Flags.B := by
  constructor <;>
    (simp only [CLC, apply_ite CPU6502.P, Flags.Get_ite]
     try dsimp only [read, write, setFlag, setZN, Push, Pop, Fetch8, Fetch16, ASL_Mem, LSR_Mem, ROL_Mem, ROR_Mem]
     try simp only [Flags.Get_U_Set_C, Flags.Get_B_Set_C, Flags.Get_U_Set_Z, Flags.Get_B_Set_Z, Flags.Get_U_Set_I, Flags.Get_B_Set_I, Flags.Get_U_Set_D, Flags.Get_B_Set_D, Flags.Get_U_Set_V, Flags.Get_B_Set_V, Flags.Get_U_Set_N, Flags.Get_B_Set_N, Flags.Get_U_SetZN, Flags.Get_B_SetZN, ite_self])

theorem SEC_UB (s : CPU6502 D) :
    Flags.Get (SEC s).P Flags.U = Flags.Get s.P Flags.U ∧
    Flags.Get (SEC s).P Flags.B = Flags.Get s.P Flags.B := by
  constructor <;>
    (simp only [SEC, apply_ite CPU6502.P, Flags.Get_ite]
     try dsimp only [read, write, setFlag, setZN, Push, Pop, Fetch8, Fetch16, ASL_Mem, LSR_Mem, ROL_Mem, ROR_Mem]
     try simp only [Flags.Get_U_Set_C, Flags.Get_B_Set_C, Flags.Get_U_Set_Z, Flags.Get_B_Set_Z, Flags.Get_U_Set_I, Flags.Get_B_Set_I, Flags.Get_U_Set_D, Flags.Get_B_Set_D, Flags.Get_U_Set_V, Flags.Get_B_Set_V, Flags.Get_U_Set_N, Flags.Get_B_Set_N, Flags.Get_U_SetZN, Flags.Get_B_SetZN, ite_self])

theorem CLI_UB (s : CPU6502 D) :
    Flags.Get (CLI s).P Flags.U = Flags.Get s.P Flags.U ∧
    Flags.Get (CLI s).P Flags.B = Flags.Get s.P Flags.B := by
  constructor <;>
    (simp only [CLI, apply_ite CPU6502.P, Flags.Get_ite]
     try dsimp only [read, write, setFlag, setZN, Push, Pop, Fetch8, Fetch16, ASL_Mem, LSR_Mem, ROL_Mem, ROR_Mem]
     try simp only [Flags.Get_U_Set_C, Flags.Get_B_Set_C, Flags.Get_U_Set_Z, Flags.Get_B_Set_Z, Flags.Get_U_Set_I, Flags.Get_B_Set_I, Flags.Get_U_Set_D, Flags.Get_B_Set_D, Flags.Get_U_Set_V, Flags.Get_B_Set_V, Flags.Get_U_Set_N, Flags.Get_B_Set_N, Flags.Get_U_SetZN, Flags.Get_B_SetZN, ite_self])

theorem SEI_UB (s : CPU6502 D) :
    Flags.Get (SEI s).P Flags.U = Flags.Get s.P Flags.U ∧
    Flags.Get (SEI s).P Flags.B = Flags.Get s.P Flags.B := by
  constructor <;>
    (simp only [SEI, apply_ite CPU6502.P, Flags.Get_ite]
     try dsimp only [read, write, setFlag, setZN, Push, Pop, Fetch8, Fetch16, ASL_Mem, LSR_Mem, ROL_Mem, ROR_Mem]
     try simp only [Flags.Get_U_Set_C, Flags.Get_B_Set_C, Flags.Get_U_Set_Z, Flags.Get_B_Set_Z, Flags.Get_U_Set_I, Flags.Get_B_Set_I, Flags.Get_U_Set_D, Flags.Get_B_Set_D, Flags.Get_U_Set_V, Flags.Get_B_Set_V, Flags.Get_U_Set_N, Flags.Get_B_Set_N, Flags.Get_U_SetZN, Flags.Get_B_SetZN, ite_self])

theorem CLV_UB (s : CPU6502 D) :
    Flags.Get (CLV s).P Flags.U = Flags.Get s.P Flags.U ∧
    Flags.Get (CLV s).P Flags.B = Flags.Get s.P Flags.B := by
  constructor <;>
    (simp only [CLV, apply_ite CPU6502.P, Flags.Get_ite]
     try dsimp only [read, write, setFlag, setZN, Push, Pop, Fetch8, Fetch16, ASL_Mem, LSR_Mem, ROL_Mem, ROR_Mem]
     try simp only [Flags.Get_U_Set_C, Flags.Get_B_Set_C, Flags.Get_U_Set_Z, Flags.Get_B_Set_Z, Flags.Get_U_Set_I, Flags.Get_B_Set_I, Flags.Get_U_Set_D, Flags.Get_B_Set_D, Flags.Get_U_Set_V, Flags.Get_B_Set_V, Flags.Get_U_Set_N, Flags.Get_B_Set_N, Flags.Get_U_SetZN, Flags.Get_B_SetZN, ite_self])

theorem CLD_UB (s : CPU6502 D) :
    Flags.Get (CLD s).P Flags.U = Flags.Get s.P Flags.U ∧
    Flags.Get (CLD s).P Flags.B = Flags.Get s.P Flags.B := by
  constructor <;>
    (simp only [CLD, apply_ite CPU6502.P, Flags.Get_ite]
     try dsimp only [read, write, setFlag, setZN, Push, Pop, Fetch8, Fetch16, ASL_Mem, LSR_Mem, ROL_Mem, ROR_Mem]
     try simp only [Flags.Get_U_Set_C, Flags.Get_B_Set_C, Flags.Get_U_Set_Z, Flags.Get_B_Set_Z, Flags.Get_U_Set_I, Flags.Get_B_Set_I, Flags.Get_U_Set_D, Flags.Get_B_Set_D, Flags.Get_U_Set_V, Flags.Get_B_Set_V, Flags.Get_U_Set_N, Flags.Get_B_Set_N, Flags.Get_U_SetZN, Flags.Get_B_SetZN, ite_self])

theorem SED_UB (s : CPU6502 D) :
    Flags.Get (SED s).P Flags.U = Flags.Get s.P Flags.U ∧
    Flags.Get (SED s).P Flags.B = Flags.Get s.P Flags.B := by
  constructor <;>
    (simp only [SED, apply_ite CPU6502.P, Flags.Get_ite]
     try dsimp only [read, write, setFlag, setZN, Push, Pop, Fetch8, Fetch16, ASL_Mem, LSR_Mem, ROL_Mem, ROR_Mem]
     try simp only [Flags.Get_U_Set_C, Flags.Get_B_Set_C, Flags.Get_U_Set_Z, Flags.Get_B_Set_Z, Flags.Get_U_Set_I, Flags.Get_B_Set_I, Flags.Get_U_Set_D, Flags.Get_B_Set_D, Flags.Get_U_Set_V, Flags.Get_B_Set_V, Flags.Get_U_Set_N, Flags.Get_B_Set_N, Flags.Get_U_SetZN, Flags.Get_B_SetZN, ite_self])

theorem NOP_UB (s : CPU6502 D) :
    Flags.Get (NOP s).P Flags.U = Flags.Get s.P Flags.U ∧
    Flags.Get (NOP s).P Flags.B = Flags.Get s.P Flags.B := by
  constructor <;>
    (simp only [NOP, apply_ite CPU6502.P, Flags.Get_ite]
     try dsimp only [read, write, setFlag, setZN, Push, Pop, Fetch8, Fetch16, ASL_Mem, LSR_Mem, ROL_Mem, ROR_Mem]
     try simp only [Flags.Get_U_Set_C, Flags.Get_B_Set_C, Flags.Get_U_Set_Z, Flags.Get_B_Set_Z, Flags.Get_U_Set_I, Flags.Get_B_Set_I, Flags.Get_U_Set_D, Flags.Get_B_Set_D, Flags.Get_U_Set_V, Flags.Get_B_Set_V, Flags.Get_U_Set_N, Flags.Get_B_Set_N, Flags.Get_U_SetZN, Flags.Get_B_SetZN, ite_self])

theorem TSX_UB (s : CPU6502 D) :
    Flags.Get (TSX s).P Flags.U = Flags.Get s.P Flags.U ∧
    Flags.Get (TSX s).P Flags.B = Flags.Get s.P Flags.B := by
  constructor <;>
    (simp only [TSX, apply_ite CPU6502.P, Flags.Get_ite]
     try dsimp only [read, write, setFlag, setZN, Push, Pop, Fetch8, Fetch16, ASL_Mem, LSR_Mem, ROL_Mem, ROR_Mem]
     try simp only [Flags.Get_U_Set_C, Flags.Get_B_Set_C, Flags.Get_U_Set_Z, Flags.Get_B_Set_Z, Flags.Get_U_Set_I, Flags.Get_B_Set_I, Flags.Get_U_Set_D, Flags.Get_B_Set_D, Flags.Get_U_Set_V, Flags.Get_B_Set_V, Flags.Get_U_Set_N, Flags.Get_B_Set_N, Flags.Get_U_SetZN, Flags.Get_B_SetZN, ite_self])

theorem TXS_UB (s : CPU6502 D) :
    Flags.Get (TXS s).P Flags.U = Flags.Get s.P Flags.U ∧
    Flags.Get (TXS s).P Flags.B = Flags.Get s.P Flags.B := by
  constructor <;>
    (simp only [TXS, apply_ite CPU6502.P, Flags.Get_ite]
     try dsimp only [read, write, setFlag, setZN, Push, Pop, Fetch8, Fetch16, ASL_Mem, LSR_Mem, ROL_Mem, ROR_Mem]
     try simp only [Flags.Get_U_Set_C, Flags.Get_B_Set_C, Flags.Get_U_Set_Z, Flags.Get_B_Set_Z, Flags.Get_U_Set_I, Flags.Get_B_Set_I, Flags.Get_U_Set_D, Flags.Get_B_Set_D, Flags.Get_U_Set_V, Flags.Get_B_Set_V, Flags.Get_U_Set_N, Flags.Get_B_Set_N, Flags.Get_U_SetZN, Flags.Get_B_SetZN, ite_self])

end CPU6502

namespace CPU6502
variable {D : Type} (b : Build) (c : Chips D)

set_option maxRecDepth 100000 in
/-- Every arm of `Execute` either leaves the `U` and `B` bits of the status
register as they were, or (the two pulls `PLP` and `RTI`) leaves `U` set and `B`
clear. -/
theorem arms_UB (s : CPU6502 D) :
    ∀ e ∈ arms b c,
      (Flags.Get (e.2 s).P Flags.U = Flags.Get s.P Flags.U ∧
        Flags.Get (e.2 s).P Flags.B = Flags.Get s.P Flags.B) ∨
      (Flags.Get (e.2 s).P Flags.U = true ∧ Flags.Get (e.2 s).P Flags.B = false) := by
  simp only [arms, List.forall_mem_cons, List.not_mem_nil, applyAt,
    Addr_Immediate_P, Addr_ZeroPage_P, Addr_ZeroPageX_P, Addr_ZeroPageY_P, Addr_Absolute_P,
    Addr_AbsoluteX_P, Addr_AbsoluteY_P, Addr_IndirectX_P, Addr_IndirectY_P, Fetch8_P, Fetch16_P,
    Pop_P,
    LDA_UB, LDX_UB, LDY_UB, STA_UB, STX_UB, STY_UB, INC_UB, DEC_UB, ADC_UB, SBC_UB, AND_UB,
    ORA_UB, EOR_UB, CMP_UB, CPX_UB, CPY_UB, LAX_UB, SAX_UB, DCP_UB, ISC_UB, SLO_UB, RLA_UB,
    SRE_UB, RRA_UB, SHA_UB, SHX_UB, SHY_UB, TAS_UB, ASL_Mem_UB, LSR_Mem_UB, ROL_Mem_UB,
    ROR_Mem_UB, ANC_UB, ALR_UB, ARR_UB, LAS_UB, ASL_MemAbsX_UB, LSR_MemAbsX_UB, ROL_MemAbsX_UB,
    ROR_MemAbsX_UB, BIT_UB, BEQ_UB, BNE_UB, BCS_UB, BCC_UB, BMI_UB, BPL_UB, BVS_UB, BVC_UB,
    BRK_full_UB, PHA_UB, PHP_UB, PLA_UB, JSR_UB, RTS_UB, JMP_Absolute_UB, JMP_Indirect_UB,
    ANE_Immediate_UB, LAX_Immediate_UB, TAX_UB, TAY_UB, TXA_UB, TYA_UB, INX_UB, INY_UB, DEX_UB,
    DEY_UB, ASL_A_UB, LSR_A_UB, ROL_A_UB, ROR_A_UB, CLC_UB, SEC_UB, CLI_UB, SEI_UB, CLV_UB,
    CLD_UB, SED_UB, NOP_UB, TSX_UB, TXS_UB, PLP_UB, RTI_UB,
    and_self, true_or, or_true, false_imp_iff, implies_true]

/-- The invariant of the live status register is kept by `Execute`. -/
theorem Execute_UB (s : CPU6502 D) (o : Nat)
    (h : Flags.Get s.P Flags.U = true ∧ Flags.Get s.P Flags.B = false) :
    Flags.Get (Execute b c s o).P Flags.U = true ∧
    Flags.Get (Execute b c s o).P Flags.B = false := by
  unfold Execute
  split
  · rename_i arm hl
    rcases arms_UB b c s (o, arm) (lookup_mem _ _ _ hl) with h1 | h1
    · exact ⟨h1.1.trans h.1, h1.2.trans h.2⟩
    · exact h1
  · exact h

/-- Embeds `HandleNMI` leaves `B` clear, `U` set and `I` clear in the status register. -/
theorem HandleNMI_P (s : CPU6502 D) :
    (HandleNMI b c s).P
      = Flags.Set (Flags.Set (Flags.Set s.P Flags.B false) Flags.U true) Flags.I false := by
  unfold HandleNMI
  dsimp only [setFlag, Push, write, read]

/-- The status byte both interrupt sequences leave has `U` set and `B` clear. -/
theorem interrupt_status (p : Nat) :
    Flags.Get (Flags.Set (Flags.Set (Flags.Set p Flags.B false) Flags.U true) Flags.I false)
      Flags.U = true ∧
    Flags.Get (Flags.Set (Flags.Set (Flags.Set p Flags.B false) Flags.U true) Flags.I false)
      Flags.B = false := by
  constructor
  · rw [Flags.Get_U_Set_I]
    exact Flags.Get_Set _ 5 5 (by decide) (by decide) true
  · rw [Flags.Get_B_Set_I]
    have h1 := Flags.Get_Set (Flags.Set p Flags.B false) 5 4 (by decide) (by decide) true
    rw [if_neg (by decide)] at h1
    have h2 := Flags.Get_Set p 4 4 (by decide) (by decide) false
    rw [if_pos rfl] at h2
    exact h1.trans h2

/-- The invariant of the live status register is kept by every event. -/
theorem handle_UB (s : CPU6502 D) (ev : Event)
    (h : Flags.Get s.P Flags.U = true ∧ Flags.Get s.P Flags.B = false) :
    Flags.Get (handle b c s ev).P Flags.U = true ∧
    Flags.Get (handle b c s ev).P Flags.B = false := by
  cases ev with
  | execute o => exact Execute_UB b c s o h
  | irq =>
    show Flags.Get (HandleIRQ b c s).P Flags.U = true ∧
      Flags.Get (HandleIRQ b c s).P Flags.B = false
    by_cases hI : Flags.Get s.P Flags.I = false
    · rw [HandleIRQ_P b c s hI]
      exact interrupt_status s.P
    · have hs : HandleIRQ b c s = s := by
        unfold HandleIRQ
        rw [if_neg (by simpa using hI)]
      rw [hs]
      exact h
  | nmi =>
    show Flags.Get (HandleNMI b c s).P Flags.U = true ∧
      Flags.Get (HandleNMI b c s).P Flags.B = false
    rw [HandleNMI_P]
    exact interrupt_status s.P

end CPU6502

/-- C23: in every CPU state reached from `Reset` by any sequence of executed
opcodes (any byte values, decoded or not) and interrupt entries (IRQ, NMI), the
live status register has `U = 1` and `B = 0`.  The bytes `PHP` and `BRK` push,
`P | B | U`, have `B = 1`; the bytes the interrupt sequences push have `B = 0`. -/
theorem CPU6502_live_status_U_set_B_clear {D : Type} (b : Build) (c : Chips D)
    (s0 : CPU6502 D) (memory : Memory D) (is6507 : Bool) (rA rX rY : Nat)
    (evs : List CPU6502.Event) :
    Flags.Get (CPU6502.handleAll b c (CPU6502.Reset b c s0 memory is6507 rA rX rY) evs).P
      Flags.U = true ∧
    Flags.Get (CPU6502.handleAll b c (CPU6502.Reset b c s0 memory is6507 rA rX rY) evs).P
      Flags.B = false ∧
    (∀ p < 256, Flags.Get (p ||| Flags.B ||| Flags.U) Flags.B = true) ∧
    (∀ p, Flags.Get (Flags.Set (Flags.Set p Flags.B false) Flags.U true) Flags.B = false) := by
  have key : ∀ (evs : List CPU6502.Event) (s : CPU6502 D),
      (Flags.Get s.P Flags.U = true ∧ Flags.Get s.P Flags.B = false) →
      Flags.Get (CPU6502.handleAll b c s evs).P Flags.U = true ∧
      Flags.Get (CPU6502.handleAll b c s evs).P Flags.B = false := by
    intro evs
    induction evs with
    | nil => intro s h; exact h
    | cons ev rest ih =>
      intro s h
      exact ih (CPU6502.handle b c s ev) (CPU6502.handle_UB b c s ev h)
  have hR : (CPU6502.Reset b c s0 memory is6507 rA rX rY).P = Flags.I ||| Flags.U := by
    unfold CPU6502.Reset
    dsimp only [CPU6502.read]
  have h0 : Flags.Get (CPU6502.Reset b c s0 memory is6507 rA rX rY).P Flags.U = true ∧
      Flags.Get (CPU6502.Reset b c s0 memory is6507 rA rX rY).P Flags.B = false := by
    rw [hR]
    exact ⟨by decide, by decide⟩
  obtain ⟨k1, k2⟩ := key evs _ h0
  refine ⟨k1, k2, fun p hp => (pushed_status_byte p hp).2.1, ?_⟩
  intro p
  have h1 := Flags.Get_Set (Flags.Set p Flags.B false) 5 4 (by decide) (by decide) true
  rw [if_neg (by decide)] at h1
  have h2 := Flags.Get_Set p 4 4 (by decide) (by decide) false
  rw [if_pos rfl] at h2
  exact h1.trans h2

/-! ## The VIA: the interrupt flag register -/

namespace VIA6522

theorem or_lt_128 (x m : Nat) (hx : x < 128) (hm : m < 128) : (x ||| m) % 256 < 128 := by
  have h : x ||| m < 2 ^ 7 := Nat.or_lt_two_pow (by omega) (by omega)
  omega

theorem and_lt_128 (x y : Nat) (hx : x < 128) : (x &&& y) % 256 < 128 := by
  have h : x &&& y ≤ x := Nat.and_le_left
  omega

theorem ite_lt_128 {c : Prop} [Decidable c] {a b : Nat} (ha : a < 128) (hb : b < 128) :
    (if c then a else b) < 128 := by
  split <;> assumption

/-- Embeds `Write` keeps `IFR` below `0x80`: the only writers are `SetIFR(0x40)`,
`SetIFR(0x20)` and `IFR &= ~val`. -/
theorem Write_IFR_lt (s : VIA6522) (reg val : Nat) (h : s.IFR < 128) :
    (Write s reg val).IFR < 128 := by
  unfold Write
  dsimp only [UpdateIRQ, SetIFR]
  generalize reg % 256 &&& 15 = r
  simp only [apply_ite VIA6522.IFR]
  repeat' apply ite_lt_128
  all_goals first
    | exact h
    | exact or_lt_128 _ _ h (by decide)
    | exact and_lt_128 _ _ h

/-- Embeds `Tick` keeps `IFR` below `0x80`. -/
theorem Tick_IFR_lt (s : VIA6522) (h : s.IFR < 128) : (Tick s).IFR < 128 := by
  unfold Tick
  dsimp only [UpdateIRQ, SetIFR]
  simp only [apply_ite VIA6522.IFR]
  repeat' apply ite_lt_128
  all_goals first
    | exact h
    | exact or_lt_128 _ _ h (by decide)
    | (refine or_lt_128 _ _ ?_ (by decide)
       repeat' apply ite_lt_128
       all_goals first
         | exact h
         | exact or_lt_128 _ _ h (by decide))

/-- In every state reached from construction, `IFR` is below `0x80`. -/
theorem calls_IFR_lt (cs : List Call) : ∀ s : VIA6522, s.IFR < 128 → (calls s cs).IFR < 128 := by
  induction cs with
  | nil => intro s h; exact h
  | cons k ks ih =>
    intro s h
    apply ih
    cases k with
    | Read reg => exact h
    | Write reg val => exact Write_IFR_lt s reg val h
    | Tick => exact Tick_IFR_lt s h

end VIA6522

/-- C31 (code defect): no code path sets bit 7 of `IFR`, and `Read(0xD)` returns
`IFR` as stored, so in every state reached from construction by `Read`, `Write`
and `Tick` the byte read from register `0xD` has bit 7 clear, whatever
`irq_line` is.  On `VIA6522.pendingState`, `(IFR & IER & 0x7F) != 0` and
`irq_line` is true, yet register `0xD` reads `0x40` and `Memory::CheckIRQLines`
of the `USE_VIA` build reports no interrupt. -/
theorem VIA6522_IFR_read_never_has_bit7 :
    (∀ cs : List VIA6522.Call,
      VIA6522.Read (VIA6522.calls VIA6522.init cs) 0xD &&& 0x80 = 0) ∧
    VIA6522.pendingState.irq_line = true ∧
    (VIA6522.pendingState.IFR &&& VIA6522.pendingState.IER &&& 0x7F) ≠ 0 ∧
    VIA6522.Read VIA6522.pendingState 0xD = 0x40 ∧
    VIA6522.Read VIA6522.pendingState 0xE = 0xC0 ∧
    (Memory.CheckIRQLines Build.onlyVIA Chips.via
      (Memory.init Build.onlyVIA Chips.via VIA6522.pendingState .NONE)).1 = false := by
  refine ⟨?_, by decide, by decide, by decide, by decide, by decide⟩
  intro cs
  have h := VIA6522.calls_IFR_lt cs VIA6522.init (by decide)
  have hr : VIA6522.Read (VIA6522.calls VIA6522.init cs) 0xD
      = (VIA6522.calls VIA6522.init cs).IFR := rfl
  rw [hr]
  generalize (VIA6522.calls VIA6522.init cs).IFR = x at h
  have h2 : x &&& 0x80 = 0 := by
    apply Nat.eq_of_testBit_eq
    intro i
    rw [Nat.testBit_and, Nat.zero_testBit]
    by_cases hi : i = 7
    · subst hi
      rw [Nat.testBit_eq_false_of_lt (by omega : x < 2 ^ 7)]
      rfl
    · have : (0x80 : Nat).testBit i = false := by
        have e : (0x80 : Nat) = 2 ^ 7 := by norm_num
        rw [e, Nat.testBit_two_pow]
        simpa using fun h => hi h.symm
      rw [this, Bool.and_false]
  exact h2

/-! ## The floppy controller: a command and its countdown -/

namespace WD1770

/-- While the countdown has more than one cycle left, a tick of a busy controller
only decrements it. -/
theorem tick_running (s : WD1770) (hb : s.busy = true) (hn : 1 < s.commandCyclesRemaining) :
    tick s = { s with commandCyclesRemaining := s.commandCyclesRemaining - 1 } := by
  unfold tick
  dsimp only
  rw [hb, if_pos (by simpa using (by omega : 0 < s.commandCyclesRemaining)), if_neg (by omega)]

/-- The tick that takes the countdown from one to zero finishes the command. -/
theorem tick_last (s : WD1770) (hb : s.busy = true) (hn : s.commandCyclesRemaining = 1) :
    tick s = finishCommand { s with commandCyclesRemaining := 0 }
      ((s.status &&& (STATUS_RNF ||| STATUS_WP)) != 0) := by
  unfold tick
  dsimp only
  rw [hb, hn, if_pos (by decide), if_pos (by decide)]

/-- After `j` ticks of a busy controller with `j` below the countdown, only the
countdown has changed. -/
theorem tick_iterate (j : Nat) : ∀ s : WD1770, s.busy = true → j < s.commandCyclesRemaining →
    tick^[j] s = { s with commandCyclesRemaining := s.commandCyclesRemaining - j } := by
  induction j with
  | zero => intro s _ _; rfl
  | succ j ih =>
    intro s hb hn
    have h := ih { s with commandCyclesRemaining := s.commandCyclesRemaining - 1 } hb
      (by dsimp only; omega)
    have e : s.commandCyclesRemaining - 1 - j = s.commandCyclesRemaining - (j + 1) := by omega
    rw [Function.iterate_succ_apply, tick_running s hb (by omega), h]
    dsimp only
    rw [e]

/-- After exactly as many ticks as the countdown, the command has finished. -/
theorem tick_finish (s : WD1770) (hb : s.busy = true) (hn : 0 < s.commandCyclesRemaining) :
    tick^[s.commandCyclesRemaining] s = finishCommand { s with commandCyclesRemaining := 0 }
      ((s.status &&& (STATUS_RNF ||| STATUS_WP)) != 0) := by
  obtain ⟨n, hn2⟩ : ∃ n, s.commandCyclesRemaining = n + 1 := ⟨s.commandCyclesRemaining - 1, by omega⟩
  have h := tick_last { s with commandCyclesRemaining := s.commandCyclesRemaining - n } hb
    (by dsimp only; omega)
  rw [hn2, Function.iterate_succ_apply', tick_iterate n s hb (by omega), h]

set_option maxRecDepth 100000 in
/-- Embeds `executeCommand` sets `busy`, clears `irq`, and leaves a status with
BUSY set and INTRQ clear. -/
theorem executeCommand_fields (t : Timing) (s : WD1770) (cmd : Nat) :
    (executeCommand t s cmd).busy = true ∧ (executeCommand t s cmd).irq = false ∧
    (executeCommand t s cmd).status &&& STATUS_BUSY = STATUS_BUSY ∧
    (executeCommand t s cmd).status &&& STATUS_INTRQ = 0 ∧
    (executeCommand t s cmd).status < 256 := by
  have key : ∀ b : Nat, b < 256 →
      ((b ||| 1) % 256 &&& (0xFF ^^^ (2 ||| 0x80))) < 256 ∧
      (((b ||| 1) % 256 &&& (0xFF ^^^ (2 ||| 0x80))) ||| 0x10) % 256 < 256 ∧
      (((b ||| 1) % 256 &&& (0xFF ^^^ (2 ||| 0x80))) ||| 0x02) % 256 < 256 ∧
      (((b ||| 1) % 256 &&& (0xFF ^^^ (2 ||| 0x80))) ||| 0x40) % 256 < 256 ∧
      ((b ||| 1) % 256 &&& (0xFF ^^^ (2 ||| 0x80))) &&& 1 = 1 ∧
      ((b ||| 1) % 256 &&& (0xFF ^^^ (2 ||| 0x80))) &&& 0x80 = 0 ∧
      (((b ||| 1) % 256 &&& (0xFF ^^^ (2 ||| 0x80))) ||| 0x10) % 256 &&& 1 = 1 ∧
      (((b ||| 1) % 256 &&& (0xFF ^^^ (2 ||| 0x80))) ||| 0x10) % 256 &&& 0x80 = 0 ∧
      (((b ||| 1) % 256 &&& (0xFF ^^^ (2 ||| 0x80))) ||| 0x02) % 256 &&& 1 = 1 ∧
      (((b ||| 1) % 256 &&& (0xFF ^^^ (2 ||| 0x80))) ||| 0x02) % 256 &&& 0x80 = 0 ∧
      (((b ||| 1) % 256 &&& (0xFF ^^^ (2 ||| 0x80))) ||| 0x40) % 256 &&& 1 = 1 ∧
      (((b ||| 1) % 256 &&& (0xFF ^^^ (2 ||| 0x80))) ||| 0x40) % 256 &&& 0x80 = 0 := by
    decide
  have e : (s.status ||| 1) % 256 = (s.status % 256 ||| 1) % 256 := by
    rw [or_mod_256, or_mod_256 (s.status % 256), Nat.mod_mod]
  have k := key (s.status % 256) (Nat.mod_lt _ (by decide))
  rw [← e] at k
  unfold executeCommand
  dsimp only [STATUS_BUSY, STATUS_DRQ, STATUS_INTRQ, STATUS_RNF, STATUS_WP]
  split_ifs <;> dsimp only <;> simp only [k, and_self]

set_option maxRecDepth 100000 in
/-- The status byte `finishCommand` leaves has BUSY clear and INTRQ set. -/
theorem finishCommand_fields (s : WD1770) (error : Bool) (h : s.status < 256) :
    (finishCommand s error).busy = false ∧ (finishCommand s error).irq = true ∧
    (finishCommand s error).status &&& STATUS_BUSY = 0 ∧
    (finishCommand s error).status &&& STATUS_INTRQ = STATUS_INTRQ := by
  have key : ∀ b : Nat, b < 256 →
      (((b &&& (0xFF ^^^ 1)) ||| 8) % 256 ||| 0x80) % 256 &&& 1 = 0 ∧
      (((b &&& (0xFF ^^^ 1)) ||| 8) % 256 ||| 0x80) % 256 &&& 0x80 = 0x80 ∧
      ((b &&& (0xFF ^^^ 1)) ||| 0x80) % 256 &&& 1 = 0 ∧
      ((b &&& (0xFF ^^^ 1)) ||| 0x80) % 256 &&& 0x80 = 0x80 := by
    decide
  have k := key s.status h
  unfold finishCommand
  dsimp only [STATUS_BUSY, STATUS_INTRQ, STATUS_CRCERR]
  cases error
  · exact ⟨rfl, rfl, k.2.2.1, k.2.2.2⟩
  · exact ⟨rfl, rfl, k.1, k.2.1⟩

end WD1770

/-- C32: a write to the command slot (`reg & 0x03 == 0`) leaves the status with
BUSY set and INTRQ clear and the irq line low.  If the countdown it loaded is
`N > 0`, then after any `j < N` ticks BUSY is still set and irq still low, and
after exactly `N` ticks `busy` and BUSY are clear, INTRQ is set, irq is high, and
the status is the status after the write with BUSY removed, CRCERR or-ed in
exactly when RNF or WP was set, and INTRQ or-ed in. -/
theorem WD1770_command_countdown (t : WD1770.Timing) (s : WD1770) (reg value : Nat)
    (hreg : (reg % 65536) &&& 0x03 = 0) :
    (WD1770.write t s reg value).status &&& WD1770.STATUS_BUSY ≠ 0 ∧
    (WD1770.write t s reg value).status &&& WD1770.STATUS_INTRQ = 0 ∧
    (WD1770.write t s reg value).irq = false ∧
    (0 < (WD1770.write t s reg value).commandCyclesRemaining →
      (∀ j, j < (WD1770.write t s reg value).commandCyclesRemaining →
        (WD1770.tick^[j] (WD1770.write t s reg value)).status &&& WD1770.STATUS_BUSY ≠ 0 ∧
        (WD1770.tick^[j] (WD1770.write t s reg value)).irq = false) ∧
      (WD1770.tick^[(WD1770.write t s reg value).commandCyclesRemaining]
        (WD1770.write t s reg value)).status &&& WD1770.STATUS_BUSY = 0 ∧
      (WD1770.tick^[(WD1770.write t s reg value).commandCyclesRemaining]
        (WD1770.write t s reg value)).status &&& WD1770.STATUS_INTRQ ≠ 0 ∧
      (WD1770.tick^[(WD1770.write t s reg value).commandCyclesRemaining]
        (WD1770.write t s reg value)).irq = true ∧
      (WD1770.tick^[(WD1770.write t s reg value).commandCyclesRemaining]
        (WD1770.write t s reg value)).busy = false ∧
      (WD1770.tick^[(WD1770.write t s reg value).commandCyclesRemaining]
        (WD1770.write t s reg value)).status =
        (if (WD1770.write t s reg value).status &&& (WD1770.STATUS_RNF ||| WD1770.STATUS_WP) ≠ 0
         then ((((WD1770.write t s reg value).status &&& (0xFF ^^^ WD1770.STATUS_BUSY))
                ||| WD1770.STATUS_CRCERR) % 256 ||| WD1770.STATUS_INTRQ) % 256
         else (((WD1770.write t s reg value).status &&& (0xFF ^^^ WD1770.STATUS_BUSY))
                ||| WD1770.STATUS_INTRQ) % 256)) := by
  have hw : WD1770.write t s reg value = WD1770.executeCommand t s (value % 256) := by
    unfold WD1770.write
    dsimp only
    rw [if_pos hreg]
  rw [hw]
  obtain ⟨hb, hi, hB, hI, hlt⟩ := WD1770.executeCommand_fields t s (value % 256)
  generalize WD1770.executeCommand t s (value % 256) = u at hb hi hB hI hlt
  refine ⟨by rw [hB]; decide, hI, hi, ?_⟩
  intro hn
  refine ⟨?_, ?_⟩
  · intro j hj
    rw [WD1770.tick_iterate j u hb hj]
    exact ⟨by dsimp only; rw [hB]; decide, hi⟩
  · rw [WD1770.tick_finish u hb hn]
    obtain ⟨fb, fi, fB, fI⟩ := WD1770.finishCommand_fields
      { u with commandCyclesRemaining := 0 }
      ((u.status &&& (WD1770.STATUS_RNF ||| WD1770.STATUS_WP)) != 0) hlt
    refine ⟨fB, by rw [fI]; decide, fi, fb, ?_⟩
    unfold WD1770.finishCommand
    dsimp only
    by_cases h : u.status &&& (WD1770.STATUS_RNF ||| WD1770.STATUS_WP) = 0
    · simp [h]
    · simp [h]

/-- C32 at concrete inputs: on a constructed controller with no disk and the
default timing, the unknown command `0xF0` loads 2000 cycles and finishes with
status `0x80`; a read command `0x80` sets RNF, and finishes with status `0x98`
(RNF, CRCERR, INTRQ). -/
theorem WD1770_command_countdown_witness :
    ((0 : Nat) % 65536) &&& 0x03 = 0 ∧
    (WD1770.write WD1770.Timing.bbc (WD1770.init 0) 0 0xF0).commandCyclesRemaining = 2000 ∧
    (WD1770.write WD1770.Timing.bbc (WD1770.init 0) 0 0xF0).status = 0x01 ∧
    (WD1770.tick^[2000] (WD1770.write WD1770.Timing.bbc (WD1770.init 0) 0 0xF0)).status = 0x80 ∧
    (WD1770.tick^[2000] (WD1770.write WD1770.Timing.bbc (WD1770.init 0) 0 0xF0)).irq = true ∧
    (WD1770.write WD1770.Timing.bbc (WD1770.init 0) 0 0x80).status = 0x11 ∧
    (WD1770.tick^[2000] (WD1770.write WD1770.Timing.bbc (WD1770.init 0) 0 0x80)).status = 0x98 := by
  have h1 := WD1770_command_countdown WD1770.Timing.bbc (WD1770.init 0) 0 0xF0 (by decide)
  have h2 := WD1770_command_countdown WD1770.Timing.bbc (WD1770.init 0) 0 0x80 (by decide)
  have e1 : (WD1770.write WD1770.Timing.bbc (WD1770.init 0) 0 0xF0).commandCyclesRemaining = 2000 := by
    decide
  have e2 : (WD1770.write WD1770.Timing.bbc (WD1770.init 0) 0 0x80).commandCyclesRemaining = 2000 := by
    decide
  have s1 : (WD1770.write WD1770.Timing.bbc (WD1770.init 0) 0 0xF0).status = 0x01 := by decide
  have s2 : (WD1770.write WD1770.Timing.bbc (WD1770.init 0) 0 0x80).status = 0x11 := by decide
  have f1 := (h1.2.2.2 (by rw [e1]; decide)).2.2.2.2.2
  have f2 := (h2.2.2.2 (by rw [e2]; decide)).2.2.2.2.2
  rw [e1, s1] at f1
  rw [e2, s2] at f2
  have i1 := (h1.2.2.2 (by rw [e1]; decide)).2.2.2.1
  rw [e1] at i1
  exact ⟨by decide, e1, s1, f1, i1, s2, f2⟩

/-! ## The CPU: decimal SBC -/

/-- The digit arithmetic of decimal `SBC` on two BCD digit pairs with borrow-in
`w`: the adjusted nibbles are the digits of the difference modulo 100. -/
theorem sbc_digits (ah al vh vl w : Nat) (h1 : ah ≤ 9) (h2 : al ≤ 9) (h3 : vh ≤ 9)
    (h4 : vl ≤ 9) (hw : w ≤ 1) :
    16 * ((if (if (al + 256 - vl - w) % 256 ≥ 128 then ((ah + 256 - vh) % 256 + 255) % 256
                else (ah + 256 - vh) % 256) ≥ 128
            then ((if (al + 256 - vl - w) % 256 ≥ 128 then ((ah + 256 - vh) % 256 + 255) % 256
                    else (ah + 256 - vh) % 256) + 250) % 256
            else (if (al + 256 - vl - w) % 256 ≥ 128 then ((ah + 256 - vh) % 256 + 255) % 256
                    else (ah + 256 - vh) % 256)) % 16)
      + (if (al + 256 - vl - w) % 256 ≥ 128 then ((al + 256 - vl - w) % 256 + 250) % 256
          else (al + 256 - vl - w) % 256) % 16
      = 16 * ((10 * ah + al + 100 - (10 * vh + vl) - w) % 100 / 10)
        + (10 * ah + al + 100 - (10 * vh + vl) - w) % 100 % 10 := by
  by_cases c1 : vl + w ≤ al
  · have e1 : (al + 256 - vl - w) % 256 = al - vl - w := by omega
    have n1 : ¬ (al - vl - w ≥ 128) := by omega
    rw [e1]
    simp only [n1, if_false]
    by_cases c2 : vh ≤ ah
    · have e2 : (ah + 256 - vh) % 256 = ah - vh := by omega
      have n2 : ¬ (ah - vh ≥ 128) := by omega
      rw [e2]
      simp only [n2, if_false]
      omega
    · have e2 : (ah + 256 - vh) % 256 = ah + 256 - vh := by omega
      have n2 : ah + 256 - vh ≥ 128 := by omega
      have e3 : (ah + 256 - vh + 250) % 256 = ah + 250 - vh := by omega
      rw [e2]
      simp only [n2, if_true, e3]
      omega
  · have e1 : (al + 256 - vl - w) % 256 = al + 256 - vl - w := by omega
    have n1 : al + 256 - vl - w ≥ 128 := by omega
    have e4 : (al + 256 - vl - w + 250) % 256 = al + 250 - vl - w := by omega
    rw [e1]
    simp only [n1, if_true, e4]
    by_cases c2 : vh + 1 ≤ ah
    · have e2 : ((ah + 256 - vh) % 256 + 255) % 256 = ah - vh - 1 := by omega
      have n2 : ¬ (ah - vh - 1 ≥ 128) := by omega
      rw [e2]
      simp only [n2, if_false]
      omega
    · have e2 : ((ah + 256 - vh) % 256 + 255) % 256 = ah + 255 - vh := by omega
      have n2 : ah + 255 - vh ≥ 128 := by omega
      have e3 : (ah + 255 - vh + 250) % 256 = ah + 249 - vh := by omega
      rw [e2]
      simp only [n2, if_true, e3]
      omega

/-- C33: in decimal mode, for every pair of valid BCD bytes `A` and `v` and carry-in
`c`, `SBC` leaves `A` equal to the BCD encoding of
`(dec(A) - dec(v) - (1 - c)) mod 100`, written here with the minuend raised by
100 so that the difference stays a natural number. -/
theorem CPU6502_SBC_decimal_BCD {D : Type} (b : Build) (c : Chips D) (s : CPU6502 D)
    (addr : Nat) (hD : Flags.Get s.P Flags.D = true) (hA : validBCD s.A)
    (hv : validBCD (CPU6502.read b c s addr).1) :
    (CPU6502.SBC b c s addr).A
      = bcd ((dec s.A + 100 - dec (CPU6502.read b c s addr).1
          - (1 - CPU6502.bit (Flags.Get s.P Flags.C))) % 100) := by
  have hD2 : Flags.Get (CPU6502.read b c s addr).2.P Flags.D = true := hD
  have hA2 : (CPU6502.read b c s addr).2.A = s.A := rfl
  have hP2 : (CPU6502.read b c s addr).2.P = s.P := rfl
  have hci : (if Flags.Get s.P Flags.C = true then 0 else 1)
      = 1 - CPU6502.bit (Flags.Get s.P Flags.C) := by
    cases Flags.Get s.P Flags.C <;> rfl
  have hw : 1 - CPU6502.bit (Flags.Get s.P Flags.C) ≤ 1 := Nat.sub_le _ _
  unfold validBCD at hA hv
  unfold CPU6502.SBC
  dsimp only
  rw [if_pos hD2]
  simp only [CPU6502.setZN, CPU6502.setFlag, hA2, hP2, hci, and_0F, shr_4, nibble_join, dec,
    bcd, ge_iff_le, decide_eq_true_eq]
  generalize 1 - CPU6502.bit (Flags.Get s.P Flags.C) = w at hw ⊢
  generalize (CPU6502.read b c s addr).1 = v at hv ⊢
  generalize s.A = a at hA ⊢
  have key := sbc_digits (a / 16) (a % 16) (v / 16) (v % 16) w hA.1 hA.2 hv.1 hv.2 hw
  simp only [ge_iff_le] at key
  exact key

/-- Decimal `SBC` of C33 on `0x10 - 0x01` with carry set (no borrow in): `A = 0x09`;
and on `0x00 - 0x01`: `A = 0x99`. -/
theorem CPU6502_SBC_decimal_BCD_witness :
    (Flags.Get (CPU6502.aluState 0x10 0x2D 0x01).P Flags.D = true ∧
      validBCD (CPU6502.aluState 0x10 0x2D 0x01).A ∧
      validBCD (CPU6502.read Build.plain Chips.none (CPU6502.aluState 0x10 0x2D 0x01) 0x0010).1) ∧
    (CPU6502.SBC Build.plain Chips.none (CPU6502.aluState 0x10 0x2D 0x01) 0x0010).A = 0x09 ∧
    (CPU6502.SBC Build.plain Chips.none (CPU6502.aluState 0x00 0x2D 0x01) 0x0010).A = 0x99 :=
  have h := CPU6502_SBC_decimal_BCD Build.plain Chips.none (CPU6502.aluState 0x10 0x2D 0x01)
    0x0010 (by decide) (by decide) (by decide)
  ⟨⟨by decide, by decide, by decide⟩, h.trans (by decide), by decide⟩

/-! ## The CPU: indexed addressing -/

/-- Adding an index byte to a 16-bit base changes the high byte exactly when the
low byte carries. -/
theorem page_cross_iff (base i : Nat) (hb : base < 65536) (hi : i < 256) :
    (((base &&& 0xFF00) != ((base + i) % 65536 &&& 0xFF00)) = true
      ↔ (base &&& 0xFF) + i > 0xFF) ∧
    (((base &&& 0xFF00) != ((base + i) % 65536 &&& 0xFF00)) = true
      ↔ ((base + i) % 65536) / 256 ≠ base / 256) := by
  have hr : (base + i) % 65536 < 65536 := Nat.mod_lt _ (by norm_num)
  have h := same_page_iff base ((base + i) % 65536) hb hr
  rw [and_FF, bne_iff_ne, Ne, h]
  constructor <;> omega

/-- C35: for every state whose index register is a byte, `Addr_AbsoluteX` and
`Addr_AbsoluteY` return `(base + i) mod 65536`, `base` being the word `Fetch16`
returns, and set `page_crossed` iff `(base & 0xFF) + i > 0xFF`, which is exactly
when the high byte of the result differs from that of `base`;
`Addr_IndirectY` does the same with the pointer read from the zero page at
`zp` and `(zp + 1) mod 256` and the index `Y`. -/
theorem CPU6502_indexed_page_crossed {D : Type} (b : Build) (c : Chips D) (s : CPU6502 D)
    (hX : s.X < 256) (hY : s.Y < 256) :
    ((CPU6502.Addr_AbsoluteX b c s).1 = ((CPU6502.Fetch16 b c s).1 + s.X) % 65536 ∧
      ((CPU6502.Addr_AbsoluteX b c s).2.page_crossed = true
        ↔ ((CPU6502.Fetch16 b c s).1 &&& 0xFF) + s.X > 0xFF) ∧
      ((CPU6502.Addr_AbsoluteX b c s).2.page_crossed = true
        ↔ (CPU6502.Addr_AbsoluteX b c s).1 / 256 ≠ (CPU6502.Fetch16 b c s).1 / 256)) ∧
    ((CPU6502.Addr_AbsoluteY b c s).1 = ((CPU6502.Fetch16 b c s).1 + s.Y) % 65536 ∧
      ((CPU6502.Addr_AbsoluteY b c s).2.page_crossed = true
        ↔ ((CPU6502.Fetch16 b c s).1 &&& 0xFF) + s.Y > 0xFF) ∧
      ((CPU6502.Addr_AbsoluteY b c s).2.page_crossed = true
        ↔ (CPU6502.Addr_AbsoluteY b c s).1 / 256 ≠ (CPU6502.Fetch16 b c s).1 / 256)) ∧
    ((CPU6502.Addr_IndirectY b c s).1
        = (((CPU6502.read b c (CPU6502.Fetch8 b c s).2 (CPU6502.Fetch8 b c s).1).1
            ||| ((CPU6502.read b c
                  (CPU6502.read b c (CPU6502.Fetch8 b c s).2 (CPU6502.Fetch8 b c s).1).2
                  (((CPU6502.Fetch8 b c s).1 + 1) % 256)).1 <<< 8)) % 65536 + s.Y) % 65536 ∧
      ((CPU6502.Addr_IndirectY b c s).2.page_crossed = true
        ↔ ((((CPU6502.read b c (CPU6502.Fetch8 b c s).2 (CPU6502.Fetch8 b c s).1).1
            ||| ((CPU6502.read b c
                  (CPU6502.read b c (CPU6502.Fetch8 b c s).2 (CPU6502.Fetch8 b c s).1).2
                  (((CPU6502.Fetch8 b c s).1 + 1) % 256)).1 <<< 8)) % 65536) &&& 0xFF)
            + s.Y > 0xFF) ∧
      ((CPU6502.Addr_IndirectY b c s).2.page_crossed = true
        ↔ (CPU6502.Addr_IndirectY b c s).1 / 256
            ≠ (((CPU6502.read b c (CPU6502.Fetch8 b c s).2 (CPU6502.Fetch8 b c s).1).1
              ||| ((CPU6502.read b c
                  (CPU6502.read b c (CPU6502.Fetch8 b c s).2 (CPU6502.Fetch8 b c s).1).2
                  (((CPU6502.Fetch8 b c s).1 + 1) % 256)).1 <<< 8)) % 65536) / 256)) := by
  have hb : (CPU6502.Fetch16 b c s).1 < 65536 := Nat.mod_lt _ (by norm_num)
  have hx := page_cross_iff (CPU6502.Fetch16 b c s).1 s.X hb hX
  have hy := page_cross_iff (CPU6502.Fetch16 b c s).1 s.Y hb hY
  have hp := page_cross_iff
    (((CPU6502.read b c (CPU6502.Fetch8 b c s).2 (CPU6502.Fetch8 b c s).1).1
      ||| ((CPU6502.read b c
            (CPU6502.read b c (CPU6502.Fetch8 b c s).2 (CPU6502.Fetch8 b c s).1).2
            (((CPU6502.Fetch8 b c s).1 + 1) % 256)).1 <<< 8)) % 65536) s.Y
    (Nat.mod_lt _ (by norm_num)) hY
  exact ⟨⟨rfl, hx.1, hx.2⟩, ⟨rfl, hy.1, hy.2⟩, ⟨rfl, hp.1, hp.2⟩⟩



/-- The addressing of C35 on `CPU6502.indexState` (base `0x1234`, `X = 0xFF`,
`Y = 0x01`): absolute,X gives `0x1333` with a page crossing, absolute,Y gives
`0x1235` without. -/
theorem CPU6502_indexed_page_crossed_witness :
    (CPU6502.indexState.X < 256 ∧ CPU6502.indexState.Y < 256) ∧
    (CPU6502.Fetch16 Build.plain Chips.none CPU6502.indexState).1 = 0x1234 ∧
    (CPU6502.Addr_AbsoluteX Build.plain Chips.none CPU6502.indexState).1 = 0x1333 ∧
    (CPU6502.Addr_AbsoluteX Build.plain Chips.none CPU6502.indexState).2.page_crossed = true ∧
    (CPU6502.Addr_AbsoluteY Build.plain Chips.none CPU6502.indexState).1 = 0x1235 ∧
    (CPU6502.Addr_AbsoluteY Build.plain Chips.none CPU6502.indexState).2.page_crossed = false :=
  have h := CPU6502_indexed_page_crossed Build.plain Chips.none CPU6502.indexState
    (by decide) (by decide)
  ⟨⟨by decide, by decide⟩, by decide, h.1.1.trans (by decide), h.1.2.1.mpr (by decide),
    h.2.1.1.trans (by decide),
    Bool.eq_false_iff.mpr (fun hc => absurd (h.2.1.2.1.mp hc) (by decide))⟩

/-! ## The bus: ROM protection behind the 13-bit mask -/

/-- C36 (code defect): `Memory::Write` masks the address with `0x1FFF` before the
ROM switch, whose Atari 2600 case tests the masked address against
`0xF000..0xFFFF`; the test never succeeds.  With ROM protection compiled in,
the Atari 2600 profile and 6507 mode, a write to any `a` in `0xF000..0xFFFF` is
stored and `Read(a)` returns the byte written: `Read(0xF000)` is `0x00` before
`Write(0xF000, 0x42)` and `0x42` after. -/
theorem Memory_Write_kept_on_6507_Atari_2600 {D : Type} (c : Chips D) :
    (∀ (m : Memory D) (a v : Nat), m.use6507addresspace = true → m.romSpace = .ATARI_2600 →
      0xF000 ≤ a → a ≤ 0xFFFF →
      (Memory.romSwitch c m (Memory.busAddr m a) v).isNone = true ∧
      (Memory.Read Build.romProtect c (Memory.Write Build.romProtect c m a v) a).1 = v % 256) ∧
    (Memory.Read Build.romProtect Chips.none Memory.atari6507 0xF000).1 = 0x00 ∧
    (Memory.Read Build.romProtect Chips.none
      (Memory.Write Build.romProtect Chips.none Memory.atari6507 0xF000 0x42) 0xF000).1
        = 0x42 := by
  refine ⟨?_, by decide, by decide⟩
  intro m a v h6 hr _ _
  have hb : Memory.busAddr m a ≤ 0x1FFF := by
    unfold Memory.busAddr
    rw [if_pos h6]
    exact Nat.and_le_right
  have hn : ∀ w, (Memory.romSwitch c m (Memory.busAddr m a) w).isNone = true := by
    intro w
    unfold Memory.romSwitch
    rw [hr]
    have : ¬ (0xF000 ≤ Memory.busAddr m a) := by omega
    simp [this]
  refine ⟨hn v, ?_⟩
  apply Memory.Write_Read_plainRAM
  unfold Memory.plainRAM
  simp [Build.romProtect, Build.plain, hn 0]

/-! ## The run loop: where the interrupt sequence is entered -/

/-- C34, refuted as stated: on `CPU6502.burningState` (two cycles of the current
instruction left, `I` clear, IRQ line raised) one iteration of the run loop
calls `HandleIRQ` on a state whose budget is 1, not 0, and the call changes the
state: `PC` becomes the vector and the budget becomes `1 + 7`. -/
theorem CPU6502_HandleIRQ_entered_with_budget_left :
    ¬ (∀ s : CPU6502 Unit, s.cycles > 0 → s.isNMOS6507 = false →
        (Memory.CheckIRQLines Build.onlyACIA Chips.irqRaised
          (Memory.Clock Build.onlyACIA Chips.irqRaised s.mem)).1 = true →
        (CPU6502.HandleIRQ Build.onlyACIA Chips.irqRaised
            (CPU6502.irqEntryState Build.onlyACIA Chips.irqRaised s)).PC
          ≠ (CPU6502.irqEntryState Build.onlyACIA Chips.irqRaised s).PC →
        (CPU6502.irqEntryState Build.onlyACIA Chips.irqRaised s).cycles = 0) := by
  intro h
  have h1 := h CPU6502.burningState (by decide) (by decide) (by decide) (by decide)
  revert h1
  decide

/-- C34, amended: in the run loop `HandleIRQ` is called only from the
cycle-burning branch.  With an empty budget the iteration is the fetch-execute
step, which does not call it.  With budget `n > 0`, off the 6507 and with the
IRQ line raised, the iteration is `HandleIRQ` on the state with budget `n - 1`
(zero only when the last cycle of the instruction was burned), followed by the
throttle test; otherwise the iteration only burns the cycle. -/
theorem CPU6502_HandleIRQ_only_while_burning {D : Type} (b : Build) (c : Chips D)
    (s : CPU6502 D) :
    (s.cycles = 0 → CPU6502.runIteration b c s = CPU6502.fetchExecute b c s) ∧
    (s.cycles > 0 → s.isNMOS6507 = false →
      (Memory.CheckIRQLines b c (Memory.Clock b c s.mem)).1 = true →
      (CPU6502.irqEntryState b c s).cycles = s.cycles - 1 ∧
      CPU6502.runIteration b c s
        = (if (CPU6502.HandleIRQ b c (CPU6502.irqEntryState b c s)).throttle_counter ≥ 2000
            then { CPU6502.HandleIRQ b c (CPU6502.irqEntryState b c s) with
                   throttle_counter := 0 }
            else CPU6502.HandleIRQ b c (CPU6502.irqEntryState b c s))) ∧
    (s.cycles > 0 → s.isNMOS6507 = false →
      (Memory.CheckIRQLines b c (Memory.Clock b c s.mem)).1 = false →
      CPU6502.runIteration b c s
        = (if (CPU6502.irqEntryState b c s).throttle_counter ≥ 2000
            then { CPU6502.irqEntryState b c s with throttle_counter := 0 }
            else CPU6502.irqEntryState b c s)) ∧
    (s.cycles > 0 → s.isNMOS6507 = true →
      CPU6502.runIteration b c s
        = (if s.throttle_counter ≥ 2000
            then { s with cycles := s.cycles - 1, mem := Memory.Clock b c s.mem,
                          throttle_counter := 0 }
            else { s with cycles := s.cycles - 1, mem := Memory.Clock b c s.mem })) := by
  obtain ⟨A, X, Y, SP, PC, P, mem, i6507, running, pc, bt, halted, cycles, tc⟩ := s
  refine ⟨?_, ?_, ?_, ?_⟩
  · intro h0
    unfold CPU6502.runIteration
    rw [if_neg (by omega)]
  · intro hp h6 hq
    refine ⟨rfl, ?_⟩
    dsimp only at hp h6 hq
    subst h6
    unfold CPU6502.runIteration CPU6502.burnCycle CPU6502.irqEntryState
    dsimp only
    rw [if_pos hp]
    simp only [hq, Bool.not_false, if_true]
  · intro hp h6 hq
    dsimp only at hp h6 hq
    subst h6
    unfold CPU6502.runIteration CPU6502.burnCycle CPU6502.irqEntryState
    dsimp only
    rw [if_pos hp]
    simp only [hq, Bool.not_false, if_true, Bool.false_eq_true, if_false]
  · intro hp h6
    dsimp only at hp h6
    subst h6
    unfold CPU6502.runIteration CPU6502.burnCycle
    dsimp only
    rw [if_pos hp]
    simp only [Bool.not_true, Bool.false_eq_true, if_false]

/-- The amended C34 on `CPU6502.burningState`: budget 2, off the 6507, IRQ line
raised; `HandleIRQ` is called with budget 1 and the iteration ends with the
vector in `PC` and a budget of 8. -/
theorem CPU6502_HandleIRQ_only_while_burning_witness :
    (CPU6502.burningState.cycles > 0 ∧ CPU6502.burningState.isNMOS6507 = false ∧
      (Memory.CheckIRQLines Build.onlyACIA Chips.irqRaised
        (Memory.Clock Build.onlyACIA Chips.irqRaised CPU6502.burningState.mem)).1 = true) ∧
    (CPU6502.irqEntryState Build.onlyACIA Chips.irqRaised CPU6502.burningState).cycles = 1 ∧
    (CPU6502.runIteration Build.onlyACIA Chips.irqRaised CPU6502.burningState).cycles = 8 ∧
    (CPU6502.runIteration Build.onlyACIA Chips.irqRaised CPU6502.burningState).PC = 0x0000 ∧
    (CPU6502.runIteration Build.onlyACIA Chips.irqRaised CPU6502.burningState).SP = 0xFA :=
  have h := (CPU6502_HandleIRQ_only_while_burning Build.onlyACIA Chips.irqRaised
    CPU6502.burningState).2.1 (by decide) (by decide) (by decide)
  ⟨⟨by decide, by decide, by decide⟩, h.1, by decide, by decide, by decide⟩

/-! ## The TIA: the playfield in the pixel rule -/

namespace TIA

/-- With VBLANK clear and no object enabled, the stored pixel of a left-half dot
is COLUPF when bit `fromLeft` of `pfLeft` is set and COLUBK otherwise. -/
theorem pixel_left (s : TIA) (hv : s.vblank = false) (h0 : s.player0.enabled = false)
    (h1 : s.player1.enabled = false) (hm0 : s.enam0 = false) (hm1 : s.enam1 = false)
    (hb : s.enabl = false) (hl : s.dot < 114) :
    pixel s = if ((pfLeft s >>> (fromLeft s).toNat) &&& 0x1) != 0 then s.colupf else s.colubk := by
  have hl2 : s.dot < ColorClocksPerScanline / 2 := hl
  unfold pixel renderDot playerColor
  simp only [hv, h0, h1, hm0, hm1, hb, hl2, decide_True, Bool.not_false, if_true, and_self,
    Bool.false_eq_true, if_false]
  rfl

/-- The bit index of dot `4 * q + r`, for a dot of the left half. -/
theorem bitIdx_of (s : TIA) (q r : Nat) (hq : 4 * q + r < 114) (hr : r < 4)
    (hd : s.dot = 4 * (q : Int) + (r : Int)) : bitIdx s = q := by
  unfold bitIdx
  have e : ColorClocksPerScanline / 2 = 114 := by decide
  have h1 : (4 * (q : Int) + (r : Int)) % 114 = 4 * (q : Int) + (r : Int) :=
    Int.emod_eq_of_lt (by omega) (by omega)
  rw [e, hd, Int.tmod_eq_emod (by omega) (by decide), h1, Int.tdiv_eq_ediv (by omega) (by decide)]
  omega

theorem and_one_testBit (x n : Nat) : ((x >>> n) &&& 0x1 != 0) = x.testBit n := by
  rw [Nat.and_comm]
  rfl

/-- The low eight bits of `pfLeft` are those of PF2. -/
theorem pfLeft_low (s : TIA) (n : Nat) (hn : n < 8) :
    (pfLeft s).testBit n = s.pf2.testBit n := by
  unfold pfLeft
  rw [show (4294967296 : Nat) = 2 ^ 32 by norm_num, Nat.testBit_mod_two_pow, Nat.testBit_or,
    Nat.testBit_or, Nat.testBit_shiftLeft, Nat.testBit_shiftLeft]
  have a : decide (n < 32) = true := decide_eq_true (by omega)
  have b : decide (n ≥ 16) = false := decide_eq_false (by omega)
  have c : decide (n ≥ 8) = false := decide_eq_false (by omega)
  rw [a, b, c]
  simp

/-- Bits 8 to 15 of `pfLeft` are those of PF1, PF2 being a byte. -/
theorem pfLeft_mid (s : TIA) (h2 : s.pf2 < 256) (n : Nat) (hn : n < 8) :
    (pfLeft s).testBit (n + 8) = s.pf1.testBit n := by
  unfold pfLeft
  rw [show (4294967296 : Nat) = 2 ^ 32 by norm_num, Nat.testBit_mod_two_pow, Nat.testBit_or,
    Nat.testBit_or, Nat.testBit_shiftLeft, Nat.testBit_shiftLeft]
  have a : decide (n + 8 < 32) = true := decide_eq_true (by omega)
  have b : decide (n + 8 ≥ 16) = false := decide_eq_false (by omega)
  have c : decide (n + 8 ≥ 8) = true := decide_eq_true (by omega)
  have d : s.pf2.testBit (n + 8) = false :=
    Nat.testBit_eq_false_of_lt (lt_of_lt_of_le h2 (by
      have : (2 : Nat) ^ 8 ≤ 2 ^ (n + 8) := Nat.pow_le_pow_right (by decide) (by omega)
      simpa using this))
  rw [a, b, c, d]
  simp

end TIA

/-- C37, refuted as stated: on `TIA.pf2State`, where VBLANK is clear, no object
is enabled, PF2 holds `0x01` and the beam is at dot 48 (`k = 0`, `j = 0`), bit 0
of PF2 is set but the stored pixel is COLUBK, not COLUPF. -/
theorem TIA_PF2_not_LSB_first :
    ¬ (∀ s : TIA, s.vblank = false → s.player0.enabled = false → s.player1.enabled = false →
        s.enam0 = false → s.enam1 = false → s.enabl = false → s.pf1 < 256 → s.pf2 < 256 →
        ∀ k j : Nat, k < 8 → j < 4 →
          (s.dot = 48 + 4 * (k : Int) + (j : Int) →
            TIA.pixel s = if s.pf2.testBit k then s.colupf else s.colubk) ∧
          (s.dot = 16 + 4 * (k : Int) + (j : Int) →
            TIA.pixel s = if s.pf1.testBit (7 - k) then s.colupf else s.colubk)) := by
  intro h
  have h2 := (h TIA.pf2State rfl rfl rfl rfl rfl rfl (by decide) (by decide) 0 0 (by decide)
    (by decide)).1 (by decide)
  revert h2
  decide

/-- C37, amended: with VBLANK clear and no object enabled, for `k` in 0..7 and
`j` in 0..3 the left-half dot `48 + 4k + j` is stored as COLUPF iff bit `7 - k`
of PF2 is set, and the dot `16 + 4k + j` as COLUPF iff bit `7 - k` of PF1 is set
(COLUBK otherwise): both registers are displayed with bit 7 leftmost. -/
theorem TIA_PF1_PF2_MSB_first (s : TIA) (hv : s.vblank = false)
    (h0 : s.player0.enabled = false) (h1 : s.player1.enabled = false)
    (hm0 : s.enam0 = false) (hm1 : s.enam1 = false) (hb : s.enabl = false)
    (hp2 : s.pf2 < 256) (k j : Nat) (hk : k < 8) (hj : j < 4) :
    (s.dot = 48 + 4 * (k : Int) + (j : Int) →
      TIA.pixel s = if s.pf2.testBit (7 - k) then s.colupf else s.colubk) ∧
    (s.dot = 16 + 4 * (k : Int) + (j : Int) →
      TIA.pixel s = if s.pf1.testBit (7 - k) then s.colupf else s.colubk) := by
  constructor
  · intro hd
    have hbi : TIA.bitIdx s = ((12 + k : Nat) : Int) :=
      TIA.bitIdx_of s (12 + k) j (by omega) hj (by rw [hd]; push_cast; ring)
    have hf : (TIA.fromLeft s).toNat = 7 - k := by
      unfold TIA.fromLeft
      rw [hbi]
      omega
    rw [TIA.pixel_left s hv h0 h1 hm0 hm1 hb (by omega), hf, TIA.and_one_testBit,
      TIA.pfLeft_low s (7 - k) (by omega)]
  · intro hd
    have hbi : TIA.bitIdx s = ((4 + k : Nat) : Int) :=
      TIA.bitIdx_of s (4 + k) j (by omega) hj (by rw [hd]; push_cast; ring)
    have hf : (TIA.fromLeft s).toNat = (7 - k) + 8 := by
      unfold TIA.fromLeft
      rw [hbi]
      omega
    rw [TIA.pixel_left s hv h0 h1 hm0 hm1 hb (by omega), hf, TIA.and_one_testBit,
      TIA.pfLeft_mid s hp2 (7 - k) (by omega)]

/-- C37, amended, at a concrete input: on `TIA.pf2State` (PF2 = `0x01`) dot 48
is stored as COLUBK `0x00`, bit 7 of PF2 being clear, and dot 76 (`k = 7`) as
COLUPF `0x0E`, bit 0 being set. -/
theorem TIA_PF1_PF2_MSB_first_witness :
    TIA.pixel TIA.pf2State = 0x00 ∧
    TIA.pixel { TIA.pf2State with dot := 76 } = 0x0E := by
  have a := (TIA_PF1_PF2_MSB_first TIA.pf2State rfl rfl rfl rfl rfl rfl (by decide) 0 0
    (by decide) (by decide)).1 (by decide)
  have b := (TIA_PF1_PF2_MSB_first { TIA.pf2State with dot := 76 } rfl rfl rfl rfl rfl rfl
    (by decide) 7 0 (by decide) (by decide)).1 (by decide)
  exact ⟨a.trans (by decide), b.trans (by decide)⟩

/-! ## The TIA: VBLANK in the pixel rule -/

/-- With the VBLANK latch set and no player, missile or ball enabled, the stored
pixel is COLUBK whatever the playfield registers hold: the latch hides the
playfield. -/
theorem TIA.pixel_vblank_no_objects (s : TIA) (hv : s.vblank = true)
    (h0 : s.player0.enabled = false) (h1 : s.player1.enabled = false)
    (hm0 : s.enam0 = false) (hm1 : s.enam1 = false) (hb : s.enabl = false) :
    TIA.pixel s = s.colubk := by
  unfold TIA.pixel TIA.renderDot TIA.playerColor
  simp only [hv, h0, h1, hm0, hm1, hb, Bool.not_true, Bool.false_eq_true, if_false, and_self,
    if_true]

/-- C38 (code defect): `renderDot` is commented `Respect VBLANK: simplest approach
blanks to background color`, but the latch only gates the playfield bit; the
player, missile and ball blocks are not guarded.  With the latch set the pixel
is COLUBK when no object is enabled, yet on `TIA.vblankState`, reached from
construction by the writes `VBLANK = 0x02` and `ENAM0 = 0x02`, missile 0 sits
on the dot of the beam and the stored pixel is COLUPF `0x0E`, not COLUBK
`0x00`; the same happens with the ball after `VBLANK = 0x02`, `ENABL = 0x02`. -/
theorem TIA_VBLANK_objects_still_painted :
    (∀ s : TIA, s.vblank = true → s.player0.enabled = false → s.player1.enabled = false →
      s.enam0 = false → s.enam1 = false → s.enabl = false → TIA.pixel s = s.colubk) ∧
    TIA.vblankState.vblank = true ∧ TIA.vblankState.colubk = 0x00 ∧
    TIA.pixel TIA.vblankState = 0x0E ∧
    (TIA.calls TIA.init [.write 0x01 0x02, .write 0x1F 0x02]).vblank = true ∧
    TIA.pixel (TIA.calls TIA.init [.write 0x01 0x02, .write 0x1F 0x02]) = 0x0E ∧
    ¬ (∀ s : TIA, s.vblank = true → TIA.pixel s = s.colubk) := by
  refine ⟨TIA.pixel_vblank_no_objects, by decide, by decide, by decide, by decide, by decide, ?_⟩
  intro h
  have h2 := h TIA.vblankState (by decide)
  revert h2
  decide

/-! ## The TIA: the playfield bit index -/

set_option maxRecDepth 100000 in
/-- The beam and the playfield index on `TIA.dot80State`. -/
theorem TIA.dot80State_index :
    TIA.dot80State.dot = 80 ∧ TIA.dot80State.vblank = false ∧
    TIA.bitIdx TIA.dot80State = 20 ∧ TIA.fromLeft TIA.dot80State = -1 := by
  decide

/-- C39 (code defect): `renderDot` notes `// 0..19` beside `bitIdx`, but the
index is `(dot_ % 114) / 4` and runs to 28.  For every dot in 0..227 it lies in
0..28; for the dots 80..113 of the left half (and 194..227 of the right) it is
20 or more, so `fromLeft = 19 - bitIdx` is negative there and `pfLeft >> fromLeft`
shifts by a negative count.  On `TIA.dot80State`, reached from construction by
a tick of 80 colour clocks, the beam is at dot 80, `bitIdx` is 20 and `fromLeft`
is −1. -/
theorem TIA_bitIdx_exceeds_19 :
    (∀ s : TIA, 0 ≤ s.dot → s.dot ≤ 227 → 0 ≤ TIA.bitIdx s ∧ TIA.bitIdx s ≤ 28) ∧
    (∀ s : TIA, 80 ≤ s.dot → s.dot ≤ 113 → 20 ≤ TIA.bitIdx s ∧ TIA.fromLeft s < 0) ∧
    (∀ s : TIA, 194 ≤ s.dot → s.dot ≤ 227 → 20 ≤ TIA.bitIdx s ∧ TIA.fromLeft s < 0) ∧
    TIA.dot80State.dot = 80 ∧ TIA.dot80State.vblank = false ∧
    TIA.bitIdx TIA.dot80State = 20 ∧ TIA.fromLeft TIA.dot80State = -1 := by
  have key : ∀ s : TIA, 0 ≤ s.dot → TIA.bitIdx s = s.dot % 114 / 4 := by
    intro s h
    unfold TIA.bitIdx
    have e : TIA.ColorClocksPerScanline / 2 = 114 := by decide
    rw [e, Int.tmod_eq_emod h (by decide),
      Int.tdiv_eq_ediv (Int.emod_nonneg _ (by decide)) (by decide)]
  refine ⟨?_, ?_, ?_, TIA.dot80State_index⟩
  · intro s h0 h1
    rw [key s h0]
    omega
  · intro s h0 h1
    unfold TIA.fromLeft
    rw [key s (by omega)]
    omega
  · intro s h0 h1
    unfold TIA.fromLeft
    rw [key s (by omega)]
    omega

/-! ## The TIA: beam and object positions stay in range -/

namespace TIA

set_option maxRecDepth 100000 in
/-- The motion a write to an HMxx register stores is a signed nibble. -/
theorem motion_range : ∀ v < 256, -8 ≤ signed8 v >>> 4 ∧ signed8 v >>> 4 ≤ 7 := by
  decide

/-- Embeds `applyHMOVE` keeps an object in range. -/
theorem applyHMOVE_inRange (o : Object) (h : o.inRange) : (applyHMOVE o).inRange := by
  obtain ⟨h1, h2, h3, h4⟩ := h
  unfold applyHMOVE Object.inRange
  dsimp only [HORIZ_CLOCKS_PER_LINE]
  split_ifs <;> dsimp only <;> omega

/-- Embeds `renderDot` changes only the frame buffer. -/
theorem renderDot_inBounds (s : TIA) (h : inBounds s) : inBounds (renderDot s) := h

/-- Embeds `incrementBeam` keeps the state in bounds. -/
theorem incrementBeam_inBounds (s : TIA) (h : inBounds s) : inBounds (incrementBeam s) := by
  obtain ⟨⟨d0, d1⟩, ⟨l0, l1⟩, p0, p1, m0, m1, b⟩ := h
  have a0 := applyHMOVE_inRange _ p0
  have a1 := applyHMOVE_inRange _ p1
  have a2 := applyHMOVE_inRange _ m0
  have a3 := applyHMOVE_inRange _ m1
  have a4 := applyHMOVE_inRange _ b
  unfold incrementBeam inBounds
  dsimp only [ColorClocksPerScanline, ScanlinesPerFrame, hmoveLatchAndApply]
  split_ifs
  · refine ⟨⟨?_, ?_⟩, ⟨?_, ?_⟩, a0, a1, a2, a3, a4⟩ <;> dsimp only <;> omega
  · refine ⟨⟨?_, ?_⟩, ⟨?_, ?_⟩, a0, a1, a2, a3, a4⟩ <;> dsimp only <;> omega
  · refine ⟨⟨?_, ?_⟩, ⟨l0, l1⟩, p0, p1, m0, m1, b⟩ <;> dsimp only <;> omega

/-- The loop of `tick` keeps the state in bounds. -/
theorem tickLoop_inBounds (n : Nat) : ∀ s : TIA, inBounds s → inBounds (tickLoop n s) := by
  induction n with
  | zero => intro s h; exact h
  | succ n ih =>
    intro s h
    exact ih _ (incrementBeam_inBounds _ (renderDot_inBounds s h))

theorem ite_inBounds {c : Prop} [Decidable c] {a b : TIA} (ha : inBounds a) (hb : inBounds b) :
    inBounds (if c then a else b) := by
  split <;> assumption

/-- Embeds `tiaWriteReg` keeps the state in bounds, for a byte `v`. -/
theorem tiaWriteReg_inBounds (s : TIA) (r v : Nat) (hv : v < 256) (h : inBounds s) :
    inBounds (tiaWriteReg s r v) := by
  obtain ⟨⟨d0, d1⟩, ⟨l0, l1⟩, p0, p1, m0, m1, b⟩ := h
  have hm := motion_range v hv
  unfold tiaWriteReg
  repeat' apply ite_inBounds
  all_goals first
    | exact ⟨⟨d0, d1⟩, ⟨l0, l1⟩, p0, p1, m0, m1, b⟩
    | (dsimp only [ColorClocksPerScanline]
       split_ifs <;> exact ⟨⟨by show (0 : Int) ≤ 228 - 1; decide, by show (228 - 1 : Int) ≤ 227; decide⟩,
         ⟨l0, l1⟩, p0, p1, m0, m1, b⟩)
    | exact ⟨⟨d0, d1⟩, ⟨l0, l1⟩, ⟨d0, d1, p0.2.2⟩, p1, m0, m1, b⟩
    | exact ⟨⟨d0, d1⟩, ⟨l0, l1⟩, p0, ⟨d0, d1, p1.2.2⟩, m0, m1, b⟩
    | exact ⟨⟨d0, d1⟩, ⟨l0, l1⟩, p0, p1, ⟨d0, d1, m0.2.2⟩, m1, b⟩
    | exact ⟨⟨d0, d1⟩, ⟨l0, l1⟩, p0, p1, m0, ⟨d0, d1, m1.2.2⟩, b⟩
    | exact ⟨⟨d0, d1⟩, ⟨l0, l1⟩, p0, p1, m0, m1, ⟨d0, d1, b.2.2⟩⟩
    | exact ⟨⟨d0, d1⟩, ⟨l0, l1⟩, ⟨p0.1, p0.2.1, hm⟩, p1, m0, m1, b⟩
    | exact ⟨⟨d0, d1⟩, ⟨l0, l1⟩, p0, ⟨p1.1, p1.2.1, hm⟩, m0, m1, b⟩
    | exact ⟨⟨d0, d1⟩, ⟨l0, l1⟩, p0, p1, ⟨m0.1, m0.2.1, hm⟩, m1, b⟩
    | exact ⟨⟨d0, d1⟩, ⟨l0, l1⟩, p0, p1, m0, ⟨m1.1, m1.2.1, hm⟩, b⟩
    | exact ⟨⟨d0, d1⟩, ⟨l0, l1⟩, p0, p1, m0, m1, ⟨b.1, b.2.1, hm⟩⟩

/-- Every call keeps the state in bounds. -/
theorem call_inBounds (s : TIA) (k : Call) (h : inBounds s) : inBounds (call s k) := by
  cases k with
  | write addr v => exact tiaWriteReg_inBounds s _ _ (Nat.mod_lt _ (by decide)) h
  | read addr => exact h
  | reset ntsc =>
    obtain ⟨-, -, p0, p1, m0, m1, b⟩ := h
    exact ⟨⟨by dsimp only [call, reset]; omega, by dsimp only [call, reset]; omega⟩,
      ⟨by dsimp only [call, reset]; omega, by dsimp only [call, reset]; omega⟩, p0, p1, m0, m1, b⟩
  | tick colorClocks => exact tickLoop_inBounds _ s h

/-- Every sequence of calls keeps the state in bounds. -/
theorem calls_inBounds (cs : List Call) : ∀ s : TIA, inBounds s → inBounds (calls s cs) := by
  induction cs with
  | nil => intro s h; exact h
  | cons k ks ih => intro s h; exact ih _ (call_inBounds s k h)

/-- The constructed state is in bounds. -/
theorem init_inBounds : inBounds init := by
  decide

end TIA

/-- C40: in every state reached from construction by register writes, reads,
resets and ticks, `0 <= dot <= 227`, `0 <= line <= 261`, and each of the five
objects has its position in 0..227 and its motion in −8..7; so the indices of
`framebuffer_[line_][dot_]` are below `ScanlinesPerFrame` and
`ColorClocksPerScanline`.  The states `renderDot` runs in are of this kind: the
state before the `k`-th dot of a tick of `n` is the state after a tick of `k`. -/
theorem TIA_reachable_in_bounds (cs : List TIA.Call) :
    (0 ≤ (TIA.calls TIA.init cs).dot ∧ (TIA.calls TIA.init cs).dot ≤ 227) ∧
    (0 ≤ (TIA.calls TIA.init cs).line ∧ (TIA.calls TIA.init cs).line ≤ 261) ∧
    (∀ o ∈ TIA.objects (TIA.calls TIA.init cs),
      0 ≤ o.x ∧ o.x ≤ 227 ∧ -8 ≤ o.motion ∧ o.motion ≤ 7) ∧
    (TIA.calls TIA.init cs).line < TIA.ScanlinesPerFrame ∧
    (TIA.calls TIA.init cs).dot < TIA.ColorClocksPerScanline := by
  obtain ⟨hd, hl, p0, p1, m0, m1, b⟩ := TIA.calls_inBounds cs TIA.init TIA.init_inBounds
  refine ⟨hd, hl, ?_, ?_, ?_⟩
  · intro o ho
    simp only [TIA.objects, List.mem_cons, List.mem_singleton, List.not_mem_nil, or_false] at ho
    rcases ho with rfl | rfl | rfl | rfl | rfl
    · exact p0
    · exact p1
    · exact m0
    · exact m1
    · exact b
  · have : TIA.ScanlinesPerFrame = 262 := rfl
    omega
  · have : TIA.ColorClocksPerScanline = 228 := rfl
    omega
